import Mathlib

/-!
# Samsung SysMMU v9: page-table engine and attachment controller

A shallow embedding of `drivers/iommu/samsung-iommu-v9.c`.

* Addresses, page-table entries and register values are natural numbers; casts to
  a C integer type are written as an explicit `% 2 ^ w`.
* Memory is a function from the physical byte address of a 32-bit word to its value.
  `virt_to_phys` / `phys_to_virt` are the identity: every pointer is a physical address.
* Results of collaborators outside the driver (the slab allocator, the PM core, the
  device tree) are arguments of the function that consumes them.
-/

namespace SysmmuV9

/-! ## Descriptor layout -/

/-- Modelled from the spec: `SECT_SIZE` (`1UL << SECT_ORDER`, order 20) of the header
`samsung-iommu-v9.h`, which is not among the sources; the megabyte Section of §3. -/
def SECT_SIZE : Nat := 0x100000

/-- Modelled from the spec: `LPAGE_SIZE` (`1UL << LPAGE_ORDER`, order 16) of the missing
header; the large-page run of §3. -/
def LPAGE_SIZE : Nat := 0x10000

/-- Modelled from the spec: `SPAGE_SIZE` (`1UL << SPAGE_ORDER`, order 12) of the missing
header; the small page of §3. -/
def SPAGE_SIZE : Nat := 0x1000

/-- Modelled from the spec: `SPAGES_PER_LPAGE` (`LPAGE_SIZE / SPAGE_SIZE`) of the missing
header. -/
def SPAGES_PER_LPAGE : Nat := LPAGE_SIZE / SPAGE_SIZE

/-- Modelled from the spec: `NUM_LV2ENTRIES` (`SECT_SIZE / SPAGE_SIZE`) of the missing
header. -/
def NUM_LV2ENTRIES : Nat := SECT_SIZE / SPAGE_SIZE

/-- Modelled from the spec: `NUM_LV1ENTRIES_32BIT` of the missing header. -/
def NUM_LV1ENTRIES_32BIT : Nat := 4096

/-- Modelled from the spec: `NUM_LV1ENTRIES_36BIT` of the missing header. -/
def NUM_LV1ENTRIES_36BIT : Nat := 65536

/-- Modelled from the spec: `LV2TABLE_SIZE` (`NUM_LV2ENTRIES * sizeof(sysmmu_pte_t)`) of
the missing header; `sysmmu_pte_t` is a 32-bit word. -/
def LV2TABLE_SIZE : Nat := NUM_LV2ENTRIES * 4

/-- Modelled from the spec: `PG_ENT_SHIFT` of the missing header; an entry stores a
physical address shifted right by four. -/
def PG_ENT_SHIFT : Nat := 4

/-- Modelled from the spec: `FLPD_FLAG_MASK` of the missing header, the type bits of a
level-1 slot. -/
def FLPD_FLAG_MASK : Nat := 7

/-- Modelled from the spec: `SLPD_FLAG_MASK` of the missing header, the type bits of a
level-2 entry. -/
def SLPD_FLAG_MASK : Nat := 3

/-- Modelled from the spec: `SECT_FLAG` of the missing header, the type of a Section slot. -/
def SECT_FLAG : Nat := 2

/-- Modelled from the spec: `SLPD_FLAG` of the missing header, the type of a sub-table
reference. -/
def SLPD_FLAG : Nat := 1

/-- Modelled from the spec: `LPAGE_FLAG` of the missing header, the type of a LargePage
entry. -/
def LPAGE_FLAG : Nat := 1

/-- Modelled from the spec: `SPAGE_FLAG` of the missing header, the type of a SmallPage
entry. -/
def SPAGE_FLAG : Nat := 2

/-- The constant `FLPD_SHAREABLE_FLAG`, `BIT(6)`. -/
def FLPD_SHAREABLE_FLAG : Nat := 64

/-- The constant `SLPD_SHAREABLE_FLAG`, `BIT(4)`. -/
def SLPD_SHAREABLE_FLAG : Nat := 16

/-- Kernel constant `IOMMU_CACHE` (`1 << 2`) of `linux/iommu.h`. -/
def IOMMU_CACHE : Nat := 4

/-- Kernel constant `IOMMU_PRIV` (`1 << 5`) of `linux/iommu.h`. -/
def IOMMU_PRIV : Nat := 32

/-- Kernel errno `ENOMEM`. -/
def ENOMEM : Int := 12

/-- Kernel errno `EADDRINUSE`. -/
def EADDRINUSE : Int := 98

/-- Modelled from the spec: `lv1ent_offset(iova)` (`iova >> SECT_ORDER`) of the missing
header, the level-1 index of an address. -/
def lv1ent_offset (iova : Nat) : Nat := iova >>> 20

/-- Modelled from the spec: `lv2ent_offset(iova)` (`(iova & ~SECT_MASK) >> SPAGE_ORDER`)
of the missing header, the level-2 index of an address. -/
def lv2ent_offset (iova : Nat) : Nat := (iova &&& (SECT_SIZE - 1)) >>> 12

/-- Modelled from the spec: `lv1ent_unmapped(sent)` of the missing header: the slot is
`Unmapped`. -/
def lv1ent_unmapped (sent : Nat) : Bool := sent &&& FLPD_FLAG_MASK == 0

/-- Modelled from the spec: `lv1ent_page(sent)` of the missing header: the slot is a
`SubtableRef`. -/
def lv1ent_page (sent : Nat) : Bool := sent &&& FLPD_FLAG_MASK == SLPD_FLAG

/-- Modelled from the spec: `lv1ent_section(sent)` of the missing header: the slot is a
`Section`. -/
def lv1ent_section (sent : Nat) : Bool := sent &&& FLPD_FLAG_MASK == SECT_FLAG

/-- Modelled from the spec: `lv2table_base(sent)` (`(phys_addr_t)(*sent & ~0x3FU) <<
PG_ENT_SHIFT`) of the missing header: the physical base of the referenced sub-table. -/
def lv2table_base (sent : Nat) : Nat := (sent &&& 0xFFFFFFC0) <<< PG_ENT_SHIFT

/-- Modelled from the spec: `lv2ent_unmapped(pent)` of the missing header: the entry is
`Unmapped`. -/
def lv2ent_unmapped (pent : Nat) : Bool := pent &&& SLPD_FLAG_MASK == 0

/-- Modelled from the spec: `lv2ent_small(pent)` of the missing header: the entry is a
`SmallPage`. -/
def lv2ent_small (pent : Nat) : Bool := pent &&& SLPD_FLAG_MASK == SPAGE_FLAG

/-- Modelled from the spec: `lv2ent_large(pent)` of the missing header: the entry is a
`LargePage`. -/
def lv2ent_large (pent : Nat) : Bool := pent &&& SLPD_FLAG_MASK == LPAGE_FLAG

/-- Modelled from the spec: `section_phys(sent)` of the missing header: the entry without
its low `SECT_SIZE >> PG_ENT_SHIFT` bits, shifted back to a physical address. -/
def section_phys (sent : Nat) : Nat :=
  (sent &&& (2 ^ 64 - (SECT_SIZE >>> PG_ENT_SHIFT))) <<< PG_ENT_SHIFT

/-- Modelled from the spec: `lpage_phys(pent)` of the missing header. -/
def lpage_phys (pent : Nat) : Nat :=
  (pent &&& (2 ^ 64 - (LPAGE_SIZE >>> PG_ENT_SHIFT))) <<< PG_ENT_SHIFT

/-- Modelled from the spec: `spage_phys(pent)` of the missing header. -/
def spage_phys (pent : Nat) : Nat :=
  (pent &&& (2 ^ 64 - (SPAGE_SIZE >>> PG_ENT_SHIFT))) <<< PG_ENT_SHIFT

/-- Modelled from the spec: `section_offs(iova)` of the missing header. -/
def section_offs (iova : Nat) : Nat := iova &&& (SECT_SIZE - 1)

/-- Modelled from the spec: `lpage_offs(iova)` of the missing header. -/
def lpage_offs (iova : Nat) : Nat := iova &&& (LPAGE_SIZE - 1)

/-- Modelled from the spec: `spage_offs(iova)` of the missing header. -/
def spage_offs (iova : Nat) : Nat := iova &&& (SPAGE_SIZE - 1)

/-- The function `make_sysmmu_pte`: `((sysmmu_pte_t)(paddr >> PG_ENT_SHIFT)) | pgsize | attr`. -/
def make_sysmmu_pte (paddr pgsize attr : Nat) : Nat :=
  ((paddr >>> PG_ENT_SHIFT) % 2 ^ 32) ||| pgsize ||| attr

/-- Modelled from the spec: `page_entry(sent, iova)` of the missing header: the address of
the level-2 entry of `iova` in the sub-table a slot references. -/
def page_entry (sent iova : Nat) : Nat := lv2table_base sent + 4 * lv2ent_offset iova

/-- Value of an `atomic_t` after an update: a 32-bit two's-complement integer. -/
def atomic_wrap (v : Int) : Int := (v + 2 ^ 31) % 2 ^ 32 - 2 ^ 31

/-! ## State -/

/-- The kernel structure `iommu_domain_geometry`. -/
structure iommu_domain_geometry where
  aperture_start : Nat
  aperture_end : Nat
  force_aperture : Bool

/-- The structure `samsung_sysmmu_domain`: `page_table` and `lv2entcnt` are indexed by
the level-1 index, `num_lv1entries` is the number of slots allocated for both and
`pgtable_base` the physical address of the root table; `geometry` is
`domain.geometry` and `dma_cookie` tells whether `iommu_get_dma_cookie` attached a
cookie. -/
structure samsung_sysmmu_domain where
  page_table : Nat → Nat
  pgtable_base : Nat
  lv2entcnt : Nat → Int
  num_lv1entries : Nat
  is_va_36bit : Bool
  group : Option Nat
  geometry : iommu_domain_geometry
  dma_cookie : Bool

/-- A domain together with the memory its table walks reach: `slpt` is the content of
the objects of `slpt_cache` by physical address, `slpt_objs` the objects currently
allocated, `iotlb_syncs` the ranges handed to `iommu_iotlb_sync`, oldest first. -/
structure pgtable_state where
  dom : samsung_sysmmu_domain
  slpt : Nat → Nat
  slpt_objs : List Nat
  iotlb_syncs : List (Nat × Nat)

/-- Store to `domain->page_table[idx]`. -/
def set_sent (s : pgtable_state) (idx v : Nat) : pgtable_state :=
  { s with dom := { s.dom with page_table := fun i => if i = idx then v else s.dom.page_table i } }

/-- The call `atomic_set(&domain->lv2entcnt[idx], v)`. -/
def atomic_set (s : pgtable_state) (idx : Nat) (v : Int) : pgtable_state :=
  { s with dom := { s.dom with lv2entcnt := fun i => if i = idx then v else s.dom.lv2entcnt i } }

/-- The calls `atomic_add` / `atomic_sub` / `atomic_inc` / `atomic_dec` on
`domain->lv2entcnt[idx]`. -/
def atomic_add (s : pgtable_state) (idx : Nat) (v : Int) : pgtable_state :=
  atomic_set s idx (atomic_wrap (s.dom.lv2entcnt idx + v))

/-- Store of one level-2 entry, `*pent = v`. -/
def set_pent (s : pgtable_state) (pent v : Nat) : pgtable_state :=
  { s with slpt := fun a => if a = pent then v else s.slpt a }

/-- The function `clear_lv2_page_table`: `memset(ent, 0, sizeof(*ent) * n)` zeroes the
`n` words from `ent` on. -/
def clear_lv2_page_table (s : pgtable_state) (ent n : Nat) : pgtable_state :=
  { s with
    slpt := fun a => if ent ≤ a ∧ a < ent + 4 * n ∧ (a - ent) % 4 = 0 then 0 else s.slpt a }

/-- The call `kmem_cache_zalloc(slpt_cache, GFP_KERNEL)` returning the object at `pent`:
the words of the object are zero-filled and it becomes allocated. -/
def kmem_cache_zalloc (s : pgtable_state) (pent : Nat) : pgtable_state :=
  { s with
    slpt := fun a =>
      if pent ≤ a ∧ a < pent + LV2TABLE_SIZE ∧ (a - pent) % 4 = 0 then 0 else s.slpt a
    slpt_objs := pent :: s.slpt_objs }

/-- The call `kmem_cache_free(slpt_cache, pent)`. -/
def kmem_cache_free (s : pgtable_state) (pent : Nat) : pgtable_state :=
  { s with slpt_objs := s.slpt_objs.filter (fun o => o != pent) }

/-! ## Domain creation -/

/-- Kernel constant `IOMMU_DOMAIN_UNMANAGED` of `linux/iommu.h`. -/
def IOMMU_DOMAIN_UNMANAGED : Nat := 1

/-- Kernel constant `IOMMU_DOMAIN_DMA` of `linux/iommu.h`. -/
def IOMMU_DOMAIN_DMA : Nat := 3

/-- Kernel constant `IOMMU_DOMAIN_IDENTITY` of `linux/iommu.h`. -/
def IOMMU_DOMAIN_IDENTITY : Nat := 4

/-- The function `samsung_sysmmu_domain_alloc`, with the latch `exist_36bit_va` passed in
and out. `kzalloc_ok` and `cnt_ok` tell whether the allocation of the domain and of the
counters succeed, `flpt` is the root table `kmem_cache_alloc` returns (`none` for
`NULL`) and `cookie_ret` is what `iommu_get_dma_cookie` returns. The result is the
domain (`none` for `NULL`) and the latch afterwards. -/
def samsung_sysmmu_domain_alloc (type : Nat) (exist_36bit_va : Bool)
    (kzalloc_ok : Bool) (flpt : Option Nat) (cnt_ok : Bool) (cookie_ret : Int) :
    Option samsung_sysmmu_domain × Bool :=
  if type ≠ IOMMU_DOMAIN_UNMANAGED ∧ type ≠ IOMMU_DOMAIN_DMA ∧
      type ≠ IOMMU_DOMAIN_IDENTITY then
    (none, exist_36bit_va)
  else if !kzalloc_ok then
    (none, exist_36bit_va)
  else
    match flpt with
    | none => (none, false)
    | some base =>
      if !cnt_ok then
        (none, false)
      else if type = IOMMU_DOMAIN_DMA ∧ cookie_ret ≠ 0 then
        (none, false)
      else
        (some
          { page_table := fun _ => 0
            pgtable_base := base
            lv2entcnt := fun _ => 0
            num_lv1entries :=
              if exist_36bit_va then NUM_LV1ENTRIES_36BIT else NUM_LV1ENTRIES_32BIT
            is_va_36bit := exist_36bit_va
            group := none
            geometry := ⟨0, 0, false⟩
            dma_cookie := type == IOMMU_DOMAIN_DMA },
          false)

/-! ## Page-table engine -/

/-- The local `attr` of `lv1set_section`: `!!(prot & IOMMU_CACHE) ? FLPD_SHAREABLE_FLAG : 0`. -/
def section_attr (prot : Nat) : Nat :=
  if prot &&& IOMMU_CACHE ≠ 0 then FLPD_SHAREABLE_FLAG else 0

/-- The local `attr` of `lv2set_page`: `!!(prot & IOMMU_CACHE) ? SLPD_SHAREABLE_FLAG : 0`. -/
def page_attr (prot : Nat) : Nat :=
  if prot &&& IOMMU_CACHE ≠ 0 then SLPD_SHAREABLE_FLAG else 0

/-- The adjustment of `prot` in `samsung_sysmmu_map`: `IOMMU_CACHE` is dropped when
`IOMMU_PRIV` is set (`prot` is a 32-bit `int`). -/
def priv_prot (prot : Nat) : Nat :=
  if prot &&& IOMMU_PRIV ≠ 0 then prot &&& 0xFFFFFFFB else prot

/-- The function `alloc_lv2entry`. `sent` and `pgcounter` are the indices of the level-1
slot and of its counter; `pent` is what `kmem_cache_zalloc` returns when it is called
(`none` for `NULL`). The result is the error of `ERR_PTR` or the address of the entry. -/
def alloc_lv2entry (s : pgtable_state) (sent iova pgcounter : Nat) (pent : Option Nat) :
    Except Int Nat × pgtable_state :=
  if lv1ent_section (s.dom.page_table sent) then
    (.error (-EADDRINUSE), s)
  else if lv1ent_unmapped (s.dom.page_table sent) then
    match pent with
    | none => (.error (-ENOMEM), s)
    | some p =>
      let s1 := kmem_cache_zalloc s p
      let s2 :=
        if lv1ent_unmapped (s1.dom.page_table sent) then
          atomic_set (set_sent s1 sent (make_sysmmu_pte p SLPD_FLAG 0)) pgcounter 0
        else
          kmem_cache_free s1 p
      (.ok (page_entry (s2.dom.page_table sent) iova), s2)
  else
    (.ok (page_entry (s.dom.page_table sent) iova), s)

/-- The function `lv1set_section`; the range of the `iommu_iotlb_sync` it issues is
appended to `iotlb_syncs`. -/
def lv1set_section (s : pgtable_state) (sent iova paddr prot pgcnt : Nat) :
    Int × pgtable_state :=
  let attr := section_attr prot
  if lv1ent_section (s.dom.page_table sent) then
    (-EADDRINUSE, s)
  else if lv1ent_page (s.dom.page_table sent) then
    if s.dom.lv2entcnt pgcnt ≠ 0 then
      (-EADDRINUSE, s)
    else
      let s1 := kmem_cache_free s (page_entry (s.dom.page_table sent) 0)
      let s2 := atomic_set s1 pgcnt NUM_LV2ENTRIES
      let s3 := set_sent s2 sent (make_sysmmu_pte paddr SECT_FLAG attr)
      (0, { s3 with iotlb_syncs := s3.iotlb_syncs ++ [(iova, iova + SECT_SIZE)] })
  else
    (0, set_sent s sent (make_sysmmu_pte paddr SECT_FLAG attr))

/-- The loop of the large-page branch of `lv2set_page`, `n` iterations before its end,
at iteration `i` with the cursor at `pent`: `true` when an entry was found in use and
the entries written so far were cleared. -/
def lv2set_page_loop (pte : Nat) : Nat → pgtable_state → Nat → Nat → Bool × pgtable_state
  | 0, s, _, _ => (false, s)
  | n + 1, s, pent, i =>
    if !lv2ent_unmapped (s.slpt pent) then
      (true, clear_lv2_page_table s (pent - 4 * i) i)
    else
      lv2set_page_loop pte n (set_pent s pent pte) (pent + 4) (i + 1)

/-- The function `lv2set_page`; `pent` is the address of the target entry and `pgcnt`
the index of the slot's counter. -/
def lv2set_page (s : pgtable_state) (pent paddr size prot pgcnt : Nat) : Int × pgtable_state :=
  let attr := page_attr prot
  if size = SPAGE_SIZE then
    if !lv2ent_unmapped (s.slpt pent) then
      (-EADDRINUSE, s)
    else
      (0, atomic_add (set_pent s pent (make_sysmmu_pte paddr SPAGE_FLAG attr)) pgcnt 1)
  else
    match lv2set_page_loop (make_sysmmu_pte paddr LPAGE_FLAG attr) SPAGES_PER_LPAGE s pent 0 with
    | (true, s1) => (-EADDRINUSE, s1)
    | (false, s1) => (0, atomic_add s1 pgcnt SPAGES_PER_LPAGE)

/-- The function `samsung_sysmmu_map`; `alloc` is the result of the sub-table
allocation, should the call make one. -/
def samsung_sysmmu_map (s : pgtable_state) (l_iova paddr size prot : Nat)
    (alloc : Option Nat) : Int × pgtable_state :=
  let iova := l_iova % 2 ^ 64
  let lv2entcnt := lv1ent_offset iova
  let prot := priv_prot prot
  let entry := lv1ent_offset iova
  if size = SECT_SIZE then
    lv1set_section s entry iova paddr prot lv2entcnt
  else
    match alloc_lv2entry s entry iova lv2entcnt alloc with
    | (.error e, s1) => (e, s1)
    | (.ok pent, s1) => lv2set_page s1 pent paddr size prot lv2entcnt

/-- The function `samsung_sysmmu_unmap`. `gather_add_page` stands for the kernel helper
`iommu_iotlb_gather_add_page`; the result is the gather and the size reported. -/
def samsung_sysmmu_unmap {γ : Type} (gather_add_page : γ → Nat → Nat → γ)
    (s : pgtable_state) (l_iova size : Nat) (gather : γ) : Nat × pgtable_state × γ :=
  let iova := l_iova % 2 ^ 64
  let lv2entcnt := lv1ent_offset iova
  let sent := lv1ent_offset iova
  if lv1ent_section (s.dom.page_table sent) then
    if size < SECT_SIZE then
      (0, s, gather)
    else
      (SECT_SIZE, set_sent s sent 0, gather_add_page gather iova SECT_SIZE)
  else if lv1ent_unmapped (s.dom.page_table sent) then
    let size := if size > SECT_SIZE then SECT_SIZE else size
    (size, s, gather_add_page gather iova size)
  else
    let pent := page_entry (s.dom.page_table sent) iova
    if lv2ent_unmapped (s.slpt pent) then
      (SPAGE_SIZE, s, gather_add_page gather iova SPAGE_SIZE)
    else if lv2ent_small (s.slpt pent) then
      (SPAGE_SIZE, atomic_add (set_pent s pent 0) lv2entcnt (-1),
        gather_add_page gather iova SPAGE_SIZE)
    else if size < LPAGE_SIZE then
      (0, s, gather)
    else
      (LPAGE_SIZE, atomic_add (clear_lv2_page_table s pent SPAGES_PER_LPAGE) lv2entcnt
          (-(SPAGES_PER_LPAGE : Int)),
        gather_add_page gather iova LPAGE_SIZE)

/-- The function `samsung_sysmmu_iova_to_phys`. -/
def samsung_sysmmu_iova_to_phys (s : pgtable_state) (d_iova : Nat) : Nat :=
  let iova := d_iova % 2 ^ 64
  let entry := s.dom.page_table (lv1ent_offset iova)
  if lv1ent_section entry then
    section_phys entry + section_offs iova
  else if lv1ent_page entry then
    let entry := s.slpt (page_entry entry iova)
    if lv2ent_large entry then
      lpage_phys entry + lpage_offs iova
    else if lv2ent_small entry then
      spage_phys entry + spage_offs iova
    else 0
  else 0


/-- The state after the words `pent`, `pent + 4`, ... of `n` entries were set to `pte`. -/
def fill_lv2 (s : pgtable_state) (pent n pte : Nat) : pgtable_state :=
  { s with
    slpt := fun a => if pent ≤ a ∧ a < pent + 4 * n ∧ (a - pent) % 4 = 0 then pte else s.slpt a }

/-! ## Calls and reachable states -/

/-- The sizes of `pgsize_bitmap`: `SECT_SIZE | LPAGE_SIZE | SPAGE_SIZE`. -/
def valid_pgsize (size : Nat) : Prop :=
  size = SPAGE_SIZE ∨ size = LPAGE_SIZE ∨ size = SECT_SIZE

instance (size : Nat) : Decidable (valid_pgsize size) := by
  unfold valid_pgsize
  infer_instance

/-- What `kmem_cache_zalloc(slpt_cache, ...)` may return in a state: `NULL`, or an object
of the cache (created with size and alignment `LV2TABLE_SIZE`) that is not allocated
at present and lies below `2 ^ 36`, where a 32-bit entry can point. -/
def alloc_ok (s : pgtable_state) (alloc : Option Nat) : Prop :=
  match alloc with
  | none => True
  | some p => p % LV2TABLE_SIZE = 0 ∧ p < 2 ^ 36 ∧ p ∉ s.slpt_objs

instance (s : pgtable_state) (alloc : Option Nat) : Decidable (alloc_ok s alloc) := by
  unfold alloc_ok
  cases alloc <;> infer_instance

/-- The states a domain goes through: created by `samsung_sysmmu_domain_alloc`, then
changed by `samsung_sysmmu_map` and `samsung_sysmmu_unmap` calls, successful or not,
with a size of `pgsize_bitmap`, an `iova` aligned to the size and a page-aligned
physical address. -/
inductive reachable : pgtable_state → Prop
  | fresh (type : Nat) (latch k : Bool) (f : Option Nat) (c : Bool) (r : Int)
      (d : samsung_sysmmu_domain) (slpt : Nat → Nat) (objs : List Nat) :
      (samsung_sysmmu_domain_alloc type latch k f c r).1 = some d →
      reachable ⟨d, slpt, objs, []⟩
  | map (s : pgtable_state) (iova paddr size prot : Nat) (alloc : Option Nat) :
      reachable s → valid_pgsize size → iova % size = 0 → paddr % SPAGE_SIZE = 0 →
      alloc_ok s alloc → reachable (samsung_sysmmu_map s iova paddr size prot alloc).2
  | unmap {γ : Type} (add : γ → Nat → Nat → γ) (s : pgtable_state) (iova size : Nat)
      (g : γ) :
      reachable s → valid_pgsize size → iova % size = 0 →
      reachable (samsung_sysmmu_unmap add s iova size g).2.1

/-- Shape of the level-1 table in reachable states: every slot is Unmapped, a sub-table
reference or a Section; a referenced sub-table is an allocated object; no two slots
reference the same sub-table. -/
def pt_inv (s : pgtable_state) : Prop :=
  (∀ i, s.dom.page_table i % 8 ≤ 2) ∧
  (∀ i, s.dom.page_table i % 8 = 1 → lv2table_base (s.dom.page_table i) ∈ s.slpt_objs) ∧
  (∀ i j, s.dom.page_table i % 8 = 1 → s.dom.page_table j % 8 = 1 →
    lv2table_base (s.dom.page_table i) = lv2table_base (s.dom.page_table j) → i = j)

/-! ## Sample states -/

/-- An empty 32-bit domain. -/
def demo_domain : samsung_sysmmu_domain :=
  { page_table := fun _ => 0
    pgtable_base := 0x90000000
    lv2entcnt := fun _ => 0
    num_lv1entries := NUM_LV1ENTRIES_32BIT
    is_va_36bit := false
    group := none
    geometry := ⟨0, 0, false⟩
    dma_cookie := false }

/-- The empty domain with zeroed sub-table memory and no object of the cache allocated. -/
def demo_state : pgtable_state := ⟨demo_domain, fun _ => 0, [], []⟩

/-- A gather that records the pages added to it. -/
def demo_add (g : List (Nat × Nat)) (iova size : Nat) : List (Nat × Nat) := (iova, size) :: g

/-- The empty domain after a Section was mapped at `iova` 0. -/
def sect_state : pgtable_state :=
  (samsung_sysmmu_map demo_state 0 0x80100000 SECT_SIZE 0 none).2

/-- The empty domain after one small page was mapped at `iova` 0x1000. -/
def spage_state : pgtable_state :=
  (samsung_sysmmu_map demo_state 0x1000 0x80000 SPAGE_SIZE 0 (some 0x40000000)).2

/-- The empty domain after a small page was mapped and unmapped at `iova` 0, a Section
was mapped over the empty sub-table and unmapped again. -/
def recycled_state : pgtable_state :=
  (samsung_sysmmu_unmap demo_add
    (samsung_sysmmu_map
      (samsung_sysmmu_unmap demo_add
        (samsung_sysmmu_map demo_state 0 0x80000 SPAGE_SIZE 0 (some 0x40000000)).2
        0 SPAGE_SIZE []).2.1
      0 0x80100000 SECT_SIZE 0 none).2
    0 SECT_SIZE []).2.1

/-- The empty domain after a large page was mapped at `iova` 0 and a small page right
behind it, at `iova` 0x10000. -/
def lpage_state : pgtable_state :=
  (samsung_sysmmu_map
    (samsung_sysmmu_map demo_state 0 0x80100000 LPAGE_SIZE 0 (some 0x40000000)).2
    0x10000 0x80000 SPAGE_SIZE 0 none).2

/-! ## Translation units and their registers -/

/-- Kernel errno `ENXIO`. -/
def ENXIO : Int := 6

/-- Kernel errno `ENODEV`. -/
def ENODEV : Int := 19

/-- Kernel errno `EINVAL`. -/
def EINVAL : Int := 22

/-- Kernel errno `ERANGE`. -/
def ERANGE : Int := 34

/-- The constant `REG_MMU_PMMU_INDICATOR`. -/
def REG_MMU_PMMU_INDICATOR : Nat := 0x2FFC

/-- The constant `REG_MMU_ALL_INV_VM`. -/
def REG_MMU_ALL_INV_VM : Nat := 0x8010

/-- The constant `REG_MMU_RANGE_INV_START_VPN_VM`. -/
def REG_MMU_RANGE_INV_START_VPN_VM : Nat := 0x8020

/-- The constant `REG_MMU_RANGE_INV_END_VPN_AND_TRIG_VM`. -/
def REG_MMU_RANGE_INV_END_VPN_AND_TRIG_VM : Nat := 0x8024

/-- The constant `DEFAULT_QOS_VALUE`. -/
def DEFAULT_QOS_VALUE : Int := -1

/-- The constant `UNUSED_STREAM_INDEX`, `~0U`. -/
def UNUSED_STREAM_INDEX : Nat := 0xFFFFFFFF

/-- The helper `SET_PMMU_INDICATOR(val)`. -/
def SET_PMMU_INDICATOR (val : Nat) : Nat := val &&& 0xF

/-- The helper `MMU_STREAM_CFG_MASK(reg)`: `reg & (GENMASK(31, 16) | GENMASK(6, 0))`. -/
def MMU_STREAM_CFG_MASK (reg : Nat) : Nat := reg &&& 0xFFFF007F

/-- The helper `MMU_STREAM_MATCH_CFG_MASK(reg)`: `reg & GENMASK(9, 8)`. -/
def MMU_STREAM_MATCH_CFG_MASK (reg : Nat) : Nat := reg &&& 0x300

/-- Modelled from the spec: the register map of the header `samsung-iommu-v9.h`, which is
not among the sources. The offsets, the control values and the address of the replica
of a register for one virtual-machine slot (`MMU_VM_ADDR`) are parameters. -/
structure sysmmu_regs where
  REG_MMU_CTRL_VM : Nat
  MMU_CTRL_ENABLE : Nat
  MMU_CTRL_DISABLE : Nat
  REG_MMU_CONTEXT0_CFG_FLPT_BASE_VM : Nat
  REG_MMU_CONTEXT0_CFG_ATTRIBUTE_VM : Nat
  MMU_VM_ADDR : Nat → Nat → Nat
  CFG_QOS : Nat → Nat
  CFG_QOS_OVRRIDE : Nat
  REG_MMU_STREAM_CFG : Nat → Nat
  REG_MMU_STREAM_MATCH_CFG : Nat → Nat
  REG_MMU_STREAM_MATCH_SID_VALUE : Nat → Nat
  REG_MMU_STREAM_MATCH_SID_MASK : Nat → Nat

/-- The structure `stream_config`. -/
structure stream_config where
  index : Nat
  cfg : Nat
  match_cfg : Nat
  match_id_value : Nat
  match_id_mask : Nat

/-- The structure `stream_props`; `cfg` is the array, indexed below `id_cnt`. -/
structure stream_props where
  id_cnt : Nat
  default_cfg : Nat
  cfg : Nat → stream_config

/-- The structure `sysmmu_drvdata`, one translation unit. `props` is indexed by the PMMU
number; `pm_active` is what `pm_runtime_active(data->dev)` reports. Membership in the
unit list of the group is kept in `sysmmu_system.group_list`. -/
structure sysmmu_drvdata where
  sfrbase : Nat
  attached_count : Int
  rpm_count : Int
  pgtable : Nat
  group : Option Nat
  max_vm : Nat
  vmid_mask : Nat
  num_pmmu : Nat
  qos : Int
  props : Nat → stream_props
  pm_active : Bool

/-- The translation units by identity, the unit list of the group (the list head
`iommu_group_get_iommudata(group)`, first element first) and the register writes issued
so far as pairs of address and value, oldest first. -/
structure sysmmu_system where
  drvdata : Nat → sysmmu_drvdata
  group_list : List Nat
  writes : List (Nat × Nat)

/-- The function `__sysmmu_write_all_vm`: the writes it issues, in order. -/
def __sysmmu_write_all_vm (hw : sysmmu_regs) (data : sysmmu_drvdata) (value addr : Nat) :
    List (Nat × Nat) :=
  ((List.range data.max_vm).filter (fun i => data.vmid_mask &&& (1 <<< i) != 0)).map
    (fun i => (hw.MMU_VM_ADDR addr i, value % 2 ^ 32))

/-- The function `__sysmmu_invalidate_all`. -/
def __sysmmu_invalidate_all (hw : sysmmu_regs) (data : sysmmu_drvdata) : List (Nat × Nat) :=
  __sysmmu_write_all_vm hw data 0x1 (data.sfrbase + REG_MMU_ALL_INV_VM)

/-- The kernel helper `ALIGN_DOWN(x, a)` for a power of two `a`. -/
def ALIGN_DOWN (x a : Nat) : Nat := x / a * a

/-- The function `__sysmmu_invalidate`; `start` and `end` are of type `dma_addr_t`. -/
def __sysmmu_invalidate (hw : sysmmu_regs) (data : sysmmu_drvdata) (start end_ : Nat) :
    List (Nat × Nat) :=
  __sysmmu_write_all_vm hw data (ALIGN_DOWN start SPAGE_SIZE >>> 4)
      (data.sfrbase + REG_MMU_RANGE_INV_START_VPN_VM) ++
    __sysmmu_write_all_vm hw data
      ((ALIGN_DOWN ((end_ + 2 ^ 64 - 1) % 2 ^ 64) SPAGE_SIZE >>> 4) ||| 0x1)
      (data.sfrbase + REG_MMU_RANGE_INV_END_VPN_AND_TRIG_VM)

/-- The function `__sysmmu_disable`. -/
def __sysmmu_disable (hw : sysmmu_regs) (data : sysmmu_drvdata) : List (Nat × Nat) :=
  __sysmmu_write_all_vm hw data hw.MMU_CTRL_DISABLE (data.sfrbase + hw.REG_MMU_CTRL_VM) ++
    __sysmmu_invalidate_all hw data

/-- The function `__sysmmu_set_stream`. -/
def __sysmmu_set_stream (hw : sysmmu_regs) (data : sysmmu_drvdata) (pmmu_id : Nat) :
    List (Nat × Nat) :=
  let props := data.props pmmu_id
  [(data.sfrbase + REG_MMU_PMMU_INDICATOR, SET_PMMU_INDICATOR pmmu_id),
   (data.sfrbase + hw.REG_MMU_STREAM_CFG 0, MMU_STREAM_CFG_MASK props.default_cfg)] ++
  ((List.range props.id_cnt).filter (fun i => (props.cfg i).index != UNUSED_STREAM_INDEX)).flatMap
    (fun i =>
      let index := (props.cfg i).index
      [(data.sfrbase + hw.REG_MMU_STREAM_CFG index, MMU_STREAM_CFG_MASK (props.cfg i).cfg),
       (data.sfrbase + hw.REG_MMU_STREAM_MATCH_CFG index,
         MMU_STREAM_MATCH_CFG_MASK (props.cfg i).match_cfg),
       (data.sfrbase + hw.REG_MMU_STREAM_MATCH_SID_VALUE index, (props.cfg i).match_id_value),
       (data.sfrbase + hw.REG_MMU_STREAM_MATCH_SID_MASK index, (props.cfg i).match_id_mask)])

/-- The function `__sysmmu_init_config`; `readl` gives the value `readl_relaxed` returns
for an address. -/
def __sysmmu_init_config (hw : sysmmu_regs) (readl : Nat → Nat) (data : sysmmu_drvdata) :
    List (Nat × Nat) :=
  ((List.range data.max_vm).filter (fun i => data.vmid_mask &&& (1 <<< i) != 0)).map
    (fun i =>
      let addr := hw.MMU_VM_ADDR (data.sfrbase + hw.REG_MMU_CONTEXT0_CFG_ATTRIBUTE_VM) i
      let cfg := readl addr
      let cfg :=
        if data.qos ≠ DEFAULT_QOS_VALUE then
          (cfg &&& (0xFFFFFFFF ^^^ (hw.CFG_QOS 0xF % 2 ^ 32))) |||
            ((hw.CFG_QOS_OVRRIDE ||| hw.CFG_QOS (data.qos % 2 ^ 32).toNat) % 2 ^ 32)
        else cfg
      (addr, cfg)) ++
  (List.range data.num_pmmu).flatMap (fun i => __sysmmu_set_stream hw data i)

/-- The function `__sysmmu_enable`. -/
def __sysmmu_enable (hw : sysmmu_regs) (readl : Nat → Nat) (data : sysmmu_drvdata) :
    List (Nat × Nat) :=
  __sysmmu_write_all_vm hw data hw.MMU_CTRL_ENABLE (data.sfrbase + hw.REG_MMU_CTRL_VM) ++
    __sysmmu_write_all_vm hw data (data.pgtable / SPAGE_SIZE)
      (data.sfrbase + hw.REG_MMU_CONTEXT0_CFG_FLPT_BASE_VM) ++
    __sysmmu_init_config hw readl data ++
    __sysmmu_invalidate_all hw data

/-- Store to the fields of one unit. -/
def set_drvdata (sys : sysmmu_system) (u : Nat) (data : sysmmu_drvdata) : sysmmu_system :=
  { sys with drvdata := fun v => if v = u then data else sys.drvdata v }

/-! ## Attachment controller -/

/-- The function `samsung_sysmmu_detach_drvdata` on the unit `u`. -/
def samsung_sysmmu_detach_drvdata (hw : sysmmu_regs) (sys : sysmmu_system) (u : Nat) :
    sysmmu_system :=
  let data := { sys.drvdata u with attached_count := (sys.drvdata u).attached_count - 1 }
  if data.attached_count = 0 then
    let writes := if data.pm_active then sys.writes ++ __sysmmu_disable hw data else sys.writes
    { set_drvdata sys u { data with pgtable := 0, group := none } with
      group_list := sys.group_list.erase u
      writes := writes }
  else
    set_drvdata sys u data

/-- The function `samsung_sysmmu_set_domain_range` on `dom->geometry`; `window` is the
start and size `of_get_dma_window` reads (`none` when it reports none). -/
def samsung_sysmmu_set_domain_range (geom : iommu_domain_geometry)
    (window : Option (Nat × Nat)) : Int × iommu_domain_geometry :=
  match window with
  | none => (0, geom)
  | some (start, size) =>
    let end_ := (start + size) % 2 ^ 64
    let end_ := if end_ > 0xFFFFFFFF then 0xFFFFFFFF else end_
    if geom.force_aperture then
      let d_start := max start geom.aperture_start
      let d_end := min end_ geom.aperture_end
      if d_start ≥ d_end then
        (-ERANGE, geom)
      else
        (0, { geom with aperture_start := d_start, aperture_end := d_end })
    else
      (0, { aperture_start := start, aperture_end := end_, force_aperture := true })

/-- The first loop of `samsung_sysmmu_attach_dev` over the units not yet visited, from
index `i`: whether it left through `goto err_drvdata_add`, the index `i` reached and the
state. -/
def attach_dev_loop (hw : sysmmu_regs) (readl : Nat → Nat) (group page_table : Nat) :
    List Nat → Nat → sysmmu_system → Bool × Nat × sysmmu_system
  | [], i, sys => (false, i, sys)
  | u :: rest, i, sys =>
    let old := sys.drvdata u
    let data := { old with attached_count := old.attached_count + 1 }
    if old.attached_count = 0 then
      let data := { data with group := some group, pgtable := page_table }
      let writes := if data.pm_active then sys.writes ++ __sysmmu_enable hw readl data
        else sys.writes
      attach_dev_loop hw readl group page_table rest (i + 1)
        { set_drvdata sys u data with group_list := u :: sys.group_list, writes := writes }
    else if data.pgtable ≠ page_table then
      (true, i, set_drvdata sys u data)
    else
      attach_dev_loop hw readl group page_table rest (i + 1) (set_drvdata sys u data)

/-- One pass of the body of the first loop of `samsung_sysmmu_attach_dev`, on the unit
`u`: whether it leaves through `goto err_drvdata_add`, and the state. -/
def attach_dev_body (hw : sysmmu_regs) (readl : Nat → Nat) (group page_table : Nat)
    (sys : sysmmu_system) (u : Nat) : Bool × sysmmu_system :=
  let old := sys.drvdata u
  let data := { old with attached_count := old.attached_count + 1 }
  if old.attached_count = 0 then
    let data := { data with group := some group, pgtable := page_table }
    let writes := if data.pm_active then sys.writes ++ __sysmmu_enable hw readl data
      else sys.writes
    (false, { set_drvdata sys u data with group_list := u :: sys.group_list, writes := writes })
  else if data.pgtable ≠ page_table then
    (true, set_drvdata sys u data)
  else
    (false, set_drvdata sys u data)

/-- The loop at `err_drvdata_add` of `samsung_sysmmu_attach_dev`: `while (i-- > 0)`
detaches `sysmmus[i]`. -/
def attach_dev_unwind (hw : sysmmu_regs) (sysmmus : List Nat) :
    Nat → sysmmu_system → sysmmu_system
  | 0, sys => sys
  | i + 1, sys =>
    attach_dev_unwind hw sysmmus i (samsung_sysmmu_detach_drvdata hw sys (sysmmus.getD i 0))

/-- The function `samsung_sysmmu_attach_dev`. `fwspec_ok` tells whether the device has a
firmware spec with this driver's ops, `client` is the unit list `client->sysmmus` of
the device (`none` without private data), `group` its `iommu_group`, `window` what
`of_get_dma_window` reads. -/
def samsung_sysmmu_attach_dev (hw : sysmmu_regs) (readl : Nat → Nat)
    (sys : sysmmu_system) (dom : samsung_sysmmu_domain) (fwspec_ok : Bool)
    (client : Option (List Nat)) (group : Nat) (window : Option (Nat × Nat)) :
    Int × sysmmu_system × samsung_sysmmu_domain :=
  if !fwspec_ok then (- ENXIO, sys, dom)
  else
    match client with
    | none => (-ENODEV, sys, dom)
    | some sysmmus =>
      let dom := { dom with group := some group }
      match attach_dev_loop hw readl group dom.pgtable_base sysmmus 0 sys with
      | (true, i, sys1) => (-EINVAL, attach_dev_unwind hw sysmmus i sys1, dom)
      | (false, i, sys1) =>
        let (ret, geom) := samsung_sysmmu_set_domain_range dom.geometry window
        if ret ≠ 0 then
          (ret, attach_dev_unwind hw sysmmus i sys1, { dom with geometry := geom })
        else
          (0, sys1, { dom with geometry := geom })

/-- The function `samsung_sysmmu_detach_dev`; `sysmmus` is the unit list of the device. -/
def samsung_sysmmu_detach_dev (hw : sysmmu_regs) (sys : sysmmu_system) (sysmmus : List Nat) :
    sysmmu_system :=
  sysmmus.foldl (fun sys u => samsung_sysmmu_detach_drvdata hw sys u) sys

/-- A sample register map. -/
def demo_regs : sysmmu_regs :=
  { REG_MMU_CTRL_VM := 0x8000
    MMU_CTRL_ENABLE := 0x5
    MMU_CTRL_DISABLE := 0x0
    REG_MMU_CONTEXT0_CFG_FLPT_BASE_VM := 0x8404
    REG_MMU_CONTEXT0_CFG_ATTRIBUTE_VM := 0x8408
    MMU_VM_ADDR := fun reg idx => reg + idx * 0x1000
    CFG_QOS := fun n => (n &&& 0xF) <<< 7
    CFG_QOS_OVRRIDE := 0x800
    REG_MMU_STREAM_CFG := fun n => 0x2000 + n * 0x10
    REG_MMU_STREAM_MATCH_CFG := fun n => 0x2000 + n * 0x10 + 0x4
    REG_MMU_STREAM_MATCH_SID_VALUE := fun n => 0x2000 + n * 0x10 + 0x8
    REG_MMU_STREAM_MATCH_SID_MASK := fun n => 0x2000 + n * 0x10 + 0xC }

/-- A powered-on unit that is not attached, with two virtual-machine slots of which the
first is enabled. -/
def demo_unit : sysmmu_drvdata :=
  { sfrbase := 0x10000000
    attached_count := 0
    rpm_count := 1
    pgtable := 0
    group := none
    max_vm := 2
    vmid_mask := 1
    num_pmmu := 0
    qos := DEFAULT_QOS_VALUE
    props := fun _ => ⟨0, 0, fun _ => ⟨0, 0, 0, 0, 0⟩⟩
    pm_active := true }

/-- A system of such units with an empty unit list and no register write so far. -/
def demo_system : sysmmu_system := ⟨fun _ => demo_unit, [], []⟩

/-! ## Invalidation protocol and power transitions -/

/-- The fields `start` and `end` of the kernel structure `iommu_iotlb_gather`. -/
structure iommu_iotlb_gather where
  start : Nat
  end_ : Nat

/-- The function `samsung_sysmmu_flush_iotlb_all`. The unit list is `sys.group_list`, the
list `iommu_group_get_iommudata(domain->group)` returns for the group of the system;
`list_for_each_entry` visits it from its first element. -/
def samsung_sysmmu_flush_iotlb_all (hw : sysmmu_regs) (sys : sysmmu_system)
    (dom : samsung_sysmmu_domain) : sysmmu_system :=
  match dom.group with
  | none => sys
  | some _ =>
    sys.group_list.foldl
      (fun sys u =>
        let drvdata := sys.drvdata u
        if drvdata.attached_count ≠ 0 ∧ drvdata.rpm_count > 0 then
          { sys with writes := sys.writes ++ __sysmmu_invalidate_all hw drvdata }
        else sys)
      sys

/-- The function `samsung_sysmmu_iotlb_sync`. -/
def samsung_sysmmu_iotlb_sync (hw : sysmmu_regs) (sys : sysmmu_system)
    (dom : samsung_sysmmu_domain) (gather : iommu_iotlb_gather) : sysmmu_system :=
  match dom.group with
  | none => sys
  | some _ =>
    sys.group_list.foldl
      (fun sys u =>
        let drvdata := sys.drvdata u
        if drvdata.attached_count ≠ 0 ∧ drvdata.rpm_count > 0 then
          { sys with
            writes := sys.writes ++ __sysmmu_invalidate hw drvdata gather.start gather.end_ }
        else sys)
      sys

/-- The function `samsung_sysmmu_runtime_suspend` on the unit `u`: the value returned and
the state. -/
def samsung_sysmmu_runtime_suspend (hw : sysmmu_regs) (sys : sysmmu_system) (u : Nat) :
    Int × sysmmu_system :=
  let drvdata := { sys.drvdata u with rpm_count := (sys.drvdata u).rpm_count - 1 }
  let writes :=
    if drvdata.attached_count > 0 then sys.writes ++ __sysmmu_disable hw drvdata
    else sys.writes
  (0, { set_drvdata sys u drvdata with writes := writes })

/-! ## Discovery and the address-width latch -/

/-- Modelled from the spec: the two virtual-address widths a unit can report,
`VA_WIDTH_32BIT` and `VA_WIDTH_36BIT` of the header `samsung-iommu-v9.h`, which is not
among the sources. Only that they differ is used. -/
inductive sysmmu_va_width
  | VA_WIDTH_32BIT
  | VA_WIDTH_36BIT
  deriving DecidableEq

/-- The function `samsung_sysmmu_of_xlate`, with the latch `exist_36bit_va` passed in and
out. `va_width` is `data->va_width` of the unit `data` the phandle names, `add_ids_ret`
what `iommu_fwspec_add_ids` returns, `client` the unit list of the device (`none` while it
has no private data), `devres_ok` and `krealloc_ok` whether `devres_alloc` and `krealloc`
succeed. The result is the value returned, the unit list and the latch. -/
def samsung_sysmmu_of_xlate (exist_36bit_va : Bool) (va_width : sysmmu_va_width)
    (add_ids_ret : Int) (client : Option (List Nat)) (devres_ok krealloc_ok : Bool)
    (data : Nat) : Int × Option (List Nat) × Bool :=
  if add_ids_ret ≠ 0 then (add_ids_ret, client, exist_36bit_va)
  else if client.isNone ∧ !devres_ok then (-ENOMEM, client, exist_36bit_va)
  else
    let sysmmus := client.getD []
    if !krealloc_ok then (-ENOMEM, some sysmmus, exist_36bit_va)
    else
      (add_ids_ret, some (sysmmus ++ [data]),
        if !exist_36bit_va ∧ va_width = sysmmu_va_width.VA_WIDTH_36BIT then true
        else exist_36bit_va)

/-- The calls to allocators `samsung_sysmmu_domain_alloc` makes. The root-table cache is
named by its width (`true` for `flpt_cache_36bit`), the counter array by its length. -/
inductive alloc_call
  | kzalloc_domain
  | kmem_cache_alloc_flpt (wide : Bool)
  | kcalloc_lv2entcnt (n : Nat)
  | iommu_get_dma_cookie
  | kfree_lv2entcnt
  | kmem_cache_free_flpt (wide : Bool)
  | kfree_domain
  deriving DecidableEq

/-- The allocator calls of `samsung_sysmmu_domain_alloc`, in order, for the same
arguments as `samsung_sysmmu_domain_alloc`. -/
def samsung_sysmmu_domain_alloc_calls (type : Nat) (exist_36bit_va : Bool)
    (kzalloc_ok : Bool) (flpt : Option Nat) (cnt_ok : Bool) (cookie_ret : Int) :
    List alloc_call :=
  let num_lv1entries := if exist_36bit_va then NUM_LV1ENTRIES_36BIT else NUM_LV1ENTRIES_32BIT
  if type ≠ IOMMU_DOMAIN_UNMANAGED ∧ type ≠ IOMMU_DOMAIN_DMA ∧
      type ≠ IOMMU_DOMAIN_IDENTITY then
    []
  else if !kzalloc_ok then
    [alloc_call.kzalloc_domain]
  else
    match flpt with
    | none =>
      [alloc_call.kzalloc_domain, alloc_call.kmem_cache_alloc_flpt exist_36bit_va,
        alloc_call.kfree_domain]
    | some _ =>
      if !cnt_ok then
        [alloc_call.kzalloc_domain, alloc_call.kmem_cache_alloc_flpt exist_36bit_va,
          alloc_call.kcalloc_lv2entcnt num_lv1entries,
          alloc_call.kmem_cache_free_flpt exist_36bit_va, alloc_call.kfree_domain]
      else if type = IOMMU_DOMAIN_DMA then
        if cookie_ret ≠ 0 then
          [alloc_call.kzalloc_domain, alloc_call.kmem_cache_alloc_flpt exist_36bit_va,
            alloc_call.kcalloc_lv2entcnt num_lv1entries, alloc_call.iommu_get_dma_cookie,
            alloc_call.kfree_lv2entcnt, alloc_call.kmem_cache_free_flpt exist_36bit_va,
            alloc_call.kfree_domain]
        else
          [alloc_call.kzalloc_domain, alloc_call.kmem_cache_alloc_flpt exist_36bit_va,
            alloc_call.kcalloc_lv2entcnt num_lv1entries, alloc_call.iommu_get_dma_cookie]
      else
        [alloc_call.kzalloc_domain, alloc_call.kmem_cache_alloc_flpt exist_36bit_va,
          alloc_call.kcalloc_lv2entcnt num_lv1entries]

/-- One call of `samsung_sysmmu_of_xlate`: the arguments of `samsung_sysmmu_of_xlate`
apart from the latch. -/
structure xlate_call where
  va_width : sysmmu_va_width
  add_ids_ret : Int
  client : Option (List Nat)
  devres_ok : Bool
  krealloc_ok : Bool
  data : Nat

/-- The latch `exist_36bit_va` after a sequence of calls of `samsung_sysmmu_of_xlate`,
first call first. -/
def of_xlate_latch (exist_36bit_va : Bool) (calls : List xlate_call) : Bool :=
  calls.foldl
    (fun latch c =>
      (samsung_sysmmu_of_xlate latch c.va_width c.add_ids_ret c.client c.devres_ok
        c.krealloc_ok c.data).2.2)
    exist_36bit_va

/-! ## Attach histories -/

/-- The invariant of the unit list: it lists each unit at most once, a unit is on it
exactly while its `attached_count` is not 0, and a unit records a page table exactly
while its `attached_count` is not 0. -/
def unit_list_inv (sys : sysmmu_system) : Prop :=
  sys.group_list.Nodup ∧
  ∀ u, (u ∈ sys.group_list ↔ (sys.drvdata u).attached_count ≠ 0) ∧
    ((sys.drvdata u).pgtable ≠ 0 ↔ (sys.drvdata u).attached_count ≠ 0)

/-- Every unit is attached at least `owed u` times. -/
def owed_inv (owed : Nat → Nat) (sys : sysmmu_system) : Prop :=
  ∀ u, (owed u : Int) ≤ (sys.drvdata u).attached_count

/-- The states of the attachment controller that calls reach from units never attached.
A step is a call of `samsung_sysmmu_attach_dev` on a domain whose root table is not at
physical address 0, successful or not, a call of `samsung_sysmmu_detach_dev` that matches
an earlier successful attach, or a change of the power state of a unit by the power
management. `pending` holds the unit lists of the successful attaches not yet
detached. -/
inductive attach_reachable (hw : sysmmu_regs) : sysmmu_system → List (List Nat) → Prop
  | probe (sys : sysmmu_system) :
      (∀ u, (sys.drvdata u).attached_count = 0 ∧ (sys.drvdata u).pgtable = 0) →
      sys.group_list = [] → attach_reachable hw sys []
  | attach (readl : Nat → Nat) (sys : sysmmu_system) (pending : List (List Nat))
      (dom : samsung_sysmmu_domain) (fwspec_ok : Bool) (client : Option (List Nat))
      (group : Nat) (window : Option (Nat × Nat)) :
      attach_reachable hw sys pending → dom.pgtable_base ≠ 0 →
      attach_reachable hw
        (samsung_sysmmu_attach_dev hw readl sys dom fwspec_ok client group window).2.1
        (if (samsung_sysmmu_attach_dev hw readl sys dom fwspec_ok client group window).1 = 0
          then client.getD [] :: pending else pending)
  | detach (sys : sysmmu_system) (pending : List (List Nat)) (sysmmus : List Nat) :
      attach_reachable hw sys pending → sysmmus ∈ pending →
      attach_reachable hw (samsung_sysmmu_detach_dev hw sys sysmmus) (pending.erase sysmmus)
  | power (sys : sysmmu_system) (pending : List (List Nat)) (u : Nat) (rpm_count : Int)
      (pm_active : Bool) :
      attach_reachable hw sys pending →
      attach_reachable hw
        (set_drvdata sys u { sys.drvdata u with rpm_count := rpm_count, pm_active := pm_active })
        pending

/-- A second sample domain, with its root table at another address. -/
def other_domain : samsung_sysmmu_domain := { demo_domain with pgtable_base := 0xA0000000 }

/-- The sample system after a device whose only unit is unit 1 was attached to
`other_domain`. -/
def busy_system : sysmmu_system :=
  (samsung_sysmmu_attach_dev demo_regs (fun _ => 0) demo_system other_domain true (some [1]) 8
    none).2.1

/-- The domain `other_domain` after that attach. -/
def busy_domain : samsung_sysmmu_domain :=
  (samsung_sysmmu_attach_dev demo_regs (fun _ => 0) demo_system other_domain true (some [1]) 8
    none).2.2

/-! ## Further calls and invariants -/

/-- The function `samsung_sysmmu_runtime_resume` on the unit `u`: the value returned and
the state. -/
def samsung_sysmmu_runtime_resume (hw : sysmmu_regs) (readl : Nat → Nat) (sys : sysmmu_system)
    (u : Nat) : Int × sysmmu_system :=
  let drvdata := { sys.drvdata u with rpm_count := (sys.drvdata u).rpm_count + 1 }
  let writes :=
    if drvdata.attached_count > 0 then sys.writes ++ __sysmmu_enable hw readl drvdata
    else sys.writes
  (0, { set_drvdata sys u drvdata with writes := writes })

/-- The kernel helper `iommu_iotlb_sync(domain, gather)` on a domain of this driver: it
calls the `iotlb_sync` of the ops, `samsung_sysmmu_iotlb_sync`. -/
def iommu_iotlb_sync (hw : sysmmu_regs) (sys : sysmmu_system) (dom : samsung_sysmmu_domain)
    (gather : iommu_iotlb_gather) : sysmmu_system :=
  samsung_sysmmu_iotlb_sync hw sys dom gather

/-- The calls of `iommu_iotlb_sync` recorded as ranges of `start` and `end`, carried out on
the units in the order of the record. -/
def run_iotlb_syncs (hw : sysmmu_regs) (sys : sysmmu_system) (dom : samsung_sysmmu_domain)
    (ranges : List (Nat × Nat)) : sysmmu_system :=
  ranges.foldl (fun sys r => iommu_iotlb_sync hw sys dom ⟨r.1, r.2⟩) sys

/-- The function `lv1set_section` with the translation units in the state: the value
returned and the table state are those of `lv1set_section`, and the calls of
`iommu_iotlb_sync` it recorded in `iotlb_syncs` are carried out on the units. -/
def lv1set_section_units (hw : sysmmu_regs) (sys : sysmmu_system) (s : pgtable_state)
    (sent iova paddr prot pgcnt : Nat) : Int × pgtable_state × sysmmu_system :=
  ((lv1set_section s sent iova paddr prot pgcnt).1,
    (lv1set_section s sent iova paddr prot pgcnt).2,
    run_iotlb_syncs hw sys (lv1set_section s sent iova paddr prot pgcnt).2.dom
      ((lv1set_section s sent iova paddr prot pgcnt).2.iotlb_syncs.drop s.iotlb_syncs.length))

/-- The geometry after a sequence of calls of `samsung_sysmmu_set_domain_range`, one for
each window, first call first. -/
def set_domain_range_seq (geom : iommu_domain_geometry) (windows : List (Option (Nat × Nat))) :
    iommu_domain_geometry :=
  windows.foldl (fun g w => (samsung_sysmmu_set_domain_range g w).2) geom

/-- The number of entries of the sub-table at `base` that are not Unmapped. -/
def lv2_live (s : pgtable_state) (base : Nat) : Nat :=
  ((List.range NUM_LV2ENTRIES).filter
    (fun j => !lv2ent_unmapped (s.slpt (base + 4 * j)))).length

/-- The state of one sub-table against a counter value `c`: `c` is the number of entries
that are not Unmapped, every entry is Unmapped, a SmallPage or a LargePage, and every
LargePage entry lies in an aligned run of `SPAGES_PER_LPAGE` LargePage entries. -/
def table_inv (s : pgtable_state) (base : Nat) (c : Int) : Prop :=
  c = (lv2_live s base : Int) ∧
  (∀ j, j < NUM_LV2ENTRIES → s.slpt (base + 4 * j) % 4 ≤ 2) ∧
  (∀ j k, j < NUM_LV2ENTRIES → k < SPAGES_PER_LPAGE → s.slpt (base + 4 * j) % 4 = 1 →
    s.slpt (base + 4 * (j / SPAGES_PER_LPAGE * SPAGES_PER_LPAGE + k)) % 4 = 1)

/-- The invariant of the live-entry counters: the sub-table of every slot that holds a
reference is in the state `table_inv` against the counter of the slot. -/
def counter_inv (s : pgtable_state) : Prop :=
  ∀ i, s.dom.page_table i % 8 = 1 →
    table_inv s (lv2table_base (s.dom.page_table i)) (s.dom.lv2entcnt i)

/-- The empty domain after one small page was mapped and unmapped at `iova` 0: the slot
still references its sub-table, which has no live entry, and the domain is attached to the
group. -/
def emptied_state : pgtable_state :=
  { (samsung_sysmmu_unmap demo_add
      (samsung_sysmmu_map demo_state 0 0x80000 SPAGE_SIZE 0 (some 0x40000000)).2
      0 SPAGE_SIZE []).2.1 with
    dom := { (samsung_sysmmu_unmap demo_add
      (samsung_sysmmu_map demo_state 0 0x80000 SPAGE_SIZE 0 (some 0x40000000)).2
      0 SPAGE_SIZE []).2.1.dom with group := busy_domain.group } }

/-- A sub-table memory whose word at 0x40000000 is Unmapped without being the zero word
and whose next word is a small page: the empty domain over such a memory. -/
def stale_state : pgtable_state :=
  { demo_state with
    slpt := fun a => if a = 0x40000000 then 4 else if a = 0x40000004 then 0x8002 else 0 }

/-! ## Arithmetic reading of the descriptor layout -/

theorem and_mask (x n k : Nat) (hk : k ≤ n) :
    x &&& (2 ^ n - 2 ^ k) = (x % 2 ^ n) / 2 ^ k * 2 ^ k := by
  have hm : 2 ^ n - 2 ^ k = (2 ^ (n - k) - 1) <<< k := by
    rw [Nat.shiftLeft_eq, Nat.sub_mul, one_mul, ← pow_add, Nat.sub_add_cancel hk]
  apply Nat.eq_of_testBit_eq
  intro i
  rw [hm, Nat.testBit_and, Nat.testBit_shiftLeft, Nat.testBit_two_pow_sub_one,
    ← Nat.shiftLeft_eq, ← Nat.shiftRight_eq_div_pow, Nat.testBit_shiftLeft,
    Nat.testBit_shiftRight, Nat.testBit_mod_two_pow]
  by_cases h1 : k ≤ i
  · have e : k + (i - k) = i := by omega
    by_cases h2 : i < n
    · have h3 : i - k < n - k := by omega
      simp [h1, h2, h3, e]
    · have h3 : ¬ (i - k < n - k) := by omega
      simp [h1, h2, h3]
  · simp [h1]

theorem or_eq_add (a b k : Nat) (ha : a % 2 ^ k = 0) (hb : b < 2 ^ k) : a ||| b = a + b := by
  obtain ⟨c, rfl⟩ := Nat.dvd_of_mod_eq_zero ha
  exact (Nat.mul_add_lt_is_or hb c).symm

theorem lv1ent_offset_eq (iova : Nat) : lv1ent_offset iova = iova / 1048576 := by
  unfold lv1ent_offset
  rw [Nat.shiftRight_eq_div_pow]

theorem lv2ent_offset_eq (iova : Nat) : lv2ent_offset iova = iova % 1048576 / 4096 := by
  unfold lv2ent_offset SECT_SIZE
  rw [Nat.shiftRight_eq_div_pow]
  have h := Nat.and_pow_two_sub_one_eq_mod iova 20
  norm_num at h ⊢
  rw [h]

theorem lv1ent_unmapped_iff (e : Nat) : lv1ent_unmapped e = true ↔ e % 8 = 0 := by
  unfold lv1ent_unmapped FLPD_FLAG_MASK
  rw [beq_iff_eq]
  have h := Nat.and_pow_two_sub_one_eq_mod e 3
  norm_num at h
  rw [h]

theorem lv1ent_page_iff (e : Nat) : lv1ent_page e = true ↔ e % 8 = 1 := by
  unfold lv1ent_page FLPD_FLAG_MASK SLPD_FLAG
  rw [beq_iff_eq]
  have h := Nat.and_pow_two_sub_one_eq_mod e 3
  norm_num at h
  rw [h]

theorem lv1ent_section_iff (e : Nat) : lv1ent_section e = true ↔ e % 8 = 2 := by
  unfold lv1ent_section FLPD_FLAG_MASK SECT_FLAG
  rw [beq_iff_eq]
  have h := Nat.and_pow_two_sub_one_eq_mod e 3
  norm_num at h
  rw [h]

theorem lv2ent_unmapped_iff (e : Nat) : lv2ent_unmapped e = true ↔ e % 4 = 0 := by
  unfold lv2ent_unmapped SLPD_FLAG_MASK
  rw [beq_iff_eq]
  have h := Nat.and_pow_two_sub_one_eq_mod e 2
  norm_num at h
  rw [h]

theorem lv2ent_small_iff (e : Nat) : lv2ent_small e = true ↔ e % 4 = 2 := by
  unfold lv2ent_small SLPD_FLAG_MASK SPAGE_FLAG
  rw [beq_iff_eq]
  have h := Nat.and_pow_two_sub_one_eq_mod e 2
  norm_num at h
  rw [h]

theorem lv2ent_large_iff (e : Nat) : lv2ent_large e = true ↔ e % 4 = 1 := by
  unfold lv2ent_large SLPD_FLAG_MASK LPAGE_FLAG
  rw [beq_iff_eq]
  have h := Nat.and_pow_two_sub_one_eq_mod e 2
  norm_num at h
  rw [h]

theorem lv2table_base_eq (e : Nat) : lv2table_base e = e % 4294967296 / 64 * 1024 := by
  unfold lv2table_base PG_ENT_SHIFT
  have h := and_mask e 32 6 (by norm_num)
  norm_num at h
  rw [h, Nat.shiftLeft_eq]
  omega

theorem section_phys_eq (e : Nat) :
    section_phys e = e % 18446744073709551616 / 65536 * 1048576 := by
  have h := and_mask e 64 16 (by norm_num)
  norm_num at h
  show (e &&& 18446744073709486080) <<< 4 = _
  rw [h, Nat.shiftLeft_eq]
  omega

theorem lpage_phys_eq (e : Nat) :
    lpage_phys e = e % 18446744073709551616 / 4096 * 65536 := by
  have h := and_mask e 64 12 (by norm_num)
  norm_num at h
  show (e &&& 18446744073709547520) <<< 4 = _
  rw [h, Nat.shiftLeft_eq]
  omega

theorem spage_phys_eq (e : Nat) :
    spage_phys e = e % 18446744073709551616 / 256 * 4096 := by
  have h := and_mask e 64 8 (by norm_num)
  norm_num at h
  show (e &&& 18446744073709551360) <<< 4 = _
  rw [h, Nat.shiftLeft_eq]
  omega

theorem section_offs_eq (iova : Nat) : section_offs iova = iova % 1048576 := by
  unfold section_offs SECT_SIZE
  exact Nat.and_pow_two_sub_one_eq_mod iova 20

theorem lpage_offs_eq (iova : Nat) : lpage_offs iova = iova % 65536 := by
  unfold lpage_offs LPAGE_SIZE
  exact Nat.and_pow_two_sub_one_eq_mod iova 16

theorem spage_offs_eq (iova : Nat) : spage_offs iova = iova % 4096 := by
  unfold spage_offs SPAGE_SIZE
  exact Nat.and_pow_two_sub_one_eq_mod iova 12

/-- An entry built from a page-aligned address is the shifted address plus its type and
attribute bits. -/
theorem make_sysmmu_pte_eq (paddr pgsize attr : Nat) (hp : paddr % 4096 = 0)
    (hf : pgsize ||| attr < 256) :
    make_sysmmu_pte paddr pgsize attr = paddr / 16 % 4294967296 + (pgsize ||| attr) := by
  unfold make_sysmmu_pte PG_ENT_SHIFT
  rw [Nat.shiftRight_eq_div_pow, Nat.or_assoc]
  exact or_eq_add _ _ 8 (by omega) hf

/-- The reference to a sub-table aligned to its size is the shifted address plus the
type bit. -/
theorem make_sysmmu_pte_slpd (p : Nat) (hp : p % 1024 = 0) :
    make_sysmmu_pte p SLPD_FLAG 0 = p / 16 % 4294967296 + 1 := by
  unfold make_sysmmu_pte PG_ENT_SHIFT SLPD_FLAG
  rw [Nat.shiftRight_eq_div_pow, Nat.or_zero]
  exact or_eq_add _ _ 6 (by omega) (by norm_num)

/-! ## Freshly created domains -/

theorem domain_alloc_fresh (type : Nat) (latch k : Bool) (f : Option Nat) (c : Bool)
    (r : Int) (d : samsung_sysmmu_domain)
    (hd : (samsung_sysmmu_domain_alloc type latch k f c r).1 = some d) :
    d.page_table = (fun _ => 0) ∧ d.lv2entcnt = (fun _ => 0) ∧ d.is_va_36bit = latch := by
  unfold samsung_sysmmu_domain_alloc at hd
  cases f with
  | none => split_ifs at hd
  | some base =>
    simp only at hd
    split_ifs at hd <;> simp at hd
    all_goals
      subst hd
      exact ⟨rfl, rfl, rfl⟩


/-! ## The large-page loop -/

theorem pgtable_state_ext (s t : pgtable_state) (h1 : s.dom = t.dom) (h2 : ∀ a, s.slpt a = t.slpt a)
    (h3 : s.slpt_objs = t.slpt_objs) (h4 : s.iotlb_syncs = t.iotlb_syncs) : s = t := by
  cases s; cases t
  simp only at h1 h2 h3 h4
  have : _ = _ := funext h2
  subst h1 h3 h4 this
  rfl

theorem fill_lv2_zero (s : pgtable_state) (pent pte : Nat) : fill_lv2 s pent 0 pte = s := by
  apply pgtable_state_ext <;> simp only [fill_lv2]
  intro a
  rw [if_neg (by omega)]

theorem lv2set_page_loop_ok (pte : Nat) : ∀ (n : Nat) (s : pgtable_state) (pent i : Nat),
    (∀ j, j < n → s.slpt (pent + 4 * j) % 4 = 0) →
    lv2set_page_loop pte n s pent i = (false, fill_lv2 s pent n pte) := by
  intro n
  induction n with
  | zero =>
    intro s pent i _
    simp only [lv2set_page_loop, fill_lv2_zero]
  | succ n ih =>
    intro s pent i h
    have h0 : lv2ent_unmapped (s.slpt pent) = true := by
      rw [lv2ent_unmapped_iff]; simpa using h 0 (by omega)
    simp only [lv2set_page_loop, h0, Bool.not_true, Bool.false_eq_true, if_false]
    rw [ih]
    · congr 1
      apply pgtable_state_ext <;> simp only [fill_lv2, set_pent]
      intro a
      by_cases ha : a = pent
      · subst ha
        simp
      · simp only [ha, if_false]
        have : (pent + 4 ≤ a ∧ a < pent + 4 + 4 * n ∧ (a - (pent + 4)) % 4 = 0) ↔
            (pent ≤ a ∧ a < pent + 4 * (n + 1) ∧ (a - pent) % 4 = 0) := by omega
        simp only [this]
    · intro j hj
      have := h (j + 1) (by omega)
      simp only [set_pent]
      rw [if_neg (by omega)]
      rw [show pent + 4 + 4 * j = pent + 4 * (j + 1) by ring]
      exact this

theorem lv2set_page_loop_fail (pte : Nat) : ∀ (j : Nat) (n : Nat) (s : pgtable_state) (pent i : Nat),
    j < n → 4 * i ≤ pent →
    (∀ k, k < j → s.slpt (pent + 4 * k) % 4 = 0) →
    s.slpt (pent + 4 * j) % 4 ≠ 0 →
    lv2set_page_loop pte n s pent i =
      (true, clear_lv2_page_table (fill_lv2 s pent j pte) (pent - 4 * i) (i + j)) := by
  intro j
  induction j with
  | zero =>
    intro n s pent i hn hi _ hbad
    obtain ⟨n, rfl⟩ : ∃ m, n = m + 1 := ⟨n - 1, by omega⟩
    have h0 : lv2ent_unmapped (s.slpt pent) = false := by
      rw [← Bool.not_eq_true, lv2ent_unmapped_iff]; simpa using hbad
    simp only [lv2set_page_loop, h0, Bool.not_false, if_true, fill_lv2_zero, Nat.add_zero]
  | succ j ih =>
    intro n s pent i hn hi hok hbad
    obtain ⟨n, rfl⟩ : ∃ m, n = m + 1 := ⟨n - 1, by omega⟩
    have h0 : lv2ent_unmapped (s.slpt pent) = true := by
      rw [lv2ent_unmapped_iff]; simpa using hok 0 (by omega)
    simp only [lv2set_page_loop, h0, Bool.not_true, Bool.false_eq_true, if_false]
    rw [ih n (set_pent s pent pte) (pent + 4) (i + 1) (by omega) (by omega)]
    · congr 1
      rw [show pent + 4 - 4 * (i + 1) = pent - 4 * i by omega,
        show i + 1 + j = i + (j + 1) by omega]
      congr 1
      apply pgtable_state_ext <;> simp only [fill_lv2, set_pent]
      intro a
      by_cases ha : a = pent
      · subst ha
        simp
      · simp only [ha, if_false]
        have : (pent + 4 ≤ a ∧ a < pent + 4 + 4 * j ∧ (a - (pent + 4)) % 4 = 0) ↔
            (pent ≤ a ∧ a < pent + 4 * (j + 1) ∧ (a - pent) % 4 = 0) := by omega
        simp only [this]
    · intro k hk
      have := hok (k + 1) (by omega)
      simp only [set_pent]
      rw [if_neg (by omega)]
      rw [show pent + 4 + 4 * k = pent + 4 * (k + 1) by ring]
      exact this
    · simp only [set_pent]
      rw [if_neg (by omega)]
      rw [show pent + 4 + 4 * j = pent + 4 * (j + 1) by ring]
      exact hbad

theorem exists_first_fail (P : Nat → Prop) (n : Nat) (h : ¬ ∀ j, j < n → P j) :
    ∃ j, j < n ∧ (∀ k, k < j → P k) ∧ ¬ P j := by
  classical
  have hex : ∃ j, j < n ∧ ¬ P j := by
    by_contra hc
    apply h
    intro j hj
    by_contra hp
    exact hc ⟨j, hj, hp⟩
  refine ⟨Nat.find hex, (Nat.find_spec hex).1, ?_, (Nat.find_spec hex).2⟩
  intro k hk
  by_contra hp
  have hk' := Nat.find_min hex hk
  exact hk' ⟨by have := (Nat.find_spec hex).1; omega, hp⟩

/-! ## Entries written by the engine -/

theorem page_attr_cases (prot : Nat) : page_attr prot = 0 ∨ page_attr prot = 16 := by
  unfold page_attr SLPD_SHAREABLE_FLAG
  split_ifs
  · exact Or.inr rfl
  · exact Or.inl rfl

theorem section_attr_cases (prot : Nat) : section_attr prot = 0 ∨ section_attr prot = 64 := by
  unfold section_attr FLPD_SHAREABLE_FLAG
  split_ifs
  · exact Or.inr rfl
  · exact Or.inl rfl

/-- A small-page entry for a page-aligned address. -/
theorem make_spage_pte (paddr prot : Nat) (hp : paddr % 4096 = 0) :
    make_sysmmu_pte paddr SPAGE_FLAG (page_attr prot) =
      paddr / 16 % 4294967296 + 2 + page_attr prot := by
  rcases page_attr_cases prot with h | h <;> rw [h]
  · rw [make_sysmmu_pte_eq paddr SPAGE_FLAG 0 hp (by decide)]
    have : SPAGE_FLAG ||| 0 = 2 := by decide
    omega
  · rw [make_sysmmu_pte_eq paddr SPAGE_FLAG 16 hp (by decide)]
    have : SPAGE_FLAG ||| 16 = 18 := by decide
    omega

/-- A large-page entry for a page-aligned address. -/
theorem make_lpage_pte (paddr prot : Nat) (hp : paddr % 4096 = 0) :
    make_sysmmu_pte paddr LPAGE_FLAG (page_attr prot) =
      paddr / 16 % 4294967296 + 1 + page_attr prot := by
  rcases page_attr_cases prot with h | h <;> rw [h]
  · rw [make_sysmmu_pte_eq paddr LPAGE_FLAG 0 hp (by decide)]
    have : LPAGE_FLAG ||| 0 = 1 := by decide
    omega
  · rw [make_sysmmu_pte_eq paddr LPAGE_FLAG 16 hp (by decide)]
    have : LPAGE_FLAG ||| 16 = 17 := by decide
    omega

/-- A Section entry for a page-aligned address. -/
theorem make_sect_pte (paddr prot : Nat) (hp : paddr % 4096 = 0) :
    make_sysmmu_pte paddr SECT_FLAG (section_attr prot) =
      paddr / 16 % 4294967296 + 2 + section_attr prot := by
  rcases section_attr_cases prot with h | h <;> rw [h]
  · rw [make_sysmmu_pte_eq paddr SECT_FLAG 0 hp (by decide)]
    have : SECT_FLAG ||| 0 = 2 := by decide
    omega
  · rw [make_sysmmu_pte_eq paddr SECT_FLAG 64 hp (by decide)]
    have : SECT_FLAG ||| 64 = 66 := by decide
    omega

theorem make_spage_pte_mod (paddr prot : Nat) (hp : paddr % 4096 = 0) :
    make_sysmmu_pte paddr SPAGE_FLAG (page_attr prot) % 4 = 2 := by
  rw [make_spage_pte paddr prot hp]
  rcases page_attr_cases prot with h | h <;> rw [h] <;> omega

theorem make_lpage_pte_mod (paddr prot : Nat) (hp : paddr % 4096 = 0) :
    make_sysmmu_pte paddr LPAGE_FLAG (page_attr prot) % 4 = 1 := by
  rw [make_lpage_pte paddr prot hp]
  rcases page_attr_cases prot with h | h <;> rw [h] <;> omega

theorem make_sect_pte_mod (paddr prot : Nat) (hp : paddr % 4096 = 0) :
    make_sysmmu_pte paddr SECT_FLAG (section_attr prot) % 8 = 2 := by
  rw [make_sect_pte paddr prot hp]
  rcases section_attr_cases prot with h | h <;> rw [h] <;> omega

theorem not_unmapped_iff (e : Nat) : lv2ent_unmapped e = false ↔ e % 4 ≠ 0 := by
  rw [← Bool.not_eq_true, lv2ent_unmapped_iff]

theorem atomic_wrap_id (v : Int) (h1 : -2 ^ 31 ≤ v) (h2 : v < 2 ^ 31) : atomic_wrap v = v := by
  unfold atomic_wrap
  omega

/-- The small-page branch of `lv2set_page` on a free entry. -/
theorem lv2set_page_spage_ok (s : pgtable_state) (pent paddr prot pgcnt : Nat)
    (h : s.slpt pent % 4 = 0) :
    lv2set_page s pent paddr SPAGE_SIZE prot pgcnt =
      (0, atomic_add (set_pent s pent (make_sysmmu_pte paddr SPAGE_FLAG (page_attr prot)))
        pgcnt 1) := by
  have h0 : lv2ent_unmapped (s.slpt pent) = true := (lv2ent_unmapped_iff _).2 h
  simp [lv2set_page, h0]

/-- The small-page branch of `lv2set_page` on an entry in use. -/
theorem lv2set_page_spage_fail (s : pgtable_state) (pent paddr prot pgcnt : Nat)
    (h : s.slpt pent % 4 ≠ 0) :
    lv2set_page s pent paddr SPAGE_SIZE prot pgcnt = (-EADDRINUSE, s) := by
  have h0 : lv2ent_unmapped (s.slpt pent) = false := (not_unmapped_iff _).2 h
  simp [lv2set_page, h0]

/-- The large-page branch of `lv2set_page` on a free run. -/
theorem lv2set_page_lpage_ok (s : pgtable_state) (pent paddr size prot pgcnt : Nat)
    (hs : size ≠ SPAGE_SIZE) (h : ∀ j, j < 16 → s.slpt (pent + 4 * j) % 4 = 0) :
    lv2set_page s pent paddr size prot pgcnt =
      (0, atomic_add (fill_lv2 s pent 16 (make_sysmmu_pte paddr LPAGE_FLAG (page_attr prot)))
        pgcnt 16) := by
  have hl := lv2set_page_loop_ok (make_sysmmu_pte paddr LPAGE_FLAG (page_attr prot)) 16 s pent 0 h
  have h16 : SPAGES_PER_LPAGE = 16 := by decide
  simp only [lv2set_page, hs, if_false, h16, hl]
  rfl

/-- The large-page branch of `lv2set_page` on a run whose first entry in use is the
`j`-th. -/
theorem lv2set_page_lpage_fail (s : pgtable_state) (pent paddr size prot pgcnt j : Nat)
    (hs : size ≠ SPAGE_SIZE) (hj : j < 16)
    (hok : ∀ k, k < j → s.slpt (pent + 4 * k) % 4 = 0)
    (hbad : s.slpt (pent + 4 * j) % 4 ≠ 0) :
    lv2set_page s pent paddr size prot pgcnt =
      (-EADDRINUSE, clear_lv2_page_table
        (fill_lv2 s pent j (make_sysmmu_pte paddr LPAGE_FLAG (page_attr prot))) pent j) := by
  have hl := lv2set_page_loop_fail (make_sysmmu_pte paddr LPAGE_FLAG (page_attr prot)) j 16 s
    pent 0 hj (by omega) hok hbad
  have h16 : SPAGES_PER_LPAGE = 16 := by decide
  simp only [lv2set_page, hs, if_false, h16, hl]
  simp

/-! ## Steps of the engine -/

theorem alloc_lv2entry_section (s : pgtable_state) (sent iova pgcounter : Nat)
    (pent : Option Nat) (h : s.dom.page_table sent % 8 = 2) :
    alloc_lv2entry s sent iova pgcounter pent = (.error (-EADDRINUSE), s) := by
  have h1 : lv1ent_section (s.dom.page_table sent) = true := (lv1ent_section_iff _).2 h
  simp [alloc_lv2entry, h1]

theorem alloc_lv2entry_nomem (s : pgtable_state) (sent iova pgcounter : Nat)
    (h : s.dom.page_table sent % 8 = 0) :
    alloc_lv2entry s sent iova pgcounter none = (.error (-ENOMEM), s) := by
  have h1 : lv1ent_section (s.dom.page_table sent) = false := by
    rw [← Bool.not_eq_true, lv1ent_section_iff]; omega
  have h2 : lv1ent_unmapped (s.dom.page_table sent) = true := (lv1ent_unmapped_iff _).2 h
  simp [alloc_lv2entry, h1, h2]

theorem alloc_lv2entry_fresh (s : pgtable_state) (sent iova pgcounter p : Nat)
    (h : s.dom.page_table sent % 8 = 0) :
    alloc_lv2entry s sent iova pgcounter (some p) =
      (.ok (page_entry (make_sysmmu_pte p SLPD_FLAG 0) iova),
        atomic_set (set_sent (kmem_cache_zalloc s p) sent (make_sysmmu_pte p SLPD_FLAG 0))
          pgcounter 0) := by
  have h1 : lv1ent_section (s.dom.page_table sent) = false := by
    rw [← Bool.not_eq_true, lv1ent_section_iff]; omega
  have h2 : lv1ent_unmapped (s.dom.page_table sent) = true := (lv1ent_unmapped_iff _).2 h
  have h3 : lv1ent_unmapped ((kmem_cache_zalloc s p).dom.page_table sent) = true := h2
  simp [alloc_lv2entry, h1, h2, h3, atomic_set, set_sent]

theorem alloc_lv2entry_resident (s : pgtable_state) (sent iova pgcounter : Nat)
    (pent : Option Nat) (h0 : s.dom.page_table sent % 8 ≠ 0)
    (h2 : s.dom.page_table sent % 8 ≠ 2) :
    alloc_lv2entry s sent iova pgcounter pent =
      (.ok (page_entry (s.dom.page_table sent) iova), s) := by
  have h1 : lv1ent_section (s.dom.page_table sent) = false := by
    rw [← Bool.not_eq_true, lv1ent_section_iff]; omega
  have h3 : lv1ent_unmapped (s.dom.page_table sent) = false := by
    rw [← Bool.not_eq_true, lv1ent_unmapped_iff]; omega
  simp [alloc_lv2entry, h1, h3]

/-- The reference written for a sub-table is neither Unmapped nor a Section. -/
theorem make_slpd_pte_odd (p : Nat) : make_sysmmu_pte p SLPD_FLAG 0 % 2 = 1 := by
  unfold make_sysmmu_pte SLPD_FLAG
  rw [Nat.or_zero]
  have h := Nat.testBit_or ((p >>> PG_ENT_SHIFT) % 2 ^ 32) 1 0
  simp only [Nat.testBit_zero] at h
  simp

/-- The reference to an object of `slpt_cache` below `2 ^ 36` points at the object. -/
theorem lv2table_base_make (p : Nat) (hp : p % 1024 = 0) (h36 : p < 2 ^ 36) :
    lv2table_base (make_sysmmu_pte p SLPD_FLAG 0) = p := by
  rw [make_sysmmu_pte_slpd p hp, lv2table_base_eq]
  omega

theorem lv2table_base_aligned (e : Nat) : lv2table_base e % 1024 = 0 := by
  rw [lv2table_base_eq]; omega

theorem lv2ent_offset_lt (iova : Nat) : lv2ent_offset iova < 256 := by
  rw [lv2ent_offset_eq]; omega

/-- Sections. -/
theorem lv1set_section_inuse (s : pgtable_state) (sent iova paddr prot pgcnt : Nat)
    (h : s.dom.page_table sent % 8 = 2 ∨
      (s.dom.page_table sent % 8 = 1 ∧ s.dom.lv2entcnt pgcnt ≠ 0)) :
    lv1set_section s sent iova paddr prot pgcnt = (-EADDRINUSE, s) := by
  rcases h with h | ⟨h, hc⟩
  · have h1 : lv1ent_section (s.dom.page_table sent) = true := (lv1ent_section_iff _).2 h
    simp [lv1set_section, h1]
  · have h1 : lv1ent_section (s.dom.page_table sent) = false := by
      rw [← Bool.not_eq_true, lv1ent_section_iff]; omega
    have h2 : lv1ent_page (s.dom.page_table sent) = true := (lv1ent_page_iff _).2 h
    simp [lv1set_section, h1, h2, hc]

theorem lv1set_section_replace (s : pgtable_state) (sent iova paddr prot pgcnt : Nat)
    (h : s.dom.page_table sent % 8 = 1) (hc : s.dom.lv2entcnt pgcnt = 0) :
    lv1set_section s sent iova paddr prot pgcnt =
      (0, { set_sent (atomic_set (kmem_cache_free s (page_entry (s.dom.page_table sent) 0))
              pgcnt NUM_LV2ENTRIES) sent (make_sysmmu_pte paddr SECT_FLAG (section_attr prot)) with
            iotlb_syncs := s.iotlb_syncs ++ [(iova, iova + SECT_SIZE)] }) := by
  have h1 : lv1ent_section (s.dom.page_table sent) = false := by
    rw [← Bool.not_eq_true, lv1ent_section_iff]; omega
  have h2 : lv1ent_page (s.dom.page_table sent) = true := (lv1ent_page_iff _).2 h
  simp [lv1set_section, h1, h2, hc, set_sent, atomic_set, kmem_cache_free]

theorem lv1set_section_plain (s : pgtable_state) (sent iova paddr prot pgcnt : Nat)
    (h1 : s.dom.page_table sent % 8 ≠ 1) (h2 : s.dom.page_table sent % 8 ≠ 2) :
    lv1set_section s sent iova paddr prot pgcnt =
      (0, set_sent s sent (make_sysmmu_pte paddr SECT_FLAG (section_attr prot))) := by
  have h3 : lv1ent_section (s.dom.page_table sent) = false := by
    rw [← Bool.not_eq_true, lv1ent_section_iff]; omega
  have h4 : lv1ent_page (s.dom.page_table sent) = false := by
    rw [← Bool.not_eq_true, lv1ent_page_iff]; omega
  simp [lv1set_section, h3, h4]

section unmap_steps
variable {γ : Type} (add : γ → Nat → Nat → γ) (s : pgtable_state) (l_iova size : Nat) (g : γ)

theorem unmap_section_short
    (h : s.dom.page_table (lv1ent_offset (l_iova % 2 ^ 64)) % 8 = 2) (hs : size < SECT_SIZE) :
    samsung_sysmmu_unmap add s l_iova size g = (0, s, g) := by
  have h1 := (lv1ent_section_iff _).2 h
  simp only [samsung_sysmmu_unmap, h1, hs, if_true]

theorem unmap_section
    (h : s.dom.page_table (lv1ent_offset (l_iova % 2 ^ 64)) % 8 = 2) (hs : ¬ size < SECT_SIZE) :
    samsung_sysmmu_unmap add s l_iova size g =
      (SECT_SIZE, set_sent s (lv1ent_offset (l_iova % 2 ^ 64)) 0,
        add g (l_iova % 2 ^ 64) SECT_SIZE) := by
  have h1 := (lv1ent_section_iff _).2 h
  simp only [samsung_sysmmu_unmap, h1, hs, if_true, if_false]

theorem unmap_unmapped
    (h : s.dom.page_table (lv1ent_offset (l_iova % 2 ^ 64)) % 8 = 0) :
    samsung_sysmmu_unmap add s l_iova size g =
      (if size > SECT_SIZE then SECT_SIZE else size, s,
        add g (l_iova % 2 ^ 64) (if size > SECT_SIZE then SECT_SIZE else size)) := by
  have h1 : lv1ent_section (s.dom.page_table (lv1ent_offset (l_iova % 2 ^ 64))) = false := by
    rw [← Bool.not_eq_true, lv1ent_section_iff]; omega
  have h2 := (lv1ent_unmapped_iff _).2 h
  simp only [samsung_sysmmu_unmap, h1, h2, if_true, if_false, Bool.false_eq_true]

theorem unmap_page_unmapped
    (h0 : s.dom.page_table (lv1ent_offset (l_iova % 2 ^ 64)) % 8 ≠ 0)
    (h2 : s.dom.page_table (lv1ent_offset (l_iova % 2 ^ 64)) % 8 ≠ 2)
    (he : s.slpt (page_entry (s.dom.page_table (lv1ent_offset (l_iova % 2 ^ 64)))
      (l_iova % 2 ^ 64)) % 4 = 0) :
    samsung_sysmmu_unmap add s l_iova size g =
      (SPAGE_SIZE, s, add g (l_iova % 2 ^ 64) SPAGE_SIZE) := by
  have h1 : lv1ent_section (s.dom.page_table (lv1ent_offset (l_iova % 2 ^ 64))) = false := by
    rw [← Bool.not_eq_true, lv1ent_section_iff]; omega
  have h3 : lv1ent_unmapped (s.dom.page_table (lv1ent_offset (l_iova % 2 ^ 64))) = false := by
    rw [← Bool.not_eq_true, lv1ent_unmapped_iff]; omega
  have h4 := (lv2ent_unmapped_iff _).2 he
  simp only [samsung_sysmmu_unmap, h1, h3, h4, if_true, if_false, Bool.false_eq_true]

theorem unmap_page_small
    (h0 : s.dom.page_table (lv1ent_offset (l_iova % 2 ^ 64)) % 8 ≠ 0)
    (h2 : s.dom.page_table (lv1ent_offset (l_iova % 2 ^ 64)) % 8 ≠ 2)
    (he : s.slpt (page_entry (s.dom.page_table (lv1ent_offset (l_iova % 2 ^ 64)))
      (l_iova % 2 ^ 64)) % 4 = 2) :
    samsung_sysmmu_unmap add s l_iova size g =
      (SPAGE_SIZE,
        atomic_add (set_pent s (page_entry (s.dom.page_table (lv1ent_offset (l_iova % 2 ^ 64)))
          (l_iova % 2 ^ 64)) 0) (lv1ent_offset (l_iova % 2 ^ 64)) (-1),
        add g (l_iova % 2 ^ 64) SPAGE_SIZE) := by
  have h1 : lv1ent_section (s.dom.page_table (lv1ent_offset (l_iova % 2 ^ 64))) = false := by
    rw [← Bool.not_eq_true, lv1ent_section_iff]; omega
  have h3 : lv1ent_unmapped (s.dom.page_table (lv1ent_offset (l_iova % 2 ^ 64))) = false := by
    rw [← Bool.not_eq_true, lv1ent_unmapped_iff]; omega
  have h4 : lv2ent_unmapped (s.slpt (page_entry (s.dom.page_table
      (lv1ent_offset (l_iova % 2 ^ 64))) (l_iova % 2 ^ 64))) = false := by
    rw [not_unmapped_iff]; omega
  have h5 := (lv2ent_small_iff _).2 he
  simp only [samsung_sysmmu_unmap, h1, h3, h4, h5, if_true, if_false, Bool.false_eq_true]

theorem unmap_page_large_short
    (h0 : s.dom.page_table (lv1ent_offset (l_iova % 2 ^ 64)) % 8 ≠ 0)
    (h2 : s.dom.page_table (lv1ent_offset (l_iova % 2 ^ 64)) % 8 ≠ 2)
    (he0 : s.slpt (page_entry (s.dom.page_table (lv1ent_offset (l_iova % 2 ^ 64)))
      (l_iova % 2 ^ 64)) % 4 ≠ 0)
    (he2 : s.slpt (page_entry (s.dom.page_table (lv1ent_offset (l_iova % 2 ^ 64)))
      (l_iova % 2 ^ 64)) % 4 ≠ 2)
    (hs : size < LPAGE_SIZE) :
    samsung_sysmmu_unmap add s l_iova size g = (0, s, g) := by
  have h1 : lv1ent_section (s.dom.page_table (lv1ent_offset (l_iova % 2 ^ 64))) = false := by
    rw [← Bool.not_eq_true, lv1ent_section_iff]; omega
  have h3 : lv1ent_unmapped (s.dom.page_table (lv1ent_offset (l_iova % 2 ^ 64))) = false := by
    rw [← Bool.not_eq_true, lv1ent_unmapped_iff]; omega
  have h4 : lv2ent_unmapped (s.slpt (page_entry (s.dom.page_table
      (lv1ent_offset (l_iova % 2 ^ 64))) (l_iova % 2 ^ 64))) = false := by
    rw [not_unmapped_iff]; omega
  have h5 : lv2ent_small (s.slpt (page_entry (s.dom.page_table
      (lv1ent_offset (l_iova % 2 ^ 64))) (l_iova % 2 ^ 64))) = false := by
    rw [← Bool.not_eq_true, lv2ent_small_iff]; omega
  simp only [samsung_sysmmu_unmap, h1, h3, h4, h5, hs, if_true, if_false, Bool.false_eq_true]

theorem unmap_page_large
    (h0 : s.dom.page_table (lv1ent_offset (l_iova % 2 ^ 64)) % 8 ≠ 0)
    (h2 : s.dom.page_table (lv1ent_offset (l_iova % 2 ^ 64)) % 8 ≠ 2)
    (he0 : s.slpt (page_entry (s.dom.page_table (lv1ent_offset (l_iova % 2 ^ 64)))
      (l_iova % 2 ^ 64)) % 4 ≠ 0)
    (he2 : s.slpt (page_entry (s.dom.page_table (lv1ent_offset (l_iova % 2 ^ 64)))
      (l_iova % 2 ^ 64)) % 4 ≠ 2)
    (hs : ¬ size < LPAGE_SIZE) :
    samsung_sysmmu_unmap add s l_iova size g =
      (LPAGE_SIZE,
        atomic_add (clear_lv2_page_table s (page_entry (s.dom.page_table
          (lv1ent_offset (l_iova % 2 ^ 64))) (l_iova % 2 ^ 64)) SPAGES_PER_LPAGE)
          (lv1ent_offset (l_iova % 2 ^ 64)) (-(SPAGES_PER_LPAGE : Int)),
        add g (l_iova % 2 ^ 64) LPAGE_SIZE) := by
  have h1 : lv1ent_section (s.dom.page_table (lv1ent_offset (l_iova % 2 ^ 64))) = false := by
    rw [← Bool.not_eq_true, lv1ent_section_iff]; omega
  have h3 : lv1ent_unmapped (s.dom.page_table (lv1ent_offset (l_iova % 2 ^ 64))) = false := by
    rw [← Bool.not_eq_true, lv1ent_unmapped_iff]; omega
  have h4 : lv2ent_unmapped (s.slpt (page_entry (s.dom.page_table
      (lv1ent_offset (l_iova % 2 ^ 64))) (l_iova % 2 ^ 64))) = false := by
    rw [not_unmapped_iff]; omega
  have h5 : lv2ent_small (s.slpt (page_entry (s.dom.page_table
      (lv1ent_offset (l_iova % 2 ^ 64))) (l_iova % 2 ^ 64))) = false := by
    rw [← Bool.not_eq_true, lv2ent_small_iff]; omega
  simp only [samsung_sysmmu_unmap, h1, h3, h4, h5, hs, if_true, if_false, Bool.false_eq_true]

end unmap_steps

theorem translate_section (s : pgtable_state) (x : Nat)
    (h : s.dom.page_table (lv1ent_offset (x % 2 ^ 64)) % 8 = 2) :
    samsung_sysmmu_iova_to_phys s x =
      section_phys (s.dom.page_table (lv1ent_offset (x % 2 ^ 64))) +
        section_offs (x % 2 ^ 64) := by
  have h1 := (lv1ent_section_iff _).2 h
  simp only [samsung_sysmmu_iova_to_phys, h1, if_true]

theorem translate_none (s : pgtable_state) (x : Nat)
    (h1 : s.dom.page_table (lv1ent_offset (x % 2 ^ 64)) % 8 ≠ 1)
    (h2 : s.dom.page_table (lv1ent_offset (x % 2 ^ 64)) % 8 ≠ 2) :
    samsung_sysmmu_iova_to_phys s x = 0 := by
  have h3 : lv1ent_section (s.dom.page_table (lv1ent_offset (x % 2 ^ 64))) = false := by
    rw [← Bool.not_eq_true, lv1ent_section_iff]; omega
  have h4 : lv1ent_page (s.dom.page_table (lv1ent_offset (x % 2 ^ 64))) = false := by
    rw [← Bool.not_eq_true, lv1ent_page_iff]; omega
  simp only [samsung_sysmmu_iova_to_phys, h3, h4, if_false, Bool.false_eq_true]

/-- Translation through a sub-table looks at one entry of it only. -/
theorem translate_page (s : pgtable_state) (x : Nat)
    (h : s.dom.page_table (lv1ent_offset (x % 2 ^ 64)) % 8 = 1) :
    samsung_sysmmu_iova_to_phys s x =
      (let entry := s.slpt (page_entry (s.dom.page_table (lv1ent_offset (x % 2 ^ 64)))
          (x % 2 ^ 64))
       if entry % 4 = 1 then lpage_phys entry + lpage_offs (x % 2 ^ 64)
       else if entry % 4 = 2 then spage_phys entry + spage_offs (x % 2 ^ 64)
       else 0) := by
  have h3 : lv1ent_section (s.dom.page_table (lv1ent_offset (x % 2 ^ 64))) = false := by
    rw [← Bool.not_eq_true, lv1ent_section_iff]; omega
  have h4 := (lv1ent_page_iff _).2 h
  simp only [samsung_sysmmu_iova_to_phys, h3, h4, if_false, if_true, Bool.false_eq_true,
    lv2ent_large_iff, lv2ent_small_iff]

theorem translate_page_zero (s : pgtable_state) (x : Nat)
    (he : s.slpt (page_entry (s.dom.page_table (lv1ent_offset (x % 2 ^ 64)))
      (x % 2 ^ 64)) % 4 = 0) :
    samsung_sysmmu_iova_to_phys s x = 0 ∨
      s.dom.page_table (lv1ent_offset (x % 2 ^ 64)) % 8 = 2 := by
  by_cases h2 : s.dom.page_table (lv1ent_offset (x % 2 ^ 64)) % 8 = 2
  · exact Or.inr h2
  · left
    by_cases h1 : s.dom.page_table (lv1ent_offset (x % 2 ^ 64)) % 8 = 1
    · rw [translate_page s x h1]
      simp only
      rw [if_neg (by omega), if_neg (by omega)]
    · exact translate_none s x h1 h2

theorem map_section_eq (s : pgtable_state) (l_iova paddr prot : Nat) (alloc : Option Nat) :
    samsung_sysmmu_map s l_iova paddr SECT_SIZE prot alloc =
      lv1set_section s (lv1ent_offset (l_iova % 2 ^ 64)) (l_iova % 2 ^ 64) paddr
        (priv_prot prot) (lv1ent_offset (l_iova % 2 ^ 64)) := by
  simp only [samsung_sysmmu_map, if_true]

theorem map_page_err (s s1 : pgtable_state) (l_iova paddr size prot : Nat)
    (alloc : Option Nat) (e : Int) (hs : size ≠ SECT_SIZE)
    (ha : alloc_lv2entry s (lv1ent_offset (l_iova % 2 ^ 64)) (l_iova % 2 ^ 64)
      (lv1ent_offset (l_iova % 2 ^ 64)) alloc = (.error e, s1)) :
    samsung_sysmmu_map s l_iova paddr size prot alloc = (e, s1) := by
  simp only [samsung_sysmmu_map, hs, if_false, ha]

theorem map_page_ok (s s1 : pgtable_state) (l_iova paddr size prot pent : Nat)
    (alloc : Option Nat) (hs : size ≠ SECT_SIZE)
    (ha : alloc_lv2entry s (lv1ent_offset (l_iova % 2 ^ 64)) (l_iova % 2 ^ 64)
      (lv1ent_offset (l_iova % 2 ^ 64)) alloc = (.ok pent, s1)) :
    samsung_sysmmu_map s l_iova paddr size prot alloc =
      lv2set_page s1 pent paddr size (priv_prot prot) (lv1ent_offset (l_iova % 2 ^ 64)) := by
  simp only [samsung_sysmmu_map, hs, if_false, ha]

/-! ## Installing pages -/

/-- C7 as amended: `lv2set_page` is all-or-nothing. For a page size `size` and every
physical address, the call fails with `-EADDRINUSE` exactly when some entry of the run
(`size / SPAGE_SIZE` entries from `pent` on) is not Unmapped. A failing call changes
neither the level-1 table, the counters nor the allocator, and leaves every level-2
entry as it was or, for an Unmapped entry of the run, as the zero word the rollback
writes: when the free entries of the run held the zero word, the state is exactly the one
before the call. A successful call returns 0, leaves in every entry of the run the entry
`make_sysmmu_pte` builds from `paddr`, which is of the requested kind when `paddr` is
page-aligned, and adds the run length to the counter (an `int`). -/
theorem lv2set_page_all_or_nothing (s : pgtable_state) (pent paddr size prot pgcnt : Nat)
    (hsize : size = SPAGE_SIZE ∨ size = LPAGE_SIZE) :
    ((lv2set_page s pent paddr size prot pgcnt).1 = -EADDRINUSE ↔
      ∃ j, j < size / SPAGE_SIZE ∧ lv2ent_unmapped (s.slpt (pent + 4 * j)) = false) ∧
    ((lv2set_page s pent paddr size prot pgcnt).1 = -EADDRINUSE →
      (lv2set_page s pent paddr size prot pgcnt).2.dom = s.dom ∧
      (lv2set_page s pent paddr size prot pgcnt).2.slpt_objs = s.slpt_objs ∧
      (∀ a, (lv2set_page s pent paddr size prot pgcnt).2.slpt a = s.slpt a ∨
        (lv2ent_unmapped (s.slpt a) = true ∧
          (lv2set_page s pent paddr size prot pgcnt).2.slpt a = 0)) ∧
      ((∀ j, j < size / SPAGE_SIZE → lv2ent_unmapped (s.slpt (pent + 4 * j)) = true →
          s.slpt (pent + 4 * j) = 0) →
        (lv2set_page s pent paddr size prot pgcnt).2 = s)) ∧
    ((lv2set_page s pent paddr size prot pgcnt).1 ≠ -EADDRINUSE →
      (lv2set_page s pent paddr size prot pgcnt).1 = 0 ∧
      (∀ j, j < size / SPAGE_SIZE →
        (lv2set_page s pent paddr size prot pgcnt).2.slpt (pent + 4 * j) =
          make_sysmmu_pte paddr (if size = SPAGE_SIZE then SPAGE_FLAG else LPAGE_FLAG)
            (page_attr prot) ∧
        (paddr % SPAGE_SIZE = 0 →
          (if size = SPAGE_SIZE then lv2ent_small else lv2ent_large)
            ((lv2set_page s pent paddr size prot pgcnt).2.slpt (pent + 4 * j)) = true)) ∧
      (lv2set_page s pent paddr size prot pgcnt).2.dom.lv2entcnt pgcnt =
        atomic_wrap (s.dom.lv2entcnt pgcnt + (size / SPAGE_SIZE : Nat)) ∧
      (-2 ^ 31 ≤ s.dom.lv2entcnt pgcnt →
        s.dom.lv2entcnt pgcnt + (size / SPAGE_SIZE : Nat) < 2 ^ 31 →
        (lv2set_page s pent paddr size prot pgcnt).2.dom.lv2entcnt pgcnt =
          s.dom.lv2entcnt pgcnt + (size / SPAGE_SIZE : Nat))) := by
  have hE : EADDRINUSE = 98 := rfl
  rcases hsize with rfl | rfl
  · -- one small page
    have hn : SPAGE_SIZE / SPAGE_SIZE = 1 := by decide
    rw [hn]
    by_cases h0 : s.slpt pent % 4 = 0
    · rw [lv2set_page_spage_ok s pent paddr prot pgcnt h0]
      refine ⟨?_, ?_, ?_⟩
      · constructor
        · intro h; simp [hE] at h
        · rintro ⟨j, hj, hb⟩
          obtain rfl : j = 0 := by omega
          rw [not_unmapped_iff] at hb
          exact absurd h0 hb
      · intro h; simp [hE] at h
      · intro _
        refine ⟨rfl, ?_, ?_, ?_⟩
        · intro j hj
          obtain rfl : j = 0 := by omega
          have hv : (atomic_add (set_pent s pent (make_sysmmu_pte paddr SPAGE_FLAG
              (page_attr prot))) pgcnt 1).slpt (pent + 4 * 0) =
              make_sysmmu_pte paddr SPAGE_FLAG (page_attr prot) := by
            simp [atomic_add, atomic_set, set_pent]
          simp only [hv, if_true, true_and]
          intro hp
          exact (lv2ent_small_iff _).2 (make_spage_pte_mod paddr prot hp)
        · simp [atomic_add, atomic_set, set_pent]
        · intro h1 h2
          simp only [atomic_add, atomic_set, set_pent, if_true]
          exact atomic_wrap_id _ (by push_cast at h2 ⊢; omega) (by push_cast at h2 ⊢; omega)
    · rw [lv2set_page_spage_fail s pent paddr prot pgcnt h0]
      refine ⟨?_, ?_, ?_⟩
      · constructor
        · intro _
          exact ⟨0, by omega, (not_unmapped_iff _).2 (by simpa using h0)⟩
        · intro _; rfl
      · intro _; exact ⟨rfl, rfl, fun _ => Or.inl rfl, fun _ => rfl⟩
      · intro h; exact absurd rfl h
  · -- a run of sixteen
    have hn : LPAGE_SIZE / SPAGE_SIZE = 16 := by decide
    have hne : LPAGE_SIZE ≠ SPAGE_SIZE := by decide
    rw [hn]
    by_cases hall : ∀ j, j < 16 → s.slpt (pent + 4 * j) % 4 = 0
    · rw [lv2set_page_lpage_ok s pent paddr LPAGE_SIZE prot pgcnt hne hall]
      refine ⟨?_, ?_, ?_⟩
      · constructor
        · intro h; simp [hE] at h
        · rintro ⟨j, hj, hb⟩
          rw [not_unmapped_iff] at hb
          exact absurd (hall j hj) hb
      · intro h; simp [hE] at h
      · intro _
        refine ⟨rfl, ?_, ?_, ?_⟩
        · intro j hj
          have hv : (atomic_add (fill_lv2 s pent 16 (make_sysmmu_pte paddr LPAGE_FLAG
              (page_attr prot))) pgcnt 16).slpt (pent + 4 * j) =
              make_sysmmu_pte paddr LPAGE_FLAG (page_attr prot) := by
            simp only [atomic_add, atomic_set, fill_lv2]
            rw [if_pos (by omega)]
          simp only [hv, hne, if_false, true_and]
          intro hp
          exact (lv2ent_large_iff _).2 (make_lpage_pte_mod paddr prot hp)
        · simp [atomic_add, atomic_set, fill_lv2]
        · intro h1 h2
          simp only [atomic_add, atomic_set, fill_lv2, if_true]
          exact atomic_wrap_id _ (by push_cast at h2 ⊢; omega) (by push_cast at h2 ⊢; omega)
    · obtain ⟨j, hj, hok, hbad⟩ := exists_first_fail _ 16 hall
      rw [lv2set_page_lpage_fail s pent paddr LPAGE_SIZE prot pgcnt j hne hj hok hbad]
      refine ⟨?_, ?_, ?_⟩
      · constructor
        · intro _
          exact ⟨j, hj, (not_unmapped_iff _).2 hbad⟩
        · intro _; rfl
      · intro _
        refine ⟨rfl, rfl, ?_, ?_⟩
        · intro a
          simp only [clear_lv2_page_table, fill_lv2]
          by_cases ha : pent ≤ a ∧ a < pent + 4 * j ∧ (a - pent) % 4 = 0
          · right
            rw [if_pos ha]
            obtain ⟨k, hk, rfl⟩ : ∃ k, k < j ∧ a = pent + 4 * k :=
              ⟨(a - pent) / 4, by omega, by omega⟩
            exact ⟨(lv2ent_unmapped_iff _).2 (hok k hk), rfl⟩
          · left
            rw [if_neg ha, if_neg ha]
        · intro hz
          apply pgtable_state_ext <;> simp only [clear_lv2_page_table, fill_lv2]
          intro a
          by_cases ha : pent ≤ a ∧ a < pent + 4 * j ∧ (a - pent) % 4 = 0
          · rw [if_pos ha]
            obtain ⟨k, hk, rfl⟩ : ∃ k, k < j ∧ a = pent + 4 * k :=
              ⟨(a - pent) / 4, by omega, by omega⟩
            exact (hz k (by omega) ((lv2ent_unmapped_iff _).2 (hok k hk))).symm
          · rw [if_neg ha, if_neg ha]
      · intro h; exact absurd rfl h

/-! ## Mapping one small page -/

/-- C1: on a freshly created 32-bit domain, mapping one small page at a page-aligned
`iova` below `2 ^ 32` to a page-aligned `paddr` below `2 ^ 36` succeeds when the
sub-table allocation returns an object of `slpt_cache` (aligned to `LV2TABLE_SIZE`,
below `2 ^ 36`), and afterwards every byte of the page translates to the matching byte
of the physical page. -/
theorem map_spage_then_translate (type : Nat) (k : Bool) (f : Option Nat) (c : Bool)
    (r : Int) (d : samsung_sysmmu_domain) (slpt : Nat → Nat) (objs : List Nat)
    (syncs : List (Nat × Nat)) (iova paddr prot b : Nat)
    (hd : (samsung_sysmmu_domain_alloc type false k f c r).1 = some d)
    (hi : iova % SPAGE_SIZE = 0) (hi32 : iova < 2 ^ 32)
    (hp : paddr % SPAGE_SIZE = 0) (hp36 : paddr < 2 ^ 36)
    (hb : b % LV2TABLE_SIZE = 0) (hb36 : b < 2 ^ 36) :
    d.is_va_36bit = false ∧
    (samsung_sysmmu_map ⟨d, slpt, objs, syncs⟩ iova paddr SPAGE_SIZE prot (some b)).1 = 0 ∧
    ∀ off, off < 4096 →
      samsung_sysmmu_iova_to_phys
        (samsung_sysmmu_map ⟨d, slpt, objs, syncs⟩ iova paddr SPAGE_SIZE prot (some b)).2
        (iova + off) = paddr + off := by
  obtain ⟨hpt, -, h36⟩ := domain_alloc_fresh _ _ _ _ _ _ _ hd
  refine ⟨h36, ?_⟩
  have hi' : iova % 4096 = 0 := hi
  have hp' : paddr % 4096 = 0 := hp
  have hb' : b % 1024 = 0 := hb
  norm_num at hi32 hp36 hb36
  have hiova : iova % 2 ^ 64 = iova := Nat.mod_eq_of_lt (by omega)
  have hbase := lv2table_base_make b hb' (by norm_num; omega)
  have hl2 := lv2ent_offset_lt iova
  have hmap : samsung_sysmmu_map ⟨d, slpt, objs, syncs⟩ iova paddr SPAGE_SIZE prot (some b) =
      (0, atomic_add (set_pent (atomic_set (set_sent (kmem_cache_zalloc ⟨d, slpt, objs, syncs⟩ b)
        (lv1ent_offset iova) (make_sysmmu_pte b SLPD_FLAG 0)) (lv1ent_offset iova) 0)
        (b + 4 * lv2ent_offset iova)
        (make_sysmmu_pte paddr SPAGE_FLAG (page_attr (priv_prot prot)))) (lv1ent_offset iova) 1) := by
    rw [map_page_ok _ _ _ _ _ _ _ _ (by decide)
      (alloc_lv2entry_fresh _ _ _ _ _ (by simp [hpt])), hiova]
    simp only [page_entry, hbase]
    rw [lv2set_page_spage_ok]
    simp only [atomic_set, set_sent, kmem_cache_zalloc, LV2TABLE_SIZE, NUM_LV2ENTRIES, SECT_SIZE,
      SPAGE_SIZE]
    rw [if_pos (by omega)]
  rw [hmap]
  refine ⟨rfl, ?_⟩
  intro off hoff
  have hx : (iova + off) % 2 ^ 64 = iova + off := Nat.mod_eq_of_lt (by omega)
  have h1 : lv1ent_offset (iova + off) = lv1ent_offset iova := by
    rw [lv1ent_offset_eq, lv1ent_offset_eq]; omega
  have h2 : lv2ent_offset (iova + off) = lv2ent_offset iova := by
    rw [lv2ent_offset_eq, lv2ent_offset_eq]; omega
  have hodd := make_slpd_pte_odd b
  have hsl := make_sysmmu_pte_slpd b hb'
  rw [translate_page _ _ (by
    simp only [hx, h1, atomic_add, atomic_set, set_pent, set_sent, kmem_cache_zalloc, if_true]
    omega)]
  simp only [hx, h1, h2, atomic_add, atomic_set, set_pent, set_sent, kmem_cache_zalloc, if_true,
    page_entry, hbase]
  rw [if_neg (by rw [make_spage_pte_mod _ _ hp']; omega), if_pos (make_spage_pte_mod _ _ hp'),
    make_spage_pte _ _ hp', spage_phys_eq, spage_offs_eq]
  rcases page_attr_cases (priv_prot prot) with h | h <;> rw [h] <;> omega

/-! ## Removing mappings -/

/-- C4: a granularity mismatch is atomic. When the level-1 slot of `iova` is a Section
and `size < SECT_SIZE`, and when the slot references a sub-table whose entry for `iova`
is a LargePage and `size < LPAGE_SIZE`, `samsung_sysmmu_unmap` returns 0 and leaves the
state (level-1 slots, level-2 entries, counters) and the gather as they were; the unmap
of the Section with `SECT_SIZE` that follows returns `SECT_SIZE`, after which no address
of the Section translates. -/
theorem unmap_granularity_mismatch {γ : Type} (add : γ → Nat → Nat → γ) (s : pgtable_state)
    (iova size : Nat) (g : γ) :
    (lv1ent_section (s.dom.page_table (lv1ent_offset (iova % 2 ^ 64))) = true →
      size < SECT_SIZE →
      samsung_sysmmu_unmap add s iova size g = (0, s, g) ∧
      (samsung_sysmmu_unmap add (samsung_sysmmu_unmap add s iova size g).2.1 iova SECT_SIZE
        (samsung_sysmmu_unmap add s iova size g).2.2).1 = SECT_SIZE ∧
      ∀ x, lv1ent_offset (x % 2 ^ 64) = lv1ent_offset (iova % 2 ^ 64) →
        samsung_sysmmu_iova_to_phys
          (samsung_sysmmu_unmap add (samsung_sysmmu_unmap add s iova size g).2.1 iova SECT_SIZE
            (samsung_sysmmu_unmap add s iova size g).2.2).2.1 x = 0) ∧
    (lv1ent_page (s.dom.page_table (lv1ent_offset (iova % 2 ^ 64))) = true →
      lv2ent_large (s.slpt (page_entry (s.dom.page_table (lv1ent_offset (iova % 2 ^ 64)))
        (iova % 2 ^ 64))) = true →
      size < LPAGE_SIZE →
      samsung_sysmmu_unmap add s iova size g = (0, s, g)) := by
  constructor
  · intro h hs
    rw [lv1ent_section_iff] at h
    have h1 := unmap_section_short add s iova size g h hs
    rw [h1]
    refine ⟨rfl, ?_, ?_⟩
    · rw [unmap_section add s iova SECT_SIZE g h (by omega)]
    · intro x hx
      rw [unmap_section add s iova SECT_SIZE g h (by omega)]
      apply translate_none <;> simp only [set_sent, hx, if_true] <;> omega
  · intro h hl hs
    rw [lv1ent_page_iff] at h
    rw [lv2ent_large_iff] at hl
    exact unmap_page_large_short add s iova size g (by omega) (by omega) (by omega) (by omega) hs

/-- C9: unmapping unmapped memory is a no-op that never errors. For an Unmapped level-1
slot and `size > 0`, `samsung_sysmmu_unmap` returns `min size SECT_SIZE`; for a slot that
references a sub-table whose entry for `iova` is Unmapped it returns `SPAGE_SIZE`; in
both cases the state is unchanged and the same call made again gives the same result. -/
theorem unmap_unmapped_noop {γ : Type} (add : γ → Nat → Nat → γ) (s : pgtable_state)
    (iova size : Nat) (g : γ) :
    (lv1ent_unmapped (s.dom.page_table (lv1ent_offset (iova % 2 ^ 64))) = true → 0 < size →
      (samsung_sysmmu_unmap add s iova size g).1 = min size SECT_SIZE ∧
      (samsung_sysmmu_unmap add s iova size g).2.1 = s ∧
      (samsung_sysmmu_unmap add (samsung_sysmmu_unmap add s iova size g).2.1 iova size
        (samsung_sysmmu_unmap add s iova size g).2.2).1 = min size SECT_SIZE ∧
      (samsung_sysmmu_unmap add (samsung_sysmmu_unmap add s iova size g).2.1 iova size
        (samsung_sysmmu_unmap add s iova size g).2.2).2.1 = s) ∧
    (lv1ent_page (s.dom.page_table (lv1ent_offset (iova % 2 ^ 64))) = true →
      lv2ent_unmapped (s.slpt (page_entry (s.dom.page_table (lv1ent_offset (iova % 2 ^ 64)))
        (iova % 2 ^ 64))) = true →
      (samsung_sysmmu_unmap add s iova size g).1 = SPAGE_SIZE ∧
      (samsung_sysmmu_unmap add s iova size g).2.1 = s ∧
      (samsung_sysmmu_unmap add (samsung_sysmmu_unmap add s iova size g).2.1 iova size
        (samsung_sysmmu_unmap add s iova size g).2.2).1 = SPAGE_SIZE ∧
      (samsung_sysmmu_unmap add (samsung_sysmmu_unmap add s iova size g).2.1 iova size
        (samsung_sysmmu_unmap add s iova size g).2.2).2.1 = s) := by
  constructor
  · intro h _
    rw [lv1ent_unmapped_iff] at h
    have hmin : (if size > SECT_SIZE then SECT_SIZE else size) = min size SECT_SIZE := by
      split_ifs with hc
      · exact (Nat.min_eq_right (le_of_lt hc)).symm
      · exact (Nat.min_eq_left (not_lt.mp hc)).symm
    have h1 := unmap_unmapped add s iova size g h
    rw [h1]
    simp only
    rw [unmap_unmapped add s iova size _ h]
    exact ⟨hmin, trivial, hmin, rfl⟩
  · intro h he
    rw [lv1ent_page_iff] at h
    rw [lv2ent_unmapped_iff] at he
    have h1 := unmap_page_unmapped add s iova size g (by omega) (by omega) he
    rw [h1]
    simp only
    rw [unmap_page_unmapped add s iova size _ (by omega) (by omega) he]
    exact ⟨trivial, trivial, rfl, rfl⟩

/-- C6 (amended): `lv1set_section` fails with `-EADDRINUSE` exactly when the slot holds a
Section, or a sub-table reference with a nonzero counter; a failing call changes
nothing; a successful call returns 0 and, for a physical address aligned to `SECT_SIZE`
and below `2 ^ 36`, leaves a slot that decodes as a Section with that base. -/
theorem lv1set_section_spec (s : pgtable_state) (sent iova paddr prot pgcnt : Nat)
    (hp : paddr % SECT_SIZE = 0) (hp36 : paddr < 2 ^ 36) :
    ((lv1set_section s sent iova paddr prot pgcnt).1 = -EADDRINUSE ↔
      (lv1ent_section (s.dom.page_table sent) = true ∨
        (lv1ent_page (s.dom.page_table sent) = true ∧ s.dom.lv2entcnt pgcnt ≠ 0))) ∧
    ((lv1set_section s sent iova paddr prot pgcnt).1 = -EADDRINUSE →
      (lv1set_section s sent iova paddr prot pgcnt).2 = s) ∧
    ((lv1set_section s sent iova paddr prot pgcnt).1 ≠ -EADDRINUSE →
      (lv1set_section s sent iova paddr prot pgcnt).1 = 0 ∧
      lv1ent_section ((lv1set_section s sent iova paddr prot pgcnt).2.dom.page_table sent) = true ∧
      section_phys ((lv1set_section s sent iova paddr prot pgcnt).2.dom.page_table sent) = paddr) := by
  have hE : EADDRINUSE = 98 := rfl
  have hp' : paddr % 1048576 = 0 := hp
  have hp4 : paddr % 4096 = 0 := by omega
  norm_num at hp36
  have hdec : make_sysmmu_pte paddr SECT_FLAG (section_attr prot) % 8 = 2 ∧
      section_phys (make_sysmmu_pte paddr SECT_FLAG (section_attr prot)) = paddr := by
    refine ⟨make_sect_pte_mod _ _ hp4, ?_⟩
    rw [make_sect_pte _ _ hp4, section_phys_eq]
    rcases section_attr_cases prot with h | h <;> rw [h] <;> omega
  rw [lv1ent_section_iff, lv1ent_page_iff]
  by_cases h2 : s.dom.page_table sent % 8 = 2
  · rw [lv1set_section_inuse s sent iova paddr prot pgcnt (Or.inl h2)]
    exact ⟨⟨fun _ => Or.inl h2, fun _ => rfl⟩, fun _ => rfl, fun h => absurd rfl h⟩
  · by_cases h1 : s.dom.page_table sent % 8 = 1
    · by_cases hc : s.dom.lv2entcnt pgcnt = 0
      · rw [lv1set_section_replace s sent iova paddr prot pgcnt h1 hc]
        refine ⟨⟨fun h => ?_, fun h => ?_⟩, fun h => ?_, fun _ => ⟨rfl, ?_⟩⟩
        · simp [hE] at h
        · rcases h with h | ⟨_, h⟩
          · exact absurd h h2
          · exact absurd hc h
        · simp [hE] at h
        · simp only [set_sent, atomic_set, kmem_cache_free, if_true, lv1ent_section_iff]
          exact hdec
      · rw [lv1set_section_inuse s sent iova paddr prot pgcnt (Or.inr ⟨h1, hc⟩)]
        exact ⟨⟨fun _ => Or.inr ⟨h1, hc⟩, fun _ => rfl⟩, fun _ => rfl, fun h => absurd rfl h⟩
    · rw [lv1set_section_plain s sent iova paddr prot pgcnt h1 h2]
      refine ⟨⟨fun h => ?_, fun h => ?_⟩, fun h => ?_, fun _ => ⟨rfl, ?_⟩⟩
      · simp [hE] at h
      · rcases h with h | ⟨h, _⟩
        · exact absurd h h2
        · exact absurd h h1
      · simp [hE] at h
      · simp only [set_sent, if_true, lv1ent_section_iff]
        exact hdec

/-! ## Sections and runs -/

/-- C5 (amended): `samsung_sysmmu_map` with `SECT_SIZE` fails with `-EADDRINUSE` exactly
when the slot already holds a Section, or references a sub-table whose live-entry
counter is nonzero, and succeeds otherwise: on an Unmapped slot whatever its counter,
and on a sub-table reference whose counter is zero, the sub-table then being freed. -/
theorem map_section_inuse_iff (s : pgtable_state) (iova paddr prot : Nat)
    (alloc : Option Nat) :
    ((samsung_sysmmu_map s iova paddr SECT_SIZE prot alloc).1 = -EADDRINUSE ↔
      (lv1ent_section (s.dom.page_table (lv1ent_offset (iova % 2 ^ 64))) = true ∨
        (lv1ent_page (s.dom.page_table (lv1ent_offset (iova % 2 ^ 64))) = true ∧
          s.dom.lv2entcnt (lv1ent_offset (iova % 2 ^ 64)) ≠ 0))) ∧
    ((samsung_sysmmu_map s iova paddr SECT_SIZE prot alloc).1 ≠ -EADDRINUSE →
      (samsung_sysmmu_map s iova paddr SECT_SIZE prot alloc).1 = 0) ∧
    (lv1ent_unmapped (s.dom.page_table (lv1ent_offset (iova % 2 ^ 64))) = true →
      (samsung_sysmmu_map s iova paddr SECT_SIZE prot alloc).1 = 0) ∧
    (lv1ent_page (s.dom.page_table (lv1ent_offset (iova % 2 ^ 64))) = true →
      s.dom.lv2entcnt (lv1ent_offset (iova % 2 ^ 64)) = 0 →
      (samsung_sysmmu_map s iova paddr SECT_SIZE prot alloc).1 = 0 ∧
      (samsung_sysmmu_map s iova paddr SECT_SIZE prot alloc).2.slpt_objs =
        s.slpt_objs.filter
          (fun o => o != page_entry (s.dom.page_table (lv1ent_offset (iova % 2 ^ 64))) 0)) := by
  have hE : EADDRINUSE = 98 := rfl
  rw [map_section_eq, lv1ent_section_iff, lv1ent_page_iff, lv1ent_unmapped_iff]
  by_cases h2 : s.dom.page_table (lv1ent_offset (iova % 2 ^ 64)) % 8 = 2
  · rw [lv1set_section_inuse _ _ _ _ _ _ (Or.inl h2)]
    exact ⟨⟨fun _ => Or.inl h2, fun _ => rfl⟩, fun h => absurd rfl h, fun h => by omega,
      fun h => by omega⟩
  · by_cases h1 : s.dom.page_table (lv1ent_offset (iova % 2 ^ 64)) % 8 = 1
    · by_cases hc : s.dom.lv2entcnt (lv1ent_offset (iova % 2 ^ 64)) = 0
      · rw [lv1set_section_replace _ _ _ _ _ _ h1 hc]
        refine ⟨⟨fun h => ?_, fun h => ?_⟩, fun _ => rfl, fun _ => rfl, fun _ _ => ⟨rfl, rfl⟩⟩
        · simp [hE] at h
        · rcases h with h | ⟨_, h⟩
          · exact absurd h h2
          · exact absurd hc h
      · rw [lv1set_section_inuse _ _ _ _ _ _ (Or.inr ⟨h1, hc⟩)]
        exact ⟨⟨fun _ => Or.inr ⟨h1, hc⟩, fun _ => rfl⟩, fun h => absurd rfl h,
          fun h => by omega, fun _ h => absurd h hc⟩
    · rw [lv1set_section_plain _ _ _ _ _ _ h1 h2]
      refine ⟨⟨fun h => ?_, fun h => ?_⟩, fun _ => rfl, fun _ => rfl, fun h => absurd h h1⟩
      · simp [hE] at h
      · rcases h with h | ⟨h, _⟩
        · exact absurd h h2
        · exact absurd h h1

/-- C8 (amended): for an `iova` aligned to `LPAGE_SIZE` whose slot references a sub-table
and whose entry is a LargePage, and every `size ≥ LPAGE_SIZE`: the entry is the first
of its run, `samsung_sysmmu_unmap` returns `LPAGE_SIZE`, leaves the sixteen entries of
the run Unmapped, changes no other entry and no level-1 slot, and takes
`SPAGES_PER_LPAGE` off the counter of the slot (an `int`). -/
theorem unmap_lpage_clears_run {γ : Type} (add : γ → Nat → Nat → γ) (s : pgtable_state)
    (iova size : Nat) (g : γ)
    (hal : iova % LPAGE_SIZE = 0)
    (hpg : lv1ent_page (s.dom.page_table (lv1ent_offset (iova % 2 ^ 64))) = true)
    (hl : lv2ent_large (s.slpt (page_entry (s.dom.page_table (lv1ent_offset (iova % 2 ^ 64)))
      (iova % 2 ^ 64))) = true)
    (hs : LPAGE_SIZE ≤ size) :
    lv2ent_offset (iova % 2 ^ 64) % SPAGES_PER_LPAGE = 0 ∧
    (samsung_sysmmu_unmap add s iova size g).1 = LPAGE_SIZE ∧
    (∀ j, j < SPAGES_PER_LPAGE →
      lv2ent_unmapped ((samsung_sysmmu_unmap add s iova size g).2.1.slpt
        (page_entry (s.dom.page_table (lv1ent_offset (iova % 2 ^ 64))) (iova % 2 ^ 64) + 4 * j))
        = true) ∧
    (∀ a, (¬ ∃ j, j < SPAGES_PER_LPAGE ∧
        a = page_entry (s.dom.page_table (lv1ent_offset (iova % 2 ^ 64))) (iova % 2 ^ 64) + 4 * j) →
      (samsung_sysmmu_unmap add s iova size g).2.1.slpt a = s.slpt a) ∧
    (samsung_sysmmu_unmap add s iova size g).2.1.dom.page_table = s.dom.page_table ∧
    (samsung_sysmmu_unmap add s iova size g).2.1.dom.lv2entcnt (lv1ent_offset (iova % 2 ^ 64)) =
      atomic_wrap (s.dom.lv2entcnt (lv1ent_offset (iova % 2 ^ 64)) - SPAGES_PER_LPAGE) ∧
    (-2 ^ 31 + SPAGES_PER_LPAGE ≤ s.dom.lv2entcnt (lv1ent_offset (iova % 2 ^ 64)) →
      s.dom.lv2entcnt (lv1ent_offset (iova % 2 ^ 64)) < 2 ^ 31 →
      (samsung_sysmmu_unmap add s iova size g).2.1.dom.lv2entcnt (lv1ent_offset (iova % 2 ^ 64)) =
        s.dom.lv2entcnt (lv1ent_offset (iova % 2 ^ 64)) - SPAGES_PER_LPAGE) := by
  rw [lv1ent_page_iff] at hpg
  rw [lv2ent_large_iff] at hl
  have h16 : SPAGES_PER_LPAGE = 16 := by decide
  have hal' : iova % 65536 = 0 := hal
  rw [unmap_page_large add s iova size g (by omega) (by omega) (by omega) (by omega) (by omega)]
  simp only [h16, atomic_add, atomic_set, clear_lv2_page_table, if_true]
  refine ⟨by rw [lv2ent_offset_eq]; omega, trivial, ?_, ?_, trivial, ?_, ?_⟩
  · intro j hj
    rw [if_pos (by omega)]
    rfl
  · intro a ha
    rw [if_neg]
    intro hc
    apply ha
    exact ⟨(a - page_entry (s.dom.page_table (lv1ent_offset (iova % 2 ^ 64)))
      (iova % 2 ^ 64)) / 4, by omega, by omega⟩
  · rfl
  · intro h1 h2
    apply atomic_wrap_id <;> norm_num at h1 h2 ⊢ <;> omega

/-! ## Round trip -/

/-- Round trip through a sub-table: after `lv2set_page` succeeded on the entry of `iova`,
unmapping the same range reports its size and leaves no mapping in it. -/
theorem roundtrip_page {γ : Type} (add : γ → Nat → Nat → γ) (t : pgtable_state)
    (iova paddr size prot : Nat) (g : γ)
    (hsize : size = SPAGE_SIZE ∨ size = LPAGE_SIZE) (hi : iova % size = 0)
    (hp : paddr % SPAGE_SIZE = 0)
    (h0 : t.dom.page_table (lv1ent_offset (iova % 2 ^ 64)) % 8 ≠ 0)
    (h2 : t.dom.page_table (lv1ent_offset (iova % 2 ^ 64)) % 8 ≠ 2)
    (hret : (lv2set_page t (page_entry (t.dom.page_table (lv1ent_offset (iova % 2 ^ 64)))
      (iova % 2 ^ 64)) paddr size prot (lv1ent_offset (iova % 2 ^ 64))).1 = 0) :
    (samsung_sysmmu_unmap add
      (lv2set_page t (page_entry (t.dom.page_table (lv1ent_offset (iova % 2 ^ 64)))
        (iova % 2 ^ 64)) paddr size prot (lv1ent_offset (iova % 2 ^ 64))).2 iova size g).1 = size ∧
    ∀ x, iova ≤ x → x < iova + size →
      samsung_sysmmu_iova_to_phys (samsung_sysmmu_unmap add
        (lv2set_page t (page_entry (t.dom.page_table (lv1ent_offset (iova % 2 ^ 64)))
          (iova % 2 ^ 64)) paddr size prot (lv1ent_offset (iova % 2 ^ 64))).2 iova size g).2.1 x
        = 0 := by
  have hE : EADDRINUSE = 98 := rfl
  have hp' : paddr % 4096 = 0 := hp
  rcases hsize with rfl | rfl
  · have hi' : iova % 4096 = 0 := hi
    by_cases he : t.slpt (page_entry (t.dom.page_table (lv1ent_offset (iova % 2 ^ 64)))
        (iova % 2 ^ 64)) % 4 = 0
    · rw [lv2set_page_spage_ok _ _ _ _ _ he]
      rw [unmap_page_small add _ iova SPAGE_SIZE g
        (by simpa only [atomic_add, atomic_set, set_pent] using h0)
        (by simpa only [atomic_add, atomic_set, set_pent] using h2)
        (by simp only [atomic_add, atomic_set, set_pent, if_true]
            exact make_spage_pte_mod _ _ hp')]
      refine ⟨rfl, ?_⟩
      intro x hx1 hx2
      have hx : lv1ent_offset (x % 2 ^ 64) = lv1ent_offset (iova % 2 ^ 64) := by
        rw [lv1ent_offset_eq, lv1ent_offset_eq]
        have : SPAGE_SIZE = 4096 := rfl
        omega
      have hx' : lv2ent_offset (x % 2 ^ 64) = lv2ent_offset (iova % 2 ^ 64) := by
        rw [lv2ent_offset_eq, lv2ent_offset_eq]
        have : SPAGE_SIZE = 4096 := rfl
        omega
      rcases translate_page_zero (atomic_add (set_pent (atomic_add (set_pent t
          (page_entry (t.dom.page_table (lv1ent_offset (iova % 2 ^ 64))) (iova % 2 ^ 64))
          (make_sysmmu_pte paddr SPAGE_FLAG (page_attr prot))) (lv1ent_offset (iova % 2 ^ 64)) 1)
          (page_entry (t.dom.page_table (lv1ent_offset (iova % 2 ^ 64))) (iova % 2 ^ 64)) 0)
          (lv1ent_offset (iova % 2 ^ 64)) (-1)) x
          (by simp only [atomic_add, atomic_set, set_pent, hx, page_entry, hx', if_true,
                Nat.zero_mod]) with h | h
      · exact h
      · simp only [atomic_add, atomic_set, set_pent, hx] at h
        exact absurd h h2
    · rw [lv2set_page_spage_fail _ _ _ _ _ he] at hret
      simp [hE] at hret
  · have hi' : iova % 65536 = 0 := hi
    have hne : LPAGE_SIZE ≠ SPAGE_SIZE := by decide
    have h16 : SPAGES_PER_LPAGE = 16 := by decide
    by_cases hall : ∀ j, j < 16 → t.slpt (page_entry (t.dom.page_table
        (lv1ent_offset (iova % 2 ^ 64))) (iova % 2 ^ 64) + 4 * j) % 4 = 0
    · rw [lv2set_page_lpage_ok _ _ _ _ _ _ hne hall]
      have hm := make_lpage_pte_mod paddr prot hp'
      have hent : (atomic_add (fill_lv2 t (page_entry (t.dom.page_table
          (lv1ent_offset (iova % 2 ^ 64))) (iova % 2 ^ 64)) 16
          (make_sysmmu_pte paddr LPAGE_FLAG (page_attr prot))) (lv1ent_offset (iova % 2 ^ 64))
          16).slpt (page_entry (t.dom.page_table (lv1ent_offset (iova % 2 ^ 64)))
            (iova % 2 ^ 64)) = make_sysmmu_pte paddr LPAGE_FLAG (page_attr prot) := by
        simp only [atomic_add, atomic_set, fill_lv2]
        rw [if_pos (by omega)]
      rw [unmap_page_large add _ iova LPAGE_SIZE g
        (by simpa only [atomic_add, atomic_set, fill_lv2] using h0)
        (by simpa only [atomic_add, atomic_set, fill_lv2] using h2)
        (by
          have e1 : (atomic_add (fill_lv2 t (page_entry (t.dom.page_table
              (lv1ent_offset (iova % 2 ^ 64))) (iova % 2 ^ 64)) 16
              (make_sysmmu_pte paddr LPAGE_FLAG (page_attr prot)))
              (lv1ent_offset (iova % 2 ^ 64)) 16).dom.page_table = t.dom.page_table := rfl
          rw [e1, hent, hm]; omega)
        (by
          have e1 : (atomic_add (fill_lv2 t (page_entry (t.dom.page_table
              (lv1ent_offset (iova % 2 ^ 64))) (iova % 2 ^ 64)) 16
              (make_sysmmu_pte paddr LPAGE_FLAG (page_attr prot)))
              (lv1ent_offset (iova % 2 ^ 64)) 16).dom.page_table = t.dom.page_table := rfl
          rw [e1, hent, hm]; omega)
        (by omega)]
      refine ⟨rfl, ?_⟩
      intro x hx1 hx2
      have hL : LPAGE_SIZE = 65536 := rfl
      have hx : lv1ent_offset (x % 2 ^ 64) = lv1ent_offset (iova % 2 ^ 64) := by
        rw [lv1ent_offset_eq, lv1ent_offset_eq]
        omega
      have hx' : lv2ent_offset (iova % 2 ^ 64) ≤ lv2ent_offset (x % 2 ^ 64) ∧
          lv2ent_offset (x % 2 ^ 64) < lv2ent_offset (iova % 2 ^ 64) + 16 := by
        rw [lv2ent_offset_eq, lv2ent_offset_eq]
        omega
      rcases translate_page_zero (atomic_add (clear_lv2_page_table (atomic_add (fill_lv2 t
          (page_entry (t.dom.page_table (lv1ent_offset (iova % 2 ^ 64))) (iova % 2 ^ 64)) 16
          (make_sysmmu_pte paddr LPAGE_FLAG (page_attr prot))) (lv1ent_offset (iova % 2 ^ 64)) 16)
          (page_entry (t.dom.page_table (lv1ent_offset (iova % 2 ^ 64))) (iova % 2 ^ 64))
          SPAGES_PER_LPAGE) (lv1ent_offset (iova % 2 ^ 64)) (-(SPAGES_PER_LPAGE : Int))) x
          (by simp only [atomic_add, atomic_set, clear_lv2_page_table, fill_lv2, hx, page_entry,
                h16]
              rw [if_pos (by omega)]) with h | h
      · exact h
      · simp only [atomic_add, atomic_set, clear_lv2_page_table, fill_lv2, hx] at h
        exact absurd h h2
    · obtain ⟨j, hj, hok, hbad⟩ := exists_first_fail _ 16 hall
      rw [lv2set_page_lpage_fail _ _ _ _ _ _ j hne hj hok hbad] at hret
      simp [hE] at hret

/-- C2 as amended: round trip. In every domain state, for each of the three sizes, an
`iova` aligned to the size and a page-aligned `paddr` (the alignment `iommu_map` checks
before it calls the driver): when `samsung_sysmmu_map` succeeds, the `samsung_sysmmu_unmap` of
the same range that follows returns the size, and afterwards no address of the range
translates. -/
theorem map_unmap_roundtrip {γ : Type} (add : γ → Nat → Nat → γ) (s : pgtable_state)
    (iova paddr size prot : Nat) (alloc : Option Nat) (g : γ)
    (hsize : size = SPAGE_SIZE ∨ size = LPAGE_SIZE ∨ size = SECT_SIZE)
    (hi : iova % size = 0) (hp : paddr % SPAGE_SIZE = 0)
    (hmap : (samsung_sysmmu_map s iova paddr size prot alloc).1 = 0) :
    (samsung_sysmmu_unmap add (samsung_sysmmu_map s iova paddr size prot alloc).2
      iova size g).1 = size ∧
    ∀ x, iova ≤ x → x < iova + size →
      samsung_sysmmu_iova_to_phys (samsung_sysmmu_unmap add
        (samsung_sysmmu_map s iova paddr size prot alloc).2 iova size g).2.1 x = 0 := by
  have hE : EADDRINUSE = 98 := rfl
  have hM : ENOMEM = 12 := rfl
  have hp' : paddr % 4096 = 0 := hp
  by_cases hS : size = SECT_SIZE
  · subst hS
    have hi' : iova % 1048576 = 0 := hi
    have hpte := make_sect_pte_mod paddr (priv_prot prot) hp'
    rw [map_section_eq] at hmap ⊢
    have key : ∀ t : pgtable_state,
        t.dom.page_table (lv1ent_offset (iova % 2 ^ 64)) % 8 = 2 →
        (samsung_sysmmu_unmap add t iova SECT_SIZE g).1 = SECT_SIZE ∧
        ∀ x, iova ≤ x → x < iova + SECT_SIZE →
          samsung_sysmmu_iova_to_phys (samsung_sysmmu_unmap add t iova SECT_SIZE g).2.1 x = 0 := by
      intro t ht
      rw [unmap_section add t iova SECT_SIZE g ht (by omega)]
      refine ⟨rfl, ?_⟩
      intro x hx1 hx2
      have hx : lv1ent_offset (x % 2 ^ 64) = lv1ent_offset (iova % 2 ^ 64) := by
        rw [lv1ent_offset_eq, lv1ent_offset_eq]
        have : SECT_SIZE = 1048576 := rfl
        omega
      apply translate_none <;> simp only [set_sent, hx, if_true] <;> omega
    by_cases h2 : s.dom.page_table (lv1ent_offset (iova % 2 ^ 64)) % 8 = 2
    · rw [lv1set_section_inuse _ _ _ _ _ _ (Or.inl h2)] at hmap
      simp [hE] at hmap
    · by_cases h1 : s.dom.page_table (lv1ent_offset (iova % 2 ^ 64)) % 8 = 1
      · by_cases hc : s.dom.lv2entcnt (lv1ent_offset (iova % 2 ^ 64)) = 0
        · rw [lv1set_section_replace _ _ _ _ _ _ h1 hc]
          apply key
          simp only [set_sent, atomic_set, kmem_cache_free, if_true]
          exact hpte
        · rw [lv1set_section_inuse _ _ _ _ _ _ (Or.inr ⟨h1, hc⟩)] at hmap
          simp [hE] at hmap
      · rw [lv1set_section_plain _ _ _ _ _ _ h1 h2]
        apply key
        simp only [set_sent, if_true]
        exact hpte
  · have hsize' : size = SPAGE_SIZE ∨ size = LPAGE_SIZE := by
      rcases hsize with h | h | h
      · exact Or.inl h
      · exact Or.inr h
      · exact absurd h hS
    by_cases h2 : s.dom.page_table (lv1ent_offset (iova % 2 ^ 64)) % 8 = 2
    · rw [map_page_err _ _ _ _ _ _ _ _ hS (alloc_lv2entry_section _ _ _ _ _ h2)] at hmap
      simp [hE] at hmap
    · by_cases h0 : s.dom.page_table (lv1ent_offset (iova % 2 ^ 64)) % 8 = 0
      · cases alloc with
        | none =>
          rw [map_page_err _ _ _ _ _ _ _ _ hS (alloc_lv2entry_nomem _ _ _ _ h0)] at hmap
          simp [hM] at hmap
        | some p =>
          have hslot : (atomic_set (set_sent (kmem_cache_zalloc s p)
              (lv1ent_offset (iova % 2 ^ 64)) (make_sysmmu_pte p SLPD_FLAG 0))
              (lv1ent_offset (iova % 2 ^ 64)) 0).dom.page_table (lv1ent_offset (iova % 2 ^ 64)) =
              make_sysmmu_pte p SLPD_FLAG 0 := by
            simp only [atomic_set, set_sent, if_true]
          have hodd := make_slpd_pte_odd p
          rw [map_page_ok _ _ _ _ _ _ _ _ hS (alloc_lv2entry_fresh _ _ _ _ _ h0)] at hmap ⊢
          have := roundtrip_page add (atomic_set (set_sent (kmem_cache_zalloc s p)
              (lv1ent_offset (iova % 2 ^ 64)) (make_sysmmu_pte p SLPD_FLAG 0))
              (lv1ent_offset (iova % 2 ^ 64)) 0) iova paddr size (priv_prot prot) g hsize' hi hp
              (by rw [hslot]; omega) (by rw [hslot]; omega)
              (by rw [hslot]; exact hmap)
          rw [hslot] at this
          exact this
      · rw [map_page_ok _ _ _ _ _ _ _ _ hS (alloc_lv2entry_resident _ _ _ _ _ h0 h2)] at hmap ⊢
        exact roundtrip_page add s iova paddr size (priv_prot prot) g hsize' hi hp h0 h2 hmap

/-! ## Frame -/

/-- What `lv2set_page` can change: words of the run from `pent` on, and a counter. -/
theorem lv2set_page_footprint (t : pgtable_state) (pent paddr size prot pgcnt : Nat) :
    (lv2set_page t pent paddr size prot pgcnt).2.dom.page_table = t.dom.page_table ∧
    (lv2set_page t pent paddr size prot pgcnt).2.slpt_objs = t.slpt_objs ∧
    ∀ a, ¬ (pent ≤ a ∧ a < pent + 4 * (if size = SPAGE_SIZE then 1 else 16)) →
      (lv2set_page t pent paddr size prot pgcnt).2.slpt a = t.slpt a := by
  by_cases hs : size = SPAGE_SIZE
  · subst hs
    by_cases he : t.slpt pent % 4 = 0
    · rw [lv2set_page_spage_ok _ _ _ _ _ he]
      refine ⟨rfl, rfl, ?_⟩
      intro a ha
      simp only [if_true] at ha
      simp only [atomic_add, atomic_set, set_pent]
      rw [if_neg (by omega)]
    · rw [lv2set_page_spage_fail _ _ _ _ _ he]
      exact ⟨rfl, rfl, fun _ _ => rfl⟩
  · by_cases hall : ∀ j, j < 16 → t.slpt (pent + 4 * j) % 4 = 0
    · rw [lv2set_page_lpage_ok _ _ _ _ _ _ hs hall]
      refine ⟨rfl, rfl, ?_⟩
      intro a ha
      simp only [hs, if_false] at ha
      simp only [atomic_add, atomic_set, fill_lv2]
      rw [if_neg (by omega)]
    · obtain ⟨j, hj, hok, hbad⟩ := exists_first_fail _ 16 hall
      rw [lv2set_page_lpage_fail _ _ _ _ _ _ j hs hj hok hbad]
      refine ⟨rfl, rfl, ?_⟩
      intro a ha
      simp only [hs, if_false] at ha
      simp only [clear_lv2_page_table, fill_lv2]
      rw [if_neg (by omega), if_neg (by omega)]

/-- Translation reads one level-1 slot and, through a sub-table reference, one entry. -/
theorem translate_congr (s s' : pgtable_state) (x : Nat)
    (h1 : s'.dom.page_table (lv1ent_offset (x % 2 ^ 64)) =
      s.dom.page_table (lv1ent_offset (x % 2 ^ 64)))
    (h2 : s.dom.page_table (lv1ent_offset (x % 2 ^ 64)) % 8 = 1 →
      s'.slpt (page_entry (s.dom.page_table (lv1ent_offset (x % 2 ^ 64))) (x % 2 ^ 64)) =
        s.slpt (page_entry (s.dom.page_table (lv1ent_offset (x % 2 ^ 64))) (x % 2 ^ 64))) :
    samsung_sysmmu_iova_to_phys s' x = samsung_sysmmu_iova_to_phys s x := by
  by_cases hp : s.dom.page_table (lv1ent_offset (x % 2 ^ 64)) % 8 = 1
  · rw [translate_page s' x (by rw [h1]; exact hp), translate_page s x hp, h1, h2 hp]
  · simp only [samsung_sysmmu_iova_to_phys, h1]
    have : lv1ent_page (s.dom.page_table (lv1ent_offset (x % 2 ^ 64))) = false := by
      rw [← Bool.not_eq_true, lv1ent_page_iff]; exact hp
    simp only [this, Bool.false_eq_true, if_false]

/-- Addresses outside a naturally aligned range do not reach the entries of the range
in the sub-table of its slot. -/
theorem entry_outside_range (s : pgtable_state) (hinv : pt_inv s) (iova size m x : Nat)
    (hv : valid_pgsize size) (hi : iova % size = 0)
    (hm : m * 4096 ≤ size) (hout : x < iova ∨ iova + size ≤ x)
    (hpi : s.dom.page_table (lv1ent_offset iova) % 8 = 1)
    (hpx : s.dom.page_table (lv1ent_offset x) % 8 = 1) :
    ¬ (page_entry (s.dom.page_table (lv1ent_offset iova)) iova ≤
        page_entry (s.dom.page_table (lv1ent_offset x)) x ∧
      page_entry (s.dom.page_table (lv1ent_offset x)) x <
        page_entry (s.dom.page_table (lv1ent_offset iova)) iova + 4 * m) := by
  obtain ⟨-, -, hinj⟩ := hinv
  by_cases hsame : lv1ent_offset x = lv1ent_offset iova
  · rw [hsame]
    simp only [page_entry, lv2ent_offset_eq]
    rw [lv1ent_offset_eq, lv1ent_offset_eq] at hsame
    rcases hv with h | h | h <;> rw [h] at hi hm hout <;>
      simp only [SPAGE_SIZE, LPAGE_SIZE, SECT_SIZE] at hi hm hout <;> omega
  · have hne : lv2table_base (s.dom.page_table (lv1ent_offset x)) ≠
        lv2table_base (s.dom.page_table (lv1ent_offset iova)) :=
      fun h => hsame (hinj _ _ hpx hpi h)
    have a1 := lv2table_base_aligned (s.dom.page_table (lv1ent_offset x))
    have a2 := lv2table_base_aligned (s.dom.page_table (lv1ent_offset iova))
    simp only [page_entry, lv2ent_offset_eq]
    rcases hv with h | h | h <;> rw [h] at hi hm hout <;>
      simp only [SPAGE_SIZE, LPAGE_SIZE, SECT_SIZE] at hi hm hout <;> omega

theorem pt_inv_of_same (s s' : pgtable_state) (h1 : s'.dom.page_table = s.dom.page_table)
    (h2 : s'.slpt_objs = s.slpt_objs) (h : pt_inv s) : pt_inv s' := by
  unfold pt_inv at h ⊢
  rw [h1, h2]
  exact h

/-- Writing a Section or clearing a slot, after the sub-table it referenced (if any) was
freed, keeps the shape of the level-1 table. -/
theorem pt_inv_set_plain (s s' : pgtable_state) (i v : Nat) (h : pt_inv s)
    (hv : v % 8 = 0 ∨ v % 8 = 2)
    (h1 : s'.dom.page_table = fun j => if j = i then v else s.dom.page_table j)
    (h2 : s'.slpt_objs = s.slpt_objs ∨
      (s.dom.page_table i % 8 = 1 ∧
        s'.slpt_objs = s.slpt_objs.filter (fun o => o != lv2table_base (s.dom.page_table i)))) :
    pt_inv s' := by
  obtain ⟨ha, hb, hc⟩ := h
  unfold pt_inv
  rw [h1]
  refine ⟨?_, ?_, ?_⟩
  · intro j
    by_cases hj : j = i
    · simp only [hj, if_true]; omega
    · simp only [hj, if_false]; exact ha j
  · intro j
    by_cases hj : j = i
    · simp only [hj, if_true]; omega
    · simp only [hj, if_false]
      intro hpj
      rcases h2 with h2 | ⟨hpi, h2⟩
      · rw [h2]; exact hb j hpj
      · rw [h2, List.mem_filter]
        refine ⟨hb j hpj, ?_⟩
        simp only [bne_iff_ne, ne_eq]
        intro heq
        exact hj (hc j i hpj hpi heq)
  · intro j k
    by_cases hj : j = i
    · simp only [hj, if_true]; omega
    · by_cases hk : k = i
      · simp only [hk, if_true]; omega
      · simp only [hj, hk, if_false]
        exact hc j k

/-- Installing a reference to a fresh object of the cache keeps the shape of the level-1
table. -/
theorem pt_inv_alloc (s s' : pgtable_state) (i p : Nat) (h : pt_inv s)
    (hp : p % 1024 = 0) (hp36 : p < 2 ^ 36) (hfresh : p ∉ s.slpt_objs)
    (h1 : s'.dom.page_table =
      fun j => if j = i then make_sysmmu_pte p SLPD_FLAG 0 else s.dom.page_table j)
    (h2 : s'.slpt_objs = p :: s.slpt_objs) :
    pt_inv s' := by
  obtain ⟨ha, hb, hc⟩ := h
  have hbase := lv2table_base_make p hp hp36
  have hmod : make_sysmmu_pte p SLPD_FLAG 0 % 8 = 1 := by
    rw [make_sysmmu_pte_slpd p hp]; omega
  unfold pt_inv
  rw [h1, h2]
  refine ⟨?_, ?_, ?_⟩
  · intro j
    by_cases hj : j = i
    · simp only [hj, if_true]; omega
    · simp only [hj, if_false]; exact ha j
  · intro j
    by_cases hj : j = i
    · simp only [hj, if_true, hbase]
      intro _
      exact List.mem_cons_self _ _
    · simp only [hj, if_false]
      intro hpj
      exact List.mem_cons_of_mem _ (hb j hpj)
  · intro j k
    by_cases hj : j = i
    · by_cases hk : k = i
      · intro _ _ _; rw [hj, hk]
      · simp only [hj, hk, if_true, if_false, hbase]
        intro _ hpk heq
        exact absurd (heq ▸ hb k hpk) hfresh
    · by_cases hk : k = i
      · simp only [hj, hk, if_true, if_false, hbase]
        intro hpj _ heq
        exact absurd (heq ▸ hb j hpj) hfresh
      · simp only [hj, hk, if_false]
        exact hc j k

theorem page_entry_zero (e : Nat) : page_entry e 0 = lv2table_base e := by
  unfold page_entry
  rw [lv2ent_offset_eq]
  norm_num

theorem pt_inv_map (s : pgtable_state) (iova paddr size prot : Nat) (alloc : Option Nat)
    (h : pt_inv s) (hp : paddr % SPAGE_SIZE = 0) (ha : alloc_ok s alloc) :
    pt_inv (samsung_sysmmu_map s iova paddr size prot alloc).2 := by
  have hp' : paddr % 4096 = 0 := hp
  by_cases hS : size = SECT_SIZE
  · subst hS
    rw [map_section_eq]
    have hpte := make_sect_pte_mod paddr (priv_prot prot) hp'
    by_cases h2 : s.dom.page_table (lv1ent_offset (iova % 2 ^ 64)) % 8 = 2
    · rw [lv1set_section_inuse _ _ _ _ _ _ (Or.inl h2)]; exact h
    · by_cases h1 : s.dom.page_table (lv1ent_offset (iova % 2 ^ 64)) % 8 = 1
      · by_cases hc : s.dom.lv2entcnt (lv1ent_offset (iova % 2 ^ 64)) = 0
        · rw [lv1set_section_replace _ _ _ _ _ _ h1 hc]
          exact pt_inv_set_plain s _ _ _ h (Or.inr hpte) rfl
            (Or.inr ⟨h1, by simp only [set_sent, atomic_set, kmem_cache_free, page_entry_zero]⟩)
        · rw [lv1set_section_inuse _ _ _ _ _ _ (Or.inr ⟨h1, hc⟩)]; exact h
      · rw [lv1set_section_plain _ _ _ _ _ _ h1 h2]
        exact pt_inv_set_plain s _ _ _ h (Or.inr hpte) rfl (Or.inl rfl)
  · by_cases h2 : s.dom.page_table (lv1ent_offset (iova % 2 ^ 64)) % 8 = 2
    · rw [map_page_err _ _ _ _ _ _ _ _ hS (alloc_lv2entry_section _ _ _ _ _ h2)]; exact h
    · by_cases h0 : s.dom.page_table (lv1ent_offset (iova % 2 ^ 64)) % 8 = 0
      · cases alloc with
        | none =>
          rw [map_page_err _ _ _ _ _ _ _ _ hS (alloc_lv2entry_nomem _ _ _ _ h0)]; exact h
        | some p =>
          obtain ⟨hp1, hp2, hp3⟩ : p % LV2TABLE_SIZE = 0 ∧ p < 2 ^ 36 ∧ p ∉ s.slpt_objs := ha
          rw [map_page_ok _ _ _ _ _ _ _ _ hS (alloc_lv2entry_fresh _ _ _ _ _ h0)]
          obtain ⟨f1, f2, -⟩ := lv2set_page_footprint (atomic_set (set_sent (kmem_cache_zalloc s p)
            (lv1ent_offset (iova % 2 ^ 64)) (make_sysmmu_pte p SLPD_FLAG 0))
            (lv1ent_offset (iova % 2 ^ 64)) 0)
            (page_entry (make_sysmmu_pte p SLPD_FLAG 0) (iova % 2 ^ 64)) paddr size
            (priv_prot prot) (lv1ent_offset (iova % 2 ^ 64))
          exact pt_inv_alloc s _ (lv1ent_offset (iova % 2 ^ 64)) p h hp1 hp2 hp3
            (by rw [f1]; rfl) (by rw [f2]; rfl)
      · rw [map_page_ok _ _ _ _ _ _ _ _ hS (alloc_lv2entry_resident _ _ _ _ _ h0 h2)]
        obtain ⟨f1, f2, -⟩ := lv2set_page_footprint s
          (page_entry (s.dom.page_table (lv1ent_offset (iova % 2 ^ 64))) (iova % 2 ^ 64)) paddr
          size (priv_prot prot) (lv1ent_offset (iova % 2 ^ 64))
        exact pt_inv_of_same s _ f1 f2 h

theorem pt_inv_unmap {γ : Type} (add : γ → Nat → Nat → γ) (s : pgtable_state)
    (iova size : Nat) (g : γ) (h : pt_inv s) :
    pt_inv (samsung_sysmmu_unmap add s iova size g).2.1 := by
  by_cases h2 : s.dom.page_table (lv1ent_offset (iova % 2 ^ 64)) % 8 = 2
  · by_cases hs : size < SECT_SIZE
    · rw [unmap_section_short add s iova size g h2 hs]; exact h
    · rw [unmap_section add s iova size g h2 hs]
      exact pt_inv_set_plain s _ _ 0 h (Or.inl rfl) rfl (Or.inl rfl)
  · by_cases h0 : s.dom.page_table (lv1ent_offset (iova % 2 ^ 64)) % 8 = 0
    · rw [unmap_unmapped add s iova size g h0]; exact h
    · by_cases he0 : s.slpt (page_entry (s.dom.page_table (lv1ent_offset (iova % 2 ^ 64)))
          (iova % 2 ^ 64)) % 4 = 0
      · rw [unmap_page_unmapped add s iova size g h0 h2 he0]; exact h
      · by_cases he2 : s.slpt (page_entry (s.dom.page_table (lv1ent_offset (iova % 2 ^ 64)))
            (iova % 2 ^ 64)) % 4 = 2
        · rw [unmap_page_small add s iova size g h0 h2 he2]
          exact pt_inv_of_same s _ rfl rfl h
        · by_cases hs : size < LPAGE_SIZE
          · rw [unmap_page_large_short add s iova size g h0 h2 he0 he2 hs]; exact h
          · rw [unmap_page_large add s iova size g h0 h2 he0 he2 hs]
            exact pt_inv_of_same s _ rfl rfl h

/-- Every reachable state has a well-shaped level-1 table. -/
theorem reachable_pt_inv (s : pgtable_state) (h : reachable s) : pt_inv s := by
  induction h with
  | fresh type latch k f c r d slpt objs hd =>
    obtain ⟨hpt, -, -⟩ := domain_alloc_fresh _ _ _ _ _ _ _ hd
    unfold pt_inv
    simp only [hpt]
    exact ⟨fun _ => by omega, fun _ h => by omega, fun _ _ h => by omega⟩
  | map s iova paddr size prot alloc _ _ _ hp ha ih => exact pt_inv_map s _ _ _ _ _ ih hp ha
  | unmap add s iova size g _ _ _ ih => exact pt_inv_unmap add s _ _ g ih

theorem frame_unmap {γ : Type} (add : γ → Nat → Nat → γ) (s : pgtable_state) (hinv : pt_inv s)
    (iova size : Nat) (g : γ) (x : Nat) (hv : valid_pgsize size) (hi : iova % size = 0)
    (hi64 : iova < 2 ^ 64) (hx64 : x < 2 ^ 64) (hout : x < iova ∨ iova + size ≤ x) :
    samsung_sysmmu_iova_to_phys (samsung_sysmmu_unmap add s iova size g).2.1 x =
      samsung_sysmmu_iova_to_phys s x := by
  have hx : x % 2 ^ 64 = x := Nat.mod_eq_of_lt hx64
  have hiv : iova % 2 ^ 64 = iova := Nat.mod_eq_of_lt hi64
  have hpos : 4096 ≤ size := by
    rcases hv with h | h | h <;> rw [h] <;> decide
  by_cases h2 : s.dom.page_table (lv1ent_offset (iova % 2 ^ 64)) % 8 = 2
  · by_cases hs : size < SECT_SIZE
    · rw [unmap_section_short add s iova size g h2 hs]
    · rw [unmap_section add s iova size g h2 hs]
      have hsz : size = SECT_SIZE := by
        rcases hv with h | h | h
        · rw [h] at hs; exact absurd (by decide) hs
        · rw [h] at hs; exact absurd (by decide) hs
        · exact h
      have hne : lv1ent_offset x ≠ lv1ent_offset iova := by
        rw [lv1ent_offset_eq, lv1ent_offset_eq]
        rw [hsz] at hi hout
        simp only [SECT_SIZE] at hi hout
        omega
      apply translate_congr
      · simp only [set_sent, hx, hiv, hne, if_false]
      · intro _; rfl
  · by_cases h0 : s.dom.page_table (lv1ent_offset (iova % 2 ^ 64)) % 8 = 0
    · rw [unmap_unmapped add s iova size g h0]
    · have h1 : s.dom.page_table (lv1ent_offset iova) % 8 = 1 := by
        have := hinv.1 (lv1ent_offset (iova % 2 ^ 64))
        rw [hiv] at this h0 h2
        omega
      by_cases he0 : s.slpt (page_entry (s.dom.page_table (lv1ent_offset (iova % 2 ^ 64)))
          (iova % 2 ^ 64)) % 4 = 0
      · rw [unmap_page_unmapped add s iova size g h0 h2 he0]
      · by_cases he2 : s.slpt (page_entry (s.dom.page_table (lv1ent_offset (iova % 2 ^ 64)))
            (iova % 2 ^ 64)) % 4 = 2
        · rw [unmap_page_small add s iova size g h0 h2 he2]
          apply translate_congr
          · rfl
          · intro hpx
            rw [hx] at hpx ⊢
            have := entry_outside_range s hinv iova size 1 x hv hi (by omega) hout h1 hpx
            simp only [atomic_add, atomic_set, set_pent, hiv]
            rw [if_neg (by omega)]
        · by_cases hs : size < LPAGE_SIZE
          · rw [unmap_page_large_short add s iova size g h0 h2 he0 he2 hs]
          · rw [unmap_page_large add s iova size g h0 h2 he0 he2 hs]
            apply translate_congr
            · rfl
            · intro hpx
              rw [hx] at hpx ⊢
              have hL : LPAGE_SIZE = 65536 := rfl
              have h16 : SPAGES_PER_LPAGE = 16 := by decide
              have := entry_outside_range s hinv iova size 16 x hv hi (by omega) hout h1 hpx
              simp only [atomic_add, atomic_set, clear_lv2_page_table, hiv, h16]
              rw [if_neg (by omega)]

theorem frame_map (s : pgtable_state) (hinv : pt_inv s) (iova paddr size prot : Nat)
    (alloc : Option Nat) (x : Nat) (hv : valid_pgsize size) (hi : iova % size = 0)
    (hi64 : iova < 2 ^ 64) (hx64 : x < 2 ^ 64) (ha : alloc_ok s alloc)
    (hout : x < iova ∨ iova + size ≤ x) :
    samsung_sysmmu_iova_to_phys (samsung_sysmmu_map s iova paddr size prot alloc).2 x =
      samsung_sysmmu_iova_to_phys s x := by
  have hx : x % 2 ^ 64 = x := Nat.mod_eq_of_lt hx64
  have hiv : iova % 2 ^ 64 = iova := Nat.mod_eq_of_lt hi64
  by_cases hS : size = SECT_SIZE
  · subst hS
    rw [map_section_eq]
    have hne : lv1ent_offset x ≠ lv1ent_offset iova := by
      rw [lv1ent_offset_eq, lv1ent_offset_eq]
      simp only [SECT_SIZE] at hi hout
      omega
    by_cases h2 : s.dom.page_table (lv1ent_offset (iova % 2 ^ 64)) % 8 = 2
    · rw [lv1set_section_inuse _ _ _ _ _ _ (Or.inl h2)]
    · by_cases h1 : s.dom.page_table (lv1ent_offset (iova % 2 ^ 64)) % 8 = 1
      · by_cases hc : s.dom.lv2entcnt (lv1ent_offset (iova % 2 ^ 64)) = 0
        · rw [lv1set_section_replace _ _ _ _ _ _ h1 hc]
          apply translate_congr
          · simp only [set_sent, atomic_set, kmem_cache_free, hx, hiv, hne, if_false]
          · intro _; rfl
        · rw [lv1set_section_inuse _ _ _ _ _ _ (Or.inr ⟨h1, hc⟩)]
      · rw [lv1set_section_plain _ _ _ _ _ _ h1 h2]
        apply translate_congr
        · simp only [set_sent, hx, hiv, hne, if_false]
        · intro _; rfl
  · have hm : (if size = SPAGE_SIZE then 1 else 16) * 4096 ≤ size := by
      rcases hv with h | h | h
      · rw [h]; decide
      · rw [h]; decide
      · exact absurd h hS
    by_cases h2 : s.dom.page_table (lv1ent_offset (iova % 2 ^ 64)) % 8 = 2
    · rw [map_page_err _ _ _ _ _ _ _ _ hS (alloc_lv2entry_section _ _ _ _ _ h2)]
    · by_cases h0 : s.dom.page_table (lv1ent_offset (iova % 2 ^ 64)) % 8 = 0
      · cases alloc with
        | none => rw [map_page_err _ _ _ _ _ _ _ _ hS (alloc_lv2entry_nomem _ _ _ _ h0)]
        | some p =>
          obtain ⟨hp1, hp2, hp3⟩ : p % LV2TABLE_SIZE = 0 ∧ p < 2 ^ 36 ∧ p ∉ s.slpt_objs := ha
          have hp1' : p % 1024 = 0 := hp1
          have hbase := lv2table_base_make p hp1' hp2
          have hodd := make_slpd_pte_odd p
          rw [map_page_ok _ _ _ _ _ _ _ _ hS (alloc_lv2entry_fresh _ _ _ _ _ h0)]
          obtain ⟨f1, -, f3⟩ := lv2set_page_footprint (atomic_set (set_sent (kmem_cache_zalloc s p)
            (lv1ent_offset (iova % 2 ^ 64)) (make_sysmmu_pte p SLPD_FLAG 0))
            (lv1ent_offset (iova % 2 ^ 64)) 0)
            (page_entry (make_sysmmu_pte p SLPD_FLAG 0) (iova % 2 ^ 64)) paddr size
            (priv_prot prot) (lv1ent_offset (iova % 2 ^ 64))
          rw [hiv] at f1 f3 h0 ⊢
          have hl2 := lv2ent_offset_lt iova
          have hl2x := lv2ent_offset_lt x
          have hrun : lv2ent_offset iova + (if size = SPAGE_SIZE then 1 else 16) ≤ 256 := by
            rw [lv2ent_offset_eq]
            rcases hv with h | h | h
            · rw [h]; simp only [if_true]; omega
            · rw [h] at hi ⊢
              simp only [LPAGE_SIZE, SPAGE_SIZE] at hi ⊢
              norm_num
              omega
            · exact absurd h hS
          by_cases hsame : lv1ent_offset x = lv1ent_offset iova
          · -- the slot of `x` is the one that received the fresh sub-table
            rw [translate_none s x (by rw [hx, hsame]; omega) (by rw [hx, hsame]; omega)]
            have hslot : (lv2set_page (atomic_set (set_sent (kmem_cache_zalloc s p)
                (lv1ent_offset iova) (make_sysmmu_pte p SLPD_FLAG 0)) (lv1ent_offset iova) 0)
                (page_entry (make_sysmmu_pte p SLPD_FLAG 0) iova) paddr size (priv_prot prot)
                (lv1ent_offset iova)).2.dom.page_table (lv1ent_offset (x % 2 ^ 64)) =
                make_sysmmu_pte p SLPD_FLAG 0 := by
              rw [f1, hx, hsame]
              simp only [atomic_set, set_sent, if_true]
            have hnot : ¬ (page_entry (make_sysmmu_pte p SLPD_FLAG 0) iova ≤
                  page_entry (make_sysmmu_pte p SLPD_FLAG 0) x ∧
                page_entry (make_sysmmu_pte p SLPD_FLAG 0) x <
                  page_entry (make_sysmmu_pte p SLPD_FLAG 0) iova +
                    4 * (if size = SPAGE_SIZE then 1 else 16)) := by
              simp only [page_entry, hbase, lv2ent_offset_eq]
              rw [lv1ent_offset_eq, lv1ent_offset_eq] at hsame
              rcases hv with h | h | h
              · rw [h] at hi hout ⊢
                simp only [SPAGE_SIZE, if_true] at hi hout ⊢
                omega
              · rw [h] at hi hout ⊢
                simp only [LPAGE_SIZE, SPAGE_SIZE] at hi hout ⊢
                norm_num
                omega
              · exact absurd h hS
            rcases translate_page_zero _ x (by
              rw [hslot, hx, f3 _ hnot]
              simp only [atomic_set, set_sent, kmem_cache_zalloc, page_entry, hbase,
                LV2TABLE_SIZE, NUM_LV2ENTRIES, SECT_SIZE, SPAGE_SIZE]
              rw [if_pos (by omega)]) with h | h
            · exact h
            · rw [hslot] at h; omega
          · apply translate_congr
            · rw [f1, hx]
              simp only [atomic_set, set_sent, kmem_cache_zalloc, hsame, if_false]
            · intro hpx
              rw [hx] at hpx ⊢
              have hmem := hinv.2.1 _ hpx
              have hne : lv2table_base (s.dom.page_table (lv1ent_offset x)) ≠ p :=
                fun h => hp3 (h ▸ hmem)
              have a1 := lv2table_base_aligned (s.dom.page_table (lv1ent_offset x))
              have hnot : ¬ (page_entry (make_sysmmu_pte p SLPD_FLAG 0) iova ≤
                    page_entry (s.dom.page_table (lv1ent_offset x)) x ∧
                  page_entry (s.dom.page_table (lv1ent_offset x)) x <
                    page_entry (make_sysmmu_pte p SLPD_FLAG 0) iova +
                      4 * (if size = SPAGE_SIZE then 1 else 16)) := by
                simp only [page_entry, hbase]
                omega
              rw [f3 _ hnot]
              simp only [atomic_set, set_sent, kmem_cache_zalloc, page_entry,
                LV2TABLE_SIZE, NUM_LV2ENTRIES, SECT_SIZE, SPAGE_SIZE]
              rw [if_neg (by omega)]
      · have h1 : s.dom.page_table (lv1ent_offset iova) % 8 = 1 := by
          have := hinv.1 (lv1ent_offset (iova % 2 ^ 64))
          rw [hiv] at this h0 h2
          omega
        rw [map_page_ok _ _ _ _ _ _ _ _ hS (alloc_lv2entry_resident _ _ _ _ _ h0 h2)]
        obtain ⟨f1, -, f3⟩ := lv2set_page_footprint s
          (page_entry (s.dom.page_table (lv1ent_offset (iova % 2 ^ 64))) (iova % 2 ^ 64)) paddr
          size (priv_prot prot) (lv1ent_offset (iova % 2 ^ 64))
        rw [hiv] at f1 f3 ⊢
        apply translate_congr
        · rw [f1]
        · intro hpx
          rw [hx] at hpx ⊢
          exact f3 _ (entry_outside_range s hinv iova size _ x hv hi hm hout h1 hpx)

/-- C3 as amended: frame property of map and unmap. In every state reachable from a fresh
domain by calls with a size of `pgsize_bitmap`, an `iova` aligned to it and a
page-aligned physical address, a further `samsung_sysmmu_map` or `samsung_sysmmu_unmap`
call on the range
`[iova, iova + size)`, with a size of `pgsize_bitmap` and `iova` aligned to it, leaves
the translation of every address `x` outside the range as it was, whether the call
succeeds or fails. `iova` is an `unsigned long` and `x` a `dma_addr_t`. -/
theorem map_unmap_frame (s : pgtable_state) (hr : reachable s) (iova size x : Nat)
    (hv : valid_pgsize size) (hi : iova % size = 0) (hi64 : iova < 2 ^ 64)
    (hx64 : x < 2 ^ 64) (hout : x < iova ∨ iova + size ≤ x) :
    (∀ (paddr prot : Nat) (alloc : Option Nat), alloc_ok s alloc →
      samsung_sysmmu_iova_to_phys (samsung_sysmmu_map s iova paddr size prot alloc).2 x =
        samsung_sysmmu_iova_to_phys s x) ∧
    (∀ (γ : Type) (add : γ → Nat → Nat → γ) (g : γ),
      samsung_sysmmu_iova_to_phys (samsung_sysmmu_unmap add s iova size g).2.1 x =
        samsung_sysmmu_iova_to_phys s x) :=
  ⟨fun paddr prot alloc ha =>
      frame_map s (reachable_pt_inv s hr) iova paddr size prot alloc x hv hi hi64 hx64 ha hout,
    fun _ add g =>
      frame_unmap add s (reachable_pt_inv s hr) iova size g x hv hi hi64 hx64 hout⟩

/-! ## Attach and detach -/

theorem attach_dev_loop_first (hw : sysmmu_regs) (readl : Nat → Nat) (group page_table : Nat)
    (u i : Nat) (sys : sysmmu_system) (h0 : (sys.drvdata u).attached_count = 0) :
    attach_dev_loop hw readl group page_table [u] i sys =
      (false, i + 1,
        { set_drvdata sys u { sys.drvdata u with
              attached_count := (sys.drvdata u).attached_count + 1
              group := some group
              pgtable := page_table } with
          group_list := u :: sys.group_list
          writes :=
            if (sys.drvdata u).pm_active then
              sys.writes ++ __sysmmu_enable hw readl { sys.drvdata u with
                attached_count := (sys.drvdata u).attached_count + 1
                group := some group
                pgtable := page_table }
            else sys.writes }) := by
  simp only [attach_dev_loop, h0, if_true]

theorem attach_dev_loop_again (hw : sysmmu_regs) (readl : Nat → Nat) (group page_table : Nat)
    (u i : Nat) (sys : sysmmu_system) (h0 : (sys.drvdata u).attached_count ≠ 0)
    (hp : (sys.drvdata u).pgtable = page_table) :
    attach_dev_loop hw readl group page_table [u] i sys =
      (false, i + 1, set_drvdata sys u { sys.drvdata u with
        attached_count := (sys.drvdata u).attached_count + 1 }) := by
  simp only [attach_dev_loop, h0, hp, if_false, ne_eq, not_true_eq_false]

theorem attach_dev_loop_conflict (hw : sysmmu_regs) (readl : Nat → Nat)
    (group page_table : Nat) (u i : Nat) (sys : sysmmu_system)
    (h0 : (sys.drvdata u).attached_count ≠ 0) (hp : (sys.drvdata u).pgtable ≠ page_table) :
    attach_dev_loop hw readl group page_table [u] i sys =
      (true, i, set_drvdata sys u { sys.drvdata u with
        attached_count := (sys.drvdata u).attached_count + 1 }) := by
  simp only [attach_dev_loop, h0, hp, if_false, ne_eq, not_false_eq_true, if_true]

/-- A successful attach of a device with the single unit `u`: the first attachment
records the table, links the unit and, on a powered-on unit, programs it; a further
one only counts. -/
theorem attach_dev_single (hw : sysmmu_regs) (readl : Nat → Nat) (sys : sysmmu_system)
    (dom : samsung_sysmmu_domain) (u group : Nat) (window : Option (Nat × Nat))
    (hret : (samsung_sysmmu_attach_dev hw readl sys dom true (some [u]) group window).1 = 0) :
    (samsung_sysmmu_attach_dev hw readl sys dom true (some [u]) group window).2.2.pgtable_base =
      dom.pgtable_base ∧
    (samsung_sysmmu_attach_dev hw readl sys dom true (some [u]) group window).2.1 =
      if (sys.drvdata u).attached_count = 0 then
        { set_drvdata sys u { sys.drvdata u with
              attached_count := (sys.drvdata u).attached_count + 1
              group := some group
              pgtable := dom.pgtable_base } with
          group_list := u :: sys.group_list
          writes :=
            if (sys.drvdata u).pm_active then
              sys.writes ++ __sysmmu_enable hw readl { sys.drvdata u with
                attached_count := (sys.drvdata u).attached_count + 1
                group := some group
                pgtable := dom.pgtable_base }
            else sys.writes }
      else
        set_drvdata sys u { sys.drvdata u with
          attached_count := (sys.drvdata u).attached_count + 1 } := by
  have hV : EINVAL = 22 := rfl
  unfold samsung_sysmmu_attach_dev at hret ⊢
  simp only [Bool.not_true, Bool.false_eq_true, if_false] at hret ⊢
  by_cases h0 : (sys.drvdata u).attached_count = 0
  · rw [attach_dev_loop_first _ _ _ _ _ _ _ h0] at hret ⊢
    simp only at hret ⊢
    by_cases hr : (samsung_sysmmu_set_domain_range dom.geometry window).1 ≠ 0
    · rw [if_pos hr] at hret
      exact absurd hret hr
    · rw [if_neg hr, if_pos h0]
      exact ⟨rfl, rfl⟩
  · by_cases hp : (sys.drvdata u).pgtable = dom.pgtable_base
    · rw [attach_dev_loop_again _ _ _ _ _ _ _ h0 hp] at hret ⊢
      simp only at hret ⊢
      by_cases hr : (samsung_sysmmu_set_domain_range dom.geometry window).1 ≠ 0
      · rw [if_pos hr] at hret
        exact absurd hret hr
      · rw [if_neg hr, if_neg h0]
        exact ⟨rfl, rfl⟩
    · rw [attach_dev_loop_conflict _ _ _ _ _ _ _ h0 hp] at hret
      simp [hV] at hret

theorem detach_dev_single (hw : sysmmu_regs) (sys : sysmmu_system) (u : Nat) :
    samsung_sysmmu_detach_dev hw sys [u] = samsung_sysmmu_detach_drvdata hw sys u := rfl


/-- C10: reference-counted programming of a powered-on unit. Starting from a unit with
`attached_count` 0, two successful attaches of a device whose only unit it is, to the
same domain, followed by two detaches, give the counts 1, 2, 1, 0. The first attach
appends the writes of `__sysmmu_enable` (enable, table base, configuration, full
invalidation); the second attach and the first detach append no write; the last detach
appends the disable command followed by the full invalidation. In general, on a
powered-on unit a successful attach writes exactly when the count was 0 and a detach
exactly when it was 1. -/
theorem attach_detach_refcount (hw : sysmmu_regs) (readl : Nat → Nat) (sys : sysmmu_system)
    (dom : samsung_sysmmu_domain) (u group : Nat) (w1 w2 : Option (Nat × Nat))
    (h0 : (sys.drvdata u).attached_count = 0)
    (hpm : (sys.drvdata u).pm_active = true)
    (hr1 : (samsung_sysmmu_attach_dev hw readl sys dom true (some [u]) group w1).1 = 0)
    (hr2 : (samsung_sysmmu_attach_dev hw readl (samsung_sysmmu_attach_dev hw readl sys dom true (some [u]) group w1).2.1 (samsung_sysmmu_attach_dev hw readl sys dom true (some [u]) group w1).2.2 true (some [u]) group w2).1 = 0) :
    (((samsung_sysmmu_attach_dev hw readl sys dom true (some [u]) group w1).2.1.drvdata u).attached_count = 1 ∧
      ((samsung_sysmmu_attach_dev hw readl (samsung_sysmmu_attach_dev hw readl sys dom true (some [u]) group w1).2.1 (samsung_sysmmu_attach_dev hw readl sys dom true (some [u]) group w1).2.2 true (some [u]) group w2).2.1.drvdata u).attached_count = 2 ∧
      ((samsung_sysmmu_detach_dev hw (samsung_sysmmu_attach_dev hw readl (samsung_sysmmu_attach_dev hw readl sys dom true (some [u]) group w1).2.1 (samsung_sysmmu_attach_dev hw readl sys dom true (some [u]) group w1).2.2 true (some [u]) group w2).2.1 [u]).drvdata u).attached_count = 1 ∧
      ((samsung_sysmmu_detach_dev hw (samsung_sysmmu_detach_dev hw (samsung_sysmmu_attach_dev hw readl (samsung_sysmmu_attach_dev hw readl sys dom true (some [u]) group w1).2.1 (samsung_sysmmu_attach_dev hw readl sys dom true (some [u]) group w1).2.2 true (some [u]) group w2).2.1 [u]) [u]).drvdata u).attached_count = 0) ∧
    (((samsung_sysmmu_attach_dev hw readl sys dom true (some [u]) group w1).2.1.drvdata u).pgtable = dom.pgtable_base ∧
      (samsung_sysmmu_attach_dev hw readl sys dom true (some [u]) group w1).2.1.writes = sys.writes ++
        (__sysmmu_write_all_vm hw ((samsung_sysmmu_attach_dev hw readl sys dom true (some [u]) group w1).2.1.drvdata u) hw.MMU_CTRL_ENABLE
            ((sys.drvdata u).sfrbase + hw.REG_MMU_CTRL_VM) ++
          __sysmmu_write_all_vm hw ((samsung_sysmmu_attach_dev hw readl sys dom true (some [u]) group w1).2.1.drvdata u) (dom.pgtable_base / SPAGE_SIZE)
            ((sys.drvdata u).sfrbase + hw.REG_MMU_CONTEXT0_CFG_FLPT_BASE_VM) ++
          __sysmmu_init_config hw readl ((samsung_sysmmu_attach_dev hw readl sys dom true (some [u]) group w1).2.1.drvdata u) ++
          __sysmmu_invalidate_all hw ((samsung_sysmmu_attach_dev hw readl sys dom true (some [u]) group w1).2.1.drvdata u)) ∧
      (samsung_sysmmu_attach_dev hw readl (samsung_sysmmu_attach_dev hw readl sys dom true (some [u]) group w1).2.1 (samsung_sysmmu_attach_dev hw readl sys dom true (some [u]) group w1).2.2 true (some [u]) group w2).2.1.writes = (samsung_sysmmu_attach_dev hw readl sys dom true (some [u]) group w1).2.1.writes ∧
      (samsung_sysmmu_detach_dev hw (samsung_sysmmu_attach_dev hw readl (samsung_sysmmu_attach_dev hw readl sys dom true (some [u]) group w1).2.1 (samsung_sysmmu_attach_dev hw readl sys dom true (some [u]) group w1).2.2 true (some [u]) group w2).2.1 [u]).writes = (samsung_sysmmu_attach_dev hw readl (samsung_sysmmu_attach_dev hw readl sys dom true (some [u]) group w1).2.1 (samsung_sysmmu_attach_dev hw readl sys dom true (some [u]) group w1).2.2 true (some [u]) group w2).2.1.writes ∧
      (samsung_sysmmu_detach_dev hw (samsung_sysmmu_detach_dev hw (samsung_sysmmu_attach_dev hw readl (samsung_sysmmu_attach_dev hw readl sys dom true (some [u]) group w1).2.1 (samsung_sysmmu_attach_dev hw readl sys dom true (some [u]) group w1).2.2 true (some [u]) group w2).2.1 [u]) [u]).writes = (samsung_sysmmu_detach_dev hw (samsung_sysmmu_attach_dev hw readl (samsung_sysmmu_attach_dev hw readl sys dom true (some [u]) group w1).2.1 (samsung_sysmmu_attach_dev hw readl sys dom true (some [u]) group w1).2.2 true (some [u]) group w2).2.1 [u]).writes ++
        (__sysmmu_write_all_vm hw (sys.drvdata u) hw.MMU_CTRL_DISABLE
            ((sys.drvdata u).sfrbase + hw.REG_MMU_CTRL_VM) ++
          __sysmmu_invalidate_all hw (sys.drvdata u))) ∧
    (∀ (t : sysmmu_system) (d : samsung_sysmmu_domain) (w : Option (Nat × Nat)),
      (t.drvdata u).pm_active = true →
      (samsung_sysmmu_attach_dev hw readl t d true (some [u]) group w).1 = 0 →
      (samsung_sysmmu_attach_dev hw readl t d true (some [u]) group w).2.1.writes =
        if (t.drvdata u).attached_count = 0 then
          t.writes ++ __sysmmu_enable hw readl
            ((samsung_sysmmu_attach_dev hw readl t d true (some [u]) group w).2.1.drvdata u)
        else t.writes) ∧
    (∀ t : sysmmu_system, (t.drvdata u).pm_active = true →
      (samsung_sysmmu_detach_dev hw t [u]).writes =
        if (t.drvdata u).attached_count = 1 then t.writes ++ __sysmmu_disable hw (t.drvdata u)
        else t.writes) := by
  have hdet : ∀ t : sysmmu_system, (t.drvdata u).pm_active = true →
      (samsung_sysmmu_detach_dev hw t [u]).writes =
        (if (t.drvdata u).attached_count = 1 then t.writes ++ __sysmmu_disable hw (t.drvdata u)
         else t.writes) ∧
      ((samsung_sysmmu_detach_dev hw t [u]).drvdata u).attached_count =
        (t.drvdata u).attached_count - 1 ∧
      ((samsung_sysmmu_detach_dev hw t [u]).drvdata u).pm_active = true ∧
      ((samsung_sysmmu_detach_dev hw t [u]).drvdata u).sfrbase = (t.drvdata u).sfrbase ∧
      ((samsung_sysmmu_detach_dev hw t [u]).drvdata u).max_vm = (t.drvdata u).max_vm ∧
      ((samsung_sysmmu_detach_dev hw t [u]).drvdata u).vmid_mask = (t.drvdata u).vmid_mask := by
    intro t ht
    rw [detach_dev_single]
    unfold samsung_sysmmu_detach_drvdata
    by_cases hc : (t.drvdata u).attached_count = 1
    · have hz : (t.drvdata u).attached_count - 1 = 0 := by omega
      simp only [hz, ht, if_true, set_drvdata]
      rw [if_pos hc]
      refine ⟨?_, ?_, ?_, ?_, ?_, ?_⟩ <;> first | rfl | trivial
    · have hz : ¬ (t.drvdata u).attached_count - 1 = 0 := by omega
      simp only [hz, if_false, set_drvdata, if_true]
      rw [if_neg hc]
      refine ⟨?_, ?_, ?_, ?_, ?_, ?_⟩ <;> first | rfl | trivial
  have hatt : ∀ (t : sysmmu_system) (d : samsung_sysmmu_domain) (w : Option (Nat × Nat)),
      (t.drvdata u).pm_active = true →
      (samsung_sysmmu_attach_dev hw readl t d true (some [u]) group w).1 = 0 →
      (samsung_sysmmu_attach_dev hw readl t d true (some [u]) group w).2.1.writes =
        (if (t.drvdata u).attached_count = 0 then
          t.writes ++ __sysmmu_enable hw readl
            ((samsung_sysmmu_attach_dev hw readl t d true (some [u]) group w).2.1.drvdata u)
        else t.writes) ∧
      ((samsung_sysmmu_attach_dev hw readl t d true (some [u]) group w).2.1.drvdata u).attached_count
        = (t.drvdata u).attached_count + 1 ∧
      ((samsung_sysmmu_attach_dev hw readl t d true (some [u]) group w).2.1.drvdata u).pm_active
        = true ∧
      ((t.drvdata u).attached_count = 0 →
        ((samsung_sysmmu_attach_dev hw readl t d true (some [u]) group w).2.1.drvdata u).pgtable
          = d.pgtable_base) ∧
      ((samsung_sysmmu_attach_dev hw readl t d true (some [u]) group w).2.1.drvdata u).sfrbase
        = (t.drvdata u).sfrbase ∧
      ((samsung_sysmmu_attach_dev hw readl t d true (some [u]) group w).2.1.drvdata u).max_vm
        = (t.drvdata u).max_vm ∧
      ((samsung_sysmmu_attach_dev hw readl t d true (some [u]) group w).2.1.drvdata u).vmid_mask
        = (t.drvdata u).vmid_mask ∧
      (samsung_sysmmu_attach_dev hw readl t d true (some [u]) group w).2.2.pgtable_base =
        d.pgtable_base := by
    intro t d w ht hret
    obtain ⟨e1, e2⟩ := attach_dev_single hw readl t d u group w hret
    rw [e2]
    by_cases hc : (t.drvdata u).attached_count = 0
    · simp only [hc, if_true, set_drvdata, ht]
      refine ⟨?_, ?_, ?_, ?_, ?_, ?_, ?_, e1⟩ <;> first | rfl | trivial
    · simp only [hc, if_false, set_drvdata, if_true]
      refine ⟨?_, ?_, ?_, ?_, ?_, ?_, ?_, e1⟩ <;>
        first | rfl | trivial | exact ht | (intro h; exact h.elim)
  have hdis : ∀ d d' : sysmmu_drvdata, d'.sfrbase = d.sfrbase → d'.max_vm = d.max_vm →
      d'.vmid_mask = d.vmid_mask →
      __sysmmu_disable hw d' =
        __sysmmu_write_all_vm hw d hw.MMU_CTRL_DISABLE (d.sfrbase + hw.REG_MMU_CTRL_VM) ++
          __sysmmu_invalidate_all hw d := by
    intro d d' e1 e2 e3
    simp only [__sysmmu_disable, __sysmmu_invalidate_all, __sysmmu_write_all_vm, e1, e2, e3]
  obtain ⟨a1w, a1c, a1p, a1t, a1s, a1m, a1v, -⟩ := hatt sys dom w1 hpm hr1
  obtain ⟨a2w, a2c, a2p, -, a2s, a2m, a2v, -⟩ := hatt _ _ w2 a1p hr2
  obtain ⟨d1w, d1c, d1p, d1s, d1m, d1v⟩ := hdet _ a2p
  obtain ⟨d2w, d2c, -⟩ := hdet _ d1p
  rw [h0] at a1c
  rw [a1c] at a2c
  rw [a2c] at d1c
  rw [d1c] at d2c
  refine ⟨⟨by omega, by omega, by omega, by omega⟩, ⟨a1t h0, ?_, ?_, ?_, ?_⟩,
    fun t d w ht hret => (hatt t d w ht hret).1, fun t ht => (hdet t ht).1⟩
  · rw [a1w, if_pos h0]
    unfold __sysmmu_enable
    rw [a1s, a1t h0]
  · rw [a2w, if_neg (by omega)]
  · rw [d1w, if_neg (by omega)]
  · rw [d2w, if_pos (by omega)]
    rw [hdis (sys.drvdata u) _ (by rw [d1s, a2s, a1s]) (by rw [d1m, a2m, a1m])
      (by rw [d1v, a2v, a1v])]

/-! ## The attach loop and its unwinding -/

theorem attach_dev_loop_cons (hw : sysmmu_regs) (readl : Nat → Nat) (group page_table : Nat)
    (u : Nat) (rest : List Nat) (i : Nat) (sys : sysmmu_system) :
    attach_dev_loop hw readl group page_table (u :: rest) i sys =
      if (attach_dev_body hw readl group page_table sys u).1 then
        (true, i, (attach_dev_body hw readl group page_table sys u).2)
      else
        attach_dev_loop hw readl group page_table rest (i + 1)
          (attach_dev_body hw readl group page_table sys u).2 := by
  unfold attach_dev_body
  rw [attach_dev_loop]
  by_cases h0 : (sys.drvdata u).attached_count = 0
  · simp only [h0, if_true, Bool.false_eq_true, if_false]
  · by_cases hp : (sys.drvdata u).pgtable = page_table
    · simp only [h0, hp, if_false, ne_eq, not_true_eq_false, Bool.false_eq_true]
    · simp only [h0, hp, if_false, ne_eq, not_false_eq_true, if_true]

theorem attach_dev_body_spec (hw : sysmmu_regs) (readl : Nat → Nat) (group page_table : Nat)
    (sys : sysmmu_system) (u : Nat) :
    ((attach_dev_body hw readl group page_table sys u).1 = true ↔
      (sys.drvdata u).attached_count ≠ 0 ∧ (sys.drvdata u).pgtable ≠ page_table) ∧
    (∀ v, v ≠ u →
      (attach_dev_body hw readl group page_table sys u).2.drvdata v = sys.drvdata v) ∧
    ((attach_dev_body hw readl group page_table sys u).2.drvdata u).attached_count =
      (sys.drvdata u).attached_count + 1 ∧
    ((attach_dev_body hw readl group page_table sys u).2.drvdata u).pgtable =
      (if (sys.drvdata u).attached_count = 0 then page_table else (sys.drvdata u).pgtable) ∧
    (attach_dev_body hw readl group page_table sys u).2.group_list =
      (if (sys.drvdata u).attached_count = 0 then u :: sys.group_list else sys.group_list) := by
  unfold attach_dev_body
  by_cases h0 : (sys.drvdata u).attached_count = 0
  · simp only [h0, if_true, set_drvdata]
    refine ⟨by simp, fun v hv => by simp [hv], by simp, by simp, trivial⟩
  · by_cases hp : (sys.drvdata u).pgtable = page_table
    · simp only [h0, hp, if_false, ne_eq, not_true_eq_false, set_drvdata]
      refine ⟨by simp, fun v hv => by simp [hv], by simp, by simp [hp], trivial⟩
    · simp only [h0, hp, if_false, ne_eq, not_false_eq_true, if_true, set_drvdata]
      refine ⟨by simp, fun v hv => by simp [hv], by simp, by simp, trivial⟩

theorem detach_drvdata_spec (hw : sysmmu_regs) (sys : sysmmu_system) (u : Nat) :
    (∀ v, v ≠ u → (samsung_sysmmu_detach_drvdata hw sys u).drvdata v = sys.drvdata v) ∧
    ((samsung_sysmmu_detach_drvdata hw sys u).drvdata u).attached_count =
      (sys.drvdata u).attached_count - 1 ∧
    ((samsung_sysmmu_detach_drvdata hw sys u).drvdata u).pgtable =
      (if (sys.drvdata u).attached_count = 1 then 0 else (sys.drvdata u).pgtable) ∧
    (samsung_sysmmu_detach_drvdata hw sys u).group_list =
      (if (sys.drvdata u).attached_count = 1 then sys.group_list.erase u
        else sys.group_list) := by
  unfold samsung_sysmmu_detach_drvdata
  by_cases h1 : (sys.drvdata u).attached_count = 1
  · have hz : (sys.drvdata u).attached_count - 1 = 0 := by omega
    rw [if_pos h1, if_pos h1]
    simp only [hz, if_true, set_drvdata]
    refine ⟨fun v hv => by simp [hv], by simp, by simp, trivial⟩
  · have hz : ¬ (sys.drvdata u).attached_count - 1 = 0 := by omega
    rw [if_neg h1, if_neg h1]
    simp only [hz, if_false, set_drvdata]
    refine ⟨fun v hv => by simp [hv], by simp, by simp, trivial⟩

theorem attach_dev_unwind_eq (hw : sysmmu_regs) (sysmmus : List Nat) :
    ∀ (n : Nat) (sys : sysmmu_system), n ≤ sysmmus.length →
      attach_dev_unwind hw sysmmus n sys =
        (sysmmus.take n).foldr (fun u s => samsung_sysmmu_detach_drvdata hw s u) sys := by
  intro n
  induction n with
  | zero => intro sys _; simp [attach_dev_unwind]
  | succ n ih =>
    intro sys hn
    have hlt : n < sysmmus.length := by omega
    rw [attach_dev_unwind, ih _ (by omega)]
    rw [List.take_succ, List.getElem?_eq_getElem hlt, List.foldr_append]
    simp [List.getD, List.getElem?_eq_getElem hlt]

theorem attach_dev_loop_shift (hw : sysmmu_regs) (readl : Nat → Nat) (group page_table : Nat) :
    ∀ (l : List Nat) (i : Nat) (sys : sysmmu_system),
      attach_dev_loop hw readl group page_table l i sys =
        ((attach_dev_loop hw readl group page_table l 0 sys).1,
          i + (attach_dev_loop hw readl group page_table l 0 sys).2.1,
          (attach_dev_loop hw readl group page_table l 0 sys).2.2) := by
  intro l
  induction l with
  | nil => intro i sys; simp [attach_dev_loop]
  | cons u rest ih =>
    intro i sys
    rw [attach_dev_loop_cons, attach_dev_loop_cons]
    by_cases hb : (attach_dev_body hw readl group page_table sys u).1 = true
    · rw [if_pos hb, if_pos hb]
      rfl
    · rw [if_neg hb, if_neg hb, ih (i + 1), ih (0 + 1)]
      simp only [Prod.mk.injEq, true_and, and_true]
      omega

theorem attach_dev_loop_cons_zero (hw : sysmmu_regs) (readl : Nat → Nat)
    (group page_table : Nat) (u : Nat) (rest : List Nat) (sys : sysmmu_system) :
    attach_dev_loop hw readl group page_table (u :: rest) 0 sys =
      if (attach_dev_body hw readl group page_table sys u).1 then
        (true, 0, (attach_dev_body hw readl group page_table sys u).2)
      else
        ((attach_dev_loop hw readl group page_table rest 0
            (attach_dev_body hw readl group page_table sys u).2).1,
          (attach_dev_loop hw readl group page_table rest 0
            (attach_dev_body hw readl group page_table sys u).2).2.1 + 1,
          (attach_dev_loop hw readl group page_table rest 0
            (attach_dev_body hw readl group page_table sys u).2).2.2) := by
  rw [attach_dev_loop_cons, attach_dev_loop_shift hw readl group page_table rest (0 + 1)]
  simp only [Nat.zero_add, Nat.add_comm 1]

/-- The loop keeps a unit bound to the table being attached bound to it. -/
theorem attach_dev_loop_pgtable (hw : sysmmu_regs) (readl : Nat → Nat) (group page_table : Nat)
    (v : Nat) :
    ∀ (l : List Nat) (sys : sysmmu_system), (sys.drvdata v).pgtable = page_table →
      ((attach_dev_loop hw readl group page_table l 0 sys).2.2.drvdata v).pgtable =
        page_table := by
  intro l
  induction l with
  | nil => intro sys h; simpa [attach_dev_loop] using h
  | cons u rest ih =>
    intro sys h
    obtain ⟨-, hne, -, hpg, -⟩ := attach_dev_body_spec hw readl group page_table sys u
    have hb : ((attach_dev_body hw readl group page_table sys u).2.drvdata v).pgtable =
        page_table := by
      by_cases hv : v = u
      · subst hv
        rw [hpg]
        split_ifs
        · rfl
        · exact h
      · rw [hne v hv]; exact h
    rw [attach_dev_loop_cons_zero]
    by_cases hc : (attach_dev_body hw readl group page_table sys u).1 = true
    · rw [if_pos hc]; exact hb
    · rw [if_neg hc]; exact ih _ hb

/-- Where the loop stops: after all units when it succeeds, at a unit bound to another
table when it fails. -/
theorem attach_dev_loop_index (hw : sysmmu_regs) (readl : Nat → Nat) (group page_table : Nat) :
    ∀ (l : List Nat) (sys : sysmmu_system),
      ((attach_dev_loop hw readl group page_table l 0 sys).1 = false →
        (attach_dev_loop hw readl group page_table l 0 sys).2.1 = l.length) ∧
      ((attach_dev_loop hw readl group page_table l 0 sys).1 = true →
        (attach_dev_loop hw readl group page_table l 0 sys).2.1 < l.length ∧
        ((attach_dev_loop hw readl group page_table l 0 sys).2.2.drvdata
          (l.getD (attach_dev_loop hw readl group page_table l 0 sys).2.1 0)).pgtable ≠
            page_table) := by
  intro l
  induction l with
  | nil => intro sys; simp [attach_dev_loop]
  | cons u rest ih =>
    intro sys
    obtain ⟨hconf, -, -, hpg, -⟩ := attach_dev_body_spec hw readl group page_table sys u
    rw [attach_dev_loop_cons_zero]
    by_cases hc : (attach_dev_body hw readl group page_table sys u).1 = true
    · rw [if_pos hc]
      obtain ⟨h0, hp⟩ := hconf.1 hc
      refine ⟨fun h => by simp at h, fun _ => ⟨by simp, ?_⟩⟩
      simp only [List.getD_cons_zero]
      rw [hpg, if_neg h0]
      exact hp
    · rw [if_neg hc]
      obtain ⟨i1, i2⟩ := ih (attach_dev_body hw readl group page_table sys u).2
      refine ⟨fun h => ?_, fun h => ?_⟩
      · simp only [List.length_cons]
        rw [i1 h]
      · obtain ⟨j1, j2⟩ := i2 h
        refine ⟨by simp only [List.length_cons]; omega, ?_⟩
        simp only [List.getD_cons_succ]
        exact j2

/-- The unit a failed loop stops at is none of the units it passed. -/
theorem attach_dev_loop_conflict_distinct (hw : sysmmu_regs) (readl : Nat → Nat)
    (group page_table : Nat) :
    ∀ (l : List Nat) (sys : sysmmu_system),
      (attach_dev_loop hw readl group page_table l 0 sys).1 = true →
      ∀ v ∈ l.take (attach_dev_loop hw readl group page_table l 0 sys).2.1,
        v ≠ l.getD (attach_dev_loop hw readl group page_table l 0 sys).2.1 0 := by
  intro l
  induction l with
  | nil => intro sys h; simp [attach_dev_loop] at h
  | cons u rest ih =>
    intro sys
    obtain ⟨hconf, hne, -, hpg, -⟩ := attach_dev_body_spec hw readl group page_table sys u
    rw [attach_dev_loop_cons_zero]
    by_cases hc : (attach_dev_body hw readl group page_table sys u).1 = true
    · rw [if_pos hc]
      intro _ v hv
      simp at hv
    · rw [if_neg hc]
      intro h v hv
      simp only [List.take_succ_cons, List.mem_cons] at hv
      simp only [List.getD_cons_succ]
      rcases hv with hv | hv
      · subst hv
        have hb : ((attach_dev_body hw readl group page_table sys v).2.drvdata v).pgtable =
            page_table := by
          rw [hpg]
          by_cases h0 : (sys.drvdata v).attached_count = 0
          · rw [if_pos h0]
          · rw [if_neg h0]
            by_contra hp
            exact hc (hconf.2 ⟨h0, hp⟩)
        have hA := attach_dev_loop_pgtable hw readl group page_table v rest _ hb
        have hB := ((attach_dev_loop_index hw readl group page_table rest
          (attach_dev_body hw readl group page_table sys v).2).2 h).2
        intro heq
        rw [← heq] at hB
        exact hB hA
      · exact ih _ h v hv

/-- Undoing what a loop did, in the reverse order, restores the unit list and, for every
unit apart from the one a failed loop stopped at, the count and the recorded table. -/
theorem attach_dev_loop_unwind (hw : sysmmu_regs) (readl : Nat → Nat)
    (group page_table : Nat) :
    ∀ (l : List Nat) (sys : sysmmu_system),
      (∀ v ∈ l.take (attach_dev_loop hw readl group page_table l 0 sys).2.1,
        0 ≤ (sys.drvdata v).attached_count ∧
        ((sys.drvdata v).attached_count = 0 → (sys.drvdata v).pgtable = 0)) →
      ((l.take (attach_dev_loop hw readl group page_table l 0 sys).2.1).foldr
          (fun u s => samsung_sysmmu_detach_drvdata hw s u)
          (attach_dev_loop hw readl group page_table l 0 sys).2.2).group_list =
        sys.group_list ∧
      ∀ v, ((attach_dev_loop hw readl group page_table l 0 sys).1 = true →
          v ≠ l.getD (attach_dev_loop hw readl group page_table l 0 sys).2.1 0) →
        (((l.take (attach_dev_loop hw readl group page_table l 0 sys).2.1).foldr
          (fun u s => samsung_sysmmu_detach_drvdata hw s u)
          (attach_dev_loop hw readl group page_table l 0 sys).2.2).drvdata v).attached_count =
          (sys.drvdata v).attached_count ∧
        (((l.take (attach_dev_loop hw readl group page_table l 0 sys).2.1).foldr
          (fun u s => samsung_sysmmu_detach_drvdata hw s u)
          (attach_dev_loop hw readl group page_table l 0 sys).2.2).drvdata v).pgtable =
          (sys.drvdata v).pgtable := by
  intro l
  induction l with
  | nil => intro sys _; simp [attach_dev_loop]
  | cons u rest ih =>
    intro sys hwf
    obtain ⟨hconf, hne, hcnt, hpg, hlist⟩ :=
      attach_dev_body_spec hw readl group page_table sys u
    have hnew := attach_dev_loop_conflict_distinct hw readl group page_table (u :: rest) sys
    rw [attach_dev_loop_cons_zero] at hnew hwf ⊢
    by_cases hc : (attach_dev_body hw readl group page_table sys u).1 = true
    · rw [if_pos hc]
      obtain ⟨h0, -⟩ := hconf.1 hc
      simp only [List.take_zero, List.foldr_nil, List.getD_cons_zero]
      rw [hlist, if_neg h0]
      refine ⟨rfl, fun v hv => ?_⟩
      rw [hne v (hv trivial)]
      exact ⟨rfl, rfl⟩
    · rw [if_neg hc] at hnew hwf ⊢
      simp only [List.take_succ_cons, List.foldr_cons, List.getD_cons_succ] at hnew hwf ⊢
      have hwf1 : ∀ v ∈ rest.take (attach_dev_loop hw readl group page_table rest 0
            (attach_dev_body hw readl group page_table sys u).2).2.1,
          0 ≤ ((attach_dev_body hw readl group page_table sys u).2.drvdata v).attached_count ∧
          (((attach_dev_body hw readl group page_table sys u).2.drvdata v).attached_count = 0 →
            ((attach_dev_body hw readl group page_table sys u).2.drvdata v).pgtable = 0) := by
        intro v hv
        by_cases hvu : v = u
        · subst hvu
          have := (hwf v (List.mem_cons_self _ _)).1
          rw [hcnt]
          exact ⟨by omega, fun h => by omega⟩
        · rw [hne v hvu]
          exact hwf v (List.mem_cons_of_mem _ hv)
      obtain ⟨il, iv⟩ := ih _ hwf1
      have hu : (attach_dev_loop hw readl group page_table rest 0
          (attach_dev_body hw readl group page_table sys u).2).1 = true →
          u ≠ rest.getD (attach_dev_loop hw readl group page_table rest 0
            (attach_dev_body hw readl group page_table sys u).2).2.1 0 :=
        fun h => hnew h u (List.mem_cons_self _ _)
      obtain ⟨iuc, iup⟩ := iv u hu
      obtain ⟨dne, dcnt, dpg, dlist⟩ := detach_drvdata_spec hw
        ((rest.take (attach_dev_loop hw readl group page_table rest 0
            (attach_dev_body hw readl group page_table sys u).2).2.1).foldr
          (fun u s => samsung_sysmmu_detach_drvdata hw s u)
          (attach_dev_loop hw readl group page_table rest 0
            (attach_dev_body hw readl group page_table sys u).2).2.2) u
      obtain ⟨hu0, hu1⟩ := hwf u (List.mem_cons_self _ _)
      have hnc : (sys.drvdata u).attached_count ≠ 0 → (sys.drvdata u).pgtable = page_table := by
        intro h0
        by_contra hp
        exact hc (hconf.2 ⟨h0, hp⟩)
      refine ⟨?_, fun v hv => ?_⟩
      · rw [dlist, il, hlist, iuc, hcnt]
        by_cases h0 : (sys.drvdata u).attached_count = 0
        · rw [if_pos (by omega), if_pos h0, List.erase_cons_head]
        · rw [if_neg (by omega), if_neg h0]
      · by_cases hvu : v = u
        · subst hvu
          rw [dcnt, dpg, iuc, iup, hcnt, hpg]
          refine ⟨by omega, ?_⟩
          by_cases h0 : (sys.drvdata v).attached_count = 0
          · rw [if_pos (by omega), hu1 h0]
          · rw [if_neg (by omega), if_neg h0]
        · rw [dne v hvu]
          obtain ⟨ivc, ivp⟩ := iv v hv
          rw [ivc, ivp, hne v hvu]
          exact ⟨rfl, rfl⟩

theorem attach_dev_eq (hw : sysmmu_regs) (readl : Nat → Nat) (sys : sysmmu_system)
    (dom : samsung_sysmmu_domain) (sysmmus : List Nat) (group : Nat)
    (window : Option (Nat × Nat)) :
    samsung_sysmmu_attach_dev hw readl sys dom true (some sysmmus) group window =
      if (attach_dev_loop hw readl group dom.pgtable_base sysmmus 0 sys).1 = true then
        (-EINVAL,
          attach_dev_unwind hw sysmmus
            (attach_dev_loop hw readl group dom.pgtable_base sysmmus 0 sys).2.1
            (attach_dev_loop hw readl group dom.pgtable_base sysmmus 0 sys).2.2,
          { dom with group := some group })
      else if (samsung_sysmmu_set_domain_range dom.geometry window).1 ≠ 0 then
        ((samsung_sysmmu_set_domain_range dom.geometry window).1,
          attach_dev_unwind hw sysmmus
            (attach_dev_loop hw readl group dom.pgtable_base sysmmus 0 sys).2.1
            (attach_dev_loop hw readl group dom.pgtable_base sysmmus 0 sys).2.2,
          { dom with
            group := some group
            geometry := (samsung_sysmmu_set_domain_range dom.geometry window).2 })
      else
        (0, (attach_dev_loop hw readl group dom.pgtable_base sysmmus 0 sys).2.2,
          { dom with
            group := some group
            geometry := (samsung_sysmmu_set_domain_range dom.geometry window).2 }) := by
  unfold samsung_sysmmu_attach_dev
  simp only [Bool.not_true, Bool.false_eq_true, if_false]
  rcases attach_dev_loop hw readl group dom.pgtable_base sysmmus 0 sys with ⟨b, i, s⟩
  cases b
  · simp only [Bool.false_eq_true, if_false]
  · simp only [if_true]

theorem set_domain_range_ret (geom : iommu_domain_geometry) (window : Option (Nat × Nat)) :
    (samsung_sysmmu_set_domain_range geom window).1 = 0 ∨
      (samsung_sysmmu_set_domain_range geom window).1 = -ERANGE := by
  unfold samsung_sysmmu_set_domain_range
  rcases window with _ | ⟨start, size⟩
  · exact Or.inl rfl
  · simp only
    split_ifs <;> first | exact Or.inl rfl | exact Or.inr rfl

theorem detach_foldr_other (hw : sysmmu_regs) (v : Nat) :
    ∀ (xs : List Nat) (s : sysmmu_system), v ∉ xs →
      (xs.foldr (fun u s => samsung_sysmmu_detach_drvdata hw s u) s).drvdata v = s.drvdata v := by
  intro xs
  induction xs with
  | nil => intro s _; rfl
  | cons u rest ih =>
    intro s hv
    simp only [List.mem_cons, not_or] at hv
    simp only [List.foldr_cons]
    rw [(detach_drvdata_spec hw _ u).1 v hv.1]
    exact ih s hv.2

/-- The unit a failed loop stops at was attached to another table before the call; the
loop has counted it once more and left its table alone. -/
theorem attach_dev_loop_conflict_unit (hw : sysmmu_regs) (readl : Nat → Nat)
    (group page_table : Nat) :
    ∀ (l : List Nat) (sys : sysmmu_system),
      (attach_dev_loop hw readl group page_table l 0 sys).1 = true →
      (sys.drvdata (l.getD (attach_dev_loop hw readl group page_table l 0 sys).2.1 0)).attached_count
        ≠ 0 ∧
      (sys.drvdata (l.getD (attach_dev_loop hw readl group page_table l 0 sys).2.1 0)).pgtable
        ≠ page_table ∧
      ((attach_dev_loop hw readl group page_table l 0 sys).2.2.drvdata
        (l.getD (attach_dev_loop hw readl group page_table l 0 sys).2.1 0)).attached_count =
        (sys.drvdata
          (l.getD (attach_dev_loop hw readl group page_table l 0 sys).2.1 0)).attached_count
          + 1 ∧
      ((attach_dev_loop hw readl group page_table l 0 sys).2.2.drvdata
        (l.getD (attach_dev_loop hw readl group page_table l 0 sys).2.1 0)).pgtable =
        (sys.drvdata
          (l.getD (attach_dev_loop hw readl group page_table l 0 sys).2.1 0)).pgtable := by
  intro l
  induction l with
  | nil => intro sys h; simp [attach_dev_loop] at h
  | cons u rest ih =>
    intro sys
    obtain ⟨hconf, hne, hcnt, hpg, -⟩ := attach_dev_body_spec hw readl group page_table sys u
    have hnew := attach_dev_loop_conflict_distinct hw readl group page_table (u :: rest) sys
    rw [attach_dev_loop_cons_zero] at hnew ⊢
    by_cases hc : (attach_dev_body hw readl group page_table sys u).1 = true
    · rw [if_pos hc]
      intro _
      obtain ⟨h0, hp⟩ := hconf.1 hc
      simp only [List.getD_cons_zero]
      rw [hcnt, hpg, if_neg h0]
      exact ⟨h0, hp, rfl, rfl⟩
    · rw [if_neg hc] at hnew ⊢
      simp only [List.take_succ_cons, List.getD_cons_succ] at hnew ⊢
      intro h
      have hu := hnew h u (List.mem_cons_self _ _)
      obtain ⟨i1, i2, i3, i4⟩ := ih _ h
      rw [hne _ (Ne.symm hu)] at i1 i2 i3 i4
      exact ⟨i1, i2, i3, i4⟩

/-- C11: rollback of the units passed before a failure. Let `k` be the index at which
`samsung_sysmmu_attach_dev` fails: either the first loop leaves at unit `k` because that
unit is bound to another page table, or it passes all `k` units of the list and
`samsung_sysmmu_set_domain_range` then returns `-ERANGE`. If the units at the positions
below `k` have a non-negative `attached_count` and record no page table while that count
is 0, the call returns an error, the unit list of the group is as before the call, and
every unit at a position below `k` has the `attached_count`, the recorded page table and
the membership in the unit list it had before the call. -/
theorem attach_dev_rollback (hw : sysmmu_regs) (readl : Nat → Nat) (sys : sysmmu_system)
    (dom : samsung_sysmmu_domain) (sysmmus : List Nat) (group : Nat)
    (window : Option (Nat × Nat)) (k : Nat)
    (hwf : ∀ v ∈ sysmmus.take k, 0 ≤ (sys.drvdata v).attached_count ∧
      ((sys.drvdata v).attached_count = 0 → (sys.drvdata v).pgtable = 0))
    (hfail :
      ((attach_dev_loop hw readl group dom.pgtable_base sysmmus 0 sys).1 = true ∧
        (attach_dev_loop hw readl group dom.pgtable_base sysmmus 0 sys).2.1 = k) ∨
      ((attach_dev_loop hw readl group dom.pgtable_base sysmmus 0 sys).1 = false ∧
        (samsung_sysmmu_set_domain_range dom.geometry window).1 = -ERANGE ∧
        k = sysmmus.length)) :
    (samsung_sysmmu_attach_dev hw readl sys dom true (some sysmmus) group window).1 ≠ 0 ∧
    k ≤ sysmmus.length ∧
    (samsung_sysmmu_attach_dev hw readl sys dom true (some sysmmus) group window).2.1.group_list =
      sys.group_list ∧
    ∀ v ∈ sysmmus.take k,
      ((samsung_sysmmu_attach_dev hw readl sys dom true (some sysmmus) group
          window).2.1.drvdata v).attached_count = (sys.drvdata v).attached_count ∧
      ((samsung_sysmmu_attach_dev hw readl sys dom true (some sysmmus) group
          window).2.1.drvdata v).pgtable = (sys.drvdata v).pgtable ∧
      (v ∈ (samsung_sysmmu_attach_dev hw readl sys dom true (some sysmmus) group
          window).2.1.group_list ↔ v ∈ sys.group_list) := by
  have hidx := attach_dev_loop_index hw readl group dom.pgtable_base sysmmus sys
  have hnew := attach_dev_loop_conflict_distinct hw readl group dom.pgtable_base sysmmus sys
  have hk : (attach_dev_loop hw readl group dom.pgtable_base sysmmus 0 sys).2.1 = k := by
    rcases hfail with ⟨_, h⟩ | ⟨h, _, hl⟩
    · exact h
    · rw [hidx.1 h, hl]
  have hkl : k ≤ sysmmus.length := by
    rcases hfail with ⟨h, _⟩ | ⟨_, _, hl⟩
    · have := (hidx.2 h).1
      omega
    · omega
  have hun := attach_dev_loop_unwind hw readl group dom.pgtable_base sysmmus sys
    (by rw [hk]; exact hwf)
  rw [hk] at hun hnew
  have hE : ERANGE = 34 := rfl
  have hV : EINVAL = 22 := rfl
  have hst : (samsung_sysmmu_attach_dev hw readl sys dom true (some sysmmus) group window).1 ≠ 0 ∧
      (samsung_sysmmu_attach_dev hw readl sys dom true (some sysmmus) group window).2.1 =
        (sysmmus.take k).foldr (fun u s => samsung_sysmmu_detach_drvdata hw s u)
          (attach_dev_loop hw readl group dom.pgtable_base sysmmus 0 sys).2.2 := by
    rw [attach_dev_eq]
    rcases hfail with ⟨h, _⟩ | ⟨h, hr, _⟩
    · rw [if_pos h, attach_dev_unwind_eq hw sysmmus _ _ (by omega), hk]
      exact ⟨by show (-(22 : Int)) ≠ 0; omega, rfl⟩
    · have hr0 : (samsung_sysmmu_set_domain_range dom.geometry window).1 ≠ 0 := by
        rw [hr, hE]; decide
      rw [if_neg (by rw [h]; decide), if_pos hr0,
        attach_dev_unwind_eq hw sysmmus _ _ (by omega), hk]
      exact ⟨hr0, rfl⟩
  obtain ⟨hret, hsys⟩ := hst
  rw [hsys]
  refine ⟨hret, hkl, hun.1, fun v hv => ?_⟩
  obtain ⟨c1, c2⟩ := hun.2 v (fun h => hnew h v hv)
  exact ⟨c1, c2, by rw [hun.1]⟩

/-- C12: what a rejected attach leaves on the unit it was rejected for. When the first
loop of `samsung_sysmmu_attach_dev` leaves at a unit because it is attached to another
page table, the call returns `-EINVAL` and that unit keeps its recorded page table, but
its `attached_count` is one more than before the call: the count is incremented before
the table is compared and the unwinding starts below that unit. -/
theorem attach_dev_conflict_leak (hw : sysmmu_regs) (readl : Nat → Nat) (sys : sysmmu_system)
    (dom : samsung_sysmmu_domain) (sysmmus : List Nat) (group : Nat)
    (window : Option (Nat × Nat))
    (hc : (attach_dev_loop hw readl group dom.pgtable_base sysmmus 0 sys).1 = true) :
    (samsung_sysmmu_attach_dev hw readl sys dom true (some sysmmus) group window).1 = -EINVAL ∧
    (sys.drvdata (sysmmus.getD
      (attach_dev_loop hw readl group dom.pgtable_base sysmmus 0 sys).2.1 0)).attached_count ≠ 0 ∧
    (sys.drvdata (sysmmus.getD
      (attach_dev_loop hw readl group dom.pgtable_base sysmmus 0 sys).2.1 0)).pgtable ≠
        dom.pgtable_base ∧
    ((samsung_sysmmu_attach_dev hw readl sys dom true (some sysmmus) group window).2.1.drvdata
      (sysmmus.getD
        (attach_dev_loop hw readl group dom.pgtable_base sysmmus 0 sys).2.1 0)).attached_count =
      (sys.drvdata (sysmmus.getD
        (attach_dev_loop hw readl group dom.pgtable_base sysmmus 0 sys).2.1 0)).attached_count
        + 1 ∧
    ((samsung_sysmmu_attach_dev hw readl sys dom true (some sysmmus) group window).2.1.drvdata
      (sysmmus.getD
        (attach_dev_loop hw readl group dom.pgtable_base sysmmus 0 sys).2.1 0)).pgtable =
      (sys.drvdata (sysmmus.getD
        (attach_dev_loop hw readl group dom.pgtable_base sysmmus 0 sys).2.1 0)).pgtable := by
  have hidx := (attach_dev_loop_index hw readl group dom.pgtable_base sysmmus sys).2 hc
  have hnew := attach_dev_loop_conflict_distinct hw readl group dom.pgtable_base sysmmus sys hc
  obtain ⟨u1, u2, u3, u4⟩ :=
    attach_dev_loop_conflict_unit hw readl group dom.pgtable_base sysmmus sys hc
  rw [attach_dev_eq, if_pos hc, attach_dev_unwind_eq hw sysmmus _ _ (by omega)]
  show _ ∧ _ ∧ _ ∧
    (((sysmmus.take (attach_dev_loop hw readl group dom.pgtable_base sysmmus 0 sys).2.1).foldr
      (fun u s => samsung_sysmmu_detach_drvdata hw s u)
      (attach_dev_loop hw readl group dom.pgtable_base sysmmus 0 sys).2.2).drvdata _).attached_count
      = _ ∧
    (((sysmmus.take (attach_dev_loop hw readl group dom.pgtable_base sysmmus 0 sys).2.1).foldr
      (fun u s => samsung_sysmmu_detach_drvdata hw s u)
      (attach_dev_loop hw readl group dom.pgtable_base sysmmus 0 sys).2.2).drvdata _).pgtable = _
  rw [detach_foldr_other hw _ _ _ (fun h => hnew _ h rfl)]
  exact ⟨rfl, u1, u2, u3, u4⟩

/-! ## The invariant of the unit list -/

theorem attach_dev_body_inv (hw : sysmmu_regs) (readl : Nat → Nat) (group page_table : Nat)
    (sys : sysmmu_system) (u : Nat) (b b' : Nat → Nat) (hpt : page_table ≠ 0)
    (hinv : unit_list_inv sys) (hb : owed_inv b sys)
    (hb' : ∀ v, b' v ≤ b v + if v = u then 1 else 0) :
    unit_list_inv (attach_dev_body hw readl group page_table sys u).2 ∧
      owed_inv b' (attach_dev_body hw readl group page_table sys u).2 := by
  obtain ⟨-, hne, hcnt, hpg, hlist⟩ := attach_dev_body_spec hw readl group page_table sys u
  obtain ⟨hnd, hall⟩ := hinv
  have hbu := hb u
  have hbu' := hb' u
  rw [if_pos rfl] at hbu'
  refine ⟨⟨?_, fun v => ?_⟩, fun v => ?_⟩
  · rw [hlist]
    by_cases h0 : (sys.drvdata u).attached_count = 0
    · rw [if_pos h0]
      exact List.nodup_cons.2 ⟨fun h => ((hall u).1.1 h) h0, hnd⟩
    · rw [if_neg h0]; exact hnd
  · by_cases hv : v = u
    · subst hv
      rw [hlist, hcnt, hpg]
      by_cases h0 : (sys.drvdata v).attached_count = 0
      · rw [if_pos h0, if_pos h0, h0]
        exact ⟨⟨fun _ => by omega, fun _ => List.mem_cons_self _ _⟩,
          ⟨fun _ => by omega, fun _ => hpt⟩⟩
      · rw [if_neg h0, if_neg h0]
        have hpos : (sys.drvdata v).attached_count + 1 ≠ 0 := by omega
        exact ⟨⟨fun _ => hpos, fun _ => (hall v).1.2 h0⟩,
          ⟨fun _ => hpos, fun _ => (hall v).2.2 h0⟩⟩
    · rw [hne v hv, hlist]
      refine ⟨?_, (hall v).2⟩
      by_cases h0 : (sys.drvdata u).attached_count = 0
      · rw [if_pos h0, List.mem_cons]
        exact ⟨fun h => (hall v).1.1 (h.resolve_left hv), fun h => Or.inr ((hall v).1.2 h)⟩
      · rw [if_neg h0]; exact (hall v).1
  · by_cases hv : v = u
    · subst hv
      rw [hcnt]
      omega
    · rw [hne v hv]
      have h1 := hb v
      have h2 := hb' v
      rw [if_neg hv] at h2
      omega

theorem detach_drvdata_inv (hw : sysmmu_regs) (sys : sysmmu_system) (u : Nat)
    (b b' : Nat → Nat) (hinv : unit_list_inv sys) (hb : owed_inv b sys)
    (hb' : ∀ v, b' v + (if v = u then 1 else 0) ≤ b v) :
    unit_list_inv (samsung_sysmmu_detach_drvdata hw sys u) ∧
      owed_inv b' (samsung_sysmmu_detach_drvdata hw sys u) := by
  obtain ⟨hne, hcnt, hpg, hlist⟩ := detach_drvdata_spec hw sys u
  obtain ⟨hnd, hall⟩ := hinv
  have hbu := hb u
  have hbu' := hb' u
  rw [if_pos rfl] at hbu'
  refine ⟨⟨?_, fun v => ?_⟩, fun v => ?_⟩
  · rw [hlist]
    split_ifs
    · exact hnd.erase u
    · exact hnd
  · by_cases hv : v = u
    · subst hv
      rw [hlist, hcnt, hpg]
      by_cases h1 : (sys.drvdata v).attached_count = 1
      · rw [if_pos h1, if_pos h1, h1]
        refine ⟨⟨fun h => absurd h (by rw [hnd.mem_erase_iff]; simp), fun h => by omega⟩,
          ⟨fun h => absurd rfl h, fun h => by omega⟩⟩
      · rw [if_neg h1, if_neg h1]
        have hpos : (sys.drvdata v).attached_count - 1 ≠ 0 := by omega
        have h0 : (sys.drvdata v).attached_count ≠ 0 := by omega
        exact ⟨⟨fun _ => hpos, fun _ => (hall v).1.2 h0⟩,
          ⟨fun _ => hpos, fun _ => (hall v).2.2 h0⟩⟩
    · rw [hne v hv, hlist]
      refine ⟨?_, (hall v).2⟩
      by_cases h1 : (sys.drvdata u).attached_count = 1
      · rw [if_pos h1, hnd.mem_erase_iff]
        exact ⟨fun h => (hall v).1.1 h.2, fun h => ⟨hv, (hall v).1.2 h⟩⟩
      · rw [if_neg h1]; exact (hall v).1
  · by_cases hv : v = u
    · subst hv
      rw [hcnt]
      omega
    · rw [hne v hv]
      have h1 := hb v
      have h2 := hb' v
      rw [if_neg hv] at h2
      omega

theorem attach_dev_loop_inv (hw : sysmmu_regs) (readl : Nat → Nat) (group page_table : Nat)
    (hpt : page_table ≠ 0) :
    ∀ (l : List Nat) (sys : sysmmu_system) (b b' : Nat → Nat),
      unit_list_inv sys → owed_inv b sys →
      (∀ v, b' v ≤ b v +
        (l.take (attach_dev_loop hw readl group page_table l 0 sys).2.1).count v) →
      unit_list_inv (attach_dev_loop hw readl group page_table l 0 sys).2.2 ∧
        owed_inv b' (attach_dev_loop hw readl group page_table l 0 sys).2.2 := by
  intro l
  induction l with
  | nil =>
    intro sys b b' hinv hb hb'
    simp only [attach_dev_loop, List.take_nil, List.count_nil, Nat.add_zero] at hb' ⊢
    exact ⟨hinv, fun v => le_trans (by exact_mod_cast hb' v) (hb v)⟩
  | cons u rest ih =>
    intro sys b b' hinv hb hb'
    rw [attach_dev_loop_cons_zero] at hb' ⊢
    by_cases hc : (attach_dev_body hw readl group page_table sys u).1 = true
    · rw [if_pos hc] at hb' ⊢
      simp only [List.take_zero, List.count_nil, Nat.add_zero] at hb'
      exact attach_dev_body_inv hw readl group page_table sys u b b' hpt hinv hb
        (fun v => le_trans (hb' v) (Nat.le_add_right _ _))
    · rw [if_neg hc] at hb' ⊢
      simp only [List.take_succ_cons] at hb'
      obtain ⟨i1, i2⟩ := attach_dev_body_inv hw readl group page_table sys u b
        (fun v => b v + if v = u then 1 else 0) hpt hinv hb (fun v => le_refl _)
      refine ih _ _ b' i1 i2 (fun v => ?_)
      have := hb' v
      rw [List.count_cons] at this
      by_cases hv : v = u
      · subst hv
        simp only [beq_self_eq_true, if_true] at this ⊢
        omega
      · have hvu : (u == v) = false := by simp [Ne.symm hv]
        simp only [hvu, Bool.false_eq_true, if_false, hv] at this ⊢
        omega

theorem detach_foldr_inv (hw : sysmmu_regs) :
    ∀ (xs : List Nat) (s : sysmmu_system) (b b' : Nat → Nat),
      unit_list_inv s → owed_inv b s → (∀ v, b' v + xs.count v ≤ b v) →
      unit_list_inv (xs.foldr (fun u s => samsung_sysmmu_detach_drvdata hw s u) s) ∧
        owed_inv b' (xs.foldr (fun u s => samsung_sysmmu_detach_drvdata hw s u) s) := by
  intro xs
  induction xs with
  | nil =>
    intro s b b' hinv hb hb'
    simp only [List.count_nil, Nat.add_zero, List.foldr_nil] at hb' ⊢
    exact ⟨hinv, fun v => le_trans (by exact_mod_cast hb' v) (hb v)⟩
  | cons u rest ih =>
    intro s b b' hinv hb hb'
    simp only [List.foldr_cons]
    obtain ⟨i1, i2⟩ := ih s b (fun v => b' v + if v = u then 1 else 0) hinv hb (fun v => by
      have := hb' v
      rw [List.count_cons] at this
      by_cases hv : v = u
      · subst hv
        simp only [beq_self_eq_true, if_true] at this ⊢
        omega
      · have hvu : (u == v) = false := by simp [Ne.symm hv]
        simp only [hvu, Bool.false_eq_true, if_false, hv] at this ⊢
        omega)
    exact detach_drvdata_inv hw _ u _ b' i1 i2 (fun v => le_refl _)

theorem detach_dev_inv (hw : sysmmu_regs) :
    ∀ (xs : List Nat) (s : sysmmu_system) (b b' : Nat → Nat),
      unit_list_inv s → owed_inv b s → (∀ v, b' v + xs.count v ≤ b v) →
      unit_list_inv (samsung_sysmmu_detach_dev hw s xs) ∧
        owed_inv b' (samsung_sysmmu_detach_dev hw s xs) := by
  intro xs
  induction xs with
  | nil =>
    intro s b b' hinv hb hb'
    simp only [List.count_nil, Nat.add_zero, samsung_sysmmu_detach_dev, List.foldl_nil] at hb' ⊢
    exact ⟨hinv, fun v => le_trans (by exact_mod_cast hb' v) (hb v)⟩
  | cons u rest ih =>
    intro s b b' hinv hb hb'
    have hstep : samsung_sysmmu_detach_dev hw s (u :: rest) =
        samsung_sysmmu_detach_dev hw (samsung_sysmmu_detach_drvdata hw s u) rest := rfl
    rw [hstep]
    obtain ⟨i1, i2⟩ := detach_drvdata_inv hw s u b (fun v => b' v + rest.count v) hinv hb
      (fun v => by
        have := hb' v
        rw [List.count_cons] at this
        by_cases hv : v = u
        · subst hv
          simp only [beq_self_eq_true, if_true] at this ⊢
          omega
        · have hvu : (u == v) = false := by simp [Ne.symm hv]
          simp only [hvu, Bool.false_eq_true, if_false, hv] at this ⊢
          omega)
    exact ih _ _ b' i1 i2 (fun v => le_refl _)

theorem attach_dev_inv (hw : sysmmu_regs) (readl : Nat → Nat) (sys : sysmmu_system)
    (dom : samsung_sysmmu_domain) (fwspec_ok : Bool) (client : Option (List Nat)) (group : Nat)
    (window : Option (Nat × Nat)) (b : Nat → Nat) (hpt : dom.pgtable_base ≠ 0)
    (hinv : unit_list_inv sys) (hb : owed_inv b sys) :
    unit_list_inv
        (samsung_sysmmu_attach_dev hw readl sys dom fwspec_ok client group window).2.1 ∧
      owed_inv
        (fun v => b v +
          if (samsung_sysmmu_attach_dev hw readl sys dom fwspec_ok client group window).1 = 0
            then (client.getD []).count v else 0)
        (samsung_sysmmu_attach_dev hw readl sys dom fwspec_ok client group window).2.1 := by
  have hX : ENXIO = 6 := rfl
  have hD : ENODEV = 19 := rfl
  have hV : EINVAL = 22 := rfl
  cases fwspec_ok
  · have hr : samsung_sysmmu_attach_dev hw readl sys dom false client group window =
        (- ENXIO, sys, dom) := by
      unfold samsung_sysmmu_attach_dev; rfl
    rw [hr]
    have hne : ¬ (- ENXIO = 0) := by rw [hX]; omega
    simp only [hne, if_false, Nat.add_zero]
    exact ⟨hinv, hb⟩
  · rcases client with _ | l
    · have hr : samsung_sysmmu_attach_dev hw readl sys dom true none group window =
          (-ENODEV, sys, dom) := by
        unfold samsung_sysmmu_attach_dev; rfl
      rw [hr]
      have hne : ¬ (-ENODEV = 0) := by rw [hD]; omega
      simp only [hne, if_false, Nat.add_zero]
      exact ⟨hinv, hb⟩
    · have hidx := attach_dev_loop_index hw readl group dom.pgtable_base l sys
      have hloop := attach_dev_loop_inv hw readl group dom.pgtable_base hpt l sys b
        (fun v => b v +
          (l.take (attach_dev_loop hw readl group dom.pgtable_base l 0 sys).2.1).count v)
        hinv hb (fun v => le_refl _)
      have hkl : (attach_dev_loop hw readl group dom.pgtable_base l 0 sys).2.1 ≤ l.length := by
        by_cases h : (attach_dev_loop hw readl group dom.pgtable_base l 0 sys).1 = true
        · exact le_of_lt (hidx.2 h).1
        · rw [hidx.1 (by simpa using h)]
      have hroll := detach_foldr_inv hw
        (l.take (attach_dev_loop hw readl group dom.pgtable_base l 0 sys).2.1) _ _ b
        hloop.1 hloop.2 (fun v => le_refl _)
      rw [attach_dev_eq]
      simp only [Option.getD_some]
      by_cases hc : (attach_dev_loop hw readl group dom.pgtable_base l 0 sys).1 = true
      · rw [if_pos hc, attach_dev_unwind_eq hw l _ _ hkl]
        have hne : ¬ (-EINVAL = 0) := by rw [hV]; omega
        simp only [hne, if_false, Nat.add_zero]
        exact hroll
      · rw [if_neg hc]
        by_cases hr : (samsung_sysmmu_set_domain_range dom.geometry window).1 ≠ 0
        · rw [if_pos hr, attach_dev_unwind_eq hw l _ _ hkl]
          simp only [hr, if_false, Nat.add_zero]
          exact hroll
        · rw [if_neg hr]
          simp only [if_true]
          have hk := hidx.1 (by simpa using hc)
          rw [hk, List.take_length] at hloop
          exact hloop

theorem owed_erase (v : Nat) :
    ∀ (pending : List (List Nat)) (l : List Nat), l ∈ pending →
      ((pending.erase l).map (fun x => x.count v)).sum + l.count v =
        (pending.map (fun x => x.count v)).sum := by
  intro pending
  induction pending with
  | nil => intro l h; simp at h
  | cons p rest ih =>
    intro l h
    by_cases hp : p = l
    · subst hp
      simp only [List.erase_cons_head, List.map_cons, List.sum_cons]
      omega
    · have hm : l ∈ rest := by
        rcases List.mem_cons.1 h with h | h
        · exact absurd h.symm hp
        · exact h
      have hbeq : (p == l) = false := by simpa using hp
      rw [List.erase_cons, hbeq]
      simp only [Bool.false_eq_true, if_false, List.map_cons, List.sum_cons]
      have := ih l hm
      omega

/-- Every reachable state satisfies the invariant of the unit list, and every unit is
attached at least as often as the successful attaches not yet detached name it. -/
theorem attach_reachable_inv (hw : sysmmu_regs) (sys : sysmmu_system)
    (pending : List (List Nat)) (h : attach_reachable hw sys pending) :
    unit_list_inv sys ∧ owed_inv (fun v => (pending.map (fun x => x.count v)).sum) sys := by
  induction h with
  | probe sys h0 hl =>
    refine ⟨⟨by rw [hl]; exact List.nodup_nil, fun u => ?_⟩, fun u => ?_⟩
    · rw [hl, (h0 u).1, (h0 u).2]
      simp
    · rw [(h0 u).1]
      simp
  | attach readl sys pending dom fwspec_ok client group window _ hpt ih =>
    obtain ⟨i1, i2⟩ := attach_dev_inv hw readl sys dom fwspec_ok client group window _ hpt
      ih.1 ih.2
    refine ⟨i1, fun v => ?_⟩
    have := i2 v
    by_cases hr :
        (samsung_sysmmu_attach_dev hw readl sys dom fwspec_ok client group window).1 = 0
    · simp only [hr, if_true, List.map_cons, List.sum_cons] at this ⊢
      rw [Nat.add_comm]
      exact this
    · simp only [hr, if_false, Nat.add_zero] at this ⊢
      exact this
  | detach sys pending sysmmus _ hm ih =>
    exact detach_dev_inv hw sysmmus sys _ _ ih.1 ih.2
      (fun v => le_of_eq (owed_erase v pending sysmmus hm))
  | power sys pending u rpm_count pm_active _ ih =>
    obtain ⟨⟨hnd, hall⟩, hb⟩ := ih
    have hf : ∀ v, ((set_drvdata sys u { sys.drvdata u with
          rpm_count := rpm_count, pm_active := pm_active }).drvdata v).attached_count =
          (sys.drvdata v).attached_count ∧
        ((set_drvdata sys u { sys.drvdata u with
          rpm_count := rpm_count, pm_active := pm_active }).drvdata v).pgtable =
          (sys.drvdata v).pgtable := by
      intro v
      by_cases hv : v = u
      · subst hv; simp [set_drvdata]
      · simp [set_drvdata, hv]
    refine ⟨⟨hnd, fun v => ?_⟩, fun v => ?_⟩
    · rw [(hf v).1, (hf v).2]
      exact hall v
    · rw [(hf v).1]
      exact hb v

/-- After a loop that passed all units, each of them is bound to the table attached. -/
theorem attach_dev_loop_bound (hw : sysmmu_regs) (readl : Nat → Nat) (group page_table : Nat) :
    ∀ (l : List Nat) (sys : sysmmu_system),
      (attach_dev_loop hw readl group page_table l 0 sys).1 = false →
      ∀ v ∈ l, ((attach_dev_loop hw readl group page_table l 0 sys).2.2.drvdata v).pgtable =
        page_table := by
  intro l
  induction l with
  | nil => intro sys _ v hv; simp at hv
  | cons u rest ih =>
    intro sys
    obtain ⟨hconf, -, -, hpg, -⟩ := attach_dev_body_spec hw readl group page_table sys u
    rw [attach_dev_loop_cons_zero]
    by_cases hc : (attach_dev_body hw readl group page_table sys u).1 = true
    · rw [if_pos hc]
      intro h
      simp at h
    · rw [if_neg hc]
      intro h v hv
      rcases List.mem_cons.1 hv with hv | hv
      · subst hv
        refine attach_dev_loop_pgtable hw readl group page_table v rest _ ?_
        rw [hpg]
        by_cases h0 : (sys.drvdata v).attached_count = 0
        · rw [if_pos h0]
        · rw [if_neg h0]
          by_contra hp
          exact hc (hconf.2 ⟨h0, hp⟩)
      · exact ih _ h v hv

theorem attach_dev_body_again (hw : sysmmu_regs) (readl : Nat → Nat) (group page_table : Nat)
    (sys : sysmmu_system) (u : Nat) (h0 : (sys.drvdata u).attached_count ≠ 0)
    (hp : (sys.drvdata u).pgtable = page_table) :
    attach_dev_body hw readl group page_table sys u =
      (false, set_drvdata sys u { sys.drvdata u with
        attached_count := (sys.drvdata u).attached_count + 1 }) := by
  unfold attach_dev_body
  simp only [h0, hp, if_false, ne_eq, not_true_eq_false]

/-- On units that are all attached to the table already, the loop passes every unit, only
counts, and writes no register. -/
theorem attach_dev_loop_again_all (hw : sysmmu_regs) (readl : Nat → Nat)
    (group page_table : Nat) :
    ∀ (l : List Nat) (sys : sysmmu_system),
      (∀ v ∈ l, 0 < (sys.drvdata v).attached_count ∧ (sys.drvdata v).pgtable = page_table) →
      (attach_dev_loop hw readl group page_table l 0 sys).1 = false ∧
      (attach_dev_loop hw readl group page_table l 0 sys).2.2.group_list = sys.group_list ∧
      (attach_dev_loop hw readl group page_table l 0 sys).2.2.writes = sys.writes ∧
      ∀ v, (attach_dev_loop hw readl group page_table l 0 sys).2.2.drvdata v =
        { sys.drvdata v with
          attached_count := (sys.drvdata v).attached_count + l.count v } := by
  intro l
  induction l with
  | nil => intro sys _; simp [attach_dev_loop]
  | cons u rest ih =>
    intro sys hall
    obtain ⟨hu0, hup⟩ := hall u (List.mem_cons_self _ _)
    have hb := attach_dev_body_again hw readl group page_table sys u (by omega) hup
    rw [attach_dev_loop_cons_zero, hb]
    simp only [Bool.false_eq_true, if_false]
    obtain ⟨i1, i2, i3, i4⟩ := ih (set_drvdata sys u { sys.drvdata u with
        attached_count := (sys.drvdata u).attached_count + 1 }) (fun v hv => by
      by_cases hvu : v = u
      · subst hvu
        simp only [set_drvdata, if_true]
        exact ⟨by omega, hup⟩
      · simp only [set_drvdata, hvu, if_false]
        exact hall v (List.mem_cons_of_mem _ hv))
    refine ⟨i1, i2, i3, fun v => ?_⟩
    rw [i4 v, List.count_cons]
    by_cases hvu : v = u
    · subst hvu
      simp only [set_drvdata, if_true, beq_self_eq_true, Nat.cast_add, Nat.cast_one]
      congr 1
      omega
    · have hvu' : (u == v) = false := by simp [Ne.symm hvu]
      simp only [set_drvdata, hvu, if_false, hvu', Bool.false_eq_true, Nat.add_zero]

theorem attach_dev_ok (hw : sysmmu_regs) (readl : Nat → Nat) (sys : sysmmu_system)
    (dom : samsung_sysmmu_domain) (sysmmus : List Nat) (group : Nat)
    (window : Option (Nat × Nat))
    (hr : (samsung_sysmmu_attach_dev hw readl sys dom true (some sysmmus) group window).1 = 0) :
    (attach_dev_loop hw readl group dom.pgtable_base sysmmus 0 sys).1 = false ∧
    (samsung_sysmmu_attach_dev hw readl sys dom true (some sysmmus) group window).2.1 =
      (attach_dev_loop hw readl group dom.pgtable_base sysmmus 0 sys).2.2 ∧
    (samsung_sysmmu_attach_dev hw readl sys dom true (some sysmmus) group window).2.2.pgtable_base =
      dom.pgtable_base := by
  have hV : EINVAL = 22 := rfl
  rw [attach_dev_eq] at hr ⊢
  by_cases hc : (attach_dev_loop hw readl group dom.pgtable_base sysmmus 0 sys).1 = true
  · rw [if_pos hc] at hr
    rw [hV] at hr
    simp at hr
  · rw [if_neg hc] at hr ⊢
    by_cases hg : (samsung_sysmmu_set_domain_range dom.geometry window).1 ≠ 0
    · rw [if_pos hg] at hr
      exact absurd hr hg
    · rw [if_neg hg]
      exact ⟨by simpa using hc, rfl, rfl⟩

/-- C13: the invariant of the unit list. In every state reached from units that were
never attached (count 0, no table recorded, empty unit list) by calls of
`samsung_sysmmu_attach_dev`, successful or not, on domains whose root table is not at
physical address 0, by calls of `samsung_sysmmu_detach_dev` that each match an earlier
successful attach, and by changes of the power state, the unit list holds every unit at
most once, a unit is on the list exactly when its `attached_count` is not 0, and it
records a page table other than 0 exactly when its `attached_count` is not 0. In
particular, when in such a state a device is attached to a domain and then attached to
it again, both times successfully, the second attach leaves the unit list as it is,
writes no register, and changes of the units only the counts, each raised by the number
of times the unit is in the list of the device. -/
theorem unit_list_invariant (hw : sysmmu_regs) (sys : sysmmu_system)
    (pending : List (List Nat)) (h : attach_reachable hw sys pending) :
    (sys.group_list.Nodup ∧
      ∀ u, (u ∈ sys.group_list ↔ (sys.drvdata u).attached_count ≠ 0) ∧
        ((sys.drvdata u).pgtable ≠ 0 ↔ (sys.drvdata u).attached_count ≠ 0)) ∧
    ∀ (readl : Nat → Nat) (dom : samsung_sysmmu_domain) (sysmmus : List Nat) (group : Nat)
      (w1 w2 : Option (Nat × Nat)), dom.pgtable_base ≠ 0 →
      (samsung_sysmmu_attach_dev hw readl sys dom true (some sysmmus) group w1).1 = 0 →
      (samsung_sysmmu_attach_dev hw readl
        (samsung_sysmmu_attach_dev hw readl sys dom true (some sysmmus) group w1).2.1
        (samsung_sysmmu_attach_dev hw readl sys dom true (some sysmmus) group w1).2.2
        true (some sysmmus) group w2).1 = 0 →
      (samsung_sysmmu_attach_dev hw readl
        (samsung_sysmmu_attach_dev hw readl sys dom true (some sysmmus) group w1).2.1
        (samsung_sysmmu_attach_dev hw readl sys dom true (some sysmmus) group w1).2.2
        true (some sysmmus) group w2).2.1.group_list =
        (samsung_sysmmu_attach_dev hw readl sys dom true (some sysmmus) group w1).2.1.group_list ∧
      (samsung_sysmmu_attach_dev hw readl
        (samsung_sysmmu_attach_dev hw readl sys dom true (some sysmmus) group w1).2.1
        (samsung_sysmmu_attach_dev hw readl sys dom true (some sysmmus) group w1).2.2
        true (some sysmmus) group w2).2.1.writes =
        (samsung_sysmmu_attach_dev hw readl sys dom true (some sysmmus) group w1).2.1.writes ∧
      ∀ v, (samsung_sysmmu_attach_dev hw readl
        (samsung_sysmmu_attach_dev hw readl sys dom true (some sysmmus) group w1).2.1
        (samsung_sysmmu_attach_dev hw readl sys dom true (some sysmmus) group w1).2.2
        true (some sysmmus) group w2).2.1.drvdata v =
        { (samsung_sysmmu_attach_dev hw readl sys dom true (some sysmmus) group
              w1).2.1.drvdata v with
          attached_count :=
            ((samsung_sysmmu_attach_dev hw readl sys dom true (some sysmmus) group
              w1).2.1.drvdata v).attached_count + sysmmus.count v } := by
  refine ⟨(attach_reachable_inv hw sys pending h).1, ?_⟩
  intro readl dom sysmmus group w1 w2 hpt hr1 hr2
  have hreach := attach_reachable.attach readl sys pending dom true (some sysmmus) group w1 h hpt
  obtain ⟨⟨-, hall⟩, hb⟩ := attach_reachable_inv hw _ _ hreach
  obtain ⟨a1, a2, a3⟩ := attach_dev_ok hw readl sys dom sysmmus group w1 hr1
  obtain ⟨b1, b2, b3⟩ := attach_dev_ok hw readl _ _ sysmmus group w2 hr2
  have hbound : ∀ v ∈ sysmmus,
      0 < ((samsung_sysmmu_attach_dev hw readl sys dom true (some sysmmus) group
        w1).2.1.drvdata v).attached_count ∧
      ((samsung_sysmmu_attach_dev hw readl sys dom true (some sysmmus) group
        w1).2.1.drvdata v).pgtable =
        (samsung_sysmmu_attach_dev hw readl sys dom true (some sysmmus) group
          w1).2.2.pgtable_base := by
    intro v hv
    have hp : ((samsung_sysmmu_attach_dev hw readl sys dom true (some sysmmus) group
        w1).2.1.drvdata v).pgtable = dom.pgtable_base := by
      rw [a2]
      exact attach_dev_loop_bound hw readl group dom.pgtable_base sysmmus sys a1 v hv
    have hne := (hall v).2.1 (by rw [hp]; exact hpt)
    have hge := hb v
    simp only at hge
    refine ⟨by omega, by rw [hp, a3]⟩
  obtain ⟨-, e2, e3, e4⟩ := attach_dev_loop_again_all hw readl group _ sysmmus _ hbound
  rw [b2]
  exact ⟨e2, e3, e4⟩

/-! ## Register fan-out -/

theorem vmid_bit_eq (m i : Nat) : (m &&& (1 <<< i) != 0) = m.testBit i := by
  rw [Nat.one_shiftLeft, Nat.and_two_pow]
  cases h : m.testBit i <;> simp [h]

/-- The writes of `__sysmmu_write_all_vm`, slot by slot. -/
theorem write_all_vm_eq (hw : sysmmu_regs) (data : sysmmu_drvdata) (value addr : Nat) :
    __sysmmu_write_all_vm hw data value addr =
      ((List.range data.max_vm).filter (fun i => data.vmid_mask.testBit i)).map
        (fun i => (hw.MMU_VM_ADDR addr i, value % 2 ^ 32)) := by
  unfold __sysmmu_write_all_vm
  congr 2
  funext i
  exact vmid_bit_eq _ _

theorem mem_vm_slots (data : sysmmu_drvdata) (i : Nat) :
    i ∈ (List.range data.max_vm).filter (fun i => data.vmid_mask.testBit i) ↔
      i < data.max_vm ∧ data.vmid_mask.testBit i = true := by
  simp [List.mem_filter]

/-- C17: replication over the virtual-machine slots. For every unit, value and register
address the writes of `__sysmmu_write_all_vm` are, in increasing order of the slot and one
write for each slot, the writes of the value (a `u32`) to the replica `MMU_VM_ADDR(addr, i)`
for the slots `i` below `max_vm` whose bit is set in `vmid_mask`: no slot is written twice
and no slot with a clear bit is written. Hence the enable command and the table base
written by `__sysmmu_enable`, and the disable command written by `__sysmmu_disable`,
reach every such slot. -/
theorem write_all_vm_replicates (hw : sysmmu_regs) (data : sysmmu_drvdata) (value addr : Nat) :
    (∃ slots : List Nat, slots.Nodup ∧ slots.Sorted (· < ·) ∧
      (∀ i, i ∈ slots ↔ i < data.max_vm ∧ data.vmid_mask.testBit i = true) ∧
      __sysmmu_write_all_vm hw data value addr =
        slots.map (fun i => (hw.MMU_VM_ADDR addr i, value % 2 ^ 32))) ∧
    ∀ (readl : Nat → Nat) (i : Nat), i < data.max_vm → data.vmid_mask.testBit i = true →
      (hw.MMU_VM_ADDR (data.sfrbase + hw.REG_MMU_CTRL_VM) i, hw.MMU_CTRL_ENABLE % 2 ^ 32) ∈
        __sysmmu_enable hw readl data ∧
      (hw.MMU_VM_ADDR (data.sfrbase + hw.REG_MMU_CONTEXT0_CFG_FLPT_BASE_VM) i,
        data.pgtable / SPAGE_SIZE % 2 ^ 32) ∈ __sysmmu_enable hw readl data ∧
      (hw.MMU_VM_ADDR (data.sfrbase + hw.REG_MMU_CTRL_VM) i, hw.MMU_CTRL_DISABLE % 2 ^ 32) ∈
        __sysmmu_disable hw data := by
  have hmem : ∀ (value addr i : Nat), i < data.max_vm → data.vmid_mask.testBit i = true →
      (hw.MMU_VM_ADDR addr i, value % 2 ^ 32) ∈ __sysmmu_write_all_vm hw data value addr := by
    intro value addr i h1 h2
    rw [write_all_vm_eq]
    exact List.mem_map.2 ⟨i, (mem_vm_slots data i).2 ⟨h1, h2⟩, rfl⟩
  refine ⟨⟨(List.range data.max_vm).filter (fun i => data.vmid_mask.testBit i),
    (List.nodup_range _).filter _, ?_, mem_vm_slots data, write_all_vm_eq hw data value addr⟩, ?_⟩
  · exact (List.sorted_lt_range _).filter _
  · intro readl i h1 h2
    refine ⟨?_, ?_, ?_⟩
    · unfold __sysmmu_enable
      simp only [List.mem_append]
      exact Or.inl (Or.inl (Or.inl (hmem _ _ i h1 h2)))
    · unfold __sysmmu_enable
      simp only [List.mem_append]
      exact Or.inl (Or.inl (Or.inr (hmem _ _ i h1 h2)))
    · unfold __sysmmu_disable
      simp only [List.mem_append]
      exact Or.inl (hmem _ _ i h1 h2)

/-! ## Power-off -/

/-- C14: power-off never detaches. For every state and unit `u`,
`samsung_sysmmu_runtime_suspend` returns 0, leaves the unit list and every other unit as
they are, and changes of the unit `u` only `rpm_count`, which it decrements: the
`attached_count`, the recorded page table and the group stay. Exactly when
`attached_count > 0` it writes, to the slots enabled in `vmid_mask`, first the disable
command and then the full invalidation; otherwise it writes no register. -/
theorem runtime_suspend_keeps_attachment (hw : sysmmu_regs) (sys : sysmmu_system) (u : Nat) :
    (samsung_sysmmu_runtime_suspend hw sys u).1 = 0 ∧
    (samsung_sysmmu_runtime_suspend hw sys u).2.group_list = sys.group_list ∧
    (∀ v, v ≠ u → (samsung_sysmmu_runtime_suspend hw sys u).2.drvdata v = sys.drvdata v) ∧
    (samsung_sysmmu_runtime_suspend hw sys u).2.drvdata u =
      { sys.drvdata u with rpm_count := (sys.drvdata u).rpm_count - 1 } ∧
    ((samsung_sysmmu_runtime_suspend hw sys u).2.drvdata u).attached_count =
      (sys.drvdata u).attached_count ∧
    ((samsung_sysmmu_runtime_suspend hw sys u).2.drvdata u).pgtable = (sys.drvdata u).pgtable ∧
    ((samsung_sysmmu_runtime_suspend hw sys u).2.drvdata u).group = (sys.drvdata u).group ∧
    (∀ v, v ∈ (samsung_sysmmu_runtime_suspend hw sys u).2.group_list ↔ v ∈ sys.group_list) ∧
    (0 < (sys.drvdata u).attached_count →
      (samsung_sysmmu_runtime_suspend hw sys u).2.writes =
        sys.writes ++
          (((List.range (sys.drvdata u).max_vm).filter
              (fun i => (sys.drvdata u).vmid_mask.testBit i)).map
            (fun i => (hw.MMU_VM_ADDR ((sys.drvdata u).sfrbase + hw.REG_MMU_CTRL_VM) i,
              hw.MMU_CTRL_DISABLE % 2 ^ 32)) ++
           ((List.range (sys.drvdata u).max_vm).filter
              (fun i => (sys.drvdata u).vmid_mask.testBit i)).map
            (fun i => (hw.MMU_VM_ADDR ((sys.drvdata u).sfrbase + REG_MMU_ALL_INV_VM) i, 1)))) ∧
    ((sys.drvdata u).attached_count ≤ 0 →
      (samsung_sysmmu_runtime_suspend hw sys u).2.writes = sys.writes) := by
  unfold samsung_sysmmu_runtime_suspend
  refine ⟨rfl, rfl, fun v hv => by simp [set_drvdata, hv], by simp [set_drvdata],
    by simp [set_drvdata], by simp [set_drvdata], by simp [set_drvdata], fun v => Iff.rfl,
    fun h => ?_, fun h => ?_⟩
  · simp only [gt_iff_lt, h, if_true]
    rw [__sysmmu_disable, __sysmmu_invalidate_all, write_all_vm_eq, write_all_vm_eq]
    rfl
  · have h' : ¬ (0 < (sys.drvdata u).attached_count) := by omega
    simp only [gt_iff_lt, h', if_false]

/-! ## Invalidation -/

theorem flush_foldl (hw : sysmmu_regs) :
    ∀ (l : List Nat) (sys : sysmmu_system),
      l.foldl
        (fun sys u =>
          if (sys.drvdata u).attached_count ≠ 0 ∧ (sys.drvdata u).rpm_count > 0 then
            { sys with writes := sys.writes ++ __sysmmu_invalidate_all hw (sys.drvdata u) }
          else sys) sys =
      { sys with
        writes := sys.writes ++
          (l.filter (fun u => decide ((sys.drvdata u).attached_count ≠ 0 ∧
              (sys.drvdata u).rpm_count > 0))).flatMap
            (fun u => __sysmmu_invalidate_all hw (sys.drvdata u)) } := by
  intro l
  induction l with
  | nil => intro sys; simp
  | cons u rest ih =>
    intro sys
    rw [List.foldl_cons]
    by_cases hc : (sys.drvdata u).attached_count ≠ 0 ∧ (sys.drvdata u).rpm_count > 0
    · rw [if_pos hc, ih, List.filter_cons_of_pos (by simpa using hc)]
      simp only [List.flatMap_cons, List.append_assoc]
    · rw [if_neg hc, ih, List.filter_cons_of_neg (by simpa using hc)]

/-- C15: fan-out of the full invalidation. For a domain that has been attached
(`domain->group` is set) `samsung_sysmmu_flush_iotlb_all` changes no unit and not the unit
list; the page table is not among the things it can write. The register writes it adds
are, for the units of the unit list in order that have `attached_count` other than 0 and
`rpm_count > 0`, the value 1 to the replica of `REG_MMU_ALL_INV_VM` of every slot below
`max_vm` whose bit is set in `vmid_mask`; a unit that is not attached or not powered on
gets no write. -/
theorem flush_iotlb_all_fanout (hw : sysmmu_regs) (sys : sysmmu_system)
    (dom : samsung_sysmmu_domain) (hg : dom.group ≠ none) :
    (samsung_sysmmu_flush_iotlb_all hw sys dom).drvdata = sys.drvdata ∧
    (samsung_sysmmu_flush_iotlb_all hw sys dom).group_list = sys.group_list ∧
    (samsung_sysmmu_flush_iotlb_all hw sys dom).writes =
      sys.writes ++
        (sys.group_list.filter (fun u => decide ((sys.drvdata u).attached_count ≠ 0 ∧
            (sys.drvdata u).rpm_count > 0))).flatMap
          (fun u =>
            ((List.range (sys.drvdata u).max_vm).filter
                (fun i => (sys.drvdata u).vmid_mask.testBit i)).map
              (fun i =>
                (hw.MMU_VM_ADDR ((sys.drvdata u).sfrbase + REG_MMU_ALL_INV_VM) i, 1))) ∧
    ∀ w, w ∈ (samsung_sysmmu_flush_iotlb_all hw sys dom).writes ↔
      w ∈ sys.writes ∨
        ∃ u ∈ sys.group_list, (sys.drvdata u).attached_count ≠ 0 ∧
          (sys.drvdata u).rpm_count > 0 ∧
          ∃ i, i < (sys.drvdata u).max_vm ∧ (sys.drvdata u).vmid_mask.testBit i = true ∧
            w = (hw.MMU_VM_ADDR ((sys.drvdata u).sfrbase + REG_MMU_ALL_INV_VM) i, 1) := by
  obtain ⟨g, hg'⟩ := Option.ne_none_iff_exists'.1 hg
  have hinv : ∀ u, __sysmmu_invalidate_all hw (sys.drvdata u) =
      ((List.range (sys.drvdata u).max_vm).filter
          (fun i => (sys.drvdata u).vmid_mask.testBit i)).map
        (fun i => (hw.MMU_VM_ADDR ((sys.drvdata u).sfrbase + REG_MMU_ALL_INV_VM) i, 1)) := by
    intro u
    rw [__sysmmu_invalidate_all, write_all_vm_eq]
    rfl
  have hfl : samsung_sysmmu_flush_iotlb_all hw sys dom =
      { sys with
        writes := sys.writes ++
          (sys.group_list.filter (fun u => decide ((sys.drvdata u).attached_count ≠ 0 ∧
              (sys.drvdata u).rpm_count > 0))).flatMap
            (fun u => __sysmmu_invalidate_all hw (sys.drvdata u)) } := by
    unfold samsung_sysmmu_flush_iotlb_all
    rw [hg']
    exact flush_foldl hw sys.group_list sys
  rw [hfl]
  simp only [hinv]
  refine ⟨?_, ?_, ?_, fun w => ?_⟩
  · trivial
  · trivial
  · trivial
  simp only [List.mem_append, List.mem_flatMap, List.mem_filter, List.mem_map, List.mem_range,
    decide_eq_true_eq]
  constructor
  · rintro (h | ⟨u, ⟨hu, hc, hr⟩, i, ⟨hi, hb⟩, rfl⟩)
    · exact Or.inl h
    · exact Or.inr ⟨u, hu, hc, hr, i, hi, hb, rfl⟩
  · rintro (h | ⟨u, hu, hc, hr, i, hi, hb, rfl⟩)
    · exact Or.inl h
    · exact Or.inr ⟨u, ⟨hu, hc, hr⟩, i, ⟨hi, hb⟩, rfl⟩

/-- What a successful `samsung_sysmmu_domain_alloc` has seen and what it returns. -/
theorem domain_alloc_some (type : Nat) (latch k : Bool) (f : Option Nat) (c : Bool)
    (r : Int) (d : samsung_sysmmu_domain)
    (hd : (samsung_sysmmu_domain_alloc type latch k f c r).1 = some d) :
    (type = IOMMU_DOMAIN_UNMANAGED ∨ type = IOMMU_DOMAIN_DMA ∨ type = IOMMU_DOMAIN_IDENTITY) ∧
    k = true ∧ c = true ∧ (type = IOMMU_DOMAIN_DMA → r = 0) ∧
    (samsung_sysmmu_domain_alloc type latch k f c r).2 = false ∧
    ∃ base, f = some base ∧
      d = { page_table := fun _ => 0
            pgtable_base := base
            lv2entcnt := fun _ => 0
            num_lv1entries := if latch then NUM_LV1ENTRIES_36BIT else NUM_LV1ENTRIES_32BIT
            is_va_36bit := latch
            group := none
            geometry := ⟨0, 0, false⟩
            dma_cookie := type == IOMMU_DOMAIN_DMA } := by
  unfold samsung_sysmmu_domain_alloc at hd ⊢
  by_cases ht : type ≠ IOMMU_DOMAIN_UNMANAGED ∧ type ≠ IOMMU_DOMAIN_DMA ∧
      type ≠ IOMMU_DOMAIN_IDENTITY
  · rw [if_pos ht] at hd
    simp at hd
  · rw [if_neg ht] at hd ⊢
    cases k
    · simp at hd
    · simp only [Bool.not_true, Bool.false_eq_true, if_false] at hd ⊢
      rcases f with _ | base
      · simp at hd
      · simp only at hd ⊢
        cases c
        · simp at hd
        · simp only [Bool.not_true, Bool.false_eq_true, if_false] at hd ⊢
          by_cases hk : type = IOMMU_DOMAIN_DMA ∧ r ≠ 0
          · rw [if_pos hk] at hd
            simp at hd
          · rw [if_neg hk] at hd ⊢
            simp only [Option.some.injEq] at hd
            refine ⟨by tauto, ?_, ?_, fun h => by_contra fun hr => hk ⟨h, hr⟩, ?_, base, ?_,
              hd.symm⟩ <;> first | rfl | trivial

/-- C16: invalidation before any attach. For a domain with `domain->group` unset, as it is
in every domain `samsung_sysmmu_domain_alloc` returns, and for every gather,
`samsung_sysmmu_flush_iotlb_all` and `samsung_sysmmu_iotlb_sync` return with the state
they were called in: no register write, no change of a unit or of the unit list. -/
theorem invalidate_before_attach (hw : sysmmu_regs) (sys : sysmmu_system)
    (dom : samsung_sysmmu_domain) (gather : iommu_iotlb_gather) :
    (dom.group = none →
      samsung_sysmmu_flush_iotlb_all hw sys dom = sys ∧
      samsung_sysmmu_iotlb_sync hw sys dom gather = sys) ∧
    ∀ (type : Nat) (latch kzalloc_ok : Bool) (flpt : Option Nat) (cnt_ok : Bool)
      (cookie_ret : Int),
      (samsung_sysmmu_domain_alloc type latch kzalloc_ok flpt cnt_ok cookie_ret).1 = some dom →
      samsung_sysmmu_flush_iotlb_all hw sys dom = sys ∧
      samsung_sysmmu_iotlb_sync hw sys dom gather = sys := by
  have h1 : dom.group = none →
      samsung_sysmmu_flush_iotlb_all hw sys dom = sys ∧
      samsung_sysmmu_iotlb_sync hw sys dom gather = sys := by
    intro hg
    unfold samsung_sysmmu_flush_iotlb_all samsung_sysmmu_iotlb_sync
    rw [hg]
    exact ⟨rfl, rfl⟩
  refine ⟨h1, fun type latch kz flpt cnt cookie hd => h1 ?_⟩
  obtain ⟨-, -, -, -, -, base, -, hdom⟩ := domain_alloc_some type latch kz flpt cnt cookie dom hd
  rw [hdom]

/-! ## Domain creation and the latch -/

/-- The call trace and the result of `samsung_sysmmu_domain_alloc` follow the same
branches: a domain is returned exactly when the trace holds an allocation of the domain
structure and frees nothing, and the latch is reset exactly when the root table was
requested. -/
theorem domain_alloc_calls_result (type : Nat) (latch kzalloc_ok : Bool) (flpt : Option Nat)
    (cnt_ok : Bool) (cookie_ret : Int) :
    ((samsung_sysmmu_domain_alloc type latch kzalloc_ok flpt cnt_ok cookie_ret).1 ≠ none ↔
      alloc_call.kzalloc_domain ∈
          samsung_sysmmu_domain_alloc_calls type latch kzalloc_ok flpt cnt_ok cookie_ret ∧
        kzalloc_ok = true ∧
        alloc_call.kfree_domain ∉
          samsung_sysmmu_domain_alloc_calls type latch kzalloc_ok flpt cnt_ok cookie_ret) ∧
    (samsung_sysmmu_domain_alloc type latch kzalloc_ok flpt cnt_ok cookie_ret).2 =
      (if alloc_call.kmem_cache_alloc_flpt latch ∈
          samsung_sysmmu_domain_alloc_calls type latch kzalloc_ok flpt cnt_ok cookie_ret
        then false else latch) := by
  unfold samsung_sysmmu_domain_alloc samsung_sysmmu_domain_alloc_calls
  dsimp only
  by_cases ht : type ≠ IOMMU_DOMAIN_UNMANAGED ∧ type ≠ IOMMU_DOMAIN_DMA ∧
      type ≠ IOMMU_DOMAIN_IDENTITY
  · rw [if_pos ht, if_pos ht]
    simp
  · rw [if_neg ht, if_neg ht]
    cases kzalloc_ok
    · simp
    · rcases flpt with _ | base
      · simp
      · cases cnt_ok
        · simp
        · by_cases hd : type = IOMMU_DOMAIN_DMA
          · by_cases hr : cookie_ret = 0
            · simp [hd, hr]
            · simp [hd, hr]
          · simp [hd]

/-- C18: domain creation validates the kind. For a type other than
`IOMMU_DOMAIN_UNMANAGED`, `IOMMU_DOMAIN_DMA` and `IOMMU_DOMAIN_IDENTITY`,
`samsung_sysmmu_domain_alloc` returns `NULL`, calls no allocator and leaves the latch.
For each of the three types it returns a domain whenever the domain structure, the root
table and the counters are allocated and, for `IOMMU_DOMAIN_DMA`, the cookie is obtained;
in that case `iommu_get_dma_cookie` is among its calls exactly when the type is
`IOMMU_DOMAIN_DMA`, and the domain carries a cookie exactly then. Whatever the
allocations do, the cookie is requested for no other type. -/
theorem domain_alloc_validates_kind (type : Nat) (latch kzalloc_ok : Bool) (flpt : Option Nat)
    (cnt_ok : Bool) (cookie_ret : Int) :
    ((type ≠ IOMMU_DOMAIN_UNMANAGED ∧ type ≠ IOMMU_DOMAIN_DMA ∧ type ≠ IOMMU_DOMAIN_IDENTITY) →
      (samsung_sysmmu_domain_alloc type latch kzalloc_ok flpt cnt_ok cookie_ret).1 = none ∧
      (samsung_sysmmu_domain_alloc type latch kzalloc_ok flpt cnt_ok cookie_ret).2 = latch ∧
      samsung_sysmmu_domain_alloc_calls type latch kzalloc_ok flpt cnt_ok cookie_ret = []) ∧
    ((type = IOMMU_DOMAIN_UNMANAGED ∨ type = IOMMU_DOMAIN_DMA ∨ type = IOMMU_DOMAIN_IDENTITY) →
      kzalloc_ok = true → flpt ≠ none → cnt_ok = true →
      (type = IOMMU_DOMAIN_DMA → cookie_ret = 0) →
      (∃ d, (samsung_sysmmu_domain_alloc type latch kzalloc_ok flpt cnt_ok cookie_ret).1 =
          some d ∧ (d.dma_cookie = true ↔ type = IOMMU_DOMAIN_DMA)) ∧
      (alloc_call.iommu_get_dma_cookie ∈
          samsung_sysmmu_domain_alloc_calls type latch kzalloc_ok flpt cnt_ok cookie_ret ↔
        type = IOMMU_DOMAIN_DMA)) ∧
    (alloc_call.iommu_get_dma_cookie ∈
        samsung_sysmmu_domain_alloc_calls type latch kzalloc_ok flpt cnt_ok cookie_ret →
      type = IOMMU_DOMAIN_DMA) := by
  refine ⟨fun ht => ?_, fun ht hk hf hc hr => ?_, fun hm => ?_⟩
  · unfold samsung_sysmmu_domain_alloc samsung_sysmmu_domain_alloc_calls
    dsimp only
    rw [if_pos ht, if_pos ht]
    exact ⟨rfl, rfl, rfl⟩
  · obtain ⟨base, hbase⟩ := Option.ne_none_iff_exists'.1 hf
    have hnt : ¬ (type ≠ IOMMU_DOMAIN_UNMANAGED ∧ type ≠ IOMMU_DOMAIN_DMA ∧
        type ≠ IOMMU_DOMAIN_IDENTITY) := by tauto
    have hnk : ¬ (type = IOMMU_DOMAIN_DMA ∧ cookie_ret ≠ 0) := fun h => h.2 (hr h.1)
    subst hk hc hbase
    unfold samsung_sysmmu_domain_alloc samsung_sysmmu_domain_alloc_calls
    simp only [if_neg hnt, Bool.not_true, Bool.false_eq_true, if_false, if_neg hnk]
    refine ⟨⟨_, rfl, by simp⟩, ?_⟩
    by_cases hd : type = IOMMU_DOMAIN_DMA
    · have h0 : ¬ cookie_ret ≠ 0 := fun h => h (hr hd)
      simp [hd, h0]
    · simp [hd]
  · unfold samsung_sysmmu_domain_alloc_calls at hm
    by_contra hd
    rcases flpt with _ | base <;> simp only [hd, if_false] at hm <;> split_ifs at hm <;>
      simp at hm

theorem of_xlate_wide (latch : Bool) (c : xlate_call)
    (hw : c.va_width = sysmmu_va_width.VA_WIDTH_36BIT)
    (hr : ∀ l, (samsung_sysmmu_of_xlate l c.va_width c.add_ids_ret c.client c.devres_ok
      c.krealloc_ok c.data).1 = 0) :
    (samsung_sysmmu_of_xlate latch c.va_width c.add_ids_ret c.client c.devres_ok
      c.krealloc_ok c.data).2.2 = true := by
  have hM : ENOMEM = 12 := rfl
  have h := hr latch
  unfold samsung_sysmmu_of_xlate at h ⊢
  by_cases h1 : c.add_ids_ret ≠ 0
  · rw [if_pos h1] at h
    exact absurd h h1
  · rw [if_neg h1] at h ⊢
    by_cases h2 : c.client.isNone ∧ (!c.devres_ok) = true
    · rw [if_pos h2] at h
      simp only [hM] at h
      omega
    · rw [if_neg h2] at h ⊢
      dsimp only at h ⊢
      by_cases h3 : (!c.krealloc_ok) = true
      · rw [if_pos h3] at h
        simp only [hM] at h
        omega
      · rw [if_neg h3]
        cases latch <;> simp [hw]

theorem of_xlate_latch_true (calls : List xlate_call)
    (hr : ∀ c ∈ calls, c.va_width = sysmmu_va_width.VA_WIDTH_36BIT ∧
      ∀ l, (samsung_sysmmu_of_xlate l c.va_width c.add_ids_ret c.client c.devres_ok
        c.krealloc_ok c.data).1 = 0) :
    of_xlate_latch true calls = true := by
  induction calls with
  | nil => rfl
  | cons c rest ih =>
    have hc := hr c (List.mem_cons_self _ _)
    unfold of_xlate_latch at ih ⊢
    rw [List.foldl_cons, of_xlate_wide true c hc.1 hc.2]
    exact ih (fun c' h' => hr c' (List.mem_cons_of_mem _ h'))

theorem of_xlate_latch_wide (latch : Bool) (calls : List xlate_call) (hne : calls ≠ [])
    (hr : ∀ c ∈ calls, c.va_width = sysmmu_va_width.VA_WIDTH_36BIT ∧
      ∀ l, (samsung_sysmmu_of_xlate l c.va_width c.add_ids_ret c.client c.devres_ok
        c.krealloc_ok c.data).1 = 0) :
    of_xlate_latch latch calls = true := by
  rcases calls with _ | ⟨c, rest⟩
  · exact absurd rfl hne
  · have hc := hr c (List.mem_cons_self _ _)
    have ht := of_xlate_latch_true rest (fun c' h' => hr c' (List.mem_cons_of_mem _ h'))
    unfold of_xlate_latch at ht ⊢
    rw [List.foldl_cons, of_xlate_wide latch c hc.1 hc.2]
    exact ht

/-- C19 as amended: the single-slot latch. After one or more calls of
`samsung_sysmmu_of_xlate` that return 0, each for a unit whose `va_width` is
`VA_WIDTH_36BIT`, the latch is set, whatever it was before. If the next call of
`samsung_sysmmu_domain_alloc` returns a domain, the domain is a 36-bit one
(`is_va_36bit`, counters and root for `NUM_LV1ENTRIES_36BIT` slots) and the latch is
reset, and a domain returned by the call after that is a 32-bit one. A call of
`samsung_sysmmu_of_xlate` for a unit whose `va_width` is `VA_WIDTH_32BIT` leaves the latch
as it is. -/
theorem latch_single_slot (latch : Bool) (calls : List xlate_call) (hne : calls ≠ [])
    (hr : ∀ c ∈ calls, c.va_width = sysmmu_va_width.VA_WIDTH_36BIT ∧
      ∀ l, (samsung_sysmmu_of_xlate l c.va_width c.add_ids_ret c.client c.devres_ok
        c.krealloc_ok c.data).1 = 0) :
    of_xlate_latch latch calls = true ∧
    (∀ (type : Nat) (k : Bool) (f : Option Nat) (c : Bool) (r : Int)
        (d : samsung_sysmmu_domain),
      (samsung_sysmmu_domain_alloc type (of_xlate_latch latch calls) k f c r).1 = some d →
      d.is_va_36bit = true ∧ d.num_lv1entries = NUM_LV1ENTRIES_36BIT ∧
      (samsung_sysmmu_domain_alloc type (of_xlate_latch latch calls) k f c r).2 = false ∧
      ∀ (type2 : Nat) (k2 : Bool) (f2 : Option Nat) (c2 : Bool) (r2 : Int)
          (d2 : samsung_sysmmu_domain),
        (samsung_sysmmu_domain_alloc type2
          (samsung_sysmmu_domain_alloc type (of_xlate_latch latch calls) k f c r).2
          k2 f2 c2 r2).1 = some d2 →
        d2.is_va_36bit = false ∧ d2.num_lv1entries = NUM_LV1ENTRIES_32BIT) ∧
    ∀ (l : Bool) (c : xlate_call), c.va_width = sysmmu_va_width.VA_WIDTH_32BIT →
      (samsung_sysmmu_of_xlate l c.va_width c.add_ids_ret c.client c.devres_ok
        c.krealloc_ok c.data).2.2 = l := by
  have hl := of_xlate_latch_wide latch calls hne hr
  refine ⟨hl, ?_, ?_⟩
  · intro type k f c r d hd
    rw [hl] at hd ⊢
    obtain ⟨-, -, -, -, h2, base, -, hdom⟩ := domain_alloc_some type true k f c r d hd
    refine ⟨by rw [hdom], by rw [hdom]; rfl, h2, ?_⟩
    intro type2 k2 f2 c2 r2 d2 hd2
    rw [h2] at hd2
    obtain ⟨-, -, -, -, -, base2, -, hdom2⟩ := domain_alloc_some type2 false k2 f2 c2 r2 d2 hd2
    exact ⟨by rw [hdom2], by rw [hdom2]; rfl⟩
  · intro l c hc
    unfold samsung_sysmmu_of_xlate
    rw [hc]
    split_ifs <;> first | rfl | simp_all

/-! ## Geometry -/

/-- C20: the geometry update on a force-fixed aperture. Let `end` be the end of the window
as `samsung_sysmmu_set_domain_range` computes it, `start + size` in 64 bits clamped to
`DMA_BIT_MASK(32)`. With `force_aperture` set, the call returns `-ERANGE` and leaves the
geometry as it is when `max(start, aperture_start) >= min(end, aperture_end)`, the
intersection being empty; otherwise it returns 0 and the aperture becomes
`[max(start, aperture_start), min(end, aperture_end)]`, still forced. For an aperture that
ends at or below `DMA_BIT_MASK(32)` and a window that does not wrap, `min(end, aperture_end)`
is `min(start + size, aperture_end)`: the clamp does not show. -/
theorem set_domain_range_forced (geom : iommu_domain_geometry) (start size : Nat)
    (hf : geom.force_aperture = true) :
    (max start geom.aperture_start ≥
        min (min ((start + size) % 2 ^ 64) 0xFFFFFFFF) geom.aperture_end →
      samsung_sysmmu_set_domain_range geom (some (start, size)) = (-ERANGE, geom)) ∧
    (max start geom.aperture_start <
        min (min ((start + size) % 2 ^ 64) 0xFFFFFFFF) geom.aperture_end →
      samsung_sysmmu_set_domain_range geom (some (start, size)) =
        (0, { aperture_start := max start geom.aperture_start
              aperture_end := min (min ((start + size) % 2 ^ 64) 0xFFFFFFFF) geom.aperture_end
              force_aperture := true })) ∧
    (geom.aperture_end ≤ 0xFFFFFFFF → start + size < 2 ^ 64 →
      min (min ((start + size) % 2 ^ 64) 0xFFFFFFFF) geom.aperture_end =
        min (start + size) geom.aperture_end) := by
  have hclamp : (if (start + size) % 2 ^ 64 > 0xFFFFFFFF then 0xFFFFFFFF
      else (start + size) % 2 ^ 64) = min ((start + size) % 2 ^ 64) 0xFFFFFFFF := by
    split_ifs with h
    · exact (Nat.min_eq_right (le_of_lt h)).symm
    · exact (Nat.min_eq_left (by omega)).symm
  refine ⟨fun h => ?_, fun h => ?_, fun h1 h2 => ?_⟩
  · unfold samsung_sysmmu_set_domain_range
    simp only [hclamp, hf, if_true]
    rw [if_pos h]
  · unfold samsung_sysmmu_set_domain_range
    simp only [hclamp, hf, if_true]
    rw [if_neg (by omega)]
  · rw [Nat.mod_eq_of_lt h2]
    omega

/-! ## Geometry of a domain -/

/-- C21 as amended: the geometry update on an aperture that is not fixed. With
`force_aperture` false and a window of `size` bytes at `start`,
`samsung_sysmmu_set_domain_range` returns 0, sets `aperture_start` to `start`, sets
`aperture_end` to `start + size` (in 64 bits) clamped to `DMA_BIT_MASK(32)`, and sets
`force_aperture`. When `start + size` does not exceed 0xFFFFFFFF, the aperture end is
`start + size`. -/
theorem set_domain_range_first (geom : iommu_domain_geometry) (start size : Nat)
    (hf : geom.force_aperture = false) :
    samsung_sysmmu_set_domain_range geom (some (start, size)) =
      (0, { aperture_start := start
            aperture_end := min ((start + size) % 2 ^ 64) 0xFFFFFFFF
            force_aperture := true }) ∧
    (start + size ≤ 0xFFFFFFFF →
      (samsung_sysmmu_set_domain_range geom (some (start, size))).2.aperture_end =
        start + size) := by
  have hclamp : (if (start + size) % 2 ^ 64 > 0xFFFFFFFF then 0xFFFFFFFF
      else (start + size) % 2 ^ 64) = min ((start + size) % 2 ^ 64) 0xFFFFFFFF := by
    split_ifs with h
    · exact (Nat.min_eq_right (le_of_lt h)).symm
    · exact (Nat.min_eq_left (by omega)).symm
  have h1 : samsung_sysmmu_set_domain_range geom (some (start, size)) =
      (0, { aperture_start := start
            aperture_end := min ((start + size) % 2 ^ 64) 0xFFFFFFFF
            force_aperture := true }) := by
    unfold samsung_sysmmu_set_domain_range
    simp only [hclamp, hf, Bool.false_eq_true, if_false]
  refine ⟨h1, fun h => ?_⟩
  rw [h1]
  show min ((start + size) % 2 ^ 64) 0xFFFFFFFF = start + size
  rw [Nat.mod_eq_of_lt (by omega)]
  exact Nat.min_eq_left h

/-- One call of `samsung_sysmmu_set_domain_range`, case by case. -/
theorem set_domain_range_cases (geom : iommu_domain_geometry) (w : Option (Nat × Nat)) :
    samsung_sysmmu_set_domain_range geom w = (0, geom) ∨
    (geom.force_aperture = true ∧ samsung_sysmmu_set_domain_range geom w = (-ERANGE, geom)) ∨
    (geom.force_aperture = true ∧ ∃ start size,
      max start geom.aperture_start <
        min (min ((start + size) % 2 ^ 64) 0xFFFFFFFF) geom.aperture_end ∧
      samsung_sysmmu_set_domain_range geom w =
        (0, { aperture_start := max start geom.aperture_start
              aperture_end := min (min ((start + size) % 2 ^ 64) 0xFFFFFFFF) geom.aperture_end
              force_aperture := true })) ∨
    (geom.force_aperture = false ∧ ∃ start size,
      samsung_sysmmu_set_domain_range geom w =
        (0, { aperture_start := start
              aperture_end := min ((start + size) % 2 ^ 64) 0xFFFFFFFF
              force_aperture := true })) := by
  rcases w with _ | ⟨start, size⟩
  · exact Or.inl rfl
  · have hclamp : (if (start + size) % 2 ^ 64 > 0xFFFFFFFF then 0xFFFFFFFF
        else (start + size) % 2 ^ 64) = min ((start + size) % 2 ^ 64) 0xFFFFFFFF := by
      split_ifs with h
      · exact (Nat.min_eq_right (le_of_lt h)).symm
      · exact (Nat.min_eq_left (by omega)).symm
    by_cases hf : geom.force_aperture = true
    · by_cases hd : max start geom.aperture_start ≥
          min (min ((start + size) % 2 ^ 64) 0xFFFFFFFF) geom.aperture_end
      · refine Or.inr (Or.inl ⟨hf, ?_⟩)
        unfold samsung_sysmmu_set_domain_range
        simp only [hclamp, hf, if_true]
        rw [if_pos hd]
      · refine Or.inr (Or.inr (Or.inl ⟨hf, start, size, by omega, ?_⟩))
        unfold samsung_sysmmu_set_domain_range
        simp only [hclamp, hf, if_true]
        rw [if_neg hd]
    · have hf' : geom.force_aperture = false := by simpa using hf
      refine Or.inr (Or.inr (Or.inr ⟨hf', start, size, ?_⟩))
      unfold samsung_sysmmu_set_domain_range
      simp only [hclamp, hf', Bool.false_eq_true, if_false]

theorem set_domain_range_step (geom : iommu_domain_geometry) (w : Option (Nat × Nat))
    (hf : geom.force_aperture = true) :
    (samsung_sysmmu_set_domain_range geom w).2.force_aperture = true ∧
    (geom.aperture_start < geom.aperture_end →
      geom.aperture_start ≤ (samsung_sysmmu_set_domain_range geom w).2.aperture_start ∧
      (samsung_sysmmu_set_domain_range geom w).2.aperture_end ≤ geom.aperture_end ∧
      (samsung_sysmmu_set_domain_range geom w).2.aperture_start <
        (samsung_sysmmu_set_domain_range geom w).2.aperture_end) := by
  rcases set_domain_range_cases geom w with h | ⟨_, h⟩ | ⟨_, start, size, hlt, h⟩ |
    ⟨hn, _⟩
  · rw [h]
    exact ⟨hf, fun hne => ⟨le_refl _, le_refl _, hne⟩⟩
  · rw [h]
    exact ⟨hf, fun hne => ⟨le_refl _, le_refl _, hne⟩⟩
  · rw [h]
    exact ⟨rfl, fun _ => ⟨le_max_right _ _, min_le_right _ _, hlt⟩⟩
  · rw [hf] at hn
    exact absurd hn (by decide)

/-- C29 as amended: aperture monotonicity. For every sequence of calls of
`samsung_sysmmu_set_domain_range` that starts with `force_aperture` set, the flag is set
at the end, and when the aperture was not empty at the start it is not empty at the end
and lies inside the one at the start. A single call on a fixed, non-empty aperture either
returns `-ERANGE` and leaves the geometry as it is or returns 0 with such an aperture. A
call that returns 0 and changes the geometry leaves `aperture_end <= 0xFFFFFFFF` and
`force_aperture` set, and leaves `aperture_start < aperture_end` when the aperture was
fixed before the call. -/
theorem aperture_monotone (geom : iommu_domain_geometry)
    (windows : List (Option (Nat × Nat))) :
    (geom.force_aperture = true →
      (set_domain_range_seq geom windows).force_aperture = true ∧
      (geom.aperture_start < geom.aperture_end →
        geom.aperture_start ≤ (set_domain_range_seq geom windows).aperture_start ∧
        (set_domain_range_seq geom windows).aperture_end ≤ geom.aperture_end ∧
        (set_domain_range_seq geom windows).aperture_start <
          (set_domain_range_seq geom windows).aperture_end)) ∧
    (∀ w : Option (Nat × Nat),
      (geom.force_aperture = true → geom.aperture_start < geom.aperture_end →
        samsung_sysmmu_set_domain_range geom w = (-ERANGE, geom) ∨
        ((samsung_sysmmu_set_domain_range geom w).1 = 0 ∧
          (samsung_sysmmu_set_domain_range geom w).2.force_aperture = true ∧
          geom.aperture_start ≤ (samsung_sysmmu_set_domain_range geom w).2.aperture_start ∧
          (samsung_sysmmu_set_domain_range geom w).2.aperture_end ≤ geom.aperture_end ∧
          (samsung_sysmmu_set_domain_range geom w).2.aperture_start <
            (samsung_sysmmu_set_domain_range geom w).2.aperture_end)) ∧
      ((samsung_sysmmu_set_domain_range geom w).1 = 0 →
        (samsung_sysmmu_set_domain_range geom w).2 ≠ geom →
        (samsung_sysmmu_set_domain_range geom w).2.aperture_end ≤ 0xFFFFFFFF ∧
        (samsung_sysmmu_set_domain_range geom w).2.force_aperture = true ∧
        (geom.force_aperture = true →
          (samsung_sysmmu_set_domain_range geom w).2.aperture_start <
            (samsung_sysmmu_set_domain_range geom w).2.aperture_end))) := by
  have hE : ERANGE = 34 := rfl
  refine ⟨?_, fun w => ⟨?_, ?_⟩⟩
  · induction windows generalizing geom with
    | nil => intro hf; exact ⟨hf, fun hne => ⟨le_refl _, le_refl _, hne⟩⟩
    | cons w rest ih =>
      intro hf
      obtain ⟨s1, s2⟩ := set_domain_range_step geom w hf
      obtain ⟨i1, i2⟩ := ih (samsung_sysmmu_set_domain_range geom w).2 s1
      have hseq : set_domain_range_seq geom (w :: rest) =
          set_domain_range_seq (samsung_sysmmu_set_domain_range geom w).2 rest := rfl
      rw [hseq]
      refine ⟨i1, fun hne => ?_⟩
      obtain ⟨a1, a2, a3⟩ := s2 hne
      obtain ⟨b1, b2, b3⟩ := i2 a3
      exact ⟨le_trans a1 b1, le_trans b2 a2, b3⟩
  · intro hf hne
    rcases set_domain_range_cases geom w with h | ⟨_, h⟩ | ⟨_, start, size, hlt, h⟩ |
      ⟨hn, _⟩
    · rw [h]
      exact Or.inr ⟨rfl, hf, le_refl _, le_refl _, hne⟩
    · exact Or.inl h
    · rw [h]
      exact Or.inr ⟨rfl, rfl, le_max_right _ _, min_le_right _ _, hlt⟩
    · rw [hf] at hn
      exact absurd hn (by decide)
  · intro hret hchg
    rcases set_domain_range_cases geom w with h | ⟨_, h⟩ | ⟨_, start, size, hlt, h⟩ |
      ⟨hn, start, size, h⟩
    · rw [h] at hchg
      exact absurd rfl hchg
    · rw [h] at hchg
      exact absurd rfl hchg
    · rw [h]
      exact ⟨le_trans (min_le_left _ _) (min_le_right _ _), rfl, fun _ => hlt⟩
    · rw [h]
      refine ⟨min_le_right _ _, rfl, fun hf => ?_⟩
      rw [hf] at hn
      exact absurd hn (by decide)

/-! ## Consumption of the latch -/

/-- C30: when the latch is consumed. `samsung_sysmmu_domain_alloc` leaves the latch
`exist_36bit_va` as it is when it rejects the type or the allocation of the domain
structure fails; it calls no further allocator then. In every other case the latch is
false afterwards, also when the allocation of the root table, of the counters or of the
cookie fails and `NULL` is returned. -/
theorem domain_alloc_latch (type : Nat) (latch kzalloc_ok : Bool) (flpt : Option Nat)
    (cnt_ok : Bool) (cookie_ret : Int) :
    ((type ≠ IOMMU_DOMAIN_UNMANAGED ∧ type ≠ IOMMU_DOMAIN_DMA ∧ type ≠ IOMMU_DOMAIN_IDENTITY) →
      samsung_sysmmu_domain_alloc type latch kzalloc_ok flpt cnt_ok cookie_ret =
        (none, latch)) ∧
    (kzalloc_ok = false →
      samsung_sysmmu_domain_alloc type latch kzalloc_ok flpt cnt_ok cookie_ret =
        (none, latch)) ∧
    ((type = IOMMU_DOMAIN_UNMANAGED ∨ type = IOMMU_DOMAIN_DMA ∨ type = IOMMU_DOMAIN_IDENTITY) →
      kzalloc_ok = true →
      (samsung_sysmmu_domain_alloc type latch kzalloc_ok flpt cnt_ok cookie_ret).2 = false ∧
      ((flpt = none ∨ cnt_ok = false ∨ (type = IOMMU_DOMAIN_DMA ∧ cookie_ret ≠ 0)) →
        samsung_sysmmu_domain_alloc type latch kzalloc_ok flpt cnt_ok cookie_ret =
          (none, false))) ∧
    ((samsung_sysmmu_domain_alloc type latch kzalloc_ok flpt cnt_ok cookie_ret).2 =
      if alloc_call.kmem_cache_alloc_flpt latch ∈
          samsung_sysmmu_domain_alloc_calls type latch kzalloc_ok flpt cnt_ok cookie_ret
        then false else latch) := by
  refine ⟨fun ht => ?_, fun hk => ?_, fun ht hk => ?_,
    (domain_alloc_calls_result type latch kzalloc_ok flpt cnt_ok cookie_ret).2⟩
  · unfold samsung_sysmmu_domain_alloc
    rw [if_pos ht]
  · unfold samsung_sysmmu_domain_alloc
    subst hk
    by_cases ht : type ≠ IOMMU_DOMAIN_UNMANAGED ∧ type ≠ IOMMU_DOMAIN_DMA ∧
        type ≠ IOMMU_DOMAIN_IDENTITY
    · rw [if_pos ht]
    · rw [if_neg ht]
      rfl
  · have hnt : ¬ (type ≠ IOMMU_DOMAIN_UNMANAGED ∧ type ≠ IOMMU_DOMAIN_DMA ∧
        type ≠ IOMMU_DOMAIN_IDENTITY) := by tauto
    subst hk
    unfold samsung_sysmmu_domain_alloc
    rw [if_neg hnt]
    simp only [Bool.not_true, Bool.false_eq_true, if_false]
    rcases flpt with _ | base
    · exact ⟨rfl, fun _ => rfl⟩
    · cases cnt_ok
      · exact ⟨rfl, fun _ => rfl⟩
      · simp only [Bool.not_true, Bool.false_eq_true, if_false]
        by_cases hc : type = IOMMU_DOMAIN_DMA ∧ cookie_ret ≠ 0
        · rw [if_pos hc]
          exact ⟨rfl, fun _ => rfl⟩
        · rw [if_neg hc]
          refine ⟨rfl, fun h => ?_⟩
          rcases h with h | h | h
          · exact absurd h (by simp)
          · exact absurd h (by simp)
          · exact absurd h hc

/-! ## Range invalidation and power-on -/

theorem invalidate_start_value (start : Nat) (h : start < 2 ^ 36) :
    (ALIGN_DOWN start SPAGE_SIZE >>> 4) % 2 ^ 32 = start / 4096 * 256 ∧
    ALIGN_DOWN start SPAGE_SIZE >>> 4 = start / 4096 * 256 := by
  have h1 : ALIGN_DOWN start SPAGE_SIZE >>> 4 = start / 4096 * 256 := by
    unfold ALIGN_DOWN SPAGE_SIZE
    rw [Nat.shiftRight_eq_div_pow]
    omega
  rw [h1]
  exact ⟨Nat.mod_eq_of_lt (by omega), rfl⟩

theorem invalidate_end_value (end_ : Nat) (h0 : 0 < end_) (h : end_ ≤ 2 ^ 36) :
    ((ALIGN_DOWN ((end_ + 2 ^ 64 - 1) % 2 ^ 64) SPAGE_SIZE >>> 4) ||| 0x1) % 2 ^ 32 =
      (end_ - 1) / 4096 * 256 + 1 ∧
    (ALIGN_DOWN (end_ - 1) SPAGE_SIZE >>> 4) ||| 0x1 = (end_ - 1) / 4096 * 256 + 1 := by
  have he : (end_ + 2 ^ 64 - 1) % 2 ^ 64 = end_ - 1 := by omega
  have h1 : ALIGN_DOWN (end_ - 1) SPAGE_SIZE >>> 4 = (end_ - 1) / 4096 * 256 := by
    unfold ALIGN_DOWN SPAGE_SIZE
    rw [Nat.shiftRight_eq_div_pow]
    omega
  have h2 : (end_ - 1) / 4096 * 256 ||| 1 = (end_ - 1) / 4096 * 256 + 1 :=
    or_eq_add _ _ 1 (by omega) (by omega)
  rw [he, h1, h2]
  exact ⟨Nat.mod_eq_of_lt (by omega), rfl⟩

/-- C24: the encoding of a range invalidation. For `start < end < 2 ^ 36`,
`__sysmmu_invalidate` writes to the slots enabled in `vmid_mask`, in order, first the
start value `ALIGN_DOWN(start, SPAGE_SIZE) >> 4` to the replica of
`REG_MMU_RANGE_INV_START_VPN_VM` and then the end value
`(ALIGN_DOWN(end - 1, SPAGE_SIZE) >> 4) | 1` to the replica of
`REG_MMU_RANGE_INV_END_VPN_AND_TRIG_VM`. Both values are below `2 ^ 32`; they hold the
page numbers `start / 4096` and `(end - 1) / 4096` from bit 8 on. The pages from the
first to the second, both included, hold the page of every address of `[start, end)`, and
each of them holds an address of `[start, end)`. -/
theorem invalidate_range_encoding (hw : sysmmu_regs) (data : sysmmu_drvdata)
    (start end_ : Nat) (h1 : start < end_) (h2 : end_ < 2 ^ 36) :
    __sysmmu_invalidate hw data start end_ =
      ((List.range data.max_vm).filter (fun i => data.vmid_mask.testBit i)).map
          (fun i => (hw.MMU_VM_ADDR (data.sfrbase + REG_MMU_RANGE_INV_START_VPN_VM) i,
            ALIGN_DOWN start SPAGE_SIZE >>> 4)) ++
        ((List.range data.max_vm).filter (fun i => data.vmid_mask.testBit i)).map
          (fun i => (hw.MMU_VM_ADDR (data.sfrbase + REG_MMU_RANGE_INV_END_VPN_AND_TRIG_VM) i,
            (ALIGN_DOWN (end_ - 1) SPAGE_SIZE >>> 4) ||| 0x1)) ∧
    ALIGN_DOWN start SPAGE_SIZE >>> 4 < 2 ^ 32 ∧
    (ALIGN_DOWN (end_ - 1) SPAGE_SIZE >>> 4) ||| 0x1 < 2 ^ 32 ∧
    (ALIGN_DOWN start SPAGE_SIZE >>> 4) / 256 = start / SPAGE_SIZE ∧
    ((ALIGN_DOWN (end_ - 1) SPAGE_SIZE >>> 4) ||| 0x1) / 256 = (end_ - 1) / SPAGE_SIZE ∧
    (∀ a, start ≤ a → a < end_ →
      start / SPAGE_SIZE ≤ a / SPAGE_SIZE ∧ a / SPAGE_SIZE ≤ (end_ - 1) / SPAGE_SIZE) ∧
    (∀ p, start / SPAGE_SIZE ≤ p → p ≤ (end_ - 1) / SPAGE_SIZE →
      ∃ a, start ≤ a ∧ a < end_ ∧ a / SPAGE_SIZE = p) := by
  obtain ⟨s1, s2⟩ := invalidate_start_value start (by omega)
  obtain ⟨e1, e2⟩ := invalidate_end_value end_ (by omega) (by omega)
  refine ⟨?_, ?_, ?_, ?_, ?_, ?_, ?_⟩
  · unfold __sysmmu_invalidate
    rw [write_all_vm_eq, write_all_vm_eq, s1, e1, s2, e2]
  · rw [s2]; omega
  · rw [e2]; omega
  · rw [s2]; unfold SPAGE_SIZE; omega
  · rw [e2]; unfold SPAGE_SIZE; omega
  · intro a ha hb
    unfold SPAGE_SIZE
    constructor
    · exact Nat.div_le_div_right ha
    · exact Nat.div_le_div_right (by omega)
  · intro p hp1 hp2
    unfold SPAGE_SIZE at hp1 hp2 ⊢
    by_cases hp : p = start / 4096
    · exact ⟨start, le_refl _, h1, hp.symm⟩
    · refine ⟨p * 4096, by omega, by omega, by omega⟩

/-- C25: reprogramming at power-on. For every state and unit `u`,
`samsung_sysmmu_runtime_resume` returns 0, leaves the unit list and every other unit as
they are and changes of the unit `u` only `rpm_count`, which grows by one: the
`attached_count` and the recorded page table stay. With `attached_count > 0` its writes
are those of `__sysmmu_enable`: to every slot enabled in `vmid_mask` the enable command,
then to every such slot the table base `pgtable / SPAGE_SIZE` (as a `u32`; the page frame
number itself for a table below `2 ^ 44`), then the configuration, and last the full
invalidation to every such slot. With `attached_count` 0 or less it writes no register. -/
theorem runtime_resume_reprograms (hw : sysmmu_regs) (readl : Nat → Nat) (sys : sysmmu_system)
    (u : Nat) :
    (samsung_sysmmu_runtime_resume hw readl sys u).1 = 0 ∧
    (samsung_sysmmu_runtime_resume hw readl sys u).2.group_list = sys.group_list ∧
    (∀ v, v ≠ u → (samsung_sysmmu_runtime_resume hw readl sys u).2.drvdata v = sys.drvdata v) ∧
    (samsung_sysmmu_runtime_resume hw readl sys u).2.drvdata u =
      { sys.drvdata u with rpm_count := (sys.drvdata u).rpm_count + 1 } ∧
    ((samsung_sysmmu_runtime_resume hw readl sys u).2.drvdata u).attached_count =
      (sys.drvdata u).attached_count ∧
    ((samsung_sysmmu_runtime_resume hw readl sys u).2.drvdata u).pgtable =
      (sys.drvdata u).pgtable ∧
    ((samsung_sysmmu_runtime_resume hw readl sys u).2.drvdata u).rpm_count =
      (sys.drvdata u).rpm_count + 1 ∧
    (0 < (sys.drvdata u).attached_count →
      (samsung_sysmmu_runtime_resume hw readl sys u).2.writes =
        sys.writes ++
          (((List.range (sys.drvdata u).max_vm).filter
              (fun i => (sys.drvdata u).vmid_mask.testBit i)).map
            (fun i => (hw.MMU_VM_ADDR ((sys.drvdata u).sfrbase + hw.REG_MMU_CTRL_VM) i,
              hw.MMU_CTRL_ENABLE % 2 ^ 32)) ++
           ((List.range (sys.drvdata u).max_vm).filter
              (fun i => (sys.drvdata u).vmid_mask.testBit i)).map
            (fun i =>
              (hw.MMU_VM_ADDR ((sys.drvdata u).sfrbase + hw.REG_MMU_CONTEXT0_CFG_FLPT_BASE_VM) i,
                (sys.drvdata u).pgtable / SPAGE_SIZE % 2 ^ 32)) ++
           __sysmmu_init_config hw readl (sys.drvdata u) ++
           ((List.range (sys.drvdata u).max_vm).filter
              (fun i => (sys.drvdata u).vmid_mask.testBit i)).map
            (fun i => (hw.MMU_VM_ADDR ((sys.drvdata u).sfrbase + REG_MMU_ALL_INV_VM) i, 1)))) ∧
    ((sys.drvdata u).pgtable < 2 ^ 44 →
      (sys.drvdata u).pgtable / SPAGE_SIZE % 2 ^ 32 = (sys.drvdata u).pgtable / SPAGE_SIZE) ∧
    ((sys.drvdata u).attached_count ≤ 0 →
      (samsung_sysmmu_runtime_resume hw readl sys u).2.writes = sys.writes) := by
  unfold samsung_sysmmu_runtime_resume
  refine ⟨rfl, rfl, fun v hv => by simp [set_drvdata, hv], by simp [set_drvdata],
    by simp [set_drvdata], by simp [set_drvdata], by simp [set_drvdata],
    fun h => ?_, fun h => ?_, fun h => ?_⟩
  · simp only [gt_iff_lt, h, if_true]
    rw [__sysmmu_enable, __sysmmu_invalidate_all, write_all_vm_eq, write_all_vm_eq,
      write_all_vm_eq]
    rfl
  · unfold SPAGE_SIZE
    exact Nat.mod_eq_of_lt (by omega)
  · have h' : ¬ (0 < (sys.drvdata u).attached_count) := by omega
    simp only [gt_iff_lt, h', if_false]

/-! ## Sub-tables on demand -/

theorem page_entry_eq (e iova : Nat) :
    page_entry e iova = lv2table_base e + 4 * lv2ent_offset iova := rfl

/-- C22: `alloc_lv2entry`, case by case. On a Section slot it returns `-EADDRINUSE` and
changes nothing. On an Unmapped slot, when `kmem_cache_zalloc` returns the object `p`
(aligned to `LV2TABLE_SIZE` as the cache is, and below `2 ^ 36`), the slot becomes a
reference to the table at `p`, the `NUM_LV2ENTRIES` entries of that table are zero words,
hence Unmapped, the counter of the slot is 0, the object is allocated, and every other
slot, counter and word of memory is as before; when `kmem_cache_zalloc` returns `NULL` it
returns `-ENOMEM` and changes nothing. On a slot that references a sub-table it changes
nothing. In both success cases the result is the address of the entry of the referenced
table at the level-2 index of `iova`, which is below `NUM_LV2ENTRIES`. -/
theorem alloc_lv2entry_ensures (s : pgtable_state) (sent iova pgcounter : Nat)
    (pent : Option Nat) :
    (lv1ent_section (s.dom.page_table sent) = true →
      alloc_lv2entry s sent iova pgcounter pent = (.error (-EADDRINUSE), s)) ∧
    (lv1ent_unmapped (s.dom.page_table sent) = true →
      (pent = none → alloc_lv2entry s sent iova pgcounter pent = (.error (-ENOMEM), s)) ∧
      ∀ p, pent = some p → p % LV2TABLE_SIZE = 0 → p < 2 ^ 36 →
        (alloc_lv2entry s sent iova pgcounter pent).1 = .ok (p + 4 * lv2ent_offset iova) ∧
        lv1ent_page ((alloc_lv2entry s sent iova pgcounter pent).2.dom.page_table sent) = true ∧
        lv2table_base ((alloc_lv2entry s sent iova pgcounter pent).2.dom.page_table sent) = p ∧
        (∀ j, j < NUM_LV2ENTRIES →
          (alloc_lv2entry s sent iova pgcounter pent).2.slpt (p + 4 * j) = 0 ∧
          lv2ent_unmapped ((alloc_lv2entry s sent iova pgcounter pent).2.slpt (p + 4 * j)) =
            true) ∧
        (alloc_lv2entry s sent iova pgcounter pent).2.dom.lv2entcnt pgcounter = 0 ∧
        (alloc_lv2entry s sent iova pgcounter pent).2.slpt_objs = p :: s.slpt_objs ∧
        (∀ i, i ≠ sent →
          (alloc_lv2entry s sent iova pgcounter pent).2.dom.page_table i =
            s.dom.page_table i) ∧
        (∀ i, i ≠ pgcounter →
          (alloc_lv2entry s sent iova pgcounter pent).2.dom.lv2entcnt i = s.dom.lv2entcnt i) ∧
        (∀ a, ¬ (p ≤ a ∧ a < p + LV2TABLE_SIZE) →
          (alloc_lv2entry s sent iova pgcounter pent).2.slpt a = s.slpt a)) ∧
    (lv1ent_page (s.dom.page_table sent) = true →
      alloc_lv2entry s sent iova pgcounter pent =
        (.ok (lv2table_base (s.dom.page_table sent) + 4 * lv2ent_offset iova), s)) ∧
    lv2ent_offset iova < NUM_LV2ENTRIES := by
  refine ⟨fun h => ?_, fun h => ⟨fun hn => ?_, fun p hp hal h36 => ?_⟩, fun h => ?_,
    lv2ent_offset_lt iova⟩
  · exact alloc_lv2entry_section s sent iova pgcounter pent ((lv1ent_section_iff _).1 h)
  · rw [hn]
    exact alloc_lv2entry_nomem s sent iova pgcounter ((lv1ent_unmapped_iff _).1 h)
  · have hal' : p % 1024 = 0 := hal
    rw [hp, alloc_lv2entry_fresh s sent iova pgcounter p ((lv1ent_unmapped_iff _).1 h)]
    have hbase := lv2table_base_make p hal' h36
    have hodd : make_sysmmu_pte p SLPD_FLAG 0 % 8 = 1 := by
      rw [make_sysmmu_pte_slpd p hal']
      omega
    refine ⟨?_, ?_, ?_, ?_, ?_, ?_, ?_, ?_, ?_⟩
    · show Except.ok _ = Except.ok _
      rw [page_entry_eq, hbase]
    · simp only [atomic_set, set_sent, kmem_cache_zalloc, if_true]
      exact (lv1ent_page_iff _).2 hodd
    · simp only [atomic_set, set_sent, kmem_cache_zalloc, if_true]
      exact hbase
    · intro j hj
      have hj' : j < 256 := hj
      have hz : (atomic_set (set_sent (kmem_cache_zalloc s p) sent
          (make_sysmmu_pte p SLPD_FLAG 0)) pgcounter 0).slpt (p + 4 * j) = 0 := by
        simp only [atomic_set, set_sent, kmem_cache_zalloc]
        rw [if_pos]
        refine ⟨by omega, ?_, by omega⟩
        show p + 4 * j < p + 1024
        omega
      rw [hz]
      exact ⟨rfl, by decide⟩
    · simp [atomic_set]
    · rfl
    · intro i hi
      simp [atomic_set, set_sent, kmem_cache_zalloc, hi]
    · intro i hi
      simp [atomic_set, set_sent, kmem_cache_zalloc, hi]
    · intro a ha
      simp only [atomic_set, set_sent, kmem_cache_zalloc]
      rw [if_neg]
      intro hc
      exact ha ⟨hc.1, hc.2.1⟩
  · have h1 := (lv1ent_page_iff _).1 h
    rw [alloc_lv2entry_resident s sent iova pgcounter pent (by omega) (by omega), page_entry_eq]

/-! ## Invalidation at the replacement of a sub-table -/

theorem sync_foldl (hw : sysmmu_regs) (start end_ : Nat) :
    ∀ (l : List Nat) (sys : sysmmu_system),
      l.foldl
        (fun sys u =>
          if (sys.drvdata u).attached_count ≠ 0 ∧ (sys.drvdata u).rpm_count > 0 then
            { sys with
              writes := sys.writes ++ __sysmmu_invalidate hw (sys.drvdata u) start end_ }
          else sys) sys =
      { sys with
        writes := sys.writes ++
          (l.filter (fun u => decide ((sys.drvdata u).attached_count ≠ 0 ∧
              (sys.drvdata u).rpm_count > 0))).flatMap
            (fun u => __sysmmu_invalidate hw (sys.drvdata u) start end_) } := by
  intro l
  induction l with
  | nil => intro sys; simp
  | cons u rest ih =>
    intro sys
    rw [List.foldl_cons]
    by_cases hc : (sys.drvdata u).attached_count ≠ 0 ∧ (sys.drvdata u).rpm_count > 0
    · rw [if_pos hc, ih, List.filter_cons_of_pos (by simpa using hc)]
      simp only [List.flatMap_cons, List.append_assoc]
    · rw [if_neg hc, ih, List.filter_cons_of_neg (by simpa using hc)]

/-- The writes of `samsung_sysmmu_iotlb_sync` on a domain that has been attached. -/
theorem iotlb_sync_eq (hw : sysmmu_regs) (sys : sysmmu_system) (dom : samsung_sysmmu_domain)
    (gather : iommu_iotlb_gather) (hg : dom.group ≠ none) :
    samsung_sysmmu_iotlb_sync hw sys dom gather =
      { sys with
        writes := sys.writes ++
          (sys.group_list.filter (fun u => decide ((sys.drvdata u).attached_count ≠ 0 ∧
              (sys.drvdata u).rpm_count > 0))).flatMap
            (fun u => __sysmmu_invalidate hw (sys.drvdata u) gather.start gather.end_) } := by
  obtain ⟨g, hg'⟩ := Option.ne_none_iff_exists'.1 hg
  unfold samsung_sysmmu_iotlb_sync
  rw [hg']
  exact sync_foldl hw gather.start gather.end_ sys.group_list sys

theorem iotlb_sync_frame (hw : sysmmu_regs) (sys : sysmmu_system) (dom : samsung_sysmmu_domain)
    (gather : iommu_iotlb_gather) :
    (samsung_sysmmu_iotlb_sync hw sys dom gather).drvdata = sys.drvdata ∧
    (samsung_sysmmu_iotlb_sync hw sys dom gather).group_list = sys.group_list := by
  by_cases hg : dom.group = none
  · unfold samsung_sysmmu_iotlb_sync
    rw [hg]
    exact ⟨rfl, rfl⟩
  · rw [iotlb_sync_eq hw sys dom gather hg]
    exact ⟨rfl, rfl⟩

/-- C23: the synchronous invalidation when a Section replaces a sub-table. When the slot
references a sub-table and its counter is 0, `lv1set_section` returns 0 after one call of
`iommu_iotlb_sync` with the gather `[iova, iova + SECT_SIZE)`, which runs
`samsung_sysmmu_iotlb_sync` and changes no unit. On a domain that has been attached
(`domain->group` set) the writes it adds are those of `__sysmmu_invalidate` for that range
on the units of the unit list that have `attached_count` other than 0 and
`rpm_count > 0`: every slot of such a unit below `max_vm` with its bit set in `vmid_mask`
gets the start value and the end value of the range. For an `iova` aligned to `SECT_SIZE`
with `iova + SECT_SIZE <= 2 ^ 36` these values hold the first and the last page of the
megabyte. When the slot was Unmapped the call records no sync and writes no register. -/
theorem lv1set_section_synchronous (hw : sysmmu_regs) (sys : sysmmu_system)
    (s : pgtable_state) (sent iova paddr prot pgcnt : Nat) :
    (lv1ent_page (s.dom.page_table sent) = true → s.dom.lv2entcnt pgcnt = 0 →
      (lv1set_section_units hw sys s sent iova paddr prot pgcnt).1 = 0 ∧
      (lv1set_section_units hw sys s sent iova paddr prot pgcnt).2.1.iotlb_syncs =
        s.iotlb_syncs ++ [(iova, iova + SECT_SIZE)] ∧
      (lv1set_section_units hw sys s sent iova paddr prot pgcnt).2.2 =
        samsung_sysmmu_iotlb_sync hw sys s.dom ⟨iova, iova + SECT_SIZE⟩ ∧
      (lv1set_section_units hw sys s sent iova paddr prot pgcnt).2.2.drvdata = sys.drvdata ∧
      (lv1set_section_units hw sys s sent iova paddr prot pgcnt).2.2.group_list =
        sys.group_list ∧
      (s.dom.group ≠ none →
        (lv1set_section_units hw sys s sent iova paddr prot pgcnt).2.2.writes =
          sys.writes ++
            (sys.group_list.filter (fun u => decide ((sys.drvdata u).attached_count ≠ 0 ∧
                (sys.drvdata u).rpm_count > 0))).flatMap
              (fun u => __sysmmu_invalidate hw (sys.drvdata u) iova (iova + SECT_SIZE)) ∧
        ∀ u ∈ sys.group_list, (sys.drvdata u).attached_count ≠ 0 →
          (sys.drvdata u).rpm_count > 0 →
          ∀ i, i < (sys.drvdata u).max_vm → (sys.drvdata u).vmid_mask.testBit i = true →
            (hw.MMU_VM_ADDR ((sys.drvdata u).sfrbase + REG_MMU_RANGE_INV_START_VPN_VM) i,
                (ALIGN_DOWN iova SPAGE_SIZE >>> 4) % 2 ^ 32) ∈
              (lv1set_section_units hw sys s sent iova paddr prot pgcnt).2.2.writes ∧
            (hw.MMU_VM_ADDR ((sys.drvdata u).sfrbase + REG_MMU_RANGE_INV_END_VPN_AND_TRIG_VM) i,
                ((ALIGN_DOWN ((iova + SECT_SIZE + 2 ^ 64 - 1) % 2 ^ 64) SPAGE_SIZE >>> 4) |||
                  0x1) % 2 ^ 32) ∈
              (lv1set_section_units hw sys s sent iova paddr prot pgcnt).2.2.writes) ∧
      (iova % SECT_SIZE = 0 → iova + SECT_SIZE ≤ 2 ^ 36 →
        (ALIGN_DOWN iova SPAGE_SIZE >>> 4) % 2 ^ 32 = iova / SPAGE_SIZE * 256 ∧
        ((ALIGN_DOWN ((iova + SECT_SIZE + 2 ^ 64 - 1) % 2 ^ 64) SPAGE_SIZE >>> 4) ||| 0x1)
            % 2 ^ 32 = (iova / SPAGE_SIZE + (NUM_LV2ENTRIES - 1)) * 256 + 1)) ∧
    (lv1ent_unmapped (s.dom.page_table sent) = true →
      (lv1set_section_units hw sys s sent iova paddr prot pgcnt).1 = 0 ∧
      (lv1set_section_units hw sys s sent iova paddr prot pgcnt).2.1.iotlb_syncs =
        s.iotlb_syncs ∧
      (lv1set_section_units hw sys s sent iova paddr prot pgcnt).2.2 = sys) := by
  refine ⟨fun hp hc => ?_, fun hu => ?_⟩
  · have hrep := lv1set_section_replace s sent iova paddr prot pgcnt
      ((lv1ent_page_iff _).1 hp) hc
    have hunits : (lv1set_section_units hw sys s sent iova paddr prot pgcnt).2.2 =
        samsung_sysmmu_iotlb_sync hw sys s.dom ⟨iova, iova + SECT_SIZE⟩ := by
      unfold lv1set_section_units
      rw [hrep]
      simp only [List.drop_left, run_iotlb_syncs, List.foldl_cons, List.foldl_nil,
        iommu_iotlb_sync]
      rfl
    obtain ⟨f1, f2⟩ := iotlb_sync_frame hw sys s.dom ⟨iova, iova + SECT_SIZE⟩
    refine ⟨?_, ?_, hunits, by rw [hunits, f1], by rw [hunits, f2], fun hg => ?_,
      fun hal h36 => ?_⟩
    · unfold lv1set_section_units
      rw [hrep]
    · unfold lv1set_section_units
      rw [hrep]
    · have hw' := iotlb_sync_eq hw sys s.dom ⟨iova, iova + SECT_SIZE⟩ hg
      rw [hunits, hw']
      refine ⟨rfl, fun u hu hcnt hrpm i hi hb => ?_⟩
      have hin : ∀ w, w ∈ __sysmmu_invalidate hw (sys.drvdata u) iova (iova + SECT_SIZE) →
          w ∈ sys.writes ++
            (sys.group_list.filter (fun u => decide ((sys.drvdata u).attached_count ≠ 0 ∧
                (sys.drvdata u).rpm_count > 0))).flatMap
              (fun u => __sysmmu_invalidate hw (sys.drvdata u) iova (iova + SECT_SIZE)) := by
        intro w hw1
        refine List.mem_append.2 (Or.inr (List.mem_flatMap.2 ⟨u, ?_, hw1⟩))
        exact List.mem_filter.2 ⟨hu, by simpa using ⟨hcnt, hrpm⟩⟩
      constructor
      · apply hin
        unfold __sysmmu_invalidate
        rw [write_all_vm_eq, write_all_vm_eq]
        exact List.mem_append.2 (Or.inl (List.mem_map.2
          ⟨i, (mem_vm_slots (sys.drvdata u) i).2 ⟨hi, hb⟩, rfl⟩))
      · apply hin
        unfold __sysmmu_invalidate
        rw [write_all_vm_eq, write_all_vm_eq]
        exact List.mem_append.2 (Or.inr (List.mem_map.2
          ⟨i, (mem_vm_slots (sys.drvdata u) i).2 ⟨hi, hb⟩, rfl⟩))
    · have hS : SECT_SIZE = 1048576 := rfl
      rw [hS] at hal h36
      obtain ⟨s1, -⟩ := invalidate_start_value iova (by omega)
      obtain ⟨e1, -⟩ := invalidate_end_value (iova + SECT_SIZE) (by rw [hS]; omega)
        (by rw [hS]; omega)
      rw [s1, e1]
      unfold SPAGE_SIZE NUM_LV2ENTRIES SECT_SIZE SPAGE_SIZE
      constructor
      · rfl
      · omega
  · have h0 := (lv1ent_unmapped_iff _).1 hu
    have hpl := lv1set_section_plain s sent iova paddr prot pgcnt (by omega) (by omega)
    unfold lv1set_section_units
    rw [hpl]
    refine ⟨rfl, rfl, ?_⟩
    show run_iotlb_syncs hw sys _ (List.drop s.iotlb_syncs.length s.iotlb_syncs) = sys
    rw [List.drop_length]
    rfl

/-! ## Counting live entries -/

theorem live_count_succ (f : Nat → Nat) (m : Nat) :
    ((List.range (m + 1)).filter (fun j => !lv2ent_unmapped (f j))).length =
      ((List.range m).filter (fun j => !lv2ent_unmapped (f j))).length +
        (if f m % 4 = 0 then 0 else 1) := by
  rw [List.range_succ, List.filter_append, List.length_append]
  congr 1
  by_cases h : f m % 4 = 0
  · have hu : lv2ent_unmapped (f m) = true := (lv2ent_unmapped_iff _).2 h
    simp [List.filter_cons, hu, h]
  · have hu : lv2ent_unmapped (f m) = false := (not_unmapped_iff _).2 h
    simp [List.filter_cons, hu, h]

/-- Two tables that agree on which entries are Unmapped, apart from the `d` entries from
`a` on that are Unmapped in the first and in use in the second: the second has `d` live
entries more. -/
theorem live_count_update (f g : Nat → Nat) (a d : Nat) :
    ∀ m : Nat,
      (∀ j, j < m → (a ≤ j ∧ j < a + d → f j % 4 = 0 ∧ g j % 4 ≠ 0) ∧
        (¬ (a ≤ j ∧ j < a + d) → (g j % 4 = 0 ↔ f j % 4 = 0))) →
      ((List.range m).filter (fun j => !lv2ent_unmapped (g j))).length =
        ((List.range m).filter (fun j => !lv2ent_unmapped (f j))).length +
          (min m (a + d) - min m a) := by
  intro m
  induction m with
  | zero => intro _; simp
  | succ m ih =>
    intro h
    rw [live_count_succ, live_count_succ, ih (fun j hj => h j (by omega))]
    obtain ⟨h1, h2⟩ := h m (by omega)
    by_cases hin : a ≤ m ∧ m < a + d
    · obtain ⟨hf, hg⟩ := h1 hin
      rw [if_pos hf, if_neg hg]
      omega
    · have hiff := h2 hin
      by_cases hf : f m % 4 = 0
      · rw [if_pos hf, if_pos (hiff.2 hf)]
        omega
      · rw [if_neg hf, if_neg (fun hg => hf (hiff.1 hg))]
        omega

theorem live_count_le (f : Nat → Nat) (m : Nat) :
    ((List.range m).filter (fun j => !lv2ent_unmapped (f j))).length ≤ m := by
  have := List.length_filter_le (fun j => !lv2ent_unmapped (f j)) (List.range m)
  simpa using this

theorem lv2_live_le (s : pgtable_state) (base : Nat) : lv2_live s base ≤ 256 :=
  live_count_le _ 256

/-- The live entries of a table after a change of memory, in the form of
`live_count_update` for the table at `base`. -/
theorem lv2_live_update (s s' : pgtable_state) (base a d : Nat) (had : a + d ≤ 256)
    (h : ∀ j, j < 256 →
      (a ≤ j ∧ j < a + d → s.slpt (base + 4 * j) % 4 = 0 ∧ s'.slpt (base + 4 * j) % 4 ≠ 0) ∧
      (¬ (a ≤ j ∧ j < a + d) →
        (s'.slpt (base + 4 * j) % 4 = 0 ↔ s.slpt (base + 4 * j) % 4 = 0))) :
    lv2_live s' base = lv2_live s base + d := by
  have := live_count_update (fun j => s.slpt (base + 4 * j)) (fun j => s'.slpt (base + 4 * j))
    a d 256 h
  have hm : min 256 (a + d) - min 256 a = d := by omega
  rw [hm] at this
  exact this

theorem lv2_live_same (s s' : pgtable_state) (base : Nat)
    (h : ∀ j, j < 256 → (s'.slpt (base + 4 * j) % 4 = 0 ↔ s.slpt (base + 4 * j) % 4 = 0)) :
    lv2_live s' base = lv2_live s base := by
  have := lv2_live_update s s' base 0 0 (by omega) (fun j hj =>
    ⟨fun hc => by omega, fun _ => h j hj⟩)
  omega

/-! ## The counter invariant, table by table -/

theorem table_inv_iff (s : pgtable_state) (base : Nat) (c : Int) :
    table_inv s base c ↔
      (c = (lv2_live s base : Int) ∧
      (∀ j, j < 256 → s.slpt (base + 4 * j) % 4 ≤ 2) ∧
      (∀ j k, j < 256 → k < 16 → s.slpt (base + 4 * j) % 4 = 1 →
        s.slpt (base + 4 * (j / 16 * 16 + k)) % 4 = 1)) := Iff.rfl

/-- The state of a table depends on the kinds of its entries only. -/
theorem table_inv_kind (s s' : pgtable_state) (base : Nat) (c : Int)
    (h : ∀ j, j < 256 → s'.slpt (base + 4 * j) % 4 = s.slpt (base + 4 * j) % 4)
    (hi : table_inv s base c) : table_inv s' base c := by
  rw [table_inv_iff] at hi ⊢
  obtain ⟨h1, h2, h3⟩ := hi
  refine ⟨?_, ?_, ?_⟩
  · rw [h1, lv2_live_same s s' base (fun j hj => by rw [h j hj])]
  · intro j hj
    rw [h j hj]
    exact h2 j hj
  · intro j k hj hk hl
    rw [h j hj] at hl
    rw [h _ (by omega)]
    exact h3 j k hj hk hl

/-- A table without live entries. -/
theorem table_inv_zero (s : pgtable_state) (base : Nat)
    (h : ∀ j, j < 256 → s.slpt (base + 4 * j) = 0) : table_inv s base 0 := by
  rw [table_inv_iff]
  refine ⟨?_, ?_, ?_⟩
  · have hl := lv2_live_update s s base 0 0 (by omega) (fun j hj =>
      ⟨fun hc => by omega, fun _ => Iff.rfl⟩)
    have h0 : ∀ m, m ≤ 256 →
        ((List.range m).filter (fun j => !lv2ent_unmapped (s.slpt (base + 4 * j)))).length =
          0 := by
      intro m
      induction m with
      | zero => intro _; rfl
      | succ m ih =>
        intro hm
        rw [live_count_succ (fun j => s.slpt (base + 4 * j)) m, ih (by omega)]
        simp only [h m (by omega)]
        rfl
    have := h0 256 (le_refl _)
    unfold lv2_live
    rw [show NUM_LV2ENTRIES = 256 from rfl, this]
    rfl
  · intro j hj
    rw [h j hj]
    decide
  · intro j k hj _ hl
    rw [h j hj] at hl
    exact absurd hl (by decide)

/-- Installing one SmallPage entry or one aligned run of LargePage entries over free
entries raises the counter by the number of entries. -/
theorem table_inv_add (s s' : pgtable_state) (base : Nat) (c : Int) (a d v : Nat)
    (hd : (d = 1 ∧ v % 4 = 2) ∨ (d = 16 ∧ a % 16 = 0 ∧ v % 4 = 1)) (ha : a + d ≤ 256)
    (hfree : ∀ j, a ≤ j → j < a + d → s.slpt (base + 4 * j) % 4 = 0)
    (hnew : ∀ j, j < 256 →
      s'.slpt (base + 4 * j) = if a ≤ j ∧ j < a + d then v else s.slpt (base + 4 * j))
    (hi : table_inv s base c) : table_inv s' base (atomic_wrap (c + (d : Int))) := by
  rw [table_inv_iff] at hi ⊢
  obtain ⟨h1, h2, h3⟩ := hi
  have hv : v % 4 ≠ 0 ∧ v % 4 ≤ 2 := by
    rcases hd with ⟨-, h⟩ | ⟨-, -, h⟩ <;> omega
  have hl : lv2_live s' base = lv2_live s base + d := by
    apply lv2_live_update s s' base a d ha
    intro j hj
    rw [hnew j hj]
    refine ⟨fun hin => ?_, fun hout => ?_⟩
    · rw [if_pos hin]
      exact ⟨hfree j hin.1 hin.2, hv.1⟩
    · rw [if_neg hout]
  have hle := lv2_live_le s' base
  refine ⟨?_, ?_, ?_⟩
  · rw [atomic_wrap_id _ (by omega) (by omega), h1, hl]
    push_cast
    rfl
  · intro j hj
    rw [hnew j hj]
    by_cases hin : a ≤ j ∧ j < a + d
    · rw [if_pos hin]; exact hv.2
    · rw [if_neg hin]; exact h2 j hj
  · intro j k hj hk hlg
    rw [hnew j hj] at hlg
    rw [hnew _ (by omega)]
    by_cases hin : a ≤ j ∧ j < a + d
    · rw [if_pos hin] at hlg
      rcases hd with ⟨-, h⟩ | ⟨hd16, ha16, h⟩
      · omega
      · rw [if_pos (by omega)]
        exact h
    · rw [if_neg hin] at hlg
      have hrun := h3 j k hj hk hlg
      by_cases hin2 : a ≤ j / 16 * 16 + k ∧ j / 16 * 16 + k < a + d
      · have := hfree _ hin2.1 hin2.2
        omega
      · rw [if_neg hin2]
        exact hrun

/-- Clearing one SmallPage entry or one aligned run of LargePage entries lowers the
counter by the number of entries. -/
theorem table_inv_sub (s s' : pgtable_state) (base : Nat) (c : Int) (a d : Nat)
    (hd : (d = 1 ∧ s.slpt (base + 4 * a) % 4 = 2) ∨
      (d = 16 ∧ a % 16 = 0 ∧ s.slpt (base + 4 * a) % 4 = 1)) (ha : a + d ≤ 256)
    (hnew : ∀ j, j < 256 →
      s'.slpt (base + 4 * j) = if a ≤ j ∧ j < a + d then 0 else s.slpt (base + 4 * j))
    (hi : table_inv s base c) : table_inv s' base (atomic_wrap (c - (d : Int))) := by
  rw [table_inv_iff] at hi ⊢
  obtain ⟨h1, h2, h3⟩ := hi
  have hlive : ∀ j, a ≤ j → j < a + d → s.slpt (base + 4 * j) % 4 ≠ 0 := by
    intro j hj1 hj2
    rcases hd with ⟨hd1, h⟩ | ⟨hd16, ha16, h⟩
    · have : j = a := by omega
      rw [this]; omega
    · have := h3 a (j - a) (by omega) (by omega) h
      have he : a / 16 * 16 + (j - a) = j := by omega
      rw [he] at this
      omega
  have hl : lv2_live s base = lv2_live s' base + d := by
    apply lv2_live_update s' s base a d ha
    intro j hj
    rw [hnew j hj]
    refine ⟨fun hin => ?_, fun hout => ?_⟩
    · rw [if_pos hin]
      exact ⟨rfl, hlive j hin.1 hin.2⟩
    · rw [if_neg hout]
  have hle := lv2_live_le s base
  refine ⟨?_, ?_, ?_⟩
  · rw [atomic_wrap_id _ (by omega) (by omega), h1, hl]
    push_cast
    omega
  · intro j hj
    rw [hnew j hj]
    by_cases hin : a ≤ j ∧ j < a + d
    · rw [if_pos hin]; decide
    · rw [if_neg hin]; exact h2 j hj
  · intro j k hj hk hlg
    rw [hnew j hj] at hlg
    rw [hnew _ (by omega)]
    by_cases hin : a ≤ j ∧ j < a + d
    · rw [if_pos hin] at hlg
      exact absurd hlg (by decide)
    · rw [if_neg hin] at hlg
      have hrun := h3 j k hj hk hlg
      by_cases hin2 : a ≤ j / 16 * 16 + k ∧ j / 16 * 16 + k < a + d
      · exfalso
        rcases hd with ⟨hd1, h⟩ | ⟨hd16, ha16, h⟩
        · have : j / 16 * 16 + k = a := by omega
          rw [this] at hrun
          omega
        · omega
      · rw [if_neg hin2]
        exact hrun

/-! ## The counter invariant under the changes of the calls -/

/-- A change confined to the sub-table of one slot and to the counter of that slot. -/
theorem counter_inv_local (s s' : pgtable_state) (idx : Nat) (hpt : pt_inv s)
    (hinv : counter_inv s) (hpage : s.dom.page_table idx % 8 = 1)
    (h1 : s'.dom.page_table = s.dom.page_table)
    (h2 : ∀ i, i ≠ idx → s'.dom.lv2entcnt i = s.dom.lv2entcnt i)
    (h3 : ∀ a, ¬ (lv2table_base (s.dom.page_table idx) ≤ a ∧
      a < lv2table_base (s.dom.page_table idx) + 1024) → s'.slpt a = s.slpt a)
    (h4 : table_inv s' (lv2table_base (s.dom.page_table idx)) (s'.dom.lv2entcnt idx)) :
    counter_inv s' := by
  intro i hi
  rw [h1] at hi ⊢
  by_cases hidx : i = idx
  · rw [hidx]; exact h4
  · rw [h2 i hidx]
    apply table_inv_kind s s' _ _ _ (hinv i hi)
    intro j hj
    rw [h3]
    have hne : lv2table_base (s.dom.page_table i) ≠ lv2table_base (s.dom.page_table idx) :=
      fun he => hidx (hpt.2.2 i idx hi hpage he)
    have ha1 := lv2table_base_aligned (s.dom.page_table i)
    have ha2 := lv2table_base_aligned (s.dom.page_table idx)
    omega

/-- A slot set to a value that is not a reference, memory unchanged. -/
theorem counter_inv_plain (s s' : pgtable_state) (idx v : Nat) (hinv : counter_inv s)
    (hv : v % 8 ≠ 1)
    (h1 : s'.dom.page_table = fun j => if j = idx then v else s.dom.page_table j)
    (h2 : ∀ i, i ≠ idx → s'.dom.lv2entcnt i = s.dom.lv2entcnt i)
    (h3 : s'.slpt = s.slpt) : counter_inv s' := by
  intro i hi
  rw [h1] at hi ⊢
  dsimp only at hi ⊢
  by_cases hidx : i = idx
  · rw [if_pos hidx] at hi
    exact absurd hi hv
  · rw [if_neg hidx] at hi
    simp only [if_neg hidx]
    rw [h2 i hidx]
    exact table_inv_kind s s' _ _ (fun j _ => by rw [h3]) (hinv i hi)

/-- A fresh zero-filled sub-table installed in a slot, with the counter set to zero. -/
theorem counter_inv_alloc (s s' : pgtable_state) (idx p : Nat) (hpt : pt_inv s)
    (hinv : counter_inv s) (hp : p % 1024 = 0) (hp36 : p < 2 ^ 36) (hfresh : p ∉ s.slpt_objs)
    (h1 : s'.dom.page_table =
      fun j => if j = idx then make_sysmmu_pte p SLPD_FLAG 0 else s.dom.page_table j)
    (h2 : s'.dom.lv2entcnt = fun j => if j = idx then 0 else s.dom.lv2entcnt j)
    (h3 : s'.slpt = (kmem_cache_zalloc s p).slpt) : counter_inv s' := by
  intro i hi
  rw [h1] at hi ⊢
  rw [h2]
  dsimp only at hi ⊢
  by_cases hidx : i = idx
  · simp only [if_pos hidx]
    rw [lv2table_base_make p hp hp36]
    apply table_inv_zero
    intro j hj
    rw [h3]
    simp only [kmem_cache_zalloc]
    rw [if_pos ⟨by omega, by rw [show LV2TABLE_SIZE = 1024 from rfl]; omega, by omega⟩]
  · rw [if_neg hidx] at hi
    simp only [if_neg hidx]
    apply table_inv_kind s s' _ _ _ (hinv i hi)
    intro j hj
    rw [h3]
    simp only [kmem_cache_zalloc]
    have hne : lv2table_base (s.dom.page_table i) ≠ p :=
      fun he => hfresh (he ▸ hpt.2.1 i hi)
    have ha1 := lv2table_base_aligned (s.dom.page_table i)
    rw [if_neg]
    rw [show LV2TABLE_SIZE = 1024 from rfl]
    omega

/-- The invariant of the counters holds after `lv2set_page` on an entry of a referenced
sub-table, for a small page and for a large page at an aligned index. -/
theorem counter_inv_lv2set_page (s : pgtable_state) (idx l2 paddr size prot : Nat)
    (hpt : pt_inv s) (hinv : counter_inv s) (hpage : s.dom.page_table idx % 8 = 1)
    (hl2 : l2 < 256) (hsz : size = SPAGE_SIZE ∨ l2 % 16 = 0) (hp : paddr % 4096 = 0) :
    counter_inv (lv2set_page s (lv2table_base (s.dom.page_table idx) + 4 * l2) paddr size prot
      idx).2 := by
  by_cases hs : size = SPAGE_SIZE
  · subst hs
    by_cases he : s.slpt (lv2table_base (s.dom.page_table idx) + 4 * l2) % 4 = 0
    · rw [lv2set_page_spage_ok _ _ _ _ _ he]
      refine counter_inv_local s _ idx hpt hinv hpage ?_ ?_ ?_ ?_
      · rfl
      · intro i hi
        simp only [atomic_add, atomic_set, set_pent, if_neg hi]
      · intro a ha
        simp only [atomic_add, atomic_set, set_pent]
        rw [if_neg (by omega)]
      · have h := table_inv_add s
          (atomic_add (set_pent s (lv2table_base (s.dom.page_table idx) + 4 * l2)
            (make_sysmmu_pte paddr SPAGE_FLAG (page_attr prot))) idx 1)
          (lv2table_base (s.dom.page_table idx)) (s.dom.lv2entcnt idx) l2 1
          (make_sysmmu_pte paddr SPAGE_FLAG (page_attr prot))
          (Or.inl ⟨rfl, make_spage_pte_mod paddr prot hp⟩) (by omega)
          (fun j h1 h2 => by
            have : j = l2 := by omega
            rw [this]; exact he)
          (fun j hj => by
            simp only [atomic_add, atomic_set, set_pent]
            by_cases hin : l2 ≤ j ∧ j < l2 + 1
            · rw [if_pos hin, if_pos (by omega)]
            · rw [if_neg hin, if_neg (by omega)])
          (hinv idx hpage)
        simp only [atomic_add, atomic_set, set_pent, if_true] at h ⊢
        exact h
    · rw [lv2set_page_spage_fail _ _ _ _ _ he]
      exact hinv
  · have h16 : l2 % 16 = 0 := by
      rcases hsz with h | h
      · exact absurd h hs
      · exact h
    by_cases hall : ∀ j, j < 16 →
        s.slpt (lv2table_base (s.dom.page_table idx) + 4 * l2 + 4 * j) % 4 = 0
    · rw [lv2set_page_lpage_ok _ _ _ _ _ _ hs hall]
      refine counter_inv_local s _ idx hpt hinv hpage ?_ ?_ ?_ ?_
      · rfl
      · intro i hi
        simp only [atomic_add, atomic_set, fill_lv2, if_neg hi]
      · intro a ha
        simp only [atomic_add, atomic_set, fill_lv2]
        rw [if_neg (by omega)]
      · have h := table_inv_add s
          (atomic_add (fill_lv2 s (lv2table_base (s.dom.page_table idx) + 4 * l2) 16
            (make_sysmmu_pte paddr LPAGE_FLAG (page_attr prot))) idx 16)
          (lv2table_base (s.dom.page_table idx)) (s.dom.lv2entcnt idx) l2 16
          (make_sysmmu_pte paddr LPAGE_FLAG (page_attr prot))
          (Or.inr ⟨rfl, h16, make_lpage_pte_mod paddr prot hp⟩) (by omega)
          (fun j h1 h2 => by
            have := hall (j - l2) (by omega)
            rw [show lv2table_base (s.dom.page_table idx) + 4 * l2 + 4 * (j - l2) =
              lv2table_base (s.dom.page_table idx) + 4 * j by omega] at this
            exact this)
          (fun j hj => by
            simp only [atomic_add, atomic_set, fill_lv2]
            by_cases hin : l2 ≤ j ∧ j < l2 + 16
            · rw [if_pos hin, if_pos (by omega)]
            · rw [if_neg hin, if_neg (by omega)])
          (hinv idx hpage)
        simp only [atomic_add, atomic_set, fill_lv2, if_true] at h ⊢
        exact h
    · obtain ⟨j, hj, hok, hbad⟩ := exists_first_fail _ 16 hall
      rw [lv2set_page_lpage_fail _ _ _ _ _ _ j hs hj hok hbad]
      refine counter_inv_local s _ idx hpt hinv hpage ?_ ?_ ?_ ?_
      · rfl
      · intro i _
        rfl
      · intro a ha
        simp only [clear_lv2_page_table, fill_lv2]
        rw [if_neg (by omega), if_neg (by omega)]
      · apply table_inv_kind s _ _ _ _ (hinv idx hpage)
        intro m hm
        simp only [clear_lv2_page_table, fill_lv2]
        by_cases hin : l2 ≤ m ∧ m < l2 + j
        · rw [if_pos (by omega)]
          have := hok (m - l2) (by omega)
          rw [show lv2table_base (s.dom.page_table idx) + 4 * l2 + 4 * (m - l2) =
            lv2table_base (s.dom.page_table idx) + 4 * m by omega] at this
          rw [this]
        · rw [if_neg (by omega), if_neg (by omega)]

theorem counter_inv_map (s : pgtable_state) (iova paddr size prot : Nat) (alloc : Option Nat)
    (hpt : pt_inv s) (hinv : counter_inv s) (hv : valid_pgsize size) (hi : iova % size = 0)
    (hp : paddr % SPAGE_SIZE = 0) (ha : alloc_ok s alloc) :
    counter_inv (samsung_sysmmu_map s iova paddr size prot alloc).2 := by
  have hp' : paddr % 4096 = 0 := hp
  by_cases hS : size = SECT_SIZE
  · subst hS
    rw [map_section_eq]
    have hpte := make_sect_pte_mod paddr (priv_prot prot) hp'
    by_cases h2 : s.dom.page_table (lv1ent_offset (iova % 2 ^ 64)) % 8 = 2
    · rw [lv1set_section_inuse _ _ _ _ _ _ (Or.inl h2)]; exact hinv
    · by_cases h1 : s.dom.page_table (lv1ent_offset (iova % 2 ^ 64)) % 8 = 1
      · by_cases hc : s.dom.lv2entcnt (lv1ent_offset (iova % 2 ^ 64)) = 0
        · rw [lv1set_section_replace _ _ _ _ _ _ h1 hc]
          refine counter_inv_plain s _ (lv1ent_offset (iova % 2 ^ 64)) _ hinv
            (by rw [hpte]; decide) rfl ?_ rfl
          intro i hne
          simp only [set_sent, atomic_set, kmem_cache_free, if_neg hne]
        · rw [lv1set_section_inuse _ _ _ _ _ _ (Or.inr ⟨h1, hc⟩)]; exact hinv
      · rw [lv1set_section_plain _ _ _ _ _ _ h1 h2]
        exact counter_inv_plain s _ (lv1ent_offset (iova % 2 ^ 64)) _ hinv
          (by rw [hpte]; decide) rfl (fun _ _ => rfl) rfl
  · have hsz : size = SPAGE_SIZE ∨ lv2ent_offset (iova % 2 ^ 64) % 16 = 0 := by
      rcases hv with h | h | h
      · exact Or.inl h
      · right
        rw [h] at hi
        rw [lv2ent_offset_eq]
        simp only [LPAGE_SIZE] at hi
        omega
      · exact absurd h hS
    by_cases h2 : s.dom.page_table (lv1ent_offset (iova % 2 ^ 64)) % 8 = 2
    · rw [map_page_err _ _ _ _ _ _ _ _ hS (alloc_lv2entry_section _ _ _ _ _ h2)]; exact hinv
    · by_cases h0 : s.dom.page_table (lv1ent_offset (iova % 2 ^ 64)) % 8 = 0
      · cases alloc with
        | none =>
          rw [map_page_err _ _ _ _ _ _ _ _ hS (alloc_lv2entry_nomem _ _ _ _ h0)]; exact hinv
        | some p =>
          obtain ⟨hp1, hp2, hp3⟩ : p % LV2TABLE_SIZE = 0 ∧ p < 2 ^ 36 ∧ p ∉ s.slpt_objs := ha
          rw [map_page_ok _ _ _ _ _ _ _ _ hS (alloc_lv2entry_fresh _ _ _ _ _ h0)]
          have hpt1 : pt_inv (atomic_set (set_sent (kmem_cache_zalloc s p)
              (lv1ent_offset (iova % 2 ^ 64)) (make_sysmmu_pte p SLPD_FLAG 0))
              (lv1ent_offset (iova % 2 ^ 64)) 0) :=
            pt_inv_alloc s _ (lv1ent_offset (iova % 2 ^ 64)) p hpt hp1 hp2 hp3 rfl rfl
          have hinv1 : counter_inv (atomic_set (set_sent (kmem_cache_zalloc s p)
              (lv1ent_offset (iova % 2 ^ 64)) (make_sysmmu_pte p SLPD_FLAG 0))
              (lv1ent_offset (iova % 2 ^ 64)) 0) :=
            counter_inv_alloc s _ (lv1ent_offset (iova % 2 ^ 64)) p hpt hinv hp1 hp2 hp3
              rfl rfl rfl
          have he : (atomic_set (set_sent (kmem_cache_zalloc s p)
              (lv1ent_offset (iova % 2 ^ 64)) (make_sysmmu_pte p SLPD_FLAG 0))
              (lv1ent_offset (iova % 2 ^ 64)) 0).dom.page_table (lv1ent_offset (iova % 2 ^ 64)) =
              make_sysmmu_pte p SLPD_FLAG 0 := by
            simp only [atomic_set, set_sent, if_true]
          have hp1' : p % 1024 = 0 := hp1
          have hmod : make_sysmmu_pte p SLPD_FLAG 0 % 8 = 1 := by
            rw [make_sysmmu_pte_slpd p hp1']; omega
          have key := counter_inv_lv2set_page _ (lv1ent_offset (iova % 2 ^ 64))
            (lv2ent_offset (iova % 2 ^ 64)) paddr size (priv_prot prot) hpt1 hinv1
            (by rw [he]; exact hmod) (lv2ent_offset_lt _) hsz hp'
          rw [he] at key
          exact key
      · have h1 : s.dom.page_table (lv1ent_offset (iova % 2 ^ 64)) % 8 = 1 := by
          have := hpt.1 (lv1ent_offset (iova % 2 ^ 64))
          omega
        rw [map_page_ok _ _ _ _ _ _ _ _ hS (alloc_lv2entry_resident _ _ _ _ _ h0 h2)]
        exact counter_inv_lv2set_page s (lv1ent_offset (iova % 2 ^ 64))
          (lv2ent_offset (iova % 2 ^ 64)) paddr size (priv_prot prot) hpt hinv h1
          (lv2ent_offset_lt _) hsz hp'

theorem counter_inv_unmap {γ : Type} (add : γ → Nat → Nat → γ) (s : pgtable_state)
    (iova size : Nat) (g : γ) (hpt : pt_inv s) (hinv : counter_inv s)
    (hv : valid_pgsize size) (hi : iova % size = 0) :
    counter_inv (samsung_sysmmu_unmap add s iova size g).2.1 := by
  by_cases h2 : s.dom.page_table (lv1ent_offset (iova % 2 ^ 64)) % 8 = 2
  · by_cases hs : size < SECT_SIZE
    · rw [unmap_section_short add s iova size g h2 hs]; exact hinv
    · rw [unmap_section add s iova size g h2 hs]
      exact counter_inv_plain s _ (lv1ent_offset (iova % 2 ^ 64)) 0 hinv (by decide) rfl
        (fun _ _ => rfl) rfl
  · by_cases h0 : s.dom.page_table (lv1ent_offset (iova % 2 ^ 64)) % 8 = 0
    · rw [unmap_unmapped add s iova size g h0]; exact hinv
    · have h1 : s.dom.page_table (lv1ent_offset (iova % 2 ^ 64)) % 8 = 1 := by
        have := hpt.1 (lv1ent_offset (iova % 2 ^ 64))
        omega
      have hl2 := lv2ent_offset_lt (iova % 2 ^ 64)
      have hpe : page_entry (s.dom.page_table (lv1ent_offset (iova % 2 ^ 64))) (iova % 2 ^ 64) =
          lv2table_base (s.dom.page_table (lv1ent_offset (iova % 2 ^ 64))) +
            4 * lv2ent_offset (iova % 2 ^ 64) := rfl
      by_cases he0 : s.slpt (page_entry (s.dom.page_table (lv1ent_offset (iova % 2 ^ 64)))
          (iova % 2 ^ 64)) % 4 = 0
      · rw [unmap_page_unmapped add s iova size g h0 h2 he0]; exact hinv
      · by_cases he2 : s.slpt (page_entry (s.dom.page_table (lv1ent_offset (iova % 2 ^ 64)))
            (iova % 2 ^ 64)) % 4 = 2
        · rw [unmap_page_small add s iova size g h0 h2 he2]
          rw [hpe] at he2 ⊢
          refine counter_inv_local s _ (lv1ent_offset (iova % 2 ^ 64)) hpt hinv h1 ?_ ?_ ?_ ?_
          · rfl
          · intro i hne
            simp only [atomic_add, atomic_set, set_pent, if_neg hne]
          · intro a ha
            simp only [atomic_add, atomic_set, set_pent]
            rw [if_neg (by omega)]
          · have h := table_inv_sub s
              (atomic_add (set_pent s (lv2table_base (s.dom.page_table
                (lv1ent_offset (iova % 2 ^ 64))) + 4 * lv2ent_offset (iova % 2 ^ 64)) 0)
                (lv1ent_offset (iova % 2 ^ 64)) (-1))
              (lv2table_base (s.dom.page_table (lv1ent_offset (iova % 2 ^ 64))))
              (s.dom.lv2entcnt (lv1ent_offset (iova % 2 ^ 64)))
              (lv2ent_offset (iova % 2 ^ 64)) 1 (Or.inl ⟨rfl, he2⟩) (by omega)
              (fun j hj => by
                simp only [atomic_add, atomic_set, set_pent]
                by_cases hin : lv2ent_offset (iova % 2 ^ 64) ≤ j ∧
                    j < lv2ent_offset (iova % 2 ^ 64) + 1
                · rw [if_pos hin, if_pos (by omega)]
                · rw [if_neg hin, if_neg (by omega)])
              (hinv _ h1)
            have e : s.dom.lv2entcnt (lv1ent_offset (iova % 2 ^ 64)) + (-1) =
                s.dom.lv2entcnt (lv1ent_offset (iova % 2 ^ 64)) - ((1 : Nat) : Int) := by
              push_cast; ring
            simp only [atomic_add, atomic_set, set_pent, if_true] at h ⊢
            rw [e]
            exact h
        · by_cases hs : size < LPAGE_SIZE
          · rw [unmap_page_large_short add s iova size g h0 h2 he0 he2 hs]; exact hinv
          · rw [unmap_page_large add s iova size g h0 h2 he0 he2 hs]
            rw [hpe] at he0 he2 ⊢
            have h16 : lv2ent_offset (iova % 2 ^ 64) % 16 = 0 := by
              rw [lv2ent_offset_eq]
              rcases hv with h | h | h
              · rw [h] at hs; exact absurd (by decide) hs
              · rw [h] at hi
                simp only [LPAGE_SIZE] at hi
                omega
              · rw [h] at hi
                simp only [SECT_SIZE] at hi
                omega
            have hk : s.slpt (lv2table_base (s.dom.page_table (lv1ent_offset (iova % 2 ^ 64))) +
                4 * lv2ent_offset (iova % 2 ^ 64)) % 4 = 1 := by
              have := ((table_inv_iff _ _ _).1 (hinv _ h1)).2.1 _ hl2
              omega
            refine counter_inv_local s _ (lv1ent_offset (iova % 2 ^ 64)) hpt hinv h1 ?_ ?_ ?_ ?_
            · rfl
            · intro i hne
              simp only [atomic_add, atomic_set, clear_lv2_page_table, if_neg hne]
            · intro a ha
              simp only [atomic_add, atomic_set, clear_lv2_page_table]
              rw [if_neg]
              rw [show SPAGES_PER_LPAGE = 16 from rfl]
              omega
            · have h := table_inv_sub s
                (atomic_add (clear_lv2_page_table s (lv2table_base (s.dom.page_table
                  (lv1ent_offset (iova % 2 ^ 64))) + 4 * lv2ent_offset (iova % 2 ^ 64))
                  SPAGES_PER_LPAGE)
                  (lv1ent_offset (iova % 2 ^ 64)) (-(SPAGES_PER_LPAGE : Int)))
                (lv2table_base (s.dom.page_table (lv1ent_offset (iova % 2 ^ 64))))
                (s.dom.lv2entcnt (lv1ent_offset (iova % 2 ^ 64)))
                (lv2ent_offset (iova % 2 ^ 64)) 16 (Or.inr ⟨rfl, h16, hk⟩) (by omega)
                (fun j hj => by
                  simp only [atomic_add, atomic_set, clear_lv2_page_table]
                  rw [show SPAGES_PER_LPAGE = 16 from rfl]
                  by_cases hin : lv2ent_offset (iova % 2 ^ 64) ≤ j ∧
                      j < lv2ent_offset (iova % 2 ^ 64) + 16
                  · rw [if_pos hin, if_pos (by omega)]
                  · rw [if_neg hin, if_neg (by omega)])
                (hinv _ h1)
              have e : s.dom.lv2entcnt (lv1ent_offset (iova % 2 ^ 64)) +
                  (-(SPAGES_PER_LPAGE : Int)) =
                  s.dom.lv2entcnt (lv1ent_offset (iova % 2 ^ 64)) - ((16 : Nat) : Int) := by
                rw [show SPAGES_PER_LPAGE = 16 from rfl]
                push_cast; ring
              simp only [atomic_add, atomic_set, clear_lv2_page_table, if_true] at h ⊢
              rw [e]
              exact h

/-- Every reachable state satisfies the invariant of the counters. -/
theorem reachable_counter_inv (s : pgtable_state) (h : reachable s) : counter_inv s := by
  induction h with
  | fresh type latch k f c r d slpt objs hd =>
    obtain ⟨hpt, -, -⟩ := domain_alloc_fresh _ _ _ _ _ _ _ hd
    intro i hi
    simp only [hpt] at hi
    omega
  | map s iova paddr size prot alloc hr hv hi hp ha ih =>
    exact counter_inv_map s _ _ _ _ _ (reachable_pt_inv s hr) ih hv hi hp ha
  | unmap add s iova size g hr hv hi ih =>
    exact counter_inv_unmap add s _ _ g (reachable_pt_inv s hr) ih hv hi

/-! ## What the calls leave alone in the domain -/

theorem lv2set_page_dom_frame (t : pgtable_state) (pent paddr size prot pgcnt : Nat) :
    (lv2set_page t pent paddr size prot pgcnt).2.dom.num_lv1entries = t.dom.num_lv1entries ∧
    (lv2set_page t pent paddr size prot pgcnt).2.dom.is_va_36bit = t.dom.is_va_36bit ∧
    ∀ i, i ≠ pgcnt →
      (lv2set_page t pent paddr size prot pgcnt).2.dom.lv2entcnt i = t.dom.lv2entcnt i := by
  by_cases hs : size = SPAGE_SIZE
  · subst hs
    by_cases he : t.slpt pent % 4 = 0
    · rw [lv2set_page_spage_ok _ _ _ _ _ he]
      refine ⟨rfl, rfl, ?_⟩
      intro i hi
      simp only [atomic_add, atomic_set, set_pent, if_neg hi]
    · rw [lv2set_page_spage_fail _ _ _ _ _ he]
      exact ⟨rfl, rfl, fun _ _ => rfl⟩
  · by_cases hall : ∀ j, j < 16 → t.slpt (pent + 4 * j) % 4 = 0
    · rw [lv2set_page_lpage_ok _ _ _ _ _ _ hs hall]
      refine ⟨rfl, rfl, ?_⟩
      intro i hi
      simp only [atomic_add, atomic_set, fill_lv2, if_neg hi]
    · obtain ⟨j, hj, hok, hbad⟩ := exists_first_fail _ 16 hall
      rw [lv2set_page_lpage_fail _ _ _ _ _ _ j hs hj hok hbad]
      exact ⟨rfl, rfl, fun _ _ => rfl⟩

/-- The call `samsung_sysmmu_map` keeps the size of the tables of the domain and touches
the slot and the counter of one level-1 index. -/
theorem map_dom_frame (s : pgtable_state) (iova paddr size prot : Nat) (alloc : Option Nat) :
    (samsung_sysmmu_map s iova paddr size prot alloc).2.dom.num_lv1entries =
      s.dom.num_lv1entries ∧
    (samsung_sysmmu_map s iova paddr size prot alloc).2.dom.is_va_36bit = s.dom.is_va_36bit ∧
    ∀ i, i ≠ lv1ent_offset (iova % 2 ^ 64) →
      (samsung_sysmmu_map s iova paddr size prot alloc).2.dom.page_table i =
        s.dom.page_table i ∧
      (samsung_sysmmu_map s iova paddr size prot alloc).2.dom.lv2entcnt i =
        s.dom.lv2entcnt i := by
  by_cases hS : size = SECT_SIZE
  · subst hS
    rw [map_section_eq]
    by_cases h2 : s.dom.page_table (lv1ent_offset (iova % 2 ^ 64)) % 8 = 2
    · rw [lv1set_section_inuse _ _ _ _ _ _ (Or.inl h2)]
      exact ⟨rfl, rfl, fun _ _ => ⟨rfl, rfl⟩⟩
    · by_cases h1 : s.dom.page_table (lv1ent_offset (iova % 2 ^ 64)) % 8 = 1
      · by_cases hc : s.dom.lv2entcnt (lv1ent_offset (iova % 2 ^ 64)) = 0
        · rw [lv1set_section_replace _ _ _ _ _ _ h1 hc]
          refine ⟨rfl, rfl, ?_⟩
          intro i hi
          simp only [set_sent, atomic_set, kmem_cache_free, if_neg hi]
          exact ⟨by first | rfl | trivial, by first | rfl | trivial⟩
        · rw [lv1set_section_inuse _ _ _ _ _ _ (Or.inr ⟨h1, hc⟩)]
          exact ⟨rfl, rfl, fun _ _ => ⟨rfl, rfl⟩⟩
      · rw [lv1set_section_plain _ _ _ _ _ _ h1 h2]
        refine ⟨rfl, rfl, ?_⟩
        intro i hi
        simp only [set_sent, if_neg hi]
        exact ⟨by first | rfl | trivial, by first | rfl | trivial⟩
  · by_cases h2 : s.dom.page_table (lv1ent_offset (iova % 2 ^ 64)) % 8 = 2
    · rw [map_page_err _ _ _ _ _ _ _ _ hS (alloc_lv2entry_section _ _ _ _ _ h2)]
      exact ⟨rfl, rfl, fun _ _ => ⟨rfl, rfl⟩⟩
    · by_cases h0 : s.dom.page_table (lv1ent_offset (iova % 2 ^ 64)) % 8 = 0
      · cases alloc with
        | none =>
          rw [map_page_err _ _ _ _ _ _ _ _ hS (alloc_lv2entry_nomem _ _ _ _ h0)]
          exact ⟨rfl, rfl, fun _ _ => ⟨rfl, rfl⟩⟩
        | some p =>
          rw [map_page_ok _ _ _ _ _ _ _ _ hS (alloc_lv2entry_fresh _ _ _ _ _ h0)]
          obtain ⟨f1, -, -⟩ := lv2set_page_footprint (atomic_set (set_sent (kmem_cache_zalloc s p)
            (lv1ent_offset (iova % 2 ^ 64)) (make_sysmmu_pte p SLPD_FLAG 0))
            (lv1ent_offset (iova % 2 ^ 64)) 0)
            (page_entry (make_sysmmu_pte p SLPD_FLAG 0) (iova % 2 ^ 64)) paddr size
            (priv_prot prot) (lv1ent_offset (iova % 2 ^ 64))
          obtain ⟨g1, g2, g3⟩ := lv2set_page_dom_frame (atomic_set (set_sent
            (kmem_cache_zalloc s p)
            (lv1ent_offset (iova % 2 ^ 64)) (make_sysmmu_pte p SLPD_FLAG 0))
            (lv1ent_offset (iova % 2 ^ 64)) 0)
            (page_entry (make_sysmmu_pte p SLPD_FLAG 0) (iova % 2 ^ 64)) paddr size
            (priv_prot prot) (lv1ent_offset (iova % 2 ^ 64))
          refine ⟨g1, g2, ?_⟩
          intro i hi
          rw [f1, g3 i hi]
          simp only [set_sent, atomic_set, kmem_cache_zalloc, if_neg hi]
          exact ⟨by first | rfl | trivial, by first | rfl | trivial⟩
      · rw [map_page_ok _ _ _ _ _ _ _ _ hS (alloc_lv2entry_resident _ _ _ _ _ h0 h2)]
        obtain ⟨f1, -, -⟩ := lv2set_page_footprint s
          (page_entry (s.dom.page_table (lv1ent_offset (iova % 2 ^ 64))) (iova % 2 ^ 64)) paddr
          size (priv_prot prot) (lv1ent_offset (iova % 2 ^ 64))
        obtain ⟨g1, g2, g3⟩ := lv2set_page_dom_frame s
          (page_entry (s.dom.page_table (lv1ent_offset (iova % 2 ^ 64))) (iova % 2 ^ 64)) paddr
          size (priv_prot prot) (lv1ent_offset (iova % 2 ^ 64))
        refine ⟨g1, g2, ?_⟩
        intro i hi
        rw [f1, g3 i hi]
        exact ⟨rfl, rfl⟩

/-- The call `samsung_sysmmu_unmap` keeps the size of the tables of the domain, touches
the slot and the counter of one level-1 index, and in memory no word outside the
`SPAGES_PER_LPAGE` entries from the entry of `iova` on. -/
theorem unmap_dom_frame {γ : Type} (add : γ → Nat → Nat → γ) (s : pgtable_state)
    (iova size : Nat) (g : γ) :
    (samsung_sysmmu_unmap add s iova size g).2.1.dom.num_lv1entries = s.dom.num_lv1entries ∧
    (samsung_sysmmu_unmap add s iova size g).2.1.dom.is_va_36bit = s.dom.is_va_36bit ∧
    (∀ i, i ≠ lv1ent_offset (iova % 2 ^ 64) →
      (samsung_sysmmu_unmap add s iova size g).2.1.dom.page_table i = s.dom.page_table i ∧
      (samsung_sysmmu_unmap add s iova size g).2.1.dom.lv2entcnt i = s.dom.lv2entcnt i) ∧
    ∀ a, ¬ (page_entry (s.dom.page_table (lv1ent_offset (iova % 2 ^ 64))) (iova % 2 ^ 64) ≤ a ∧
        a < page_entry (s.dom.page_table (lv1ent_offset (iova % 2 ^ 64))) (iova % 2 ^ 64) +
          4 * SPAGES_PER_LPAGE) →
      (samsung_sysmmu_unmap add s iova size g).2.1.slpt a = s.slpt a := by
  have h16 : SPAGES_PER_LPAGE = 16 := rfl
  by_cases h2 : s.dom.page_table (lv1ent_offset (iova % 2 ^ 64)) % 8 = 2
  · by_cases hs : size < SECT_SIZE
    · rw [unmap_section_short add s iova size g h2 hs]
      exact ⟨rfl, rfl, fun _ _ => ⟨rfl, rfl⟩, fun _ _ => rfl⟩
    · rw [unmap_section add s iova size g h2 hs]
      refine ⟨rfl, rfl, ?_, fun _ _ => rfl⟩
      intro i hi
      simp only [set_sent, if_neg hi]
      exact ⟨by first | rfl | trivial, by first | rfl | trivial⟩
  · by_cases h0 : s.dom.page_table (lv1ent_offset (iova % 2 ^ 64)) % 8 = 0
    · rw [unmap_unmapped add s iova size g h0]
      exact ⟨rfl, rfl, fun _ _ => ⟨rfl, rfl⟩, fun _ _ => rfl⟩
    · by_cases he0 : s.slpt (page_entry (s.dom.page_table (lv1ent_offset (iova % 2 ^ 64)))
          (iova % 2 ^ 64)) % 4 = 0
      · rw [unmap_page_unmapped add s iova size g h0 h2 he0]
        exact ⟨rfl, rfl, fun _ _ => ⟨rfl, rfl⟩, fun _ _ => rfl⟩
      · by_cases he2 : s.slpt (page_entry (s.dom.page_table (lv1ent_offset (iova % 2 ^ 64)))
            (iova % 2 ^ 64)) % 4 = 2
        · rw [unmap_page_small add s iova size g h0 h2 he2]
          refine ⟨rfl, rfl, ?_, ?_⟩
          · intro i hi
            simp only [atomic_add, atomic_set, set_pent, if_neg hi]
            exact ⟨by first | rfl | trivial, by first | rfl | trivial⟩
          · intro a ha
            rw [h16] at ha
            simp only [atomic_add, atomic_set, set_pent]
            rw [if_neg (by omega)]
        · by_cases hs : size < LPAGE_SIZE
          · rw [unmap_page_large_short add s iova size g h0 h2 he0 he2 hs]
            exact ⟨rfl, rfl, fun _ _ => ⟨rfl, rfl⟩, fun _ _ => rfl⟩
          · rw [unmap_page_large add s iova size g h0 h2 he0 he2 hs]
            refine ⟨rfl, rfl, ?_, ?_⟩
            · intro i hi
              simp only [atomic_add, atomic_set, clear_lv2_page_table, if_neg hi]
              exact ⟨by first | rfl | trivial, by first | rfl | trivial⟩
            · intro a ha
              simp only [atomic_add, atomic_set, clear_lv2_page_table]
              rw [if_neg (by omega)]

/-- In every reachable state the tables of the domain have the size that goes with the
width of its virtual addresses. -/
theorem reachable_num_lv1entries (s : pgtable_state) (h : reachable s) :
    s.dom.num_lv1entries =
      if s.dom.is_va_36bit then NUM_LV1ENTRIES_36BIT else NUM_LV1ENTRIES_32BIT := by
  induction h with
  | fresh type latch k f c r d slpt objs hd =>
    obtain ⟨-, -, -, -, -, base, -, hd'⟩ := domain_alloc_some _ _ _ _ _ _ _ hd
    rw [hd']
  | map s iova paddr size prot alloc _ _ _ _ _ ih =>
    obtain ⟨h1, h2, -⟩ := map_dom_frame s iova paddr size prot alloc
    rw [h1, h2]; exact ih
  | unmap add s iova size g _ _ _ ih =>
    obtain ⟨h1, h2, -⟩ := unmap_dom_frame add s iova size g
    rw [h1, h2]; exact ih

/-! ## The live-entry counters -/

/-- C26 as amended: the invariant of the live-entry counters. In every state reachable
from a fresh domain by `samsung_sysmmu_map` and `samsung_sysmmu_unmap` calls, successful
or failing,
with a size of `pgsize_bitmap`, an `iova` aligned to the size, a page-aligned physical
address and sub-tables taken from the cache, every level-1 slot that references a
sub-table has a counter equal to the number of entries of the sub-table that are not
Unmapped, so the counter lies between 0 and `NUM_LV2ENTRIES`; and every LargePage entry
of the sub-table lies in a run of `SPAGES_PER_LPAGE` LargePage entries that starts at a
multiple of `SPAGES_PER_LPAGE` and ends inside the sub-table. -/
theorem counter_invariant (s : pgtable_state) (h : reachable s) (i : Nat)
    (hi : lv1ent_page (s.dom.page_table i) = true) :
    s.dom.lv2entcnt i = (lv2_live s (lv2table_base (s.dom.page_table i)) : Int) ∧
    0 ≤ s.dom.lv2entcnt i ∧ s.dom.lv2entcnt i ≤ (NUM_LV2ENTRIES : Int) ∧
    ∀ j, j < NUM_LV2ENTRIES →
      lv2ent_large (s.slpt (lv2table_base (s.dom.page_table i) + 4 * j)) = true →
      j / SPAGES_PER_LPAGE * SPAGES_PER_LPAGE + SPAGES_PER_LPAGE ≤ NUM_LV2ENTRIES ∧
      ∀ k, k < SPAGES_PER_LPAGE →
        lv2ent_large (s.slpt (lv2table_base (s.dom.page_table i) +
          4 * (j / SPAGES_PER_LPAGE * SPAGES_PER_LPAGE + k))) = true := by
  rw [lv1ent_page_iff] at hi
  obtain ⟨h1, -, h3⟩ := (table_inv_iff _ _ _).1 (reachable_counter_inv s h i hi)
  have hle := lv2_live_le s (lv2table_base (s.dom.page_table i))
  have h256 : NUM_LV2ENTRIES = 256 := rfl
  have h16 : SPAGES_PER_LPAGE = 16 := rfl
  rw [h256, h16]
  refine ⟨h1, by omega, by rw [h1]; exact_mod_cast hle, ?_⟩
  intro j hj hl
  rw [lv2ent_large_iff] at hl
  refine ⟨by omega, ?_⟩
  intro k hk
  rw [lv2ent_large_iff]
  exact h3 j k hj hk hl

/-! ## Table indices -/

/-- The entry `alloc_lv2entry` returns is the entry of `iova` in the sub-table that the
slot references afterwards. -/
theorem alloc_lv2entry_entry (s s1 : pgtable_state) (sent iova pgcounter pent : Nat)
    (alloc : Option Nat)
    (h : alloc_lv2entry s sent iova pgcounter alloc = (.ok pent, s1)) :
    pent = page_entry (s1.dom.page_table sent) iova := by
  by_cases h2 : s.dom.page_table sent % 8 = 2
  · rw [alloc_lv2entry_section _ _ _ _ _ h2] at h
    simp at h
  · by_cases h0 : s.dom.page_table sent % 8 = 0
    · cases alloc with
      | none =>
        rw [alloc_lv2entry_nomem _ _ _ _ h0] at h
        simp at h
      | some p =>
        rw [alloc_lv2entry_fresh _ _ _ _ _ h0] at h
        simp only [Prod.mk.injEq, Except.ok.injEq] at h
        obtain ⟨h3, h4⟩ := h
        rw [← h3, ← h4]
        simp only [atomic_set, set_sent, if_true]
    · rw [alloc_lv2entry_resident _ _ _ _ _ h0 h2] at h
      simp only [Prod.mk.injEq, Except.ok.injEq] at h
      obtain ⟨h3, h4⟩ := h
      rw [← h3, ← h4]

/-- C27: table indexing stays in bounds. In a reachable state the root table and the
counter array have `NUM_LV1ENTRIES_36BIT` slots on a 36-bit domain and
`NUM_LV1ENTRIES_32BIT` on a 32-bit one. For an `iova` below `2 ^ 36`, respectively
`2 ^ 32`: the level-1 index is below that number; the level-2 index is below
`NUM_LV2ENTRIES`, so the entry of `iova` lies inside the sub-table of any slot value;
for an `iova` aligned to `LPAGE_SIZE` the `SPAGES_PER_LPAGE` entries from that entry on
lie inside the sub-table as well. The calls use these indices and no other:
`samsung_sysmmu_map` leaves every slot and counter of another level-1 index alone and,
for a size other than `SECT_SIZE`, hands the entry of `iova` in the sub-table of the slot
to `lv2set_page`, which writes no word outside one entry (`SPAGE_SIZE`) or
`SPAGES_PER_LPAGE` entries from it on; `samsung_sysmmu_unmap` leaves every slot and
counter of another index alone and writes no word outside the `SPAGES_PER_LPAGE` entries
from the entry of `iova` on; `samsung_sysmmu_iova_to_phys` depends on the slot of the
level-1 index and on the entry of `iova` only. -/
theorem table_index_in_bounds (s : pgtable_state) (hr : reachable s) (iova : Nat)
    (hw : iova < (if s.dom.is_va_36bit then 2 ^ 36 else 2 ^ 32)) :
    s.dom.num_lv1entries =
      (if s.dom.is_va_36bit then NUM_LV1ENTRIES_36BIT else NUM_LV1ENTRIES_32BIT) ∧
    lv1ent_offset (iova % 2 ^ 64) < s.dom.num_lv1entries ∧
    lv2ent_offset (iova % 2 ^ 64) < NUM_LV2ENTRIES ∧
    (∀ e, lv2table_base e ≤ page_entry e (iova % 2 ^ 64) ∧
      page_entry e (iova % 2 ^ 64) + 4 ≤ lv2table_base e + LV2TABLE_SIZE) ∧
    (iova % LPAGE_SIZE = 0 →
      lv2ent_offset (iova % 2 ^ 64) + SPAGES_PER_LPAGE ≤ NUM_LV2ENTRIES ∧
      ∀ e, page_entry e (iova % 2 ^ 64) + 4 * SPAGES_PER_LPAGE ≤
        lv2table_base e + LV2TABLE_SIZE) ∧
    (∀ paddr size prot alloc,
      (∀ i, i ≠ lv1ent_offset (iova % 2 ^ 64) →
        (samsung_sysmmu_map s iova paddr size prot alloc).2.dom.page_table i =
          s.dom.page_table i ∧
        (samsung_sysmmu_map s iova paddr size prot alloc).2.dom.lv2entcnt i =
          s.dom.lv2entcnt i) ∧
      (size ≠ SECT_SIZE → ∀ pent s1,
        alloc_lv2entry s (lv1ent_offset (iova % 2 ^ 64)) (iova % 2 ^ 64)
          (lv1ent_offset (iova % 2 ^ 64)) alloc = (.ok pent, s1) →
        pent = page_entry (s1.dom.page_table (lv1ent_offset (iova % 2 ^ 64))) (iova % 2 ^ 64) ∧
        samsung_sysmmu_map s iova paddr size prot alloc =
          lv2set_page s1 pent paddr size (priv_prot prot) (lv1ent_offset (iova % 2 ^ 64)) ∧
        ∀ a, ¬ (pent ≤ a ∧
            a < pent + 4 * (if size = SPAGE_SIZE then 1 else SPAGES_PER_LPAGE)) →
          (samsung_sysmmu_map s iova paddr size prot alloc).2.slpt a = s1.slpt a)) ∧
    (∀ (γ : Type) (add : γ → Nat → Nat → γ) (size : Nat) (g : γ),
      (∀ i, i ≠ lv1ent_offset (iova % 2 ^ 64) →
        (samsung_sysmmu_unmap add s iova size g).2.1.dom.page_table i = s.dom.page_table i ∧
        (samsung_sysmmu_unmap add s iova size g).2.1.dom.lv2entcnt i = s.dom.lv2entcnt i) ∧
      ∀ a, ¬ (page_entry (s.dom.page_table (lv1ent_offset (iova % 2 ^ 64))) (iova % 2 ^ 64) ≤ a ∧
          a < page_entry (s.dom.page_table (lv1ent_offset (iova % 2 ^ 64))) (iova % 2 ^ 64) +
            4 * SPAGES_PER_LPAGE) →
        (samsung_sysmmu_unmap add s iova size g).2.1.slpt a = s.slpt a) ∧
    (∀ t : pgtable_state,
      t.dom.page_table (lv1ent_offset (iova % 2 ^ 64)) =
        s.dom.page_table (lv1ent_offset (iova % 2 ^ 64)) →
      t.slpt (page_entry (s.dom.page_table (lv1ent_offset (iova % 2 ^ 64))) (iova % 2 ^ 64)) =
        s.slpt (page_entry (s.dom.page_table (lv1ent_offset (iova % 2 ^ 64))) (iova % 2 ^ 64)) →
      samsung_sysmmu_iova_to_phys t iova = samsung_sysmmu_iova_to_phys s iova) := by
  have hnum := reachable_num_lv1entries s hr
  have hl2 := lv2ent_offset_lt (iova % 2 ^ 64)
  have h256 : NUM_LV2ENTRIES = 256 := rfl
  have h16 : SPAGES_PER_LPAGE = 16 := rfl
  have h1024 : LV2TABLE_SIZE = 1024 := rfl
  refine ⟨hnum, ?_, hl2, ?_, ?_, ?_, ?_, ?_⟩
  · rw [hnum, lv1ent_offset_eq]
    cases h36 : s.dom.is_va_36bit
    · rw [h36] at hw
      simp only [Bool.false_eq_true, if_false] at hw ⊢
      rw [show NUM_LV1ENTRIES_32BIT = 4096 from rfl]
      omega
    · rw [h36] at hw
      simp only [if_true] at hw ⊢
      rw [show NUM_LV1ENTRIES_36BIT = 65536 from rfl]
      omega
  · intro e
    rw [page_entry_eq, h1024]
    omega
  · intro hal
    have hal' : iova % 65536 = 0 := hal
    have h : lv2ent_offset (iova % 2 ^ 64) + 16 ≤ 256 := by
      rw [lv2ent_offset_eq]
      omega
    rw [h16, h256]
    refine ⟨h, ?_⟩
    intro e
    rw [page_entry_eq, h1024]
    omega
  · intro paddr size prot alloc
    refine ⟨(map_dom_frame s iova paddr size prot alloc).2.2, ?_⟩
    intro hS pent s1 hal
    have hm := map_page_ok s s1 iova paddr size prot pent alloc hS hal
    refine ⟨alloc_lv2entry_entry _ _ _ _ _ _ _ hal, hm, ?_⟩
    rw [hm, h16]
    exact (lv2set_page_footprint s1 pent paddr size (priv_prot prot) _).2.2
  · intro γ add size g
    exact ⟨(unmap_dom_frame add s iova size g).2.2.1, (unmap_dom_frame add s iova size g).2.2.2⟩
  · intro t h1 h2
    exact translate_congr s t iova h1 (fun _ => h2)

/-! ## Entries of Sections and large pages -/

/-- A Section entry decodes to a Section at the address it was built from. -/
theorem sect_pte_decode (paddr attr : Nat) (hp : paddr % 1048576 = 0) (hp36 : paddr < 2 ^ 36)
    (ha : attr = 0 ∨ attr = FLPD_SHAREABLE_FLAG) :
    make_sysmmu_pte paddr SECT_FLAG attr = paddr / 16 + 2 + attr ∧
    lv1ent_section (make_sysmmu_pte paddr SECT_FLAG attr) = true ∧
    section_phys (make_sysmmu_pte paddr SECT_FLAG attr) = paddr := by
  have h36 : paddr < 68719476736 := by norm_num at hp36; exact hp36
  have he : make_sysmmu_pte paddr SECT_FLAG attr = paddr / 16 + 2 + attr := by
    rcases ha with h | h <;> rw [h]
    · rw [make_sysmmu_pte_eq paddr SECT_FLAG 0 (by omega) (by decide)]
      have : SECT_FLAG ||| 0 = 2 := by decide
      omega
    · rw [make_sysmmu_pte_eq paddr SECT_FLAG FLPD_SHAREABLE_FLAG (by omega) (by decide)]
      have : SECT_FLAG ||| FLPD_SHAREABLE_FLAG = 66 := by decide
      have : FLPD_SHAREABLE_FLAG = 64 := rfl
      omega
  have h64 : FLPD_SHAREABLE_FLAG = 64 := rfl
  refine ⟨he, ?_, ?_⟩
  · rw [lv1ent_section_iff, he]
    rcases ha with h | h <;> rw [h] <;> omega
  · rw [section_phys_eq, he]
    rcases ha with h | h <;> rw [h] <;> omega

/-- A LargePage entry decodes to a LargePage at the address it was built from. -/
theorem lpage_pte_decode (paddr attr : Nat) (hp : paddr % 65536 = 0) (hp36 : paddr < 2 ^ 36)
    (ha : attr = 0 ∨ attr = SLPD_SHAREABLE_FLAG) :
    make_sysmmu_pte paddr LPAGE_FLAG attr = paddr / 16 + 1 + attr ∧
    lv2ent_large (make_sysmmu_pte paddr LPAGE_FLAG attr) = true ∧
    lpage_phys (make_sysmmu_pte paddr LPAGE_FLAG attr) = paddr := by
  have h36 : paddr < 68719476736 := by norm_num at hp36; exact hp36
  have he : make_sysmmu_pte paddr LPAGE_FLAG attr = paddr / 16 + 1 + attr := by
    rcases ha with h | h <;> rw [h]
    · rw [make_sysmmu_pte_eq paddr LPAGE_FLAG 0 (by omega) (by decide)]
      have : LPAGE_FLAG ||| 0 = 1 := by decide
      omega
    · rw [make_sysmmu_pte_eq paddr LPAGE_FLAG SLPD_SHAREABLE_FLAG (by omega) (by decide)]
      have : LPAGE_FLAG ||| SLPD_SHAREABLE_FLAG = 17 := by decide
      have : SLPD_SHAREABLE_FLAG = 16 := rfl
      omega
  have h16 : SLPD_SHAREABLE_FLAG = 16 := rfl
  refine ⟨he, ?_, ?_⟩
  · rw [lv2ent_large_iff, he]
    rcases ha with h | h <;> rw [h] <;> omega
  · rw [lpage_phys_eq, he]
    rcases ha with h | h <;> rw [h] <;> omega

/-- Translation through a slot that holds the Section entry of `paddr`. -/
theorem section_roundtrip (t : pgtable_state) (iova paddr attr off : Nat)
    (hi : iova % 1048576 = 0) (hi64 : iova < 2 ^ 64)
    (hp : paddr % 1048576 = 0) (hp36 : paddr < 2 ^ 36)
    (ha : attr = 0 ∨ attr = FLPD_SHAREABLE_FLAG) (hoff : off < 1048576)
    (hslot : t.dom.page_table (lv1ent_offset iova) = make_sysmmu_pte paddr SECT_FLAG attr) :
    samsung_sysmmu_iova_to_phys t (iova + off) = paddr + off := by
  norm_num at hi64
  have hx : (iova + off) % 2 ^ 64 = iova + off := Nat.mod_eq_of_lt (by norm_num; omega)
  have h1 : lv1ent_offset (iova + off) = lv1ent_offset iova := by
    rw [lv1ent_offset_eq, lv1ent_offset_eq]; omega
  obtain ⟨-, d1, d2⟩ := sect_pte_decode paddr attr hp hp36 ha
  rw [translate_section t _ (by rw [hx, h1, hslot]; exact (lv1ent_section_iff _).1 d1),
    hx, h1, hslot, d2, section_offs_eq]
  omega

/-- Translation after `lv2set_page` installed a large page with success. -/
theorem lpage_roundtrip (t : pgtable_state) (iova paddr prot off pent : Nat)
    (hpage : t.dom.page_table (lv1ent_offset iova) % 8 = 1)
    (hpent : pent = page_entry (t.dom.page_table (lv1ent_offset iova)) iova)
    (hi : iova % 65536 = 0) (hi64 : iova < 2 ^ 64)
    (hp : paddr % 65536 = 0) (hp36 : paddr < 2 ^ 36) (hoff : off < 65536)
    (hret : (lv2set_page t pent paddr LPAGE_SIZE prot (lv1ent_offset iova)).1 = 0) :
    samsung_sysmmu_iova_to_phys
      (lv2set_page t pent paddr LPAGE_SIZE prot (lv1ent_offset iova)).2 (iova + off) =
        paddr + off := by
  subst hpent
  norm_num at hi64
  have hx : (iova + off) % 2 ^ 64 = iova + off := Nat.mod_eq_of_lt (by norm_num; omega)
  have h1 : lv1ent_offset (iova + off) = lv1ent_offset iova := by
    rw [lv1ent_offset_eq, lv1ent_offset_eq]; omega
  have h2 : lv2ent_offset (iova + off) = lv2ent_offset iova + off / 4096 := by
    rw [lv2ent_offset_eq, lv2ent_offset_eq]; omega
  have hs : LPAGE_SIZE ≠ SPAGE_SIZE := by decide
  obtain ⟨-, d1, d2⟩ := lpage_pte_decode paddr (page_attr prot) hp hp36 (page_attr_cases prot)
  by_cases hall : ∀ j, j < 16 →
      t.slpt (page_entry (t.dom.page_table (lv1ent_offset iova)) iova + 4 * j) % 4 = 0
  · rw [lv2set_page_lpage_ok _ _ _ _ _ _ hs hall]
    rw [translate_page _ _ (by rw [hx, h1]; exact hpage)]
    have hcond : ∀ b l : Nat, (b + 4 * l ≤ b + 4 * (l + off / 4096) ∧
        b + 4 * (l + off / 4096) < b + 4 * l + 4 * 16 ∧
        (b + 4 * (l + off / 4096) - (b + 4 * l)) % 4 = 0) :=
      fun b l => ⟨by omega, by omega, by omega⟩
    simp only [hx, h1, atomic_add, atomic_set, fill_lv2, page_entry_eq, h2, hcond, and_self,
      if_true]
    rw [if_pos ((lv2ent_large_iff _).1 d1), d2, lpage_offs_eq]
    omega
  · obtain ⟨j, hj, hok, hbad⟩ := exists_first_fail _ 16 hall
    rw [lv2set_page_lpage_fail _ _ _ _ _ _ j hs hj hok hbad] at hret
    have hne : (-EADDRINUSE : Int) ≠ 0 := by decide
    exact absurd hret hne

/-- C28: the entries of Sections and large pages decode to what they were built from.
For a physical address below `2 ^ 36` aligned to the granularity and either value of
the shareable attribute, the entry `make_sysmmu_pte` builds is
`(paddr >> PG_ENT_SHIFT) | flag | attr` without loss in its 32 bits, it decodes to the
same type (`lv1ent_section`, `lv2ent_large`) and to the same physical address
(`section_phys`, `lpage_phys`); the attribute `samsung_sysmmu_map` passes is one of
the two values, whatever `prot` is. After a successful `samsung_sysmmu_map` of that
granularity in a reachable state, with `iova` aligned to the granularity, every offset
`off` below the granularity translates to `paddr + off`. -/
theorem encode_decode_roundtrip (s : pgtable_state) (hr : reachable s)
    (iova paddr size prot : Nat) (alloc : Option Nat)
    (hg : size = LPAGE_SIZE ∨ size = SECT_SIZE) (hp : paddr % size = 0)
    (hp36 : paddr < 2 ^ 36) (hi : iova % size = 0) (hi64 : iova < 2 ^ 64)
    (ha : alloc_ok s alloc) :
    (size = SECT_SIZE → ∀ attr, attr = 0 ∨ attr = FLPD_SHAREABLE_FLAG →
      make_sysmmu_pte paddr SECT_FLAG attr = (paddr >>> PG_ENT_SHIFT) ||| SECT_FLAG ||| attr ∧
      make_sysmmu_pte paddr SECT_FLAG attr < 2 ^ 32 ∧
      lv1ent_section (make_sysmmu_pte paddr SECT_FLAG attr) = true ∧
      section_phys (make_sysmmu_pte paddr SECT_FLAG attr) = paddr) ∧
    (size = LPAGE_SIZE → ∀ attr, attr = 0 ∨ attr = SLPD_SHAREABLE_FLAG →
      make_sysmmu_pte paddr LPAGE_FLAG attr = (paddr >>> PG_ENT_SHIFT) ||| LPAGE_FLAG ||| attr ∧
      make_sysmmu_pte paddr LPAGE_FLAG attr < 2 ^ 32 ∧
      lv2ent_large (make_sysmmu_pte paddr LPAGE_FLAG attr) = true ∧
      lpage_phys (make_sysmmu_pte paddr LPAGE_FLAG attr) = paddr) ∧
    (section_attr (priv_prot prot) = 0 ∨ section_attr (priv_prot prot) = FLPD_SHAREABLE_FLAG) ∧
    (page_attr (priv_prot prot) = 0 ∨ page_attr (priv_prot prot) = SLPD_SHAREABLE_FLAG) ∧
    ((samsung_sysmmu_map s iova paddr size prot alloc).1 = 0 →
      ∀ off, off < size →
        samsung_sysmmu_iova_to_phys (samsung_sysmmu_map s iova paddr size prot alloc).2
          (iova + off) = paddr + off) := by
  have h36 : paddr < 68719476736 := by norm_num at hp36; exact hp36
  have hsh : (paddr >>> PG_ENT_SHIFT) % 2 ^ 32 = paddr >>> PG_ENT_SHIFT := by
    apply Nat.mod_eq_of_lt
    rw [show PG_ENT_SHIFT = 4 from rfl, Nat.shiftRight_eq_div_pow]
    norm_num
    omega
  have hiova : iova % 2 ^ 64 = iova := Nat.mod_eq_of_lt hi64
  have hpt := reachable_pt_inv s hr
  have hne : (-EADDRINUSE : Int) ≠ 0 := by decide
  have hnm : (-ENOMEM : Int) ≠ 0 := by decide
  refine ⟨?_, ?_, section_attr_cases _, page_attr_cases _, ?_⟩
  · intro hS attr hattr
    rw [hS] at hp
    have hp' : paddr % 1048576 = 0 := hp
    obtain ⟨d0, d1, d2⟩ := sect_pte_decode paddr attr hp' hp36 hattr
    refine ⟨?_, ?_, d1, d2⟩
    · unfold make_sysmmu_pte
      rw [hsh]
    · rw [d0]
      have : FLPD_SHAREABLE_FLAG = 64 := rfl
      norm_num
      rcases hattr with h | h <;> rw [h] <;> omega
  · intro hL attr hattr
    rw [hL] at hp
    have hp' : paddr % 65536 = 0 := hp
    obtain ⟨d0, d1, d2⟩ := lpage_pte_decode paddr attr hp' hp36 hattr
    refine ⟨?_, ?_, d1, d2⟩
    · unfold make_sysmmu_pte
      rw [hsh]
    · rw [d0]
      have : SLPD_SHAREABLE_FLAG = 16 := rfl
      norm_num
      rcases hattr with h | h <;> rw [h] <;> omega
  · intro hret off hoff
    rcases hg with hL | hS
    · subst hL
      have hp' : paddr % 65536 = 0 := hp
      have hi' : iova % 65536 = 0 := hi
      have hoff' : off < 65536 := hoff
      have hSne : LPAGE_SIZE ≠ SECT_SIZE := by decide
      by_cases h2 : s.dom.page_table (lv1ent_offset (iova % 2 ^ 64)) % 8 = 2
      · rw [map_page_err _ _ _ _ _ _ _ _ hSne (alloc_lv2entry_section _ _ _ _ _ h2)] at hret
        exact absurd hret hne
      · by_cases h0 : s.dom.page_table (lv1ent_offset (iova % 2 ^ 64)) % 8 = 0
        · cases alloc with
          | none =>
            rw [map_page_err _ _ _ _ _ _ _ _ hSne (alloc_lv2entry_nomem _ _ _ _ h0)] at hret
            exact absurd hret hnm
          | some p =>
            obtain ⟨hp1, hp2, -⟩ : p % LV2TABLE_SIZE = 0 ∧ p < 2 ^ 36 ∧ p ∉ s.slpt_objs := ha
            have hp1' : p % 1024 = 0 := hp1
            rw [map_page_ok _ _ _ _ _ _ _ _ hSne (alloc_lv2entry_fresh _ _ _ _ _ h0)] at hret ⊢
            rw [hiova] at hret ⊢
            have he : (atomic_set (set_sent (kmem_cache_zalloc s p)
                (lv1ent_offset iova) (make_sysmmu_pte p SLPD_FLAG 0))
                (lv1ent_offset iova) 0).dom.page_table (lv1ent_offset iova) =
                make_sysmmu_pte p SLPD_FLAG 0 := by
              simp only [atomic_set, set_sent, if_true]
            have hmod : make_sysmmu_pte p SLPD_FLAG 0 % 8 = 1 := by
              rw [make_sysmmu_pte_slpd p hp1']; omega
            exact lpage_roundtrip _ iova paddr (priv_prot prot) off _
              (by rw [he]; exact hmod) (by rw [he]) hi' hi64 hp' hp36 hoff' hret
        · have h1 : s.dom.page_table (lv1ent_offset (iova % 2 ^ 64)) % 8 = 1 := by
            have := hpt.1 (lv1ent_offset (iova % 2 ^ 64))
            omega
          rw [map_page_ok _ _ _ _ _ _ _ _ hSne (alloc_lv2entry_resident _ _ _ _ _ h0 h2)]
            at hret ⊢
          rw [hiova] at hret h1 ⊢
          exact lpage_roundtrip s iova paddr (priv_prot prot) off _ h1 rfl hi' hi64 hp' hp36
            hoff' hret
    · subst hS
      have hp' : paddr % 1048576 = 0 := hp
      have hi' : iova % 1048576 = 0 := hi
      have hoff' : off < 1048576 := hoff
      rw [map_section_eq] at hret ⊢
      rw [hiova] at hret ⊢
      by_cases h2 : s.dom.page_table (lv1ent_offset iova) % 8 = 2
      · rw [lv1set_section_inuse _ _ _ _ _ _ (Or.inl h2)] at hret
        exact absurd hret hne
      · by_cases h1 : s.dom.page_table (lv1ent_offset iova) % 8 = 1
        · by_cases hc : s.dom.lv2entcnt (lv1ent_offset iova) = 0
          · rw [lv1set_section_replace _ _ _ _ _ _ h1 hc]
            exact section_roundtrip _ iova paddr _ off hi' hi64 hp' hp36
              (section_attr_cases (priv_prot prot)) hoff'
              (by simp only [set_sent, if_true])
          · rw [lv1set_section_inuse _ _ _ _ _ _ (Or.inr ⟨h1, hc⟩)] at hret
            exact absurd hret hne
        · rw [lv1set_section_plain _ _ _ _ _ _ h1 h2]
          exact section_roundtrip _ iova paddr _ off hi' hi64 hp' hp36
            (section_attr_cases (priv_prot prot)) hoff'
            (by simp only [set_sent, if_true])

/-! ## Instances -/

theorem demo_alloc : (samsung_sysmmu_domain_alloc IOMMU_DOMAIN_UNMANAGED false true
    (some 0x90000000) true 0).1 = some demo_domain := rfl

theorem reachable_demo : reachable demo_state :=
  reachable.fresh IOMMU_DOMAIN_UNMANAGED false true (some 0x90000000) true 0 demo_domain
    (fun _ => 0) [] demo_alloc

theorem alloc_ok_none (s : pgtable_state) : alloc_ok s none := trivial

theorem alloc_ok_demo : alloc_ok demo_state (some 0x40000000) :=
  ⟨by decide, by decide, by simp [demo_state]⟩

theorem reachable_sect : reachable sect_state :=
  reachable.map demo_state 0 0x80100000 SECT_SIZE 0 none reachable_demo
    (Or.inr (Or.inr rfl)) (by decide) (by decide) (alloc_ok_none _)

theorem reachable_spage : reachable spage_state :=
  reachable.map demo_state 0x1000 0x80000 SPAGE_SIZE 0 (some 0x40000000) reachable_demo
    (Or.inl rfl) (by decide) (by decide) alloc_ok_demo

theorem reachable_recycled : reachable recycled_state :=
  reachable.unmap demo_add _ 0 SECT_SIZE []
    (reachable.map _ 0 0x80100000 SECT_SIZE 0 none
      (reachable.unmap demo_add _ 0 SPAGE_SIZE []
        (reachable.map demo_state 0 0x80000 SPAGE_SIZE 0 (some 0x40000000) reachable_demo
          (Or.inl rfl) (by decide) (by decide) alloc_ok_demo)
        (Or.inl rfl) (by decide))
      (Or.inr (Or.inr rfl)) (by decide) (by decide) (alloc_ok_none _))
    (Or.inr (Or.inr rfl)) (by decide)

theorem reachable_lpage : reachable lpage_state :=
  reachable.map _ 0x10000 0x80000 SPAGE_SIZE 0 none
    (reachable.map demo_state 0 0x80100000 LPAGE_SIZE 0 (some 0x40000000) reachable_demo
      (Or.inr (Or.inl rfl)) (by decide) (by decide) alloc_ok_demo)
    (Or.inl rfl) (by decide) (by decide) (alloc_ok_none _)

/-- Counterexample to C5 as stated: in a reachable state a Section is refused although
the counter of the slot is zero (the slot holds a Section), and in another a Section is
accepted although the counter is 256 (the slot is Unmapped again after a Section had
replaced its empty sub-table). -/
theorem map_section_counter_counterexample :
    (reachable sect_state ∧ sect_state.dom.lv2entcnt (lv1ent_offset 0) = 0 ∧
      (samsung_sysmmu_map sect_state 0 0x80200000 SECT_SIZE 0 none).1 = -EADDRINUSE) ∧
    (reachable recycled_state ∧ recycled_state.dom.lv2entcnt (lv1ent_offset 0) ≠ 0 ∧
      (samsung_sysmmu_map recycled_state 0 0x80200000 SECT_SIZE 0 none).1 = 0) :=
  ⟨⟨reachable_sect, by decide, by decide⟩, ⟨reachable_recycled, by decide, by decide⟩⟩

/-- Counterexample to C6 as stated: `lv1set_section` succeeds for the physical addresses
`2 ^ 36` and 0x1000, and the Section it leaves decodes to base 0 in both cases: the
32-bit entry keeps bits 4 to 35 of the address, a Section the bits from 20 on. -/
theorem lv1set_section_base_counterexample :
    ((lv1set_section demo_state 0 0 (2 ^ 36) 0 0).1 = 0 ∧
      section_phys ((lv1set_section demo_state 0 0 (2 ^ 36) 0 0).2.dom.page_table 0) ≠ 2 ^ 36) ∧
    ((lv1set_section demo_state 0 0 0x1000 0 0).1 = 0 ∧
      section_phys ((lv1set_section demo_state 0 0 0x1000 0 0).2.dom.page_table 0) ≠ 0x1000) := by
  decide

/-- Counterexample to C8 as stated: with a large page at `iova` 0 and a small page at
0x10000, the entry of `iova` 0x1000 is a LargePage; `unmap(0x1000, LPAGE_SIZE)` reports
`LPAGE_SIZE`, yet the first entry of the run is still a LargePage and the small page
behind the run is gone: the sixteen entries cleared start at the target entry. -/
theorem unmap_lpage_midrun_counterexample :
    lv1ent_page (lpage_state.dom.page_table (lv1ent_offset 0x1000)) = true ∧
    lv2ent_large (lpage_state.slpt
      (page_entry (lpage_state.dom.page_table (lv1ent_offset 0x1000)) 0x1000)) = true ∧
    (samsung_sysmmu_unmap demo_add lpage_state 0x1000 LPAGE_SIZE []).1 = LPAGE_SIZE ∧
    lv2ent_large ((samsung_sysmmu_unmap demo_add lpage_state 0x1000 LPAGE_SIZE []).2.1.slpt
      (page_entry (lpage_state.dom.page_table (lv1ent_offset 0x1000)) 0)) = true ∧
    lv2ent_small (lpage_state.slpt
      (page_entry (lpage_state.dom.page_table (lv1ent_offset 0x1000)) 0x10000)) = true ∧
    lv2ent_unmapped ((samsung_sysmmu_unmap demo_add lpage_state 0x1000 LPAGE_SIZE []).2.1.slpt
      (page_entry (lpage_state.dom.page_table (lv1ent_offset 0x1000)) 0x10000)) = true := by
  decide


/-- Witness of C1: `iova` 0x1000 mapped to 0x80000 translates to 0x80000, and 0x1001 to
0x80001. -/
theorem map_spage_then_translate_witness :
    samsung_sysmmu_iova_to_phys
      (samsung_sysmmu_map demo_state 0x1000 0x80000 SPAGE_SIZE 0 (some 0x40000000)).2 0x1000
      = 0x80000 ∧
    samsung_sysmmu_iova_to_phys
      (samsung_sysmmu_map demo_state 0x1000 0x80000 SPAGE_SIZE 0 (some 0x40000000)).2 0x1001
      = 0x80001 :=
  ⟨(map_spage_then_translate IOMMU_DOMAIN_UNMANAGED true (some 0x90000000) true 0 demo_domain
      (fun _ => 0) [] [] 0x1000 0x80000 0 0x40000000 demo_alloc (by decide) (by decide)
      (by decide) (by decide) (by decide) (by decide)).2.2 0 (by decide),
   (map_spage_then_translate IOMMU_DOMAIN_UNMANAGED true (some 0x90000000) true 0 demo_domain
      (fun _ => 0) [] [] 0x1000 0x80000 0 0x40000000 demo_alloc (by decide) (by decide)
      (by decide) (by decide) (by decide) (by decide)).2.2 1 (by decide)⟩

/-- Witness of C2 as amended: a Section mapped at 0x100000 and unmapped again. -/
theorem map_unmap_roundtrip_witness :
    (samsung_sysmmu_map demo_state 0x100000 0x80100000 SECT_SIZE 0 none).1 = 0 ∧
    (samsung_sysmmu_unmap demo_add
      (samsung_sysmmu_map demo_state 0x100000 0x80100000 SECT_SIZE 0 none).2
      0x100000 SECT_SIZE []).1 = SECT_SIZE ∧
    samsung_sysmmu_iova_to_phys (samsung_sysmmu_unmap demo_add
      (samsung_sysmmu_map demo_state 0x100000 0x80100000 SECT_SIZE 0 none).2
      0x100000 SECT_SIZE []).2.1 0x100004 = 0 :=
  ⟨by decide,
   (map_unmap_roundtrip demo_add demo_state 0x100000 0x80100000 SECT_SIZE 0 none []
      (Or.inr (Or.inr rfl)) (by decide) (by decide) (by decide)).1,
   (map_unmap_roundtrip demo_add demo_state 0x100000 0x80100000 SECT_SIZE 0 none []
      (Or.inr (Or.inr rfl)) (by decide) (by decide) (by decide)).2 0x100004
      (by decide) (by decide)⟩

/-- Witness of C3 as amended: with a small page at 0x1000, unmapping or mapping the page
at 0x2000 leaves the translation of 0x1000 alone. -/
theorem map_unmap_frame_witness :
    samsung_sysmmu_iova_to_phys
      (samsung_sysmmu_unmap demo_add spage_state 0x2000 SPAGE_SIZE []).2.1 0x1000 =
      samsung_sysmmu_iova_to_phys spage_state 0x1000 ∧
    samsung_sysmmu_iova_to_phys
      (samsung_sysmmu_map spage_state 0x2000 0x90000 SPAGE_SIZE 0 none).2 0x1000 =
      samsung_sysmmu_iova_to_phys spage_state 0x1000 :=
  ⟨(map_unmap_frame spage_state reachable_spage 0x2000 SPAGE_SIZE 0x1000 (Or.inl rfl)
      (by decide) (by decide) (by decide) (by decide)).2 _ demo_add [],
   (map_unmap_frame spage_state reachable_spage 0x2000 SPAGE_SIZE 0x1000 (Or.inl rfl)
      (by decide) (by decide) (by decide) (by decide)).1 0x90000 0 none (alloc_ok_none _)⟩

/-- Witness of C4: with a Section at `iova` 0, `unmap(0, 4096)` fails and changes
nothing, then `unmap(0, SECT_SIZE)` succeeds and 0 no longer translates. -/
theorem unmap_granularity_mismatch_witness :
    lv1ent_section (sect_state.dom.page_table (lv1ent_offset (0 % 2 ^ 64))) = true ∧
    samsung_sysmmu_unmap demo_add sect_state 0 4096 [] = (0, sect_state, []) ∧
    (samsung_sysmmu_unmap demo_add
      (samsung_sysmmu_unmap demo_add sect_state 0 4096 []).2.1 0 SECT_SIZE
      (samsung_sysmmu_unmap demo_add sect_state 0 4096 []).2.2).1 = SECT_SIZE ∧
    samsung_sysmmu_iova_to_phys (samsung_sysmmu_unmap demo_add
      (samsung_sysmmu_unmap demo_add sect_state 0 4096 []).2.1 0 SECT_SIZE
      (samsung_sysmmu_unmap demo_add sect_state 0 4096 []).2.2).2.1 0 = 0 :=
  ⟨by decide,
   ((unmap_granularity_mismatch demo_add sect_state 0 4096 []).1 (by decide) (by decide)).1,
   ((unmap_granularity_mismatch demo_add sect_state 0 4096 []).1 (by decide) (by decide)).2.1,
   ((unmap_granularity_mismatch demo_add sect_state 0 4096 []).1 (by decide) (by decide)).2.2 0
      rfl⟩

/-- Witness of C5 as amended: a Section over a Section is refused, a Section over an
Unmapped slot whose counter is 256 is accepted. -/
theorem map_section_inuse_iff_witness :
    lv1ent_page (recycled_state.dom.page_table (lv1ent_offset (0 % 2 ^ 64))) = false ∧
    (samsung_sysmmu_map sect_state 0 0x80200000 SECT_SIZE 0 none).1 = -EADDRINUSE ∧
    (samsung_sysmmu_map recycled_state 0 0x80200000 SECT_SIZE 0 none).1 = 0 :=
  ⟨by decide,
   (map_section_inuse_iff sect_state 0 0x80200000 0 none).1.2 (Or.inl (by decide)),
   (map_section_inuse_iff recycled_state 0 0x80200000 0 none).2.2.1 (by decide)⟩

/-- Witness of C6 as amended: a Section at 0x80100000 installed in an empty slot. -/
theorem lv1set_section_spec_witness :
    (lv1set_section demo_state 0 0 0x80100000 0 0).1 = 0 ∧
    section_phys ((lv1set_section demo_state 0 0 0x80100000 0 0).2.dom.page_table 0) =
      0x80100000 :=
  ⟨((lv1set_section_spec demo_state 0 0 0x80100000 0 0 (by decide) (by decide)).2.2
      (by decide)).1,
   ((lv1set_section_spec demo_state 0 0 0x80100000 0 0 (by decide) (by decide)).2.2
      (by decide)).2.2⟩

/-- Witness of C7 as amended: a run of sixteen installed in an empty sub-table, and
refused without any change when its second entry is in use. -/
theorem lv2set_page_all_or_nothing_witness :
    (lv2set_page demo_state 0x40000000 0x80100000 LPAGE_SIZE 0 0).1 = 0 ∧
    (lv2set_page demo_state 0x40000000 0x80100000 LPAGE_SIZE 0 0).2.dom.lv2entcnt 0 = 16 ∧
    (lv2set_page spage_state 0x40000000 0x80100000 LPAGE_SIZE 0 0).1 = -EADDRINUSE ∧
    (lv2set_page spage_state 0x40000000 0x80100000 LPAGE_SIZE 0 0).2 = spage_state :=
  ⟨((lv2set_page_all_or_nothing demo_state 0x40000000 0x80100000 LPAGE_SIZE 0 0
      (Or.inr rfl)).2.2 (by decide)).1,
   ((lv2set_page_all_or_nothing demo_state 0x40000000 0x80100000 LPAGE_SIZE 0 0
      (Or.inr rfl)).2.2 (by decide)).2.2.2 (by decide) (by decide),
   (lv2set_page_all_or_nothing spage_state 0x40000000 0x80100000 LPAGE_SIZE 0 0
      (Or.inr rfl)).1.2 ⟨1, by decide, by decide⟩,
   ((lv2set_page_all_or_nothing spage_state 0x40000000 0x80100000 LPAGE_SIZE 0 0
      (Or.inr rfl)).2.1 (by decide)).2.2.2 (by decide)⟩

/-- Witness of C8 as amended: the large page at `iova` 0 removed at its first entry. -/
theorem unmap_lpage_clears_run_witness :
    (samsung_sysmmu_unmap demo_add lpage_state 0 LPAGE_SIZE []).1 = LPAGE_SIZE ∧
    (samsung_sysmmu_unmap demo_add lpage_state 0 LPAGE_SIZE []).2.1.dom.lv2entcnt
      (lv1ent_offset (0 % 2 ^ 64)) = 1 :=
  ⟨(unmap_lpage_clears_run demo_add lpage_state 0 LPAGE_SIZE [] (by decide) (by decide)
      (by decide) (by decide)).2.1,
   (unmap_lpage_clears_run demo_add lpage_state 0 LPAGE_SIZE [] (by decide) (by decide)
      (by decide) (by decide)).2.2.2.2.2.2 (by decide) (by decide)⟩

/-- Witness of C9: unmapping 2 MiB of an Unmapped slot reports one Section; unmapping a
free entry of a resident sub-table reports one page; the state stays as it was. -/
theorem unmap_unmapped_noop_witness :
    (samsung_sysmmu_unmap demo_add demo_state 0x300000 0x200000 []).1 = SECT_SIZE ∧
    (samsung_sysmmu_unmap demo_add demo_state 0x300000 0x200000 []).2.1 = demo_state ∧
    (samsung_sysmmu_unmap demo_add spage_state 0x2000 SECT_SIZE []).1 = SPAGE_SIZE ∧
    (samsung_sysmmu_unmap demo_add spage_state 0x2000 SECT_SIZE []).2.1 = spage_state :=
  ⟨((unmap_unmapped_noop demo_add demo_state 0x300000 0x200000 []).1 (by decide)
      (by decide)).1,
   ((unmap_unmapped_noop demo_add demo_state 0x300000 0x200000 []).1 (by decide)
      (by decide)).2.1,
   ((unmap_unmapped_noop demo_add spage_state 0x2000 SECT_SIZE []).2 (by decide)
      (by decide)).1,
   ((unmap_unmapped_noop demo_add spage_state 0x2000 SECT_SIZE []).2 (by decide)
      (by decide)).2.1⟩

/-- Witness of C10: attach, attach, detach, detach of the sample unit 0. -/
theorem attach_detach_refcount_witness :
    (samsung_sysmmu_attach_dev demo_regs (fun _ => 0) demo_system demo_domain true (some [0]) 7
      none).1 = 0 ∧
    ((samsung_sysmmu_attach_dev demo_regs (fun _ => 0) demo_system demo_domain true (some [0]) 7
      none).2.1.drvdata 0).attached_count = 1 ∧
    (samsung_sysmmu_attach_dev demo_regs (fun _ => 0) demo_system demo_domain true (some [0]) 7
      none).2.1.writes =
      [(0x10008000, 5), (0x10008404, 0x90000), (0x10008408, 0), (0x10008010, 1)] ∧
    ((samsung_sysmmu_detach_dev demo_regs (samsung_sysmmu_detach_dev demo_regs
      (samsung_sysmmu_attach_dev demo_regs (fun _ => 0)
        (samsung_sysmmu_attach_dev demo_regs (fun _ => 0) demo_system demo_domain true (some [0])
          7 none).2.1
        (samsung_sysmmu_attach_dev demo_regs (fun _ => 0) demo_system demo_domain true (some [0])
          7 none).2.2 true (some [0]) 7 none).2.1 [0]) [0]).drvdata 0).attached_count = 0 :=
  ⟨by decide,
   (attach_detach_refcount demo_regs (fun _ => 0) demo_system demo_domain 0 7 none none rfl rfl
      (by decide) (by decide)).1.1,
   by decide,
   (attach_detach_refcount demo_regs (fun _ => 0) demo_system demo_domain 0 7 none none rfl rfl
      (by decide) (by decide)).1.2.2.2⟩

/-- Counterexample to C19 as stated: a call of `samsung_sysmmu_of_xlate` for a unit with
`VA_WIDTH_36BIT` that fails to extend the unit list returns `-ENOMEM` and sets no latch.
After such a unit is reported by a call that returns 0, the latch is set; a call of
`samsung_sysmmu_domain_alloc` whose root table allocation fails then returns `NULL` and
resets the latch, so the first successful call afterwards returns a 32-bit domain. -/
theorem latch_lost_counterexample :
    samsung_sysmmu_of_xlate false sysmmu_va_width.VA_WIDTH_36BIT 0 (some []) true false 0 =
      (-ENOMEM, some [], false) ∧
    (samsung_sysmmu_of_xlate false sysmmu_va_width.VA_WIDTH_36BIT 0 none true true 0).1 = 0 ∧
    of_xlate_latch false [⟨sysmmu_va_width.VA_WIDTH_36BIT, 0, none, true, true, 0⟩] = true ∧
    samsung_sysmmu_domain_alloc IOMMU_DOMAIN_UNMANAGED
      (of_xlate_latch false [⟨sysmmu_va_width.VA_WIDTH_36BIT, 0, none, true, true, 0⟩])
      true none true 0 = (none, false) ∧
    (samsung_sysmmu_domain_alloc IOMMU_DOMAIN_UNMANAGED
      (samsung_sysmmu_domain_alloc IOMMU_DOMAIN_UNMANAGED
        (of_xlate_latch false [⟨sysmmu_va_width.VA_WIDTH_36BIT, 0, none, true, true, 0⟩])
        true none true 0).2
      true (some 0x90000000) true 0).1 = some demo_domain ∧
    demo_domain.is_va_36bit = false ∧
    demo_domain.num_lv1entries = NUM_LV1ENTRIES_32BIT :=
  ⟨by decide, by decide, by decide, rfl, rfl, rfl, rfl⟩

/-- Witness of C11: unit 1 is attached to `other_domain`; attaching a device with the
units 0 and 1 to `demo_domain` fails at unit 1, and unit 0 is as before. Attaching a
device that names unit 0 twice to a domain whose fixed aperture misses the window of the
device fails with `-ERANGE` after both passes, and unit 0 is as before. -/
theorem attach_dev_rollback_witness :
    (samsung_sysmmu_attach_dev demo_regs (fun _ => 0) busy_system demo_domain true
      (some [0, 1]) 7 none).1 ≠ 0 ∧
    ((samsung_sysmmu_attach_dev demo_regs (fun _ => 0) busy_system demo_domain true
      (some [0, 1]) 7 none).2.1.drvdata 0).attached_count = 0 ∧
    ((samsung_sysmmu_attach_dev demo_regs (fun _ => 0) busy_system demo_domain true
      (some [0, 1]) 7 none).2.1.drvdata 0).pgtable = 0 ∧
    (samsung_sysmmu_attach_dev demo_regs (fun _ => 0) busy_system demo_domain true
      (some [0, 1]) 7 none).2.1.group_list = [1] ∧
    (samsung_sysmmu_attach_dev demo_regs (fun _ => 0) demo_system
      { demo_domain with geometry := ⟨0x1000, 0x9000, true⟩ } true (some [0, 0]) 7
      (some (0xA000, 0x1000))).1 = -ERANGE ∧
    ((samsung_sysmmu_attach_dev demo_regs (fun _ => 0) demo_system
      { demo_domain with geometry := ⟨0x1000, 0x9000, true⟩ } true (some [0, 0]) 7
      (some (0xA000, 0x1000))).2.1.drvdata 0).attached_count = 0 :=
  ⟨(attach_dev_rollback demo_regs (fun _ => 0) busy_system demo_domain [0, 1] 7 none 1
      (by decide) (Or.inl ⟨by decide, by decide⟩)).1,
   ((attach_dev_rollback demo_regs (fun _ => 0) busy_system demo_domain [0, 1] 7 none 1
      (by decide) (Or.inl ⟨by decide, by decide⟩)).2.2.2 0 (by decide)).1.trans (by decide),
   ((attach_dev_rollback demo_regs (fun _ => 0) busy_system demo_domain [0, 1] 7 none 1
      (by decide) (Or.inl ⟨by decide, by decide⟩)).2.2.2 0 (by decide)).2.1.trans (by decide),
   (attach_dev_rollback demo_regs (fun _ => 0) busy_system demo_domain [0, 1] 7 none 1
      (by decide) (Or.inl ⟨by decide, by decide⟩)).2.2.1.trans (by decide),
   by decide,
   ((attach_dev_rollback demo_regs (fun _ => 0) demo_system
      { demo_domain with geometry := ⟨0x1000, 0x9000, true⟩ } [0, 0] 7 (some (0xA000, 0x1000)) 2
      (by decide) (Or.inr ⟨by decide, by decide, by decide⟩)).2.2.2 0 (by decide)).1.trans
      (by decide)⟩

/-- Witness of C12: unit 1 is attached once, to `other_domain`. Attaching its device to
`demo_domain` is rejected and leaves the count at 2, so the detach that matches the one
successful attach leaves it at 1: the unit stays bound and no disable command is
written. -/
theorem attach_dev_conflict_leak_witness :
    (busy_system.drvdata 1).attached_count = 1 ∧
    (samsung_sysmmu_attach_dev demo_regs (fun _ => 0) busy_system demo_domain true
      (some [1]) 7 none).1 = -EINVAL ∧
    ((samsung_sysmmu_attach_dev demo_regs (fun _ => 0) busy_system demo_domain true
      (some [1]) 7 none).2.1.drvdata 1).attached_count = 2 ∧
    ((samsung_sysmmu_detach_dev demo_regs
      (samsung_sysmmu_attach_dev demo_regs (fun _ => 0) busy_system demo_domain true
        (some [1]) 7 none).2.1 [1]).drvdata 1).attached_count = 1 ∧
    (samsung_sysmmu_detach_dev demo_regs
      (samsung_sysmmu_attach_dev demo_regs (fun _ => 0) busy_system demo_domain true
        (some [1]) 7 none).2.1 [1]).writes = busy_system.writes :=
  ⟨by decide,
   (attach_dev_conflict_leak demo_regs (fun _ => 0) busy_system demo_domain [1] 7 none
      (by decide)).1,
   (attach_dev_conflict_leak demo_regs (fun _ => 0) busy_system demo_domain [1] 7 none
      (by decide)).2.2.2.1.trans (by decide),
   by decide, by decide⟩

theorem reachable_busy : attach_reachable demo_regs busy_system [[1]] :=
  attach_reachable.attach (fun _ => 0) demo_system [] other_domain true (some [1]) 8 none
    (attach_reachable.probe demo_system (fun _ => ⟨rfl, rfl⟩) rfl) (by decide)

/-- Witness of C13: in the state reached by attaching unit 1, the unit list is `[1]`,
unit 1 is on it and unit 0 is not, and a second attach of the same device to the same
domain leaves the list alone and raises the count to 2. -/
theorem unit_list_invariant_witness :
    busy_system.group_list.Nodup ∧
    (1 ∈ busy_system.group_list ↔ (busy_system.drvdata 1).attached_count ≠ 0) ∧
    ((busy_system.drvdata 0).pgtable ≠ 0 ↔ (busy_system.drvdata 0).attached_count ≠ 0) ∧
    (samsung_sysmmu_attach_dev demo_regs (fun _ => 0) busy_system busy_domain true (some [1]) 8
      none).2.1.group_list = busy_system.group_list :=
  ⟨(unit_list_invariant demo_regs busy_system [[1]] reachable_busy).1.1,
   ((unit_list_invariant demo_regs busy_system [[1]] reachable_busy).1.2 1).1,
   ((unit_list_invariant demo_regs busy_system [[1]] reachable_busy).1.2 0).2,
   ((unit_list_invariant demo_regs demo_system []
      (attach_reachable.probe demo_system (fun _ => ⟨rfl, rfl⟩) rfl)).2 (fun _ => 0)
      other_domain [1] 8 none none (by decide) (by decide) (by decide)).1⟩

/-- Witness of C14: powering off the attached unit 1 writes the disable command and the
full invalidation to slot 0 and keeps the count; powering off unit 0 writes nothing. -/
theorem runtime_suspend_keeps_attachment_witness :
    ((samsung_sysmmu_runtime_suspend demo_regs busy_system 1).2.drvdata 1).attached_count = 1 ∧
    (samsung_sysmmu_runtime_suspend demo_regs busy_system 1).2.writes =
      busy_system.writes ++ [(0x10008000, 0), (0x10008010, 1)] ∧
    (samsung_sysmmu_runtime_suspend demo_regs busy_system 0).2.writes = busy_system.writes :=
  ⟨(runtime_suspend_keeps_attachment demo_regs busy_system 1).2.2.2.2.1.trans (by decide),
   ((runtime_suspend_keeps_attachment demo_regs busy_system 1).2.2.2.2.2.2.2.2.1
      (by decide)).trans (by decide),
   (runtime_suspend_keeps_attachment demo_regs busy_system 0).2.2.2.2.2.2.2.2.2 (by decide)⟩

/-- Witness of C15: with unit 1 attached and powered on, the full invalidation goes to
slot 0 of unit 1 and the units stay as they are. -/
theorem flush_iotlb_all_fanout_witness :
    busy_domain.group ≠ none ∧
    (samsung_sysmmu_flush_iotlb_all demo_regs busy_system busy_domain).writes =
      busy_system.writes ++ [(0x10008010, 1)] ∧
    (samsung_sysmmu_flush_iotlb_all demo_regs busy_system busy_domain).group_list =
      busy_system.group_list :=
  ⟨by decide,
   (flush_iotlb_all_fanout demo_regs busy_system busy_domain (by decide)).2.2.1.trans
     (by decide),
   (flush_iotlb_all_fanout demo_regs busy_system busy_domain (by decide)).2.1⟩

/-- Witness of C16: `demo_domain` was never attached; both invalidations leave the attached
system as it is. -/
theorem invalidate_before_attach_witness :
    demo_domain.group = none ∧
    samsung_sysmmu_flush_iotlb_all demo_regs busy_system demo_domain = busy_system ∧
    samsung_sysmmu_iotlb_sync demo_regs busy_system demo_domain ⟨0x1000, 0x3000⟩ = busy_system :=
  ⟨rfl,
   ((invalidate_before_attach demo_regs busy_system demo_domain ⟨0x1000, 0x3000⟩).1 rfl).1,
   ((invalidate_before_attach demo_regs busy_system demo_domain ⟨0x1000, 0x3000⟩).2
      IOMMU_DOMAIN_UNMANAGED false true (some 0x90000000) true 0 demo_alloc).2⟩

/-- Witness of C17: the sample unit has two slots of which slot 0 is enabled; the enable
command reaches it. -/
theorem write_all_vm_replicates_witness :
    __sysmmu_write_all_vm demo_regs demo_unit 5 0x10008000 = [(0x10008000, 5)] ∧
    (0x10008000, 5) ∈ __sysmmu_enable demo_regs (fun _ => 0) demo_unit :=
  ⟨by decide,
   ((write_all_vm_replicates demo_regs demo_unit 5 0x10008000).2 (fun _ => 0) 0 (by decide)
      (by decide)).1⟩

/-- Witness of C18: type 2 is refused without any call; `IOMMU_DOMAIN_DMA` succeeds and
requests the cookie. -/
theorem domain_alloc_validates_kind_witness :
    (samsung_sysmmu_domain_alloc 2 false true (some 0x90000000) true 0).1 = none ∧
    samsung_sysmmu_domain_alloc_calls 2 false true (some 0x90000000) true 0 = [] ∧
    alloc_call.iommu_get_dma_cookie ∈
      samsung_sysmmu_domain_alloc_calls IOMMU_DOMAIN_DMA false true (some 0x90000000) true 0 :=
  ⟨((domain_alloc_validates_kind 2 false true (some 0x90000000) true 0).1 (by decide)).1,
   ((domain_alloc_validates_kind 2 false true (some 0x90000000) true 0).1 (by decide)).2.2,
   ((domain_alloc_validates_kind IOMMU_DOMAIN_DMA false true (some 0x90000000) true 0).2.1
      (Or.inr (Or.inl rfl)) rfl (by decide) rfl (fun _ => rfl)).2.2 rfl⟩

/-- Witness of C19 as amended: two wide units are reported, the next domain is a 36-bit
one and the latch is reset. -/
theorem latch_single_slot_witness :
    of_xlate_latch false [⟨sysmmu_va_width.VA_WIDTH_36BIT, 0, none, true, true, 0⟩,
      ⟨sysmmu_va_width.VA_WIDTH_36BIT, 0, some [0], true, true, 1⟩] = true ∧
    (samsung_sysmmu_domain_alloc IOMMU_DOMAIN_UNMANAGED
      (of_xlate_latch false [⟨sysmmu_va_width.VA_WIDTH_36BIT, 0, none, true, true, 0⟩,
        ⟨sysmmu_va_width.VA_WIDTH_36BIT, 0, some [0], true, true, 1⟩])
      true (some 0x90000000) true 0).2 = false :=
  ⟨(latch_single_slot false [⟨sysmmu_va_width.VA_WIDTH_36BIT, 0, none, true, true, 0⟩,
      ⟨sysmmu_va_width.VA_WIDTH_36BIT, 0, some [0], true, true, 1⟩]
      (List.cons_ne_nil _ _) (by decide)).1,
   ((latch_single_slot false [⟨sysmmu_va_width.VA_WIDTH_36BIT, 0, none, true, true, 0⟩,
      ⟨sysmmu_va_width.VA_WIDTH_36BIT, 0, some [0], true, true, 1⟩]
      (List.cons_ne_nil _ _) (by decide)).2.1 IOMMU_DOMAIN_UNMANAGED true (some 0x90000000) true 0
      { demo_domain with
        is_va_36bit := true
        num_lv1entries := NUM_LV1ENTRIES_36BIT } rfl).2.2.1⟩

/-- Witness of C20: the aperture `[0x1000, 0x9000]` is fixed; the window of 0x4000 bytes at
0x8000 narrows it to `[0x8000, 0x9000]`, the window of 0x1000 bytes at 0xA000 is refused. -/
theorem set_domain_range_forced_witness :
    samsung_sysmmu_set_domain_range ⟨0x1000, 0x9000, true⟩ (some (0x8000, 0x4000)) =
      (0, ⟨0x8000, 0x9000, true⟩) ∧
    samsung_sysmmu_set_domain_range ⟨0x1000, 0x9000, true⟩ (some (0xA000, 0x1000)) =
      (-ERANGE, ⟨0x1000, 0x9000, true⟩) :=
  ⟨(set_domain_range_forced ⟨0x1000, 0x9000, true⟩ 0x8000 0x4000 rfl).2.1 (by decide),
   (set_domain_range_forced ⟨0x1000, 0x9000, true⟩ 0xA000 0x1000 rfl).1 (by decide)⟩

/-- Counterexample to C21 as stated: on a geometry that is not fixed, the window of 4 GiB
at 0 gives the aperture end 0xFFFFFFFF, not `start + size`, which is `2 ^ 32`. -/
theorem set_domain_range_clamp_counterexample :
    samsung_sysmmu_set_domain_range ⟨0, 0, false⟩ (some (0, 0x100000000)) =
      (0, ⟨0, 0xFFFFFFFF, true⟩) ∧
    (samsung_sysmmu_set_domain_range ⟨0, 0, false⟩ (some (0, 0x100000000))).2.aperture_end ≠
      0 + 0x100000000 :=
  ⟨rfl, by decide⟩

/-- Counterexample to C29 as stated: on a geometry that is not fixed, the window of
0x1000 bytes at `2 ^ 32` is accepted; the call changes the geometry and leaves an
aperture that starts at `2 ^ 32` and ends at 0xFFFFFFFF, so `aperture_start <
aperture_end` fails after a successful call that changed the geometry. -/
theorem set_domain_range_inverted_counterexample :
    samsung_sysmmu_set_domain_range ⟨0, 0, false⟩ (some (0x100000000, 0x1000)) =
      (0, ⟨0x100000000, 0xFFFFFFFF, true⟩) ∧
    (samsung_sysmmu_set_domain_range ⟨0, 0, false⟩
      (some (0x100000000, 0x1000))).2.aperture_start ≠ (0 : Nat) ∧
    ¬ ((samsung_sysmmu_set_domain_range ⟨0, 0, false⟩
        (some (0x100000000, 0x1000))).2.aperture_start <
      (samsung_sysmmu_set_domain_range ⟨0, 0, false⟩
        (some (0x100000000, 0x1000))).2.aperture_end) :=
  ⟨rfl, by decide, by decide⟩

/-- Witness of C21 as amended: the window of 256 MiB at 0x10000000 on a geometry that is
not fixed. -/
theorem set_domain_range_first_witness :
    samsung_sysmmu_set_domain_range ⟨0, 0, false⟩ (some (0x10000000, 0x10000000)) =
      (0, ⟨0x10000000, min ((0x10000000 + 0x10000000) % 2 ^ 64) 0xFFFFFFFF, true⟩) ∧
    (samsung_sysmmu_set_domain_range ⟨0, 0, false⟩
      (some (0x10000000, 0x10000000))).2.aperture_end = 0x10000000 + 0x10000000 :=
  ⟨(set_domain_range_first ⟨0, 0, false⟩ 0x10000000 0x10000000 rfl).1,
   (set_domain_range_first ⟨0, 0, false⟩ 0x10000000 0x10000000 rfl).2 (by decide)⟩

/-- Witness of C22: on the empty domain the slot of `iova` 0x3000 is Unmapped; with the
object at 0x40000000 the call returns the entry 3 of that table and the counter is 0. -/
theorem alloc_lv2entry_ensures_witness :
    (alloc_lv2entry demo_state 0 0x3000 0 (some 0x40000000)).1 =
      .ok (0x40000000 + 4 * lv2ent_offset 0x3000) ∧
    (alloc_lv2entry demo_state 0 0x3000 0 (some 0x40000000)).2.dom.lv2entcnt 0 = 0 :=
  ⟨(((alloc_lv2entry_ensures demo_state 0 0x3000 0 (some 0x40000000)).2.1 (by decide)).2
      0x40000000 rfl (by decide) (by decide)).1,
   (((alloc_lv2entry_ensures demo_state 0 0x3000 0 (some 0x40000000)).2.1 (by decide)).2
      0x40000000 rfl (by decide) (by decide)).2.2.2.2.1⟩

/-- Witness of C23: a Section mapped over the empty sub-table of `emptied_state` while
unit 1 is attached and powered on: the call returns 0 and slot 0 of unit 1 gets the start
and the end of the megabyte. -/
theorem lv1set_section_synchronous_witness :
    (lv1set_section_units demo_regs busy_system emptied_state 0 0 0x80100000 0 0).1 = 0 ∧
    (demo_regs.MMU_VM_ADDR ((busy_system.drvdata 1).sfrbase + REG_MMU_RANGE_INV_START_VPN_VM) 0,
        (ALIGN_DOWN 0 SPAGE_SIZE >>> 4) % 2 ^ 32) ∈
      (lv1set_section_units demo_regs busy_system emptied_state 0 0 0x80100000 0 0).2.2.writes :=
  ⟨((lv1set_section_synchronous demo_regs busy_system emptied_state 0 0 0x80100000 0 0).1
      (by decide) (by decide)).1,
   ((((lv1set_section_synchronous demo_regs busy_system emptied_state 0 0 0x80100000 0 0).1
      (by decide) (by decide)).2.2.2.2.2.1 (by decide)).2 1 (by decide) (by decide) (by decide)
      0 (by decide) (by decide)).1⟩

/-- Witness of C24: the range `[0x1000, 0x3000)` on the sample unit. -/
theorem invalidate_range_encoding_witness :
    ALIGN_DOWN 0x1000 SPAGE_SIZE >>> 4 < 2 ^ 32 ∧
    ((ALIGN_DOWN (0x3000 - 1) SPAGE_SIZE >>> 4) ||| 0x1) / 256 = (0x3000 - 1) / SPAGE_SIZE :=
  ⟨(invalidate_range_encoding demo_regs demo_unit 0x1000 0x3000 (by decide)
      (by decide)).2.1,
   (invalidate_range_encoding demo_regs demo_unit 0x1000 0x3000 (by decide)
      (by decide)).2.2.2.2.1⟩

/-- Witness of C25: resuming the attached unit 1 of `busy_system` keeps its count and
table; resuming the unit 0, which is not attached, writes no register. -/
theorem runtime_resume_reprograms_witness :
    ((samsung_sysmmu_runtime_resume demo_regs (fun _ => 0) busy_system 1).2.drvdata
      1).attached_count = (busy_system.drvdata 1).attached_count ∧
    (samsung_sysmmu_runtime_resume demo_regs (fun _ => 0) busy_system 0).2.writes =
      busy_system.writes :=
  ⟨(runtime_resume_reprograms demo_regs (fun _ => 0) busy_system 1).2.2.2.2.1,
   (runtime_resume_reprograms demo_regs (fun _ => 0) busy_system 0).2.2.2.2.2.2.2.2.2
      (by decide)⟩

/-- Witness of C26 as amended: in `lpage_state` the slot 0 references a sub-table with a
large page and a small page; its counter is the number of live entries. -/
theorem counter_invariant_witness :
    lpage_state.dom.lv2entcnt 0 =
      (lv2_live lpage_state (lv2table_base (lpage_state.dom.page_table 0)) : Int) ∧
    0 ≤ lpage_state.dom.lv2entcnt 0 :=
  ⟨(counter_invariant lpage_state reachable_lpage 0 (by decide)).1,
   (counter_invariant lpage_state reachable_lpage 0 (by decide)).2.1⟩

/-- Witness of C27: the last large page below `2 ^ 32` on the empty 32-bit domain. -/
theorem table_index_in_bounds_witness :
    lv1ent_offset (0xFFFF0000 % 2 ^ 64) < demo_state.dom.num_lv1entries ∧
    lv2ent_offset (0xFFFF0000 % 2 ^ 64) + SPAGES_PER_LPAGE ≤ NUM_LV2ENTRIES :=
  ⟨(table_index_in_bounds demo_state reachable_demo 0xFFFF0000 (by decide)).2.1,
   ((table_index_in_bounds demo_state reachable_demo 0xFFFF0000 (by decide)).2.2.2.2.1
      (by decide)).1⟩

/-- Witness of C28: a Section at `iova` 0 and a large page at `iova` 0x10000 on the empty
domain, read back at an offset. -/
theorem encode_decode_roundtrip_witness :
    samsung_sysmmu_iova_to_phys
      (samsung_sysmmu_map demo_state 0 0x80100000 SECT_SIZE 0 none).2 (0 + 0x1234) =
      0x80100000 + 0x1234 ∧
    samsung_sysmmu_iova_to_phys
      (samsung_sysmmu_map demo_state 0x10000 0x80110000 LPAGE_SIZE 4 (some 0x40000000)).2
      (0x10000 + 0xFFFF) = 0x80110000 + 0xFFFF :=
  ⟨(encode_decode_roundtrip demo_state reachable_demo 0 0x80100000 SECT_SIZE 0 none
      (Or.inr rfl) (by decide) (by decide) (by decide) (by decide)
      (alloc_ok_none _)).2.2.2.2 (by decide) 0x1234 (by decide),
   (encode_decode_roundtrip demo_state reachable_demo 0x10000 0x80110000 LPAGE_SIZE 4
      (some 0x40000000) (Or.inl rfl) (by decide) (by decide) (by decide) (by decide)
      alloc_ok_demo).2.2.2.2 (by decide) 0xFFFF (by decide)⟩

/-- Witness of C29 as amended: on the fixed aperture `[0x1000, 0x9000]` the window of
0x4000 bytes at 0x8000 and a device without window leave a fixed aperture inside it. -/
theorem aperture_monotone_witness :
    (set_domain_range_seq ⟨0x1000, 0x9000, true⟩ [some (0x8000, 0x4000), none]).force_aperture =
      true ∧
    (set_domain_range_seq ⟨0x1000, 0x9000, true⟩ [some (0x8000, 0x4000), none]).aperture_end ≤
      0x9000 :=
  ⟨((aperture_monotone ⟨0x1000, 0x9000, true⟩ [some (0x8000, 0x4000), none]).1 rfl).1,
   (((aperture_monotone ⟨0x1000, 0x9000, true⟩ [some (0x8000, 0x4000), none]).1 rfl).2
      (by decide)).2.1⟩

/-- Witness of C30: with the latch set, a call whose root table allocation fails returns
`NULL` and resets the latch; a call whose domain allocation fails keeps it. -/
theorem domain_alloc_latch_witness :
    samsung_sysmmu_domain_alloc IOMMU_DOMAIN_UNMANAGED true true none true 0 = (none, false) ∧
    samsung_sysmmu_domain_alloc IOMMU_DOMAIN_UNMANAGED true false none true 0 = (none, true) :=
  ⟨((domain_alloc_latch IOMMU_DOMAIN_UNMANAGED true true none true 0).2.2.1 (Or.inl rfl)
      rfl).2 (Or.inl rfl),
   (domain_alloc_latch IOMMU_DOMAIN_UNMANAGED true false none true 0).2.1 rfl⟩

/-- Counterexample to C2 as stated: on the empty domain, the small page at `iova` 0 mapped
to the physical address 0x10, which is not page-aligned, is accepted and stores the entry
3, which is neither a SmallPage nor a LargePage entry; the unmap of the same range that
follows returns 0, not `SPAGE_SIZE`. -/
theorem map_unmap_roundtrip_counterexample :
    valid_pgsize SPAGE_SIZE ∧ 0 % SPAGE_SIZE = 0 ∧
    (samsung_sysmmu_map demo_state 0 0x10 SPAGE_SIZE 0 (some 0x40000000)).1 = 0 ∧
    (samsung_sysmmu_map demo_state 0 0x10 SPAGE_SIZE 0 (some 0x40000000)).2.slpt 0x40000000 =
      3 ∧
    (samsung_sysmmu_unmap demo_add
      (samsung_sysmmu_map demo_state 0 0x10 SPAGE_SIZE 0 (some 0x40000000)).2
      0 SPAGE_SIZE []).1 = 0 ∧
    (samsung_sysmmu_unmap demo_add
      (samsung_sysmmu_map demo_state 0 0x10 SPAGE_SIZE 0 (some 0x40000000)).2
      0 SPAGE_SIZE []).1 ≠ SPAGE_SIZE :=
  ⟨by decide, by decide, by decide, by decide, by decide, by decide⟩

/-- Counterexample to C3 as stated: a history of calls with sizes of `pgsize_bitmap` and
aligned `iova` on a fresh domain. A small page is mapped at `iova` 0x1000, with the
sub-table at 0x40000000; a Section is mapped at `iova` 0x100000 to the physical address
0x40000010, which is not page-aligned, so that slot 1 holds 0x4000003, which is no
Section. The small page then mapped at `iova` 0x102000 is accepted and written to the
sub-table of slot 0: the address 0x2000, outside the range of the call, translated to
nothing before and translates to 0x90000 afterwards. -/
theorem map_unmap_frame_counterexample :
    reachable demo_state ∧
    alloc_ok demo_state (some 0x40000000) ∧
    valid_pgsize SPAGE_SIZE ∧ valid_pgsize SECT_SIZE ∧
    0x1000 % SPAGE_SIZE = 0 ∧ 0x100000 % SECT_SIZE = 0 ∧ 0x102000 % SPAGE_SIZE = 0 ∧
    (samsung_sysmmu_map
      (samsung_sysmmu_map demo_state 0x1000 0x80000 SPAGE_SIZE 0 (some 0x40000000)).2
      0x100000 0x40000010 SECT_SIZE 0 none).2.dom.page_table 1 = 0x4000003 ∧
    ¬ (0x102000 ≤ 0x2000 ∧ 0x2000 < 0x102000 + SPAGE_SIZE) ∧
    (samsung_sysmmu_map
      (samsung_sysmmu_map
        (samsung_sysmmu_map demo_state 0x1000 0x80000 SPAGE_SIZE 0 (some 0x40000000)).2
        0x100000 0x40000010 SECT_SIZE 0 none).2
      0x102000 0x90000 SPAGE_SIZE 0 none).1 = 0 ∧
    samsung_sysmmu_iova_to_phys
      (samsung_sysmmu_map
        (samsung_sysmmu_map demo_state 0x1000 0x80000 SPAGE_SIZE 0 (some 0x40000000)).2
        0x100000 0x40000010 SECT_SIZE 0 none).2 0x2000 = 0 ∧
    samsung_sysmmu_iova_to_phys
      (samsung_sysmmu_map
        (samsung_sysmmu_map
          (samsung_sysmmu_map demo_state 0x1000 0x80000 SPAGE_SIZE 0 (some 0x40000000)).2
          0x100000 0x40000010 SECT_SIZE 0 none).2
        0x102000 0x90000 SPAGE_SIZE 0 none).2 0x2000 = 0x90000 :=
  ⟨reachable_demo, alloc_ok_demo, by decide, by decide, by decide, by decide, by decide,
    by decide, by decide, by decide, by decide, by decide⟩

/-- Counterexample to C7 as stated: in `stale_state` the large page at the entry
0x40000000 is refused because the second entry of the run is in use; the first entry, an
Unmapped word 4 before the call, is the zero word afterwards, so it does not equal its
value before the call. On the empty domain, the small page for the physical address 0x10,
which is not page-aligned, is accepted and the entry written is 3, which is no SmallPage
entry. -/
theorem lv2set_page_rollback_counterexample :
    (lv2set_page stale_state 0x40000000 0x80100000 LPAGE_SIZE 0 0).1 = -EADDRINUSE ∧
    lv2ent_unmapped (stale_state.slpt 0x40000000) = true ∧
    stale_state.slpt 0x40000000 = 4 ∧
    (lv2set_page stale_state 0x40000000 0x80100000 LPAGE_SIZE 0 0).2.slpt 0x40000000 = 0 ∧
    (lv2set_page demo_state 0x40000000 0x10 SPAGE_SIZE 0 0).1 = 0 ∧
    (lv2set_page demo_state 0x40000000 0x10 SPAGE_SIZE 0 0).2.slpt 0x40000000 = 3 ∧
    lv2ent_small ((lv2set_page demo_state 0x40000000 0x10 SPAGE_SIZE 0 0).2.slpt 0x40000000) =
      false :=
  ⟨by decide, by decide, by decide, by decide, by decide, by decide, by decide⟩

/-- Counterexample to C26 as stated: a history of calls with sizes of `pgsize_bitmap` and
aligned `iova` on a fresh domain. The small page at `iova` 0 is mapped to the physical
address 0x10, which is not page-aligned: the entry stored is 3 and the counter is 1. The
unmap of `LPAGE_SIZE` at `iova` 0 that follows takes the entry for a large page, clears
sixteen entries and subtracts sixteen: slot 0 still references the sub-table, which has
no live entry, and its counter is -15. -/
theorem counter_invariant_counterexample :
    reachable demo_state ∧
    alloc_ok demo_state (some 0x40000000) ∧
    valid_pgsize SPAGE_SIZE ∧ valid_pgsize LPAGE_SIZE ∧
    0 % SPAGE_SIZE = 0 ∧ 0 % LPAGE_SIZE = 0 ∧
    (samsung_sysmmu_map demo_state 0 0x10 SPAGE_SIZE 0 (some 0x40000000)).1 = 0 ∧
    (samsung_sysmmu_unmap demo_add
      (samsung_sysmmu_map demo_state 0 0x10 SPAGE_SIZE 0 (some 0x40000000)).2
      0 LPAGE_SIZE []).1 = LPAGE_SIZE ∧
    lv1ent_page ((samsung_sysmmu_unmap demo_add
      (samsung_sysmmu_map demo_state 0 0x10 SPAGE_SIZE 0 (some 0x40000000)).2
      0 LPAGE_SIZE []).2.1.dom.page_table 0) = true ∧
    (samsung_sysmmu_unmap demo_add
      (samsung_sysmmu_map demo_state 0 0x10 SPAGE_SIZE 0 (some 0x40000000)).2
      0 LPAGE_SIZE []).2.1.dom.lv2entcnt 0 = -15 ∧
    lv2_live (samsung_sysmmu_unmap demo_add
      (samsung_sysmmu_map demo_state 0 0x10 SPAGE_SIZE 0 (some 0x40000000)).2
      0 LPAGE_SIZE []).2.1
      (lv2table_base ((samsung_sysmmu_unmap demo_add
        (samsung_sysmmu_map demo_state 0 0x10 SPAGE_SIZE 0 (some 0x40000000)).2
        0 LPAGE_SIZE []).2.1.dom.page_table 0)) = 0 :=
  ⟨reachable_demo, alloc_ok_demo, by decide, by decide, by decide, by decide, by decide,
    by decide, by decide, by decide, by decide⟩

end SysmmuV9
